import Mathlib

/-!
# Gesture recognizer of raylib (`src/rgestures.h`)

A shallow embedding of the gesture state machine (`ProcessGestureEvent`,
`UpdateGestures` and the query functions) followed by theorems about it.

Conventions of the embedding

* C `float` and `double` values are exact rationals.  A float literal that is
  compared with a `float` quantity (`0.2f`, `0.005f`, `0.03f`) is read as the
  decimal it denotes.  The timeouts are compared with a difference of
  `double` clock readings, the literal `0.3f` being promoted to `double`
  unchanged, so they have the exact value of the float `0.3f`, which is
  5033165 / 2^24.  The one operation of the recognizer that leaves the finite
  numbers, the division that computes `Drag.intensity`, is given its IEEE
  result (`FloatQ`).
* `sqrt` and `atan2f` come from the C maths library, which is not part of the
  sources; they are taken as a parameter (`Libm`).
* `rgGetCurrentTime()` is an input: every call of `ProcessGestureEvent`,
  `UpdateGestures` and `RaylibGetGestureHoldDuration` receives the clock
  reading `now`, the value all clock reads inside that call return.
* `unsigned int` fields are natural numbers, `int` fields are integers.
-/

namespace RGestures

/-! ## Types and constants -/

/-- Maximum number of touch points supported (`RAYLIB_MAX_TOUCH_POINTS`). -/
abbrev RAYLIB_MAX_TOUCH_POINTS : Nat := 8

/-- The `RaylibVector2` type: two float components. -/
structure RaylibVector2 where
  x : ℚ
  y : ℚ
deriving DecidableEq, Repr

def RAYLIB_GESTURE_NONE : Nat := 0
def RAYLIB_GESTURE_TAP : Nat := 1
def RAYLIB_GESTURE_DOUBLETAP : Nat := 2
def RAYLIB_GESTURE_HOLD : Nat := 4
def RAYLIB_GESTURE_DRAG : Nat := 8
def RAYLIB_GESTURE_SWIPE_RIGHT : Nat := 16
def RAYLIB_GESTURE_SWIPE_LEFT : Nat := 32
def RAYLIB_GESTURE_SWIPE_UP : Nat := 64
def RAYLIB_GESTURE_SWIPE_DOWN : Nat := 128
def RAYLIB_GESTURE_PINCH_IN : Nat := 256
def RAYLIB_GESTURE_PINCH_OUT : Nat := 512

def RAYLIB_TOUCH_ACTION_UP : Int := 0
def RAYLIB_TOUCH_ACTION_DOWN : Int := 1
def RAYLIB_TOUCH_ACTION_MOVE : Int := 2
def RAYLIB_TOUCH_ACTION_CANCEL : Int := 3

/-- The `GestureEvent` record handed to `ProcessGestureEvent`. -/
structure GestureEvent where
  touchAction : Int
  pointCount : Int
  pointId : Fin RAYLIB_MAX_TOUCH_POINTS → Int
  position : Fin RAYLIB_MAX_TOUCH_POINTS → RaylibVector2

def RAYLIB_FORCE_TO_SWIPE : ℚ := 2 / 10
def RAYLIB_MINIMUM_DRAG : ℚ := 15 / 1000

/-- Drag minimum time in seconds, the float `0.3f`: the single-precision value
nearest to 0.3 is 10066330 / 2^25 = 5033165 / 2^24 (about 0.3000000119), and
this is the value the `double` clock difference is compared with (source line
342). -/
def RAYLIB_DRAG_TIMEOUT : ℚ := 5033165 / 16777216

def RAYLIB_MINIMUM_PINCH : ℚ := 5 / 1000

/-- Tap minimum time in seconds, the float `0.3f` = 5033165 / 2^24, the value
the `double` clock difference is compared with (source line 277). -/
def RAYLIB_TAP_TIMEOUT : ℚ := 5033165 / 16777216

/-- Pinch minimum time in seconds, the float `0.3f`; the module never reads it. -/
def RAYLIB_PINCH_TIMEOUT : ℚ := 5033165 / 16777216

def RAYLIB_DOUBLETAP_RANGE : ℚ := 3 / 100

/-- Result of a float division: a finite value, an infinity or NaN. -/
inductive FloatQ where
  | fin (q : ℚ)
  | inf
  | ninf
  | nan
deriving DecidableEq, Repr

/-- IEEE division `a / b` of two finite values. -/
def FloatQ.div (a b : ℚ) : FloatQ :=
  if b = 0 then
    (if 0 < a then FloatQ.inf else if a < 0 then FloatQ.ninf else FloatQ.nan)
  else FloatQ.fin (a / b)

/-- The comparison `v > c` against a finite constant (false on NaN). -/
def FloatQ.gt (v : FloatQ) (c : ℚ) : Bool :=
  match v with
  | FloatQ.fin q => decide (c < q)
  | FloatQ.inf => true
  | FloatQ.ninf => false
  | FloatQ.nan => false

/-- The `Touch` member of `GesturesData`. -/
structure TouchData where
  firstId : Int
  pointCount : Int
  eventTime : ℚ
  upPosition : RaylibVector2
  downPositionA : RaylibVector2
  downPositionB : RaylibVector2
  downDragPosition : RaylibVector2
  moveDownPositionA : RaylibVector2
  moveDownPositionB : RaylibVector2
  previousPositionA : RaylibVector2
  previousPositionB : RaylibVector2
  tapCounter : Int
deriving DecidableEq, Repr

/-- The `Hold` member of `GesturesData`. -/
structure HoldData where
  resetRequired : Bool
  timeDuration : ℚ
deriving DecidableEq, Repr

/-- The `Drag` member of `GesturesData`. -/
structure DragData where
  vector : RaylibVector2
  angle : ℚ
  distance : ℚ
  intensity : FloatQ
deriving DecidableEq, Repr

/-- The `Swipe` member of `GesturesData`. -/
structure SwipeData where
  startTime : ℚ
deriving DecidableEq, Repr

/-- The `Pinch` member of `GesturesData`. -/
structure PinchData where
  vector : RaylibVector2
  angle : ℚ
  distance : ℚ
deriving DecidableEq, Repr

/-- Gestures module state context (`GesturesData`). -/
structure GesturesData where
  current : Nat
  enabledFlags : Nat
  Touch : TouchData
  Hold : HoldData
  Drag : DragData
  Swipe : SwipeData
  Pinch : PinchData
deriving DecidableEq, Repr

/-- The zero vector `(RaylibVector2){ 0.0f, 0.0f }`. -/
def RaylibVector2.zero : RaylibVector2 := ⟨0, 0⟩

/-- The static initializer of the global `GESTURES`: `firstId = -1`, no gesture,
all ten gesture bits enabled, every other member zero. -/
def GESTURES : GesturesData where
  current := RAYLIB_GESTURE_NONE
  enabledFlags := 0b0000001111111111
  Touch :=
    { firstId := -1, pointCount := 0, eventTime := 0,
      upPosition := RaylibVector2.zero, downPositionA := RaylibVector2.zero,
      downPositionB := RaylibVector2.zero, downDragPosition := RaylibVector2.zero,
      moveDownPositionA := RaylibVector2.zero, moveDownPositionB := RaylibVector2.zero,
      previousPositionA := RaylibVector2.zero, previousPositionB := RaylibVector2.zero,
      tapCounter := 0 }
  Hold := { resetRequired := false, timeDuration := 0 }
  Drag := { vector := RaylibVector2.zero, angle := 0, distance := 0, intensity := FloatQ.fin 0 }
  Swipe := { startTime := 0 }
  Pinch := { vector := RaylibVector2.zero, angle := 0, distance := 0 }

/-! ## The maths library -/

/-- The two functions the recognizer takes from the C maths library.
`atan2Deg y x` stands for the product `atan2f(y, x)*(180.0f/RAYLIB_PI)` of
`rgVector2Angle`, the two-argument arctangent in degrees. -/
structure Libm where
  sqrt : ℚ → ℚ
  atan2Deg : ℚ → ℚ → ℚ

/-- A maths library that is exact where the exact result is rational: on
squares for `sqrt` and on the four axis directions for `atan2Deg`. -/
structure Libm.Exact (m : Libm) : Prop where
  sqrt_sq : ∀ q : ℚ, 0 ≤ q → m.sqrt (q * q) = q
  atan_right : ∀ x : ℚ, 0 < x → m.atan2Deg 0 x = 0
  atan_left : ∀ x : ℚ, x < 0 → m.atan2Deg 0 x = 180
  atan_pos : ∀ y : ℚ, 0 < y → m.atan2Deg y 0 = 90
  atan_neg : ∀ y : ℚ, y < 0 → m.atan2Deg y 0 = -90

/-- Rational square root: the integer square root of the argument scaled by
`2^48`, exact on squares of rationals. -/
def ratSqrt (q : ℚ) : ℚ :=
  (Nat.sqrt (q.num.toNat * q.den * 2 ^ 48) : ℚ) / ((q.den : ℚ) * 2 ^ 24)

/-- Arctangent in degrees on `[0, 1]`, a quadratic fit that is exact at both ends. -/
def atanDegUnit (t : ℚ) : ℚ := t * (45 + (1 - t) * (1566 / 100))

/-- Rational `atan2` in degrees with values in `[-180, 180]`, exact on the axes
and on the diagonals. -/
def ratAtan2Deg (y x : ℚ) : ℚ :=
  if x = 0 ∧ y = 0 then 0
  else if |y| ≤ |x| then
    let a := atanDegUnit (|y| / |x|)
    if 0 < x then (if 0 ≤ y then a else -a)
    else (if 0 ≤ y then 180 - a else a - 180)
  else
    let a := atanDegUnit (|x| / |y|)
    if 0 < y then (if 0 ≤ x then 90 - a else 90 + a)
    else (if 0 ≤ x then a - 90 else -90 - a)

/-- A concrete maths library over the rationals. -/
def refLibm : Libm := ⟨ratSqrt, ratAtan2Deg⟩

/-! ## Module specific functions -/

/-- Get angle from two-points vector with X-axis (`rgVector2Angle`). -/
def rgVector2Angle (m : Libm) (v1 v2 : RaylibVector2) : ℚ :=
  let angle := m.atan2Deg (v2.y - v1.y) (v2.x - v1.x)
  if angle < 0 then angle + 360 else angle

/-- Calculate distance between two vectors (`rgVector2Distance`). -/
def rgVector2Distance (m : Libm) (v1 v2 : RaylibVector2) : ℚ :=
  let dx := v2.x - v1.x
  let dy := v2.y - v1.y
  m.sqrt (dx * dx + dy * dy)

/-! ## Module functions -/

/-- Enable only desired gestures to be detected (`RaylibSetGesturesEnabled`);
the argument is an `unsigned int`. -/
def RaylibSetGesturesEnabled (flags : Nat) (G : GesturesData) : GesturesData :=
  { G with enabledFlags := flags % 2 ^ 32 }

/-- One touch point, `RAYLIB_TOUCH_ACTION_DOWN` (source lines 272-297). -/
def onePointDown (m : Libm) (now : ℚ) (event : GestureEvent) (G : GesturesData) :
    GesturesData :=
  let G := { G with Touch.tapCounter := G.Touch.tapCounter + 1 }
  let G :=
    if G.current = RAYLIB_GESTURE_NONE ∧ G.Touch.tapCounter ≥ 2 ∧
        now - G.Touch.eventTime < RAYLIB_TAP_TIMEOUT ∧
        rgVector2Distance m G.Touch.downPositionA (event.position 0) < RAYLIB_DOUBLETAP_RANGE
    then { G with current := RAYLIB_GESTURE_DOUBLETAP, Touch.tapCounter := 0 }
    else { G with Touch.tapCounter := 1, current := RAYLIB_GESTURE_TAP }
  let G := { G with Touch.downPositionA := event.position 0 }
  let G := { G with Touch.downDragPosition := event.position 0 }
  let G := { G with Touch.upPosition := G.Touch.downPositionA }
  let G := { G with Touch.eventTime := now }
  let G := { G with Swipe.startTime := now }
  { G with Drag.vector := RaylibVector2.zero }

/-- The swipe direction chosen from `Drag.angle` (source lines 313-317). -/
def swipeDirection (angle : ℚ) : Nat :=
  if angle < 30 ∨ angle > 330 then RAYLIB_GESTURE_SWIPE_RIGHT
  else if angle ≥ 30 ∧ angle ≤ 150 then RAYLIB_GESTURE_SWIPE_UP
  else if angle > 150 ∧ angle < 210 then RAYLIB_GESTURE_SWIPE_LEFT
  else if angle ≥ 210 ∧ angle ≤ 330 then RAYLIB_GESTURE_SWIPE_DOWN
  else RAYLIB_GESTURE_NONE

/-- One touch point, `RAYLIB_TOUCH_ACTION_UP` (source lines 298-330). -/
def onePointUp (m : Libm) (now : ℚ) (event : GestureEvent) (G : GesturesData) :
    GesturesData :=
  let G :=
    if G.current = RAYLIB_GESTURE_DRAG ∨ G.current = RAYLIB_GESTURE_HOLD
    then { G with Touch.upPosition := event.position 0 }
    else G
  let G := { G with
    Drag.distance := rgVector2Distance m G.Touch.downPositionA G.Touch.upPosition }
  let G := { G with
    Drag.intensity := FloatQ.div G.Drag.distance (now - G.Swipe.startTime) }
  let G :=
    if G.Drag.intensity.gt RAYLIB_FORCE_TO_SWIPE = true ∧ G.current ≠ RAYLIB_GESTURE_DRAG then
      let G := { G with
        Drag.angle := 360 - rgVector2Angle m G.Touch.downPositionA G.Touch.upPosition }
      { G with current := swipeDirection G.Drag.angle }
    else
      let G := { G with Drag.distance := 0 }
      let G := { G with Drag.intensity := FloatQ.fin 0 }
      let G := { G with Drag.angle := 0 }
      { G with current := RAYLIB_GESTURE_NONE }
  let G := { G with Touch.downDragPosition := RaylibVector2.zero }
  { G with Touch.pointCount := 0 }

/-- One touch point, `RAYLIB_TOUCH_ACTION_MOVE` (source lines 331-351). -/
def onePointMove (now : ℚ) (event : GestureEvent) (G : GesturesData) : GesturesData :=
  let G := { G with Touch.moveDownPositionA := event.position 0 }
  let G :=
    if G.current = RAYLIB_GESTURE_HOLD then
      let G :=
        if G.Hold.resetRequired = true
        then { G with Touch.downPositionA := event.position 0 }
        else G
      let G := { G with Hold.resetRequired := false }
      if now - G.Touch.eventTime > RAYLIB_DRAG_TIMEOUT
      then { G with Touch.eventTime := now, current := RAYLIB_GESTURE_DRAG }
      else G
    else G
  { G with
    Drag.vector :=
      ⟨G.Touch.moveDownPositionA.x - G.Touch.downDragPosition.x,
       G.Touch.moveDownPositionA.y - G.Touch.downDragPosition.y⟩ }

/-- Two touch points, `RAYLIB_TOUCH_ACTION_DOWN` (source lines 355-370). -/
def twoPointDown (now : ℚ) (event : GestureEvent) (G : GesturesData) : GesturesData :=
  let G := { G with Touch.downPositionA := event.position 0 }
  let G := { G with Touch.downPositionB := event.position 1 }
  let G := { G with Touch.previousPositionA := G.Touch.downPositionA }
  let G := { G with Touch.previousPositionB := G.Touch.downPositionB }
  let G := { G with
    Pinch.vector :=
      ⟨G.Touch.downPositionB.x - G.Touch.downPositionA.x,
       G.Touch.downPositionB.y - G.Touch.downPositionA.y⟩ }
  let G := { G with current := RAYLIB_GESTURE_HOLD }
  { G with Hold.timeDuration := now }

/-- Two touch points, `RAYLIB_TOUCH_ACTION_MOVE` (source lines 371-394). -/
def twoPointMove (m : Libm) (now : ℚ) (event : GestureEvent) (G : GesturesData) :
    GesturesData :=
  let G := { G with
    Pinch.distance := rgVector2Distance m G.Touch.moveDownPositionA G.Touch.moveDownPositionB }
  let G := { G with Touch.moveDownPositionA := event.position 0 }
  let G := { G with Touch.moveDownPositionB := event.position 1 }
  let G := { G with
    Pinch.vector :=
      ⟨G.Touch.moveDownPositionB.x - G.Touch.moveDownPositionA.x,
       G.Touch.moveDownPositionB.y - G.Touch.moveDownPositionA.y⟩ }
  let G :=
    if rgVector2Distance m G.Touch.previousPositionA G.Touch.moveDownPositionA ≥
          RAYLIB_MINIMUM_PINCH ∨
        rgVector2Distance m G.Touch.previousPositionB G.Touch.moveDownPositionB ≥
          RAYLIB_MINIMUM_PINCH then
      if rgVector2Distance m G.Touch.previousPositionA G.Touch.previousPositionB >
          rgVector2Distance m G.Touch.moveDownPositionA G.Touch.moveDownPositionB
      then { G with current := RAYLIB_GESTURE_PINCH_IN }
      else { G with current := RAYLIB_GESTURE_PINCH_OUT }
    else
      let G := { G with current := RAYLIB_GESTURE_HOLD }
      { G with Hold.timeDuration := now }
  { G with
    Pinch.angle := 360 - rgVector2Angle m G.Touch.moveDownPositionA G.Touch.moveDownPositionB }

/-- Two touch points, `RAYLIB_TOUCH_ACTION_UP` (source lines 395-403). -/
def twoPointUp (G : GesturesData) : GesturesData :=
  let G := { G with Pinch.distance := 0 }
  let G := { G with Pinch.angle := 0 }
  let G := { G with Pinch.vector := RaylibVector2.zero }
  let G := { G with Touch.pointCount := 0 }
  { G with current := RAYLIB_GESTURE_NONE }

/-- Process gesture event and translate it into gestures (`ProcessGestureEvent`). -/
def ProcessGestureEvent (m : Libm) (now : ℚ) (event : GestureEvent) (G : GesturesData) :
    GesturesData :=
  let G := { G with Touch.pointCount := event.pointCount }
  if G.Touch.pointCount = 1 then
    if event.touchAction = RAYLIB_TOUCH_ACTION_DOWN then onePointDown m now event G
    else if event.touchAction = RAYLIB_TOUCH_ACTION_UP then onePointUp m now event G
    else if event.touchAction = RAYLIB_TOUCH_ACTION_MOVE then onePointMove now event G
    else G
  else if G.Touch.pointCount = 2 then
    if event.touchAction = RAYLIB_TOUCH_ACTION_DOWN then twoPointDown now event G
    else if event.touchAction = RAYLIB_TOUCH_ACTION_MOVE then twoPointMove m now event G
    else if event.touchAction = RAYLIB_TOUCH_ACTION_UP then twoPointUp G
    else G
  else if G.Touch.pointCount > 2 then G
  else G

/-- Update gestures detected, called every frame (`UpdateGestures`). -/
def UpdateGestures (now : ℚ) (G : GesturesData) : GesturesData :=
  let G :=
    if (G.current = RAYLIB_GESTURE_TAP ∨ G.current = RAYLIB_GESTURE_DOUBLETAP) ∧
        G.Touch.pointCount < 2
    then { G with current := RAYLIB_GESTURE_HOLD, Hold.timeDuration := now }
    else G
  if G.current = RAYLIB_GESTURE_SWIPE_RIGHT ∨ G.current = RAYLIB_GESTURE_SWIPE_UP ∨
      G.current = RAYLIB_GESTURE_SWIPE_LEFT ∨ G.current = RAYLIB_GESTURE_SWIPE_DOWN
  then { G with current := RAYLIB_GESTURE_NONE }
  else G

/-- Conversion of an `unsigned int` to the `int` a function returns. -/
def toInt32 (n : Nat) : Int :=
  if n % 2 ^ 32 < 2 ^ 31 then ((n % 2 ^ 32 : Nat) : Int) else ((n % 2 ^ 32 : Nat) : Int) - 2 ^ 32

/-- Get latest detected gesture (`RaylibGetGestureDetected`). -/
def RaylibGetGestureDetected (G : GesturesData) : Int :=
  toInt32 (G.enabledFlags &&& G.current)

/-- Check if a gesture have been detected (`RaylibIsGestureDetected`). -/
def RaylibIsGestureDetected (gesture : Nat) (G : GesturesData) : Bool :=
  if (G.enabledFlags &&& G.current) % 2 ^ 32 = gesture % 2 ^ 32 then true else false

/-- Hold time, the clock reading minus `Hold.timeDuration` while the gesture is
HOLD (`RaylibGetGestureHoldDuration`). -/
def RaylibGetGestureHoldDuration (now : ℚ) (G : GesturesData) : ℚ :=
  let time : ℚ := 0
  let time := if G.current = RAYLIB_GESTURE_HOLD then now - G.Hold.timeDuration else time
  time

/-- Get drag vector (`RaylibGetGestureDragVector`). -/
def RaylibGetGestureDragVector (G : GesturesData) : RaylibVector2 := G.Drag.vector

/-- Get drag angle (`RaylibGetGestureDragAngle`). -/
def RaylibGetGestureDragAngle (G : GesturesData) : ℚ := G.Drag.angle

/-- Get distance between two pinch points (`RaylibGetGesturePinchVector`). -/
def RaylibGetGesturePinchVector (G : GesturesData) : RaylibVector2 := G.Pinch.vector

/-- Get angle between two pinch points (`RaylibGetGesturePinchAngle`). -/
def RaylibGetGesturePinchAngle (G : GesturesData) : ℚ := G.Pinch.angle

/-! ## Calls in sequence -/

/-- One call into the module, with the clock reading it sees. -/
inductive Step where
  | event (now : ℚ) (ev : GestureEvent)
  | update (now : ℚ)
  | setEnabled (flags : Nat)

/-- Effect of one call on the recognizer state. -/
def step (m : Libm) (G : GesturesData) : Step → GesturesData
  | Step.event now ev => ProcessGestureEvent m now ev G
  | Step.update now => UpdateGestures now G
  | Step.setEnabled flags => RaylibSetGesturesEnabled flags G

/-- Effect of a sequence of calls, first call first. -/
def run (m : Libm) (G : GesturesData) (steps : List Step) : GesturesData :=
  steps.foldl (step m) G

/-- A one-point event with the given action whose first position is `p`. -/
def touch1 (action : Int) (p : RaylibVector2) : GestureEvent :=
  { touchAction := action, pointCount := 1, pointId := fun _ => 0, position := fun _ => p }

/-- A two-point event with the given action and positions `a`, `b`. -/
def touch2 (action : Int) (a b : RaylibVector2) : GestureEvent :=
  { touchAction := action, pointCount := 2,
    pointId := fun i => if i = 0 then 0 else 1,
    position := fun i => if i = 0 then a else b }

/-- The release position a one-point UP measures to: the event position when
the gesture is DRAG or HOLD, the stored `upPosition` otherwise (source line 301). -/
def releasePosition (ev : GestureEvent) (G : GesturesData) : RaylibVector2 :=
  if G.current = RAYLIB_GESTURE_DRAG ∨ G.current = RAYLIB_GESTURE_HOLD
  then ev.position 0 else G.Touch.upPosition

/-- The value a one-point UP assigns to `Drag.intensity` before testing it
(source lines 304-305). -/
def releaseIntensity (m : Libm) (now : ℚ) (ev : GestureEvent) (G : GesturesData) : FloatQ :=
  FloatQ.div (rgVector2Distance m G.Touch.downPositionA (releasePosition ev G))
    (now - G.Swipe.startTime)

/-- Calls that keep the memory of a tap: every call except a one-point or a
two-point DOWN event, the two events that assign `Touch.downPositionA` (the
one-point DOWN also counts a tap and assigns `Touch.eventTime`). -/
def Step.isNotDown : Step → Bool
  | Step.event _ ev =>
      decide (¬ (ev.touchAction = RAYLIB_TOUCH_ACTION_DOWN ∧
        (ev.pointCount = 1 ∨ ev.pointCount = 2)))
  | Step.update _ => true
  | Step.setEnabled _ => true

/-- Calls that keep a one-point HOLD begun by a DOWN at time `td`: an
`UpdateGestures` call, or a one-point MOVE processed no later than
`RAYLIB_DRAG_TIMEOUT` after the DOWN. -/
def Step.keepsHold (td : ℚ) : Step → Bool
  | Step.update _ => true
  | Step.event now ev =>
      decide (ev.pointCount = 1 ∧ ev.touchAction = RAYLIB_TOUCH_ACTION_MOVE ∧
        now - td ≤ RAYLIB_DRAG_TIMEOUT)
  | Step.setEnabled _ => false

/-- A call other than `RaylibSetGesturesEnabled`. -/
def Step.isNotSetEnabled : Step → Bool
  | Step.setEnabled _ => false
  | _ => true

/-- The eleven values of the `RaylibGesture` enum. -/
def gestureValues : List Nat :=
  [RAYLIB_GESTURE_NONE, RAYLIB_GESTURE_TAP, RAYLIB_GESTURE_DOUBLETAP, RAYLIB_GESTURE_HOLD,
   RAYLIB_GESTURE_DRAG, RAYLIB_GESTURE_SWIPE_RIGHT, RAYLIB_GESTURE_SWIPE_LEFT,
   RAYLIB_GESTURE_SWIPE_UP, RAYLIB_GESTURE_SWIPE_DOWN, RAYLIB_GESTURE_PINCH_IN,
   RAYLIB_GESTURE_PINCH_OUT]

/-- The four swipe values. -/
def swipeValues : List Nat :=
  [RAYLIB_GESTURE_SWIPE_RIGHT, RAYLIB_GESTURE_SWIPE_UP, RAYLIB_GESTURE_SWIPE_LEFT,
   RAYLIB_GESTURE_SWIPE_DOWN]

/-! ## Keyboard keys (`raylib.h`) and the key tables of the platform files -/

def RAYLIB_KEY_NULL : Int := 0
def RAYLIB_KEY_APOSTROPHE : Int := 39
def RAYLIB_KEY_COMMA : Int := 44
def RAYLIB_KEY_MINUS : Int := 45
def RAYLIB_KEY_PERIOD : Int := 46
def RAYLIB_KEY_SLASH : Int := 47
def RAYLIB_KEY_ZERO : Int := 48
def RAYLIB_KEY_ONE : Int := 49
def RAYLIB_KEY_TWO : Int := 50
def RAYLIB_KEY_THREE : Int := 51
def RAYLIB_KEY_FOUR : Int := 52
def RAYLIB_KEY_FIVE : Int := 53
def RAYLIB_KEY_SIX : Int := 54
def RAYLIB_KEY_SEVEN : Int := 55
def RAYLIB_KEY_EIGHT : Int := 56
def RAYLIB_KEY_NINE : Int := 57
def RAYLIB_KEY_SEMICOLON : Int := 59
def RAYLIB_KEY_EQUAL : Int := 61
def RAYLIB_KEY_A : Int := 65
def RAYLIB_KEY_B : Int := 66
def RAYLIB_KEY_C : Int := 67
def RAYLIB_KEY_D : Int := 68
def RAYLIB_KEY_E : Int := 69
def RAYLIB_KEY_F : Int := 70
def RAYLIB_KEY_G : Int := 71
def RAYLIB_KEY_H : Int := 72
def RAYLIB_KEY_I : Int := 73
def RAYLIB_KEY_J : Int := 74
def RAYLIB_KEY_K : Int := 75
def RAYLIB_KEY_L : Int := 76
def RAYLIB_KEY_M : Int := 77
def RAYLIB_KEY_N : Int := 78
def RAYLIB_KEY_O : Int := 79
def RAYLIB_KEY_P : Int := 80
def RAYLIB_KEY_Q : Int := 81
def RAYLIB_KEY_R : Int := 82
def RAYLIB_KEY_S : Int := 83
def RAYLIB_KEY_T : Int := 84
def RAYLIB_KEY_U : Int := 85
def RAYLIB_KEY_V : Int := 86
def RAYLIB_KEY_W : Int := 87
def RAYLIB_KEY_X : Int := 88
def RAYLIB_KEY_Y : Int := 89
def RAYLIB_KEY_Z : Int := 90
def RAYLIB_KEY_LEFT_BRACKET : Int := 91
def RAYLIB_KEY_BACKSLASH : Int := 92
def RAYLIB_KEY_RIGHT_BRACKET : Int := 93
def RAYLIB_KEY_GRAVE : Int := 96
def RAYLIB_KEY_SPACE : Int := 32
def RAYLIB_KEY_ESCAPE : Int := 256
def RAYLIB_KEY_ENTER : Int := 257
def RAYLIB_KEY_TAB : Int := 258
def RAYLIB_KEY_BACKSPACE : Int := 259
def RAYLIB_KEY_INSERT : Int := 260
def RAYLIB_KEY_DELETE : Int := 261
def RAYLIB_KEY_RIGHT : Int := 262
def RAYLIB_KEY_LEFT : Int := 263
def RAYLIB_KEY_DOWN : Int := 264
def RAYLIB_KEY_UP : Int := 265
def RAYLIB_KEY_PAGE_UP : Int := 266
def RAYLIB_KEY_PAGE_DOWN : Int := 267
def RAYLIB_KEY_HOME : Int := 268
def RAYLIB_KEY_END : Int := 269
def RAYLIB_KEY_CAPS_LOCK : Int := 280
def RAYLIB_KEY_SCROLL_LOCK : Int := 281
def RAYLIB_KEY_NUM_LOCK : Int := 282
def RAYLIB_KEY_PRINT_SCREEN : Int := 283
def RAYLIB_KEY_PAUSE : Int := 284
def RAYLIB_KEY_F1 : Int := 290
def RAYLIB_KEY_F2 : Int := 291
def RAYLIB_KEY_F3 : Int := 292
def RAYLIB_KEY_F4 : Int := 293
def RAYLIB_KEY_F5 : Int := 294
def RAYLIB_KEY_F6 : Int := 295
def RAYLIB_KEY_F7 : Int := 296
def RAYLIB_KEY_F8 : Int := 297
def RAYLIB_KEY_F9 : Int := 298
def RAYLIB_KEY_F10 : Int := 299
def RAYLIB_KEY_F11 : Int := 300
def RAYLIB_KEY_F12 : Int := 301
def RAYLIB_KEY_LEFT_SHIFT : Int := 340
def RAYLIB_KEY_LEFT_CONTROL : Int := 341
def RAYLIB_KEY_LEFT_ALT : Int := 342
def RAYLIB_KEY_LEFT_SUPER : Int := 343
def RAYLIB_KEY_RIGHT_SHIFT : Int := 344
def RAYLIB_KEY_RIGHT_CONTROL : Int := 345
def RAYLIB_KEY_RIGHT_ALT : Int := 346
def RAYLIB_KEY_RIGHT_SUPER : Int := 347
def RAYLIB_KEY_KB_MENU : Int := 348
def RAYLIB_KEY_KP_0 : Int := 320
def RAYLIB_KEY_KP_1 : Int := 321
def RAYLIB_KEY_KP_2 : Int := 322
def RAYLIB_KEY_KP_3 : Int := 323
def RAYLIB_KEY_KP_4 : Int := 324
def RAYLIB_KEY_KP_5 : Int := 325
def RAYLIB_KEY_KP_6 : Int := 326
def RAYLIB_KEY_KP_7 : Int := 327
def RAYLIB_KEY_KP_8 : Int := 328
def RAYLIB_KEY_KP_9 : Int := 329
def RAYLIB_KEY_KP_DECIMAL : Int := 330
def RAYLIB_KEY_KP_DIVIDE : Int := 331
def RAYLIB_KEY_KP_MULTIPLY : Int := 332
def RAYLIB_KEY_KP_SUBTRACT : Int := 333
def RAYLIB_KEY_KP_ADD : Int := 334
def RAYLIB_KEY_KP_ENTER : Int := 335
def RAYLIB_KEY_KP_EQUAL : Int := 336
def RAYLIB_KEY_BACK : Int := 4
def RAYLIB_KEY_MENU : Int := 5
def RAYLIB_KEY_VOLUME_UP : Int := 24
def RAYLIB_KEY_VOLUME_DOWN : Int := 25

/-- Number of entries of `KeycodeMap` (`rcore_android.c`). -/
def KEYCODE_MAP_SIZE : Int := 162

/-- The table `KeycodeMap` of `rcore_android.c`, indexed by Android key code. -/
def KeycodeMap : List Int :=
  [RAYLIB_KEY_NULL, 0, 0, 0, RAYLIB_KEY_BACK, 0, 0, RAYLIB_KEY_ZERO, RAYLIB_KEY_ONE,
   RAYLIB_KEY_TWO, RAYLIB_KEY_THREE, RAYLIB_KEY_FOUR, RAYLIB_KEY_FIVE, RAYLIB_KEY_SIX,
   RAYLIB_KEY_SEVEN, RAYLIB_KEY_EIGHT, RAYLIB_KEY_NINE, 0, 0, RAYLIB_KEY_UP, RAYLIB_KEY_DOWN,
   RAYLIB_KEY_LEFT, RAYLIB_KEY_RIGHT, 0, RAYLIB_KEY_VOLUME_UP, RAYLIB_KEY_VOLUME_DOWN, 0, 0, 0,
   RAYLIB_KEY_A, RAYLIB_KEY_B, RAYLIB_KEY_C, RAYLIB_KEY_D, RAYLIB_KEY_E, RAYLIB_KEY_F,
   RAYLIB_KEY_G, RAYLIB_KEY_H, RAYLIB_KEY_I, RAYLIB_KEY_J, RAYLIB_KEY_K, RAYLIB_KEY_L,
   RAYLIB_KEY_M, RAYLIB_KEY_N, RAYLIB_KEY_O, RAYLIB_KEY_P, RAYLIB_KEY_Q, RAYLIB_KEY_R,
   RAYLIB_KEY_S, RAYLIB_KEY_T, RAYLIB_KEY_U, RAYLIB_KEY_V, RAYLIB_KEY_W, RAYLIB_KEY_X,
   RAYLIB_KEY_Y, RAYLIB_KEY_Z, RAYLIB_KEY_COMMA, RAYLIB_KEY_PERIOD, RAYLIB_KEY_LEFT_ALT,
   RAYLIB_KEY_RIGHT_ALT, RAYLIB_KEY_LEFT_SHIFT, RAYLIB_KEY_RIGHT_SHIFT, RAYLIB_KEY_TAB,
   RAYLIB_KEY_SPACE, 0, 0, 0, RAYLIB_KEY_ENTER, RAYLIB_KEY_BACKSPACE, RAYLIB_KEY_GRAVE,
   RAYLIB_KEY_MINUS, RAYLIB_KEY_EQUAL, RAYLIB_KEY_LEFT_BRACKET, RAYLIB_KEY_RIGHT_BRACKET,
   RAYLIB_KEY_BACKSLASH, RAYLIB_KEY_SEMICOLON, RAYLIB_KEY_APOSTROPHE, RAYLIB_KEY_SLASH, 0, 0,
   0, 0, 0, RAYLIB_KEY_MENU, 0, 0, 0, 0, 0, 0, 0, 0, 0, RAYLIB_KEY_PAGE_UP,
   RAYLIB_KEY_PAGE_DOWN, 0, 0, 0, 0, 0, 0, 0, 0, 0, 0, 0, 0, 0, 0, 0, 0, 0, RAYLIB_KEY_ESCAPE,
   RAYLIB_KEY_DELETE, RAYLIB_KEY_LEFT_CONTROL, RAYLIB_KEY_RIGHT_CONTROL, RAYLIB_KEY_CAPS_LOCK,
   RAYLIB_KEY_SCROLL_LOCK, RAYLIB_KEY_LEFT_SUPER, RAYLIB_KEY_RIGHT_SUPER, 0,
   RAYLIB_KEY_PRINT_SCREEN, RAYLIB_KEY_PAUSE, RAYLIB_KEY_HOME, RAYLIB_KEY_END,
   RAYLIB_KEY_INSERT, 0, 0, 0, 0, 0, 0, RAYLIB_KEY_F1, RAYLIB_KEY_F2, RAYLIB_KEY_F3,
   RAYLIB_KEY_F4, RAYLIB_KEY_F5, RAYLIB_KEY_F6, RAYLIB_KEY_F7, RAYLIB_KEY_F8, RAYLIB_KEY_F9,
   RAYLIB_KEY_F10, RAYLIB_KEY_F11, RAYLIB_KEY_F12, RAYLIB_KEY_NUM_LOCK, RAYLIB_KEY_KP_0,
   RAYLIB_KEY_KP_1, RAYLIB_KEY_KP_2, RAYLIB_KEY_KP_3, RAYLIB_KEY_KP_4, RAYLIB_KEY_KP_5,
   RAYLIB_KEY_KP_6, RAYLIB_KEY_KP_7, RAYLIB_KEY_KP_8, RAYLIB_KEY_KP_9, RAYLIB_KEY_KP_DIVIDE,
   RAYLIB_KEY_KP_MULTIPLY, RAYLIB_KEY_KP_SUBTRACT, RAYLIB_KEY_KP_ADD, RAYLIB_KEY_KP_DECIMAL, 0,
   RAYLIB_KEY_KP_ENTER, RAYLIB_KEY_KP_EQUAL]

/-- Number of entries of `ScancodeToKey` (`rcore_desktop_sdl.c`). -/
def SCANCODE_MAPPED_NUM : Int := 232

/-- The table `ScancodeToKey` of `rcore_desktop_sdl.c`, indexed by SDL scancode. -/
def ScancodeToKey : List Int :=
  [RAYLIB_KEY_NULL, 0, 0, 0, RAYLIB_KEY_A, RAYLIB_KEY_B, RAYLIB_KEY_C, RAYLIB_KEY_D,
   RAYLIB_KEY_E, RAYLIB_KEY_F, RAYLIB_KEY_G, RAYLIB_KEY_H, RAYLIB_KEY_I, RAYLIB_KEY_J,
   RAYLIB_KEY_K, RAYLIB_KEY_L, RAYLIB_KEY_M, RAYLIB_KEY_N, RAYLIB_KEY_O, RAYLIB_KEY_P,
   RAYLIB_KEY_Q, RAYLIB_KEY_R, RAYLIB_KEY_S, RAYLIB_KEY_T, RAYLIB_KEY_U, RAYLIB_KEY_V,
   RAYLIB_KEY_W, RAYLIB_KEY_X, RAYLIB_KEY_Y, RAYLIB_KEY_Z, RAYLIB_KEY_ONE, RAYLIB_KEY_TWO,
   RAYLIB_KEY_THREE, RAYLIB_KEY_FOUR, RAYLIB_KEY_FIVE, RAYLIB_KEY_SIX, RAYLIB_KEY_SEVEN,
   RAYLIB_KEY_EIGHT, RAYLIB_KEY_NINE, RAYLIB_KEY_ZERO, RAYLIB_KEY_ENTER, RAYLIB_KEY_ESCAPE,
   RAYLIB_KEY_BACKSPACE, RAYLIB_KEY_TAB, RAYLIB_KEY_SPACE, RAYLIB_KEY_MINUS, RAYLIB_KEY_EQUAL,
   RAYLIB_KEY_LEFT_BRACKET, RAYLIB_KEY_RIGHT_BRACKET, RAYLIB_KEY_BACKSLASH, 0,
   RAYLIB_KEY_SEMICOLON, RAYLIB_KEY_APOSTROPHE, RAYLIB_KEY_GRAVE, RAYLIB_KEY_COMMA,
   RAYLIB_KEY_PERIOD, RAYLIB_KEY_SLASH, RAYLIB_KEY_CAPS_LOCK, RAYLIB_KEY_F1, RAYLIB_KEY_F2,
   RAYLIB_KEY_F3, RAYLIB_KEY_F4, RAYLIB_KEY_F5, RAYLIB_KEY_F6, RAYLIB_KEY_F7, RAYLIB_KEY_F8,
   RAYLIB_KEY_F9, RAYLIB_KEY_F10, RAYLIB_KEY_F11, RAYLIB_KEY_F12, RAYLIB_KEY_PRINT_SCREEN,
   RAYLIB_KEY_SCROLL_LOCK, RAYLIB_KEY_PAUSE, RAYLIB_KEY_INSERT, RAYLIB_KEY_HOME,
   RAYLIB_KEY_PAGE_UP, RAYLIB_KEY_DELETE, RAYLIB_KEY_END, RAYLIB_KEY_PAGE_DOWN,
   RAYLIB_KEY_RIGHT, RAYLIB_KEY_LEFT, RAYLIB_KEY_DOWN, RAYLIB_KEY_UP, RAYLIB_KEY_NUM_LOCK,
   RAYLIB_KEY_KP_DIVIDE, RAYLIB_KEY_KP_MULTIPLY, RAYLIB_KEY_KP_SUBTRACT, RAYLIB_KEY_KP_ADD,
   RAYLIB_KEY_KP_ENTER, RAYLIB_KEY_KP_1, RAYLIB_KEY_KP_2, RAYLIB_KEY_KP_3, RAYLIB_KEY_KP_4,
   RAYLIB_KEY_KP_5, RAYLIB_KEY_KP_6, RAYLIB_KEY_KP_7, RAYLIB_KEY_KP_8, RAYLIB_KEY_KP_9,
   RAYLIB_KEY_KP_0, RAYLIB_KEY_KP_DECIMAL, 0, 0, 0, 0, 0, 0, 0, 0, 0, 0, 0, 0, 0, 0, 0, 0, 0,
   0, 0, 0, 0, 0, 0, 0, 0, 0, 0, 0, 0, 0, 0, 0, 0, 0, 0, 0, 0, 0, 0, 0, 0, 0, 0, 0, 0, 0, 0, 0,
   0, 0, 0, 0, 0, 0, 0, 0, 0, 0, 0, 0, 0, 0, 0, 0, 0, 0, 0, 0, 0, 0, 0, 0, 0, 0, 0, 0, 0, 0, 0,
   0, 0, 0, 0, 0, 0, 0, 0, 0, 0, 0, 0, 0, 0, 0, 0, 0, 0, 0, 0, 0, 0, 0, 0, 0, 0, 0, 0, 0, 0, 0,
   0, 0, 0, 0, 0, 0, 0, 0, 0, 0, 0, 0, 0, 0, RAYLIB_KEY_LEFT_CONTROL, RAYLIB_KEY_LEFT_SHIFT,
   RAYLIB_KEY_LEFT_ALT, RAYLIB_KEY_LEFT_SUPER, RAYLIB_KEY_RIGHT_CONTROL,
   RAYLIB_KEY_RIGHT_SHIFT, RAYLIB_KEY_RIGHT_ALT, RAYLIB_KEY_RIGHT_SUPER]

/-! ## Platform layer: the state of `CORE`

The platform files work on the global `CORE` (declared in `rcore.c`) and, through
`ProcessGestureEvent` and `UpdateGestures`, on the recognizer.  The model keeps
the members the platform files read or write for keyboard keys, the pressed-key
queue, the mouse, touch points, joystick axes and the window size; it leaves out
the character queue, gamepad buttons and names, dropped files and the cursor
flags.  Arrays are functions on `Int`: an index beyond the declared size stands
for the memory after the array. -/

/-- Capacities set in `config.h`, which is not among the sources; they are
parameters of the model. -/
structure Config where
  MAX_KEYBOARD_KEYS : Int
  MAX_KEY_PRESSED_QUEUE : Int
  MAX_MOUSE_BUTTONS : Int

/-- Modelled from the spec: the capacities it names, 512 keyboard keys, press
queues of 16 entries and 7 mouse buttons; the macros `RAYLIB_MAX_KEYBOARD_KEYS`,
`RAYLIB_MAX_KEY_PRESSED_QUEUE` and `RAYLIB_MAX_MOUSE_BUTTONS` are defined in
`config.h`, outside the sources. -/
def specConfig : Config := ⟨512, 16, 7⟩

/-- The `CORE.Input.Keyboard` members. -/
structure KeyboardData where
  exitKey : Int
  currentKeyState : Int → Nat
  previousKeyState : Int → Nat
  keyRepeatInFrame : Int → Nat
  keyPressedQueue : Int → Int
  keyPressedQueueCount : Int

/-- The `CORE.Input.Mouse` members. -/
structure MouseData where
  currentPosition : RaylibVector2
  previousPosition : RaylibVector2
  currentWheelMove : RaylibVector2
  currentButtonState : Int → Nat
  previousButtonState : Int → Nat

/-- The `CORE.Input.Touch` members; the arrays have `RAYLIB_MAX_TOUCH_POINTS` entries. -/
structure TouchInput where
  pointCount : Int
  pointId : Int → Int
  position : Int → RaylibVector2
  currentTouchState : Int → Nat
  previousTouchState : Int → Nat

/-- The `CORE.Input.Gamepad` member `axisState[gamepad][axis]`. -/
structure GamepadData where
  axisState : Int → Int → ℚ

/-- The member `CORE.Input`. -/
structure InputData where
  Keyboard : KeyboardData
  Mouse : MouseData
  Touch : TouchInput
  Gamepad : GamepadData

/-- A width and a height in pixels. -/
structure Size where
  width : Int
  height : Int

/-- An integer point. -/
structure Point where
  x : Int
  y : Int

/-- The `CORE.Window` members. -/
structure WindowData where
  shouldClose : Bool
  resizedLastFrame : Bool
  screen : Size
  display : Size
  renderOffset : Point

/-- The global `CORE`. -/
structure CoreData where
  Window : WindowData
  Input : InputData

/-- The program state of a platform file: `CORE` and the recognizer state. -/
structure Machine where
  CORE : CoreData
  gestures : GesturesData

/-- Functions defined in `rcore.c`, which is not among the sources; they are
parameters of the model. -/
structure Rcore where
  RaylibGetScreenWidth : CoreData → Int
  RaylibGetScreenHeight : CoreData → Int
  RaylibGetMousePosition : CoreData → RaylibVector2

/-- Modelled from the spec: the screen size is the window's (`§6`, "screen
dimensions (width, height in pixels)") and the mouse position is the current
one; the functions themselves are defined in `rcore.c`, outside the sources. -/
def specRcore : Rcore :=
  { RaylibGetScreenWidth := fun C => C.Window.screen.width
    RaylibGetScreenHeight := fun C => C.Window.screen.height
    RaylibGetMousePosition := fun C => C.Input.Mouse.currentPosition }

/-- Modelled from the spec: the input state at start-up, every member zero, the
exit key Escape (`§4.1`, step 6) and a window of 800 x 450 pixels; `CORE` is
initialised in `rcore.c`, outside the sources. -/
def initialCore : CoreData :=
  { Window :=
      { shouldClose := false, resizedLastFrame := false, screen := ⟨800, 450⟩,
        display := ⟨800, 450⟩, renderOffset := ⟨0, 0⟩ }
    Input :=
      { Keyboard :=
          { exitKey := RAYLIB_KEY_ESCAPE, currentKeyState := fun _ => 0,
            previousKeyState := fun _ => 0, keyRepeatInFrame := fun _ => 0,
            keyPressedQueue := fun _ => 0, keyPressedQueueCount := 0 }
        Mouse :=
          { currentPosition := RaylibVector2.zero, previousPosition := RaylibVector2.zero,
            currentWheelMove := RaylibVector2.zero, currentButtonState := fun _ => 0,
            previousButtonState := fun _ => 0 }
        Touch :=
          { pointCount := 0, pointId := fun _ => 0, position := fun _ => RaylibVector2.zero,
            currentTouchState := fun _ => 0, previousTouchState := fun _ => 0 }
        Gamepad := { axisState := fun _ _ => 0 } } }

/-- The program state at start-up. -/
def initialMachine : Machine := ⟨initialCore, GESTURES⟩

/-- The C loop `for (int i = lo; i < hi; i++) body`, for bounds the body leaves
unchanged. -/
def forLoop {σ : Type} (lo hi : Int) (body : Int → σ → σ) (s : σ) : σ :=
  (List.range (hi - lo).toNat).foldl (fun t (j : ℕ) => body (lo + (j : Int)) t) s

/-- The zero-initialised event `GestureEvent gestureEvent = { 0 }`. -/
def GestureEvent.zero : GestureEvent :=
  { touchAction := 0, pointCount := 0, pointId := fun _ => 0,
    position := fun _ => RaylibVector2.zero }

/-- Mouse button left (`raylib.h`). -/
def RAYLIB_MOUSE_BUTTON_LEFT : Int := 0

def RAYLIB_GAMEPAD_AXIS_LEFT_X : Int := 0
def RAYLIB_GAMEPAD_AXIS_LEFT_Y : Int := 1
def RAYLIB_GAMEPAD_AXIS_RIGHT_X : Int := 2
def RAYLIB_GAMEPAD_AXIS_RIGHT_Y : Int := 3
def RAYLIB_GAMEPAD_AXIS_LEFT_TRIGGER : Int := 4
def RAYLIB_GAMEPAD_AXIS_RIGHT_TRIGGER : Int := 5

/-- The frame-start loop `for (i = 0; i < n; i++) { previousKeyState[i] =
currentKeyState[i]; keyRepeatInFrame[i] = 0; }` of `RaylibPollInputEvents`. -/
def registerPreviousKeys (n : Int) (W : Machine) : Machine :=
  forLoop 0 n
    (fun i W =>
      let W := { W with
        CORE.Input.Keyboard.previousKeyState :=
          Function.update W.CORE.Input.Keyboard.previousKeyState i
            (W.CORE.Input.Keyboard.currentKeyState i) }
      { W with
        CORE.Input.Keyboard.keyRepeatInFrame :=
          Function.update W.CORE.Input.Keyboard.keyRepeatInFrame i 0 })
    W

/-- The Android frame-start loop `for (int i = 0; i < RAYLIB_MAX_KEYBOARD_KEYS; i++)
keyRepeatInFrame[i] = 0;`. -/
def resetKeyRepeat (n : Int) (W : Machine) : Machine :=
  forLoop 0 n
    (fun i W =>
      { W with
        CORE.Input.Keyboard.keyRepeatInFrame :=
          Function.update W.CORE.Input.Keyboard.keyRepeatInFrame i 0 })
    W

/-- The frame-start loop `for (i = 0; i < RAYLIB_MAX_TOUCH_POINTS; i++)
previousTouchState[i] = currentTouchState[i];`. -/
def registerPreviousTouch (W : Machine) : Machine :=
  forLoop 0 (RAYLIB_MAX_TOUCH_POINTS : Int)
    (fun i W =>
      { W with
        CORE.Input.Touch.previousTouchState :=
          Function.update W.CORE.Input.Touch.previousTouchState i
            (W.CORE.Input.Touch.currentTouchState i) })
    W

/-- The frame-start loop `for (i = 0; i < RAYLIB_MAX_MOUSE_BUTTONS; i++)
previousButtonState[i] = currentButtonState[i];` of the desktop files. -/
def registerPreviousMouseButtons (cfg : Config) (W : Machine) : Machine :=
  forLoop 0 cfg.MAX_MOUSE_BUTTONS
    (fun i W =>
      { W with
        CORE.Input.Mouse.previousButtonState :=
          Function.update W.CORE.Input.Mouse.previousButtonState i
            (W.CORE.Input.Mouse.currentButtonState i) })
    W

/-! ## Platform layer: Android (`rcore_android.c`) -/

/-- Values from the Android NDK header `android/input.h`, which is not among the
sources: key event actions. -/
def AKEY_EVENT_ACTION_DOWN : Int := 0
def AKEY_EVENT_ACTION_UP : Int := 1
def AKEY_EVENT_ACTION_MULTIPLE : Int := 2

/-- Values from the Android NDK header `android/input.h`, which is not among the
sources: motion event actions and the masks of the action word. -/
def AMOTION_EVENT_ACTION_MASK : Nat := 0xff
def AMOTION_EVENT_ACTION_POINTER_INDEX_MASK : Nat := 0xff00
def AMOTION_EVENT_ACTION_POINTER_INDEX_SHIFT : Nat := 8
def AMOTION_EVENT_ACTION_DOWN : Nat := 0
def AMOTION_EVENT_ACTION_UP : Nat := 1
def AMOTION_EVENT_ACTION_MOVE : Nat := 2
def AMOTION_EVENT_ACTION_CANCEL : Nat := 3
def AMOTION_EVENT_ACTION_OUTSIDE : Nat := 4
def AMOTION_EVENT_ACTION_POINTER_DOWN : Nat := 5
def AMOTION_EVENT_ACTION_POINTER_UP : Nat := 6

/-- One pointer of an Android motion event: `AMotionEvent_getPointerId`,
`AMotionEvent_getX` and `AMotionEvent_getY` at its index. -/
structure AndroidPointer where
  id : Int
  x : ℚ
  y : ℚ

/-- The input events `AndroidInputCallback` receives.  `gamepadMotion` and
`gamepadKey` come from a joystick or gamepad source; `key` and `motion` from any
other source.  A motion event carries its action word and its pointers. -/
inductive AndroidEvent where
  | gamepadMotion (x y z rz brake gas : ℚ)
  | gamepadKey
  | key (keycode : Int) (action : Int)
  | motion (action : Nat) (pointers : List AndroidPointer)

/-- The key lookup `(keycode > 0 && keycode < KEYCODE_MAP_SIZE) ?
KeycodeMap[keycode] : RAYLIB_KEY_NULL`. -/
def androidKey (keycode : Int) : Int :=
  if keycode > 0 ∧ keycode < KEYCODE_MAP_SIZE then KeycodeMap.getD keycode.toNat RAYLIB_KEY_NULL
  else RAYLIB_KEY_NULL

/-- The keyboard branch of `AndroidInputCallback` (source lines 1204-1218). -/
def androidKeyEvent (keycode action : Int) (W : Machine) : Machine :=
  let key := androidKey keycode
  if key ≠ RAYLIB_KEY_NULL then
    if action = AKEY_EVENT_ACTION_DOWN then
      let W := { W with
        CORE.Input.Keyboard.currentKeyState :=
          Function.update W.CORE.Input.Keyboard.currentKeyState key 1 }
      let W := { W with
        CORE.Input.Keyboard.keyPressedQueue :=
          Function.update W.CORE.Input.Keyboard.keyPressedQueue
            W.CORE.Input.Keyboard.keyPressedQueueCount key }
      { W with
        CORE.Input.Keyboard.keyPressedQueueCount :=
          W.CORE.Input.Keyboard.keyPressedQueueCount + 1 }
    else if action = AKEY_EVENT_ACTION_MULTIPLE then
      { W with
        CORE.Input.Keyboard.keyRepeatInFrame :=
          Function.update W.CORE.Input.Keyboard.keyRepeatInFrame key 1 }
    else
      { W with
        CORE.Input.Keyboard.currentKeyState :=
          Function.update W.CORE.Input.Keyboard.currentKeyState key 0 }
  else W

/-- Body of the loop that registers the touch points of a motion event
(source lines 1245-1258): id, position, and the position scaled to the screen. -/
def androidRegisterPoint (pointers : List AndroidPointer) (i : Int) (W : Machine) : Machine :=
  let p := pointers.getD i.toNat ⟨0, 0, 0⟩
  let W := { W with
    CORE.Input.Touch.pointId := Function.update W.CORE.Input.Touch.pointId i p.id }
  let W := { W with
    CORE.Input.Touch.position := Function.update W.CORE.Input.Touch.position i ⟨p.x, p.y⟩ }
  let widthRatio : ℚ :=
    ((W.CORE.Window.screen.width + W.CORE.Window.renderOffset.x : Int) : ℚ) /
      (W.CORE.Window.display.width : ℚ)
  let heightRatio : ℚ :=
    ((W.CORE.Window.screen.height + W.CORE.Window.renderOffset.y : Int) : ℚ) /
      (W.CORE.Window.display.height : ℚ)
  let W := { W with
    CORE.Input.Touch.position :=
      Function.update W.CORE.Input.Touch.position i
        ⟨(W.CORE.Input.Touch.position i).x * widthRatio -
            (W.CORE.Window.renderOffset.x : ℚ) / 2,
          (W.CORE.Input.Touch.position i).y⟩ }
  { W with
    CORE.Input.Touch.position :=
      Function.update W.CORE.Input.Touch.position i
        ⟨(W.CORE.Input.Touch.position i).x,
          (W.CORE.Input.Touch.position i).y * heightRatio -
            (W.CORE.Window.renderOffset.y : ℚ) / 2⟩ }

/-- The touch action of the gesture event (source lines 1267-1271); the event is
zero-initialised, so any other action word leaves `touchAction = 0`. -/
def androidTouchAction (flags : Nat) : Int :=
  if flags = AMOTION_EVENT_ACTION_DOWN then RAYLIB_TOUCH_ACTION_DOWN
  else if flags = AMOTION_EVENT_ACTION_UP then RAYLIB_TOUCH_ACTION_UP
  else if flags = AMOTION_EVENT_ACTION_MOVE then RAYLIB_TOUCH_ACTION_MOVE
  else if flags = AMOTION_EVENT_ACTION_CANCEL then RAYLIB_TOUCH_ACTION_CANCEL
  else GestureEvent.zero.touchAction

/-- The gesture event built from the registered touch points (source lines
1264-1280): the first `min(pointCount, RAYLIB_MAX_TOUCH_POINTS)` ids and
positions, the positions divided by the screen size. -/
def androidGestureEvent (R : Rcore) (flags : Nat) (W : Machine) : GestureEvent :=
  { touchAction := androidTouchAction flags
    pointCount := W.CORE.Input.Touch.pointCount
    pointId := fun i =>
      if ((i.val : Nat) : Int) < W.CORE.Input.Touch.pointCount
      then W.CORE.Input.Touch.pointId ((i.val : Nat) : Int) else 0
    position := fun i =>
      if ((i.val : Nat) : Int) < W.CORE.Input.Touch.pointCount then
        ⟨(W.CORE.Input.Touch.position ((i.val : Nat) : Int)).x /
            (R.RaylibGetScreenWidth W.CORE : ℚ),
          (W.CORE.Input.Touch.position ((i.val : Nat) : Int)).y /
            (R.RaylibGetScreenHeight W.CORE : ℚ)⟩
      else RaylibVector2.zero }

/-- Body of the loop that removes a released touch point (source lines
1291-1295): entry `i` takes the id and position of entry `i + 1`. -/
def androidShiftPoint (i : Int) (W : Machine) : Machine :=
  let W := { W with
    CORE.Input.Touch.pointId :=
      Function.update W.CORE.Input.Touch.pointId i (W.CORE.Input.Touch.pointId (i + 1)) }
  { W with
    CORE.Input.Touch.position :=
      Function.update W.CORE.Input.Touch.position i (W.CORE.Input.Touch.position (i + 1)) }

/-- The touch branch of `AndroidInputCallback` (source lines 1242-1322). -/
def androidTouchEvent (m : Libm) (R : Rcore) (now : ℚ) (action : Nat)
    (pointers : List AndroidPointer) (W : Machine) : Machine :=
  let W := { W with CORE.Input.Touch.pointCount := (pointers.length : Int) }
  let W :=
    forLoop 0 (min W.CORE.Input.Touch.pointCount (RAYLIB_MAX_TOUCH_POINTS : Int))
      (androidRegisterPoint pointers) W
  let flags := action &&& AMOTION_EVENT_ACTION_MASK
  let gestureEvent := androidGestureEvent R flags W
  let W := { W with gestures := ProcessGestureEvent m now gestureEvent W.gestures }
  let pointerIndex : Int :=
    (((action &&& AMOTION_EVENT_ACTION_POINTER_INDEX_MASK) >>>
      AMOTION_EVENT_ACTION_POINTER_INDEX_SHIFT : Nat) : Int)
  let W :=
    if flags = AMOTION_EVENT_ACTION_POINTER_UP ∨ flags = AMOTION_EVENT_ACTION_UP then
      let W :=
        forLoop pointerIndex
          (min (W.CORE.Input.Touch.pointCount - 1) (RAYLIB_MAX_TOUCH_POINTS : Int))
          androidShiftPoint W
      { W with CORE.Input.Touch.pointCount := W.CORE.Input.Touch.pointCount - 1 }
    else W
  let W :=
    if flags = AMOTION_EVENT_ACTION_CANCEL
    then { W with CORE.Input.Touch.pointCount := 0 }
    else W
  let W :=
    if W.CORE.Input.Touch.pointCount > 0 then
      { W with
        CORE.Input.Touch.currentTouchState :=
          Function.update W.CORE.Input.Touch.currentTouchState RAYLIB_MOUSE_BUTTON_LEFT 1 }
    else
      { W with
        CORE.Input.Touch.currentTouchState :=
          Function.update W.CORE.Input.Touch.currentTouchState RAYLIB_MOUSE_BUTTON_LEFT 0 }
  let W :=
    if flags = AMOTION_EVENT_ACTION_MOVE
    then { W with CORE.Input.Mouse.previousPosition := W.CORE.Input.Mouse.currentPosition }
    else { W with CORE.Input.Mouse.previousPosition := W.CORE.Input.Touch.position 0 }
  let W := { W with CORE.Input.Mouse.currentPosition := W.CORE.Input.Touch.position 0 }
  { W with CORE.Input.Mouse.currentWheelMove := RaylibVector2.zero }

/-- The gamepad motion branch of `AndroidInputCallback` (source lines
1121-1138): the six axis values; the d-pad buttons are not modelled. -/
def androidGamepadMotion (x y z rz brake gas : ℚ) (W : Machine) : Machine :=
  let set (axis : Int) (v : ℚ) (W : Machine) : Machine :=
    { W with
      CORE.Input.Gamepad.axisState :=
        Function.update W.CORE.Input.Gamepad.axisState 0
          (Function.update (W.CORE.Input.Gamepad.axisState 0) axis v) }
  let W := set RAYLIB_GAMEPAD_AXIS_LEFT_X x W
  let W := set RAYLIB_GAMEPAD_AXIS_LEFT_Y y W
  let W := set RAYLIB_GAMEPAD_AXIS_RIGHT_X z W
  let W := set RAYLIB_GAMEPAD_AXIS_RIGHT_Y rz W
  let W := set RAYLIB_GAMEPAD_AXIS_LEFT_TRIGGER (brake * 2 - 1) W
  set RAYLIB_GAMEPAD_AXIS_RIGHT_TRIGGER (gas * 2 - 1) W

/-- Process Android inputs (`AndroidInputCallback`). -/
def AndroidInputCallback (m : Libm) (R : Rcore) (now : ℚ) (event : AndroidEvent)
    (W : Machine) : Machine :=
  match event with
  | AndroidEvent.gamepadMotion x y z rz brake gas => androidGamepadMotion x y z rz brake gas W
  | AndroidEvent.gamepadKey => W
  | AndroidEvent.key keycode action => androidKeyEvent keycode action W
  | AndroidEvent.motion action pointers => androidTouchEvent m R now action pointers W

/-- The statements of the Android `RaylibPollInputEvents` before its event loop
(source lines 638-676). -/
def androidFrameStart (cfg : Config) (now : ℚ) (W : Machine) : Machine :=
  let W := { W with gestures := UpdateGestures now W.gestures }
  let W := { W with CORE.Input.Keyboard.keyPressedQueueCount := 0 }
  let W := resetKeyRepeat cfg.MAX_KEYBOARD_KEYS W
  let W := registerPreviousTouch W
  registerPreviousKeys 260 W

/-- Register all input events, Android (`RaylibPollInputEvents` of
`rcore_android.c`): the frame start, then `AndroidInputCallback` on every input
event the looper delivers, each with the clock reading at its processing. -/
def PollInputEventsAndroid (cfg : Config) (m : Libm) (R : Rcore) (now : ℚ)
    (events : List (ℚ × AndroidEvent)) (W : Machine) : Machine :=
  events.foldl (fun W e => AndroidInputCallback m R e.1 e.2 W) (androidFrameStart cfg now W)

/-! ## Platform layer: the desktop files (`rcore_desktop_sdl.c`, `rcore_desktop_rgfw.c`) -/

/-- The locals of `RaylibPollInputEvents` that live across its event loop,
together with the program state. -/
structure PollLocals where
  W : Machine
  touchAction : Int
  realTouch : Bool

/-- The gesture block that ends every iteration of the desktop event loops
(`rcore_desktop_sdl.c` lines 1384-1412, `rcore_desktop_rgfw.c` lines 1022-1050):
the event built when `touchAction > -1`. -/
def desktopGestureEvent (R : Rcore) (L : PollLocals) : GestureEvent :=
  let gestureEvent := GestureEvent.zero
  let gestureEvent := { gestureEvent with touchAction := L.touchAction }
  let gestureEvent := { gestureEvent with pointId := Function.update gestureEvent.pointId 0 0 }
  let gestureEvent := { gestureEvent with pointCount := 1 }
  let gestureEvent :=
    if L.touchAction = 2 ∨ L.realTouch = true
    then { gestureEvent with
      position := Function.update gestureEvent.position 0 (L.W.CORE.Input.Touch.position 0) }
    else { gestureEvent with
      position := Function.update gestureEvent.position 0 (R.RaylibGetMousePosition L.W.CORE) }
  let gestureEvent := { gestureEvent with
    position := Function.update gestureEvent.position 0
      ⟨(gestureEvent.position 0).x / (R.RaylibGetScreenWidth L.W.CORE : ℚ),
        (gestureEvent.position 0).y⟩ }
  { gestureEvent with
    position := Function.update gestureEvent.position 0
      ⟨(gestureEvent.position 0).x,
        (gestureEvent.position 0).y / (R.RaylibGetScreenHeight L.W.CORE : ℚ)⟩ }

/-- The gesture block itself: `ProcessGestureEvent` on the built event and
`touchAction = -1`, when `touchAction > -1`. -/
def desktopGesture (m : Libm) (R : Rcore) (now : ℚ) (L : PollLocals) : PollLocals :=
  if L.touchAction > -1 then
    let L := { L with
      W.gestures := ProcessGestureEvent m now (desktopGestureEvent R L) L.W.gestures }
    { L with touchAction := -1 }
  else L

/-- The exit-key test `if (currentKeyState[exitKey]) shouldClose = true`. -/
def checkExitKey (W : Machine) : Machine :=
  if W.CORE.Input.Keyboard.currentKeyState W.CORE.Input.Keyboard.exitKey ≠ 0
  then { W with CORE.Window.shouldClose := true }
  else W

/-- The key registration shared by the key-down cases of both desktop files
(`rcore_desktop_sdl.c` lines 1135-1144, `rcore_desktop_rgfw.c` lines 811-820). -/
def desktopRegisterKey (cfg : Config) (key : Int) (W : Machine) : Machine :=
  if key ≠ RAYLIB_KEY_NULL then
    let W :=
      if W.CORE.Input.Keyboard.currentKeyState key = 0 ∧
          W.CORE.Input.Keyboard.keyPressedQueueCount < cfg.MAX_KEY_PRESSED_QUEUE then
        let W := { W with
          CORE.Input.Keyboard.keyPressedQueue :=
            Function.update W.CORE.Input.Keyboard.keyPressedQueue
              W.CORE.Input.Keyboard.keyPressedQueueCount key }
        { W with
          CORE.Input.Keyboard.keyPressedQueueCount :=
            W.CORE.Input.Keyboard.keyPressedQueueCount + 1 }
      else W
    { W with
      CORE.Input.Keyboard.currentKeyState :=
        Function.update W.CORE.Input.Keyboard.currentKeyState key 1 }
  else W

/-- The key-up cases of both desktop files: `if (key != RAYLIB_KEY_NULL)
currentKeyState[key] = 0`. -/
def desktopKeyUp (key : Int) (W : Machine) : Machine :=
  if key ≠ RAYLIB_KEY_NULL then
    { W with
      CORE.Input.Keyboard.currentKeyState :=
        Function.update W.CORE.Input.Keyboard.currentKeyState key 0 }
  else W

/-- Values from the SDL2 header `SDL_gamecontroller.h`, which is not among the
sources: the controller axes. -/
def SDL_CONTROLLER_AXIS_LEFTX : Int := 0
def SDL_CONTROLLER_AXIS_LEFTY : Int := 1
def SDL_CONTROLLER_AXIS_RIGHTX : Int := 2
def SDL_CONTROLLER_AXIS_RIGHTY : Int := 3
def SDL_CONTROLLER_AXIS_TRIGGERLEFT : Int := 4
def SDL_CONTROLLER_AXIS_TRIGGERRIGHT : Int := 5

/-- One finger of an SDL touch device: `SDL_GetTouchFinger` at its index. -/
structure SDLFinger where
  id : Int
  x : ℚ
  y : ℚ

/-- The SDL events the model follows.  A finger event carries the fingers of its
touch device (`SDL_GetNumTouchFingers`, `SDL_GetTouchFinger`).  Dropped files,
text input, the other window events and joystick device and button events are
not represented: of the members the model keeps they write only the two trigger
axes, which a newly opened joystick sets to -1. -/
inductive SDLEvent where
  | quit
  | windowResized (width height : Int)
  | keyDown (scancode : Int) (rep : Bool)
  | keyUp (scancode : Int)
  | mouseButtonDown (button : Int)
  | mouseButtonUp (button : Int)
  | mouseWheel (x y : Int)
  | mouseMotion (x y xrel yrel : Int)
  | fingerDown (fingers : List SDLFinger)
  | fingerUp (fingers : List SDLFinger)
  | fingerMotion (fingers : List SDLFinger)
  | joyAxisMotion (which axis value : Int)

/-- Scancode to keycode mapping (`ConvertScancodeToKey` of `rcore_desktop_sdl.c`). -/
def ConvertScancodeToKey (sdlScancode : Int) : Int :=
  if sdlScancode ≥ 0 ∧ sdlScancode < SCANCODE_MAPPED_NUM
  then ScancodeToKey.getD sdlScancode.toNat RAYLIB_KEY_NULL
  else RAYLIB_KEY_NULL

/-- Body of the first loop of `UpdateTouchPointsSDL`: id, position scaled to the
screen, and the touch state of finger `i`. -/
def sdlRegisterFinger (fingers : List SDLFinger) (i : Int) (W : Machine) : Machine :=
  let finger := fingers.getD i.toNat ⟨0, 0, 0⟩
  let W := { W with
    CORE.Input.Touch.pointId := Function.update W.CORE.Input.Touch.pointId i finger.id }
  let W := { W with
    CORE.Input.Touch.position :=
      Function.update W.CORE.Input.Touch.position i
        ⟨finger.x * (W.CORE.Window.screen.width : ℚ), (W.CORE.Input.Touch.position i).y⟩ }
  let W := { W with
    CORE.Input.Touch.position :=
      Function.update W.CORE.Input.Touch.position i
        ⟨(W.CORE.Input.Touch.position i).x, finger.y * (W.CORE.Window.screen.height : ℚ)⟩ }
  { W with
    CORE.Input.Touch.currentTouchState :=
      Function.update W.CORE.Input.Touch.currentTouchState i 1 }

/-- The function `UpdateTouchPointsSDL` of `rcore_desktop_sdl.c`. -/
def UpdateTouchPointsSDL (fingers : List SDLFinger) (W : Machine) : Machine :=
  let W := { W with CORE.Input.Touch.pointCount := (fingers.length : Int) }
  let W := forLoop 0 W.CORE.Input.Touch.pointCount (sdlRegisterFinger fingers) W
  forLoop W.CORE.Input.Touch.pointCount (RAYLIB_MAX_TOUCH_POINTS : Int)
    (fun i W =>
      { W with
        CORE.Input.Touch.currentTouchState :=
          Function.update W.CORE.Input.Touch.currentTouchState i 0 })
    W

/-- The button index of an SDL mouse button event: `button - 1` with 1 and 2
exchanged. -/
def sdlButtonIndex (button : Int) : Int :=
  let btn := button - 1
  if btn = 2 then 1 else if btn = 1 then 2 else btn

/-- The raylib axis of an SDL controller axis, -1 when there is none. -/
def sdlAxis (axis : Int) : Int :=
  if axis = SDL_CONTROLLER_AXIS_LEFTX then RAYLIB_GAMEPAD_AXIS_LEFT_X
  else if axis = SDL_CONTROLLER_AXIS_LEFTY then RAYLIB_GAMEPAD_AXIS_LEFT_Y
  else if axis = SDL_CONTROLLER_AXIS_RIGHTX then RAYLIB_GAMEPAD_AXIS_RIGHT_X
  else if axis = SDL_CONTROLLER_AXIS_RIGHTY then RAYLIB_GAMEPAD_AXIS_RIGHT_Y
  else if axis = SDL_CONTROLLER_AXIS_TRIGGERLEFT then RAYLIB_GAMEPAD_AXIS_LEFT_TRIGGER
  else if axis = SDL_CONTROLLER_AXIS_TRIGGERRIGHT then RAYLIB_GAMEPAD_AXIS_RIGHT_TRIGGER
  else -1

/-- The case `SDL_JOYAXISMOTION` (source lines 1348-1380): the raw value divided
by 32767 is stored as the axis state; the trigger buttons are not modelled. -/
def sdlJoyAxisMotion (which axis value : Int) (W : Machine) : Machine :=
  let axis := sdlAxis axis
  if axis ≥ 0 then
    let value : ℚ := (value : ℚ) / 32767
    { W with
      CORE.Input.Gamepad.axisState :=
        Function.update W.CORE.Input.Gamepad.axisState which
          (Function.update (W.CORE.Input.Gamepad.axisState which) axis value) }
  else W

/-- The `switch` of the SDL event loop (source lines 1062-1382). -/
def sdlSwitch (cfg : Config) (cursorRelative : Bool) (event : SDLEvent) (L : PollLocals) :
    PollLocals :=
  match event with
  | SDLEvent.quit => { L with W.CORE.Window.shouldClose := true }
  | SDLEvent.windowResized width height =>
      let L := { L with W.CORE.Window.screen.width := width }
      let L := { L with W.CORE.Window.screen.height := height }
      { L with W.CORE.Window.resizedLastFrame := true }
  | SDLEvent.keyDown scancode rep =>
      let key := ConvertScancodeToKey scancode
      let L := { L with W := desktopRegisterKey cfg key L.W }
      let L :=
        if rep = true then
          { L with
            W.CORE.Input.Keyboard.keyRepeatInFrame :=
              Function.update L.W.CORE.Input.Keyboard.keyRepeatInFrame key 1 }
        else L
      { L with W := checkExitKey L.W }
  | SDLEvent.keyUp scancode =>
      { L with W := desktopKeyUp (ConvertScancodeToKey scancode) L.W }
  | SDLEvent.mouseButtonDown button =>
      let btn := sdlButtonIndex button
      let L := { L with
        W.CORE.Input.Mouse.currentButtonState :=
          Function.update L.W.CORE.Input.Mouse.currentButtonState btn 1 }
      let L := { L with
        W.CORE.Input.Touch.currentTouchState :=
          Function.update L.W.CORE.Input.Touch.currentTouchState btn 1 }
      { L with touchAction := 1 }
  | SDLEvent.mouseButtonUp button =>
      let btn := sdlButtonIndex button
      let L := { L with
        W.CORE.Input.Mouse.currentButtonState :=
          Function.update L.W.CORE.Input.Mouse.currentButtonState btn 0 }
      let L := { L with
        W.CORE.Input.Touch.currentTouchState :=
          Function.update L.W.CORE.Input.Touch.currentTouchState btn 0 }
      { L with touchAction := 0 }
  | SDLEvent.mouseWheel x y =>
      let L := { L with W.CORE.Input.Mouse.currentWheelMove.x := (x : ℚ) }
      { L with W.CORE.Input.Mouse.currentWheelMove.y := (y : ℚ) }
  | SDLEvent.mouseMotion x y xrel yrel =>
      let L :=
        if cursorRelative = true then
          let L := { L with W.CORE.Input.Mouse.currentPosition.x := (xrel : ℚ) }
          let L := { L with W.CORE.Input.Mouse.currentPosition.y := (yrel : ℚ) }
          { L with W.CORE.Input.Mouse.previousPosition := RaylibVector2.zero }
        else
          let L := { L with W.CORE.Input.Mouse.currentPosition.x := (x : ℚ) }
          { L with W.CORE.Input.Mouse.currentPosition.y := (y : ℚ) }
      let L := { L with
        W.CORE.Input.Touch.position :=
          Function.update L.W.CORE.Input.Touch.position 0 L.W.CORE.Input.Mouse.currentPosition }
      { L with touchAction := 2 }
  | SDLEvent.fingerDown fingers =>
      let L := { L with W := UpdateTouchPointsSDL fingers L.W }
      let L := { L with touchAction := 1 }
      { L with realTouch := true }
  | SDLEvent.fingerUp fingers =>
      let L := { L with W := UpdateTouchPointsSDL fingers L.W }
      let L := { L with touchAction := 0 }
      { L with realTouch := true }
  | SDLEvent.fingerMotion fingers =>
      let L := { L with W := UpdateTouchPointsSDL fingers L.W }
      let L := { L with touchAction := 2 }
      { L with realTouch := true }
  | SDLEvent.joyAxisMotion which axis value =>
      { L with W := sdlJoyAxisMotion which axis value L.W }

/-- One iteration of the SDL event loop: the `switch`, then the gesture block. -/
def sdlEvent (cfg : Config) (m : Libm) (R : Rcore) (cursorRelative : Bool) (now : ℚ)
    (event : SDLEvent) (L : PollLocals) : PollLocals :=
  desktopGesture m R now (sdlSwitch cfg cursorRelative event L)

/-- The statements of the SDL `RaylibPollInputEvents` before its event loop
(source lines 991-1057). -/
def sdlFrameStart (cfg : Config) (cursorRelative : Bool) (now : ℚ) (W : Machine) :
    PollLocals :=
  let W := { W with gestures := UpdateGestures now W.gestures }
  let W := { W with CORE.Input.Keyboard.keyPressedQueueCount := 0 }
  let W := { W with CORE.Input.Mouse.currentWheelMove.x := 0 }
  let W := { W with CORE.Input.Mouse.currentWheelMove.y := 0 }
  let W :=
    if cursorRelative = true
    then { W with CORE.Input.Mouse.currentPosition := RaylibVector2.zero }
    else { W with CORE.Input.Mouse.previousPosition := W.CORE.Input.Mouse.currentPosition }
  let W := registerPreviousTouch W
  let W := { W with
    CORE.Input.Touch.position :=
      Function.update W.CORE.Input.Touch.position 0 W.CORE.Input.Mouse.currentPosition }
  let touchAction : Int := -1
  let realTouch : Bool := false
  let W := registerPreviousKeys cfg.MAX_KEYBOARD_KEYS W
  let W := registerPreviousMouseButtons cfg W
  let W := { W with CORE.Window.resizedLastFrame := false }
  { W := W, touchAction := touchAction, realTouch := realTouch }

/-- Register all input events, SDL (`RaylibPollInputEvents` of
`rcore_desktop_sdl.c`): the frame start, then one loop iteration for every
event `SDL_PollEvent` delivers, each with the clock reading at its processing. -/
def PollInputEventsSDL (cfg : Config) (m : Libm) (R : Rcore) (cursorRelative : Bool) (now : ℚ)
    (events : List (ℚ × SDLEvent)) (W : Machine) : Machine :=
  (events.foldl (fun L e => sdlEvent cfg m R cursorRelative e.1 e.2 L)
    (sdlFrameStart cfg cursorRelative now W)).W

/-- Values and settings the RGFW file takes from the library header `RGFW.h` and
from the build, none of them among the sources: the mouse button codes, the key
conversion of `ConvertScancodeToKey` (a `switch` over RGFW key codes), whether the
file is compiled for X11, and the window's hold-mouse flag. -/
structure RGFWLib where
  RGFW_mouseLeft : Int
  RGFW_mouseMiddle : Int
  RGFW_mouseRight : Int
  RGFW_mouseScrollUp : Int
  RGFW_mouseScrollDown : Int
  ConvertScancodeToKey : Int → Int
  x11 : Bool
  holdMouse : Bool

/-- Modelled from the spec: an RGFW configuration for examples, with the button
codes 1 to 5 and key codes that are raylib keys already; `RGFW.h` is not among
the sources. -/
def specRGFW : RGFWLib :=
  { RGFW_mouseLeft := 1, RGFW_mouseMiddle := 2, RGFW_mouseRight := 3, RGFW_mouseScrollUp := 4,
    RGFW_mouseScrollDown := 5, ConvertScancodeToKey := fun k => k, x11 := false,
    holdMouse := false }

/-- The RGFW events the model follows.  A mouse button event carries its button
and scroll amount, a mouse move the window size `r.w`, `r.h`.  Dropped files and
joystick events are not represented. -/
inductive RGFWEvent where
  | quit
  | windowAttribsChange (width height : Int)
  | keyPressed (keyCode : Int)
  | keyReleased (keyCode : Int)
  | mouseButtonPressed (button : Int) (scroll : ℚ)
  | mouseButtonReleased (button : Int) (scroll : ℚ)
  | mousePosChanged (x y : Int) (rw rh : Int)

/-- The button number of an RGFW mouse button event (left 1, right 2, middle 3). -/
def rgfwButton (Lib : RGFWLib) (button : Int) : Int :=
  if button = Lib.RGFW_mouseLeft then 1
  else if button = Lib.RGFW_mouseRight then 2
  else if button = Lib.RGFW_mouseMiddle then 3
  else button

/-- The `switch` of the RGFW event loop (source lines 761-1020). -/
def rgfwSwitch (cfg : Config) (Lib : RGFWLib) (event : RGFWEvent) (L : PollLocals) :
    PollLocals :=
  match event with
  | RGFWEvent.quit => { L with W.CORE.Window.shouldClose := true }
  | RGFWEvent.windowAttribsChange width height =>
      let L := { L with W.CORE.Window.screen.width := width }
      let L := { L with W.CORE.Window.screen.height := height }
      { L with W.CORE.Window.resizedLastFrame := true }
  | RGFWEvent.keyPressed keyCode =>
      let key := Lib.ConvertScancodeToKey keyCode
      let L := { L with W := desktopRegisterKey cfg key L.W }
      { L with W := checkExitKey L.W }
  | RGFWEvent.keyReleased keyCode =>
      { L with W := desktopKeyUp (Lib.ConvertScancodeToKey keyCode) L.W }
  | RGFWEvent.mouseButtonPressed button scroll =>
      if button = Lib.RGFW_mouseScrollUp ∨ button = Lib.RGFW_mouseScrollDown then
        { L with W.CORE.Input.Mouse.currentWheelMove.y := scroll }
      else
        let btn := rgfwButton Lib button
        let L := { L with
          W.CORE.Input.Mouse.currentButtonState :=
            Function.update L.W.CORE.Input.Mouse.currentButtonState (btn - 1) 1 }
        let L := { L with
          W.CORE.Input.Touch.currentTouchState :=
            Function.update L.W.CORE.Input.Touch.currentTouchState (btn - 1) 1 }
        { L with touchAction := 1 }
  | RGFWEvent.mouseButtonReleased button scroll =>
      if button = Lib.RGFW_mouseScrollUp ∨ button = Lib.RGFW_mouseScrollDown then
        { L with W.CORE.Input.Mouse.currentWheelMove.y := scroll }
      else
        let btn := rgfwButton Lib button
        let L := { L with
          W.CORE.Input.Mouse.currentButtonState :=
            Function.update L.W.CORE.Input.Mouse.currentButtonState (btn - 1) 0 }
        let L := { L with
          W.CORE.Input.Touch.currentTouchState :=
            Function.update L.W.CORE.Input.Touch.currentTouchState (btn - 1) 0 }
        { L with touchAction := 0 }
  | RGFWEvent.mousePosChanged x y rw rh =>
      let L :=
        if Lib.holdMouse = true then
          let L := { L with W.CORE.Input.Mouse.previousPosition := RaylibVector2.zero }
          let L :=
            if (x - Int.tdiv rw 2) * 2 ≠ 0 then
              { L with
                W.CORE.Input.Mouse.previousPosition.x := L.W.CORE.Input.Mouse.currentPosition.x }
            else L
          let L :=
            if (y - Int.tdiv rh 2) * 2 ≠ 0 then
              { L with
                W.CORE.Input.Mouse.previousPosition.y := L.W.CORE.Input.Mouse.currentPosition.y }
            else L
          let L := { L with
            W.CORE.Input.Mouse.currentPosition.x := (((x - Int.tdiv rw 2) * 2 : Int) : ℚ) }
          { L with
            W.CORE.Input.Mouse.currentPosition.y := (((y - Int.tdiv rh 2) * 2 : Int) : ℚ) }
        else
          let L := { L with
            W.CORE.Input.Mouse.previousPosition := L.W.CORE.Input.Mouse.currentPosition }
          let L := { L with W.CORE.Input.Mouse.currentPosition.x := (x : ℚ) }
          { L with W.CORE.Input.Mouse.currentPosition.y := (y : ℚ) }
      let L := { L with
        W.CORE.Input.Touch.position :=
          Function.update L.W.CORE.Input.Touch.position 0 L.W.CORE.Input.Mouse.currentPosition }
      { L with touchAction := 2 }

/-- One iteration of the RGFW event loop: the `switch`, then the gesture block. -/
def rgfwEvent (cfg : Config) (m : Libm) (R : Rcore) (Lib : RGFWLib) (now : ℚ)
    (event : RGFWEvent) (L : PollLocals) : PollLocals :=
  desktopGesture m R now (rgfwSwitch cfg Lib event L)

/-- The statements of the RGFW `RaylibPollInputEvents` before its event loop
(source lines 674-743). -/
def rgfwFrameStart (cfg : Config) (Lib : RGFWLib) (now : ℚ) (W : Machine) : PollLocals :=
  let W := { W with gestures := UpdateGestures now W.gestures }
  let W := { W with CORE.Input.Keyboard.keyPressedQueueCount := 0 }
  let W := { W with CORE.Input.Mouse.currentWheelMove.x := 0 }
  let W := { W with CORE.Input.Mouse.currentWheelMove.y := 0 }
  let W := registerPreviousTouch W
  let W := { W with
    CORE.Input.Touch.position :=
      Function.update W.CORE.Input.Touch.position 0 W.CORE.Input.Mouse.currentPosition }
  let touchAction : Int := -1
  let realTouch : Bool := false
  let W := registerPreviousKeys cfg.MAX_KEYBOARD_KEYS W
  let W := registerPreviousMouseButtons cfg W
  let W := { W with CORE.Window.resizedLastFrame := false }
  let W :=
    if Lib.x11 = true then
      if Lib.holdMouse = true then
        let W := { W with CORE.Input.Mouse.previousPosition := RaylibVector2.zero }
        { W with CORE.Input.Mouse.currentPosition := RaylibVector2.zero }
      else { W with CORE.Input.Mouse.previousPosition := W.CORE.Input.Mouse.currentPosition }
    else W
  { W := W, touchAction := touchAction, realTouch := realTouch }

/-- Register all input events, RGFW (`RaylibPollInputEvents` of
`rcore_desktop_rgfw.c`): the frame start, then one loop iteration for every
event `RGFW_window_checkEvent` delivers, each with the clock reading at its
processing. -/
def PollInputEventsRGFW (cfg : Config) (m : Libm) (R : Rcore) (Lib : RGFWLib) (now : ℚ)
    (events : List (ℚ × RGFWEvent)) (W : Machine) : Machine :=
  (events.foldl (fun L e => rgfwEvent cfg m R Lib e.1 e.2 L) (rgfwFrameStart cfg Lib now W)).W

/-! ## Platform layer: the recognizer calls of a frame

For the comparison with `UpdateGestures` and `ProcessGestureEvent` these list, for
each file, the `ProcessGestureEvent` calls the events of one frame make. -/

/-- The `ProcessGestureEvent` call an Android input event makes in state `W`: a
touch event makes one, with the event built from the touch points it registered;
a key or gamepad event makes none. -/
def androidGestureCall (R : Rcore) (now : ℚ) (event : AndroidEvent) (W : Machine) :
    List Step :=
  match event with
  | AndroidEvent.motion action pointers =>
      let W := { W with CORE.Input.Touch.pointCount := (pointers.length : Int) }
      let W :=
        forLoop 0 (min W.CORE.Input.Touch.pointCount (RAYLIB_MAX_TOUCH_POINTS : Int))
          (androidRegisterPoint pointers) W
      [Step.event now (androidGestureEvent R (action &&& AMOTION_EVENT_ACTION_MASK) W)]
  | _ => []

/-- The `ProcessGestureEvent` calls of the events of an Android frame, in order,
the first event met in state `W`. -/
def androidGestureCalls (m : Libm) (R : Rcore) :
    List (ℚ × AndroidEvent) → Machine → List Step
  | [], _ => []
  | e :: es, W =>
      androidGestureCall R e.1 e.2 W ++
        androidGestureCalls m R es (AndroidInputCallback m R e.1 e.2 W)

/-- The `ProcessGestureEvent` call of the gesture block of the desktop event
loops: one when `touchAction > -1` after the `switch`, none otherwise. -/
def desktopGestureCall (R : Rcore) (now : ℚ) (L : PollLocals) : List Step :=
  if L.touchAction > -1 then [Step.event now (desktopGestureEvent R L)] else []

/-- The `ProcessGestureEvent` calls of the events of an SDL frame, in order. -/
def sdlGestureCalls (cfg : Config) (m : Libm) (R : Rcore) (cursorRelative : Bool) :
    List (ℚ × SDLEvent) → PollLocals → List Step
  | [], _ => []
  | e :: es, L =>
      desktopGestureCall R e.1 (sdlSwitch cfg cursorRelative e.2 L) ++
        sdlGestureCalls cfg m R cursorRelative es (sdlEvent cfg m R cursorRelative e.1 e.2 L)

/-- The `ProcessGestureEvent` calls of the events of an RGFW frame, in order. -/
def rgfwGestureCalls (cfg : Config) (m : Libm) (R : Rcore) (Lib : RGFWLib) :
    List (ℚ × RGFWEvent) → PollLocals → List Step
  | [], _ => []
  | e :: es, L =>
      desktopGestureCall R e.1 (rgfwSwitch cfg Lib e.2 L) ++
        rgfwGestureCalls cfg m R Lib es (rgfwEvent cfg m R Lib e.1 e.2 L)

/-- The wheel delta an SDL event carries: the `wheel.x`, `wheel.y` of a
`SDL_MOUSEWHEEL` event. -/
def sdlWheelDelta : SDLEvent → Option RaylibVector2
  | SDLEvent.mouseWheel x y => some ⟨(x : ℚ), (y : ℚ)⟩
  | _ => none

/-- The wheel delta an RGFW event carries: the `scroll` of a mouse button event
whose button is one of the two scroll buttons. -/
def rgfwWheelDelta (Lib : RGFWLib) : RGFWEvent → Option ℚ
  | RGFWEvent.mouseButtonPressed button scroll =>
      if button = Lib.RGFW_mouseScrollUp ∨ button = Lib.RGFW_mouseScrollDown
      then some scroll else none
  | RGFWEvent.mouseButtonReleased button scroll =>
      if button = Lib.RGFW_mouseScrollUp ∨ button = Lib.RGFW_mouseScrollDown
      then some scroll else none
  | _ => none

/-- The position the Android register loop stores for a pointer (source lines
1251-1257): the raw position scaled by the ratio of screen to display and moved
by half the render offset. -/
def androidScreenPosition (W : Machine) (p : AndroidPointer) : RaylibVector2 :=
  ⟨p.x * (((W.CORE.Window.screen.width + W.CORE.Window.renderOffset.x : Int) : ℚ) /
        (W.CORE.Window.display.width : ℚ)) - (W.CORE.Window.renderOffset.x : ℚ) / 2,
    p.y * (((W.CORE.Window.screen.height + W.CORE.Window.renderOffset.y : Int) : ℚ) /
        (W.CORE.Window.display.height : ℚ)) - (W.CORE.Window.renderOffset.y : ℚ) / 2⟩

/-- What an event does to the pressed-key queue: nothing, or one append below the
capacity. -/
def QueueStep (cfg : Config) (W W1 : Machine) : Prop :=
  (W1.CORE.Input.Keyboard.keyPressedQueueCount = W.CORE.Input.Keyboard.keyPressedQueueCount ∧
    W1.CORE.Input.Keyboard.keyPressedQueue = W.CORE.Input.Keyboard.keyPressedQueue) ∨
  (W.CORE.Input.Keyboard.keyPressedQueueCount < cfg.MAX_KEY_PRESSED_QUEUE ∧
    W1.CORE.Input.Keyboard.keyPressedQueueCount
      = W.CORE.Input.Keyboard.keyPressedQueueCount + 1 ∧
    ∃ key, W1.CORE.Input.Keyboard.keyPressedQueue
      = Function.update W.CORE.Input.Keyboard.keyPressedQueue
          W.CORE.Input.Keyboard.keyPressedQueueCount key)

/-- Conversion of an `int` to `unsigned int`, as applied to the `int` result of a
function when it is compared with an `unsigned int`. -/
def toUInt32 (i : Int) : Nat := (i % 2 ^ 32).toNat

/-- A `ProcessGestureEvent` call with one touch point. -/
def Step.isOnePoint : Step → Bool
  | Step.event _ ev => decide (ev.pointCount = 1)
  | Step.update _ => false
  | Step.setEnabled _ => false

/-- A `ProcessGestureEvent` call with one touch point, or an `UpdateGestures` call. -/
def Step.isOnePointOrUpdate : Step → Bool
  | Step.event _ ev => decide (ev.pointCount = 1)
  | Step.update _ => true
  | Step.setEnabled _ => false

theorem ratSqrt_mul_self (q : ℚ) (hq : 0 ≤ q) : ratSqrt (q * q) = q := by
  unfold ratSqrt
  have hn : 0 ≤ q.num := Rat.num_nonneg.mpr hq
  obtain ⟨n, hn'⟩ := Int.eq_ofNat_of_zero_le hn
  have h1 : (q * q).num = q.num * q.num := Rat.mul_self_num q
  have h2 : (q * q).den = q.den * q.den := Rat.mul_self_den q
  have hd : (q.den : ℚ) ≠ 0 := by exact_mod_cast q.den_nz
  have hq' : (n : ℚ) = q * (q.den : ℚ) := by
    have h := Rat.mul_den_eq_num q
    rw [hn'] at h
    exact_mod_cast h.symm
  rw [h1, h2, hn']
  have h3 : ((n : ℤ) * (n : ℤ)).toNat = n * n := by
    rw [← Int.natCast_mul, Int.toNat_natCast]
  have h4 : n * n * (q.den * q.den) * 2 ^ 48 = (n * q.den * 2 ^ 24) * (n * q.den * 2 ^ 24) := by
    ring
  rw [h3, h4, Nat.sqrt_eq]
  push_cast
  rw [hq', div_eq_iff (by positivity)]
  ring

theorem refLibm_exact : refLibm.Exact where
  sqrt_sq := ratSqrt_mul_self
  atan_right := by
    intro x hx
    have h : ¬ x = 0 := ne_of_gt hx
    simp [refLibm, ratAtan2Deg, atanDegUnit, h, hx]
  atan_left := by
    intro x hx
    have h : ¬ x = 0 := ne_of_lt hx
    have h2 : ¬ 0 < x := not_lt.mpr hx.le
    simp [refLibm, ratAtan2Deg, atanDegUnit, h, h2]
  atan_pos := by
    intro y hy
    have h : ¬ y = 0 := ne_of_gt hy
    simp [refLibm, ratAtan2Deg, atanDegUnit, h, hy]
  atan_neg := by
    intro y hy
    have h : ¬ y = 0 := ne_of_lt hy
    have h2 : ¬ 0 < y := not_lt.mpr hy.le
    simp [refLibm, ratAtan2Deg, atanDegUnit, h, h2]

theorem Libm.Exact.sqrt_zero {m : Libm} (hm : m.Exact) : m.sqrt 0 = 0 := by
  have h := hm.sqrt_sq 0 le_rfl
  simpa using h

/-! ## Normal forms of the transition functions

Each branch of `ProcessGestureEvent` is a chain of assignments; the lemmas
below give the resulting record field by field. -/

theorem processGestureEvent_down (m : Libm) (now : ℚ) (p : RaylibVector2) (G : GesturesData) :
    ProcessGestureEvent m now (touch1 RAYLIB_TOUCH_ACTION_DOWN p) G =
      onePointDown m now (touch1 RAYLIB_TOUCH_ACTION_DOWN p)
        { G with Touch.pointCount := 1 } := by
  simp [ProcessGestureEvent, touch1]

theorem processGestureEvent_up (m : Libm) (now : ℚ) (p : RaylibVector2) (G : GesturesData) :
    ProcessGestureEvent m now (touch1 RAYLIB_TOUCH_ACTION_UP p) G =
      onePointUp m now (touch1 RAYLIB_TOUCH_ACTION_UP p)
        { G with Touch.pointCount := 1 } := by
  simp [ProcessGestureEvent, touch1, RAYLIB_TOUCH_ACTION_UP, RAYLIB_TOUCH_ACTION_DOWN]

theorem processGestureEvent_move (m : Libm) (now : ℚ) (p : RaylibVector2) (G : GesturesData) :
    ProcessGestureEvent m now (touch1 RAYLIB_TOUCH_ACTION_MOVE p) G =
      onePointMove now (touch1 RAYLIB_TOUCH_ACTION_MOVE p)
        { G with Touch.pointCount := 1 } := by
  simp [ProcessGestureEvent, touch1, RAYLIB_TOUCH_ACTION_UP, RAYLIB_TOUCH_ACTION_DOWN,
    RAYLIB_TOUCH_ACTION_MOVE]

theorem processGestureEvent_down2 (m : Libm) (now : ℚ) (a b : RaylibVector2)
    (G : GesturesData) :
    ProcessGestureEvent m now (touch2 RAYLIB_TOUCH_ACTION_DOWN a b) G =
      twoPointDown now (touch2 RAYLIB_TOUCH_ACTION_DOWN a b)
        { G with Touch.pointCount := 2 } := by
  simp [ProcessGestureEvent, touch2]

theorem processGestureEvent_move2 (m : Libm) (now : ℚ) (a b : RaylibVector2)
    (G : GesturesData) :
    ProcessGestureEvent m now (touch2 RAYLIB_TOUCH_ACTION_MOVE a b) G =
      twoPointMove m now (touch2 RAYLIB_TOUCH_ACTION_MOVE a b)
        { G with Touch.pointCount := 2 } := by
  simp [ProcessGestureEvent, touch2, RAYLIB_TOUCH_ACTION_DOWN, RAYLIB_TOUCH_ACTION_MOVE]

theorem onePointDown_eq (m : Libm) (now : ℚ) (ev : GestureEvent) (G : GesturesData) :
    onePointDown m now ev G =
      { current :=
          if G.current = RAYLIB_GESTURE_NONE ∧ G.Touch.tapCounter + 1 ≥ 2 ∧
            now - G.Touch.eventTime < RAYLIB_TAP_TIMEOUT ∧
            rgVector2Distance m G.Touch.downPositionA (ev.position 0) < RAYLIB_DOUBLETAP_RANGE
          then RAYLIB_GESTURE_DOUBLETAP else RAYLIB_GESTURE_TAP
        enabledFlags := G.enabledFlags
        Touch :=
          { G.Touch with
            tapCounter :=
              if G.current = RAYLIB_GESTURE_NONE ∧ G.Touch.tapCounter + 1 ≥ 2 ∧
                now - G.Touch.eventTime < RAYLIB_TAP_TIMEOUT ∧
                rgVector2Distance m G.Touch.downPositionA (ev.position 0) <
                  RAYLIB_DOUBLETAP_RANGE
              then 0 else 1
            downPositionA := ev.position 0
            downDragPosition := ev.position 0
            upPosition := ev.position 0
            eventTime := now }
        Hold := G.Hold
        Drag := { G.Drag with vector := RaylibVector2.zero }
        Swipe := { startTime := now }
        Pinch := G.Pinch } := by
  unfold onePointDown
  dsimp only
  split_ifs <;> rfl

theorem onePointUp_eq (m : Libm) (now : ℚ) (ev : GestureEvent) (G : GesturesData) :
    onePointUp m now ev G =
      (let up := if G.current = RAYLIB_GESTURE_DRAG ∨ G.current = RAYLIB_GESTURE_HOLD
          then ev.position 0 else G.Touch.upPosition
       let swipe : Prop :=
          (FloatQ.div (rgVector2Distance m G.Touch.downPositionA up)
            (now - G.Swipe.startTime)).gt RAYLIB_FORCE_TO_SWIPE = true ∧
          G.current ≠ RAYLIB_GESTURE_DRAG
       { current :=
          if swipe then swipeDirection (360 - rgVector2Angle m G.Touch.downPositionA up)
          else RAYLIB_GESTURE_NONE
         enabledFlags := G.enabledFlags
         Touch :=
          { G.Touch with
            upPosition := up
            downDragPosition := RaylibVector2.zero
            pointCount := 0 }
         Hold := G.Hold
         Drag :=
          { vector := G.Drag.vector
            angle := if swipe then 360 - rgVector2Angle m G.Touch.downPositionA up else 0
            distance := if swipe then rgVector2Distance m G.Touch.downPositionA up else 0
            intensity :=
              if swipe then
                FloatQ.div (rgVector2Distance m G.Touch.downPositionA up)
                  (now - G.Swipe.startTime)
              else FloatQ.fin 0 }
         Swipe := G.Swipe
         Pinch := G.Pinch }) := by
  unfold onePointUp
  dsimp only
  split_ifs <;> rfl

theorem onePointMove_eq (now : ℚ) (ev : GestureEvent) (G : GesturesData) :
    onePointMove now ev G =
      { current :=
          if G.current = RAYLIB_GESTURE_HOLD ∧ now - G.Touch.eventTime > RAYLIB_DRAG_TIMEOUT
          then RAYLIB_GESTURE_DRAG else G.current
        enabledFlags := G.enabledFlags
        Touch :=
          { G.Touch with
            moveDownPositionA := ev.position 0
            downPositionA :=
              if G.current = RAYLIB_GESTURE_HOLD ∧ G.Hold.resetRequired = true
              then ev.position 0 else G.Touch.downPositionA
            eventTime :=
              if G.current = RAYLIB_GESTURE_HOLD ∧ now - G.Touch.eventTime > RAYLIB_DRAG_TIMEOUT
              then now else G.Touch.eventTime }
        Hold :=
          { G.Hold with
            resetRequired :=
              if G.current = RAYLIB_GESTURE_HOLD then false else G.Hold.resetRequired }
        Drag :=
          { G.Drag with
            vector :=
              ⟨(ev.position 0).x - G.Touch.downDragPosition.x,
               (ev.position 0).y - G.Touch.downDragPosition.y⟩ }
        Swipe := G.Swipe
        Pinch := G.Pinch } := by
  unfold onePointMove
  dsimp only
  split_ifs <;> first | rfl | (exfalso; simp_all)

theorem twoPointDown_eq (now : ℚ) (ev : GestureEvent) (G : GesturesData) :
    twoPointDown now ev G =
      { current := RAYLIB_GESTURE_HOLD
        enabledFlags := G.enabledFlags
        Touch :=
          { G.Touch with
            downPositionA := ev.position 0
            downPositionB := ev.position 1
            previousPositionA := ev.position 0
            previousPositionB := ev.position 1 }
        Hold := { G.Hold with timeDuration := now }
        Drag := G.Drag
        Swipe := G.Swipe
        Pinch :=
          { G.Pinch with
            vector :=
              ⟨(ev.position 1).x - (ev.position 0).x, (ev.position 1).y - (ev.position 0).y⟩ } } :=
  rfl

theorem twoPointMove_eq (m : Libm) (now : ℚ) (ev : GestureEvent) (G : GesturesData) :
    twoPointMove m now ev G =
      (let moved : Prop :=
          rgVector2Distance m G.Touch.previousPositionA (ev.position 0) ≥ RAYLIB_MINIMUM_PINCH ∨
          rgVector2Distance m G.Touch.previousPositionB (ev.position 1) ≥ RAYLIB_MINIMUM_PINCH
       { current :=
          if moved then
            if rgVector2Distance m G.Touch.previousPositionA G.Touch.previousPositionB >
                rgVector2Distance m (ev.position 0) (ev.position 1)
            then RAYLIB_GESTURE_PINCH_IN else RAYLIB_GESTURE_PINCH_OUT
          else RAYLIB_GESTURE_HOLD
         enabledFlags := G.enabledFlags
         Touch :=
          { G.Touch with
            moveDownPositionA := ev.position 0
            moveDownPositionB := ev.position 1 }
         Hold :=
          { G.Hold with timeDuration := if moved then G.Hold.timeDuration else now }
         Drag := G.Drag
         Swipe := G.Swipe
         Pinch :=
          { vector :=
              ⟨(ev.position 1).x - (ev.position 0).x, (ev.position 1).y - (ev.position 0).y⟩
            angle := 360 - rgVector2Angle m (ev.position 0) (ev.position 1)
            distance :=
              rgVector2Distance m G.Touch.moveDownPositionA G.Touch.moveDownPositionB } }) := by
  unfold twoPointMove
  dsimp only
  split_ifs <;> rfl

theorem twoPointUp_eq (G : GesturesData) :
    twoPointUp G =
      { current := RAYLIB_GESTURE_NONE
        enabledFlags := G.enabledFlags
        Touch := { G.Touch with pointCount := 0 }
        Hold := G.Hold
        Drag := G.Drag
        Swipe := G.Swipe
        Pinch := { vector := RaylibVector2.zero, angle := 0, distance := 0 } } :=
  rfl

theorem updateGestures_eq (now : ℚ) (G : GesturesData) :
    UpdateGestures now G =
      { G with
        current :=
          if (G.current = RAYLIB_GESTURE_TAP ∨ G.current = RAYLIB_GESTURE_DOUBLETAP) ∧
            G.Touch.pointCount < 2 then RAYLIB_GESTURE_HOLD
          else if G.current = RAYLIB_GESTURE_SWIPE_RIGHT ∨ G.current = RAYLIB_GESTURE_SWIPE_UP ∨
            G.current = RAYLIB_GESTURE_SWIPE_LEFT ∨ G.current = RAYLIB_GESTURE_SWIPE_DOWN
          then RAYLIB_GESTURE_NONE else G.current
        Hold :=
          { G.Hold with
            timeDuration :=
              if (G.current = RAYLIB_GESTURE_TAP ∨ G.current = RAYLIB_GESTURE_DOUBLETAP) ∧
                G.Touch.pointCount < 2 then now else G.Hold.timeDuration } } := by
  unfold UpdateGestures
  dsimp only
  split_ifs <;> first
    | rfl
    | (exfalso
       simp_all [RAYLIB_GESTURE_HOLD, RAYLIB_GESTURE_SWIPE_RIGHT, RAYLIB_GESTURE_SWIPE_UP,
         RAYLIB_GESTURE_SWIPE_LEFT, RAYLIB_GESTURE_SWIPE_DOWN])

/-- The general form of the dispatch in `ProcessGestureEvent`. -/
theorem processGestureEvent_eq (m : Libm) (now : ℚ) (ev : GestureEvent) (G : GesturesData) :
    ProcessGestureEvent m now ev G =
      if ev.pointCount = 1 then
        if ev.touchAction = RAYLIB_TOUCH_ACTION_DOWN then
          onePointDown m now ev { G with Touch.pointCount := ev.pointCount }
        else if ev.touchAction = RAYLIB_TOUCH_ACTION_UP then
          onePointUp m now ev { G with Touch.pointCount := ev.pointCount }
        else if ev.touchAction = RAYLIB_TOUCH_ACTION_MOVE then
          onePointMove now ev { G with Touch.pointCount := ev.pointCount }
        else { G with Touch.pointCount := ev.pointCount }
      else if ev.pointCount = 2 then
        if ev.touchAction = RAYLIB_TOUCH_ACTION_DOWN then
          twoPointDown now ev { G with Touch.pointCount := ev.pointCount }
        else if ev.touchAction = RAYLIB_TOUCH_ACTION_MOVE then
          twoPointMove m now ev { G with Touch.pointCount := ev.pointCount }
        else if ev.touchAction = RAYLIB_TOUCH_ACTION_UP then
          twoPointUp { G with Touch.pointCount := ev.pointCount }
        else { G with Touch.pointCount := ev.pointCount }
      else { G with Touch.pointCount := ev.pointCount } := by
  unfold ProcessGestureEvent
  dsimp only
  split_ifs <;> rfl

theorem processGestureEvent_enabledFlags (m : Libm) (now : ℚ) (ev : GestureEvent)
    (G : GesturesData) : (ProcessGestureEvent m now ev G).enabledFlags = G.enabledFlags := by
  rw [processGestureEvent_eq]
  split_ifs <;>
    simp only [onePointDown_eq, onePointUp_eq, onePointMove_eq, twoPointDown_eq,
      twoPointMove_eq, twoPointUp_eq]

theorem updateGestures_enabledFlags (now : ℚ) (G : GesturesData) :
    (UpdateGestures now G).enabledFlags = G.enabledFlags := by
  rw [updateGestures_eq]

/-! ## Query functions -/

theorem toInt32_of_lt {n : Nat} (h : n < 2 ^ 31) : toInt32 n = (n : Int) := by
  have h2 : n % 2 ^ 32 = n := Nat.mod_eq_of_lt (by omega)
  unfold toInt32
  rw [h2, if_pos h]

/-- C1. `RaylibGetGestureDetected` returns the bitwise AND of `enabledFlags` and
`current` (for every state whose `current` fits the returned `int`, as all
gesture values do): when `current` is the single gesture bit `2 ^ k`, the result
is `current` if bit `k` of `enabledFlags` is set and `RAYLIB_GESTURE_NONE` (0)
if it is cleared. -/
theorem getGestureDetected_mask (G : GesturesData) (h : G.current < 2 ^ 31) :
    RaylibGetGestureDetected G = ((G.enabledFlags &&& G.current : Nat) : Int) ∧
    (∀ k : Nat, G.current = 2 ^ k →
      (G.enabledFlags.testBit k = true → RaylibGetGestureDetected G = (G.current : Int)) ∧
      (G.enabledFlags.testBit k = false →
        RaylibGetGestureDetected G = (RAYLIB_GESTURE_NONE : Int))) := by
  have hle : G.enabledFlags &&& G.current ≤ G.current := Nat.and_le_right
  have h1 : RaylibGetGestureDetected G = ((G.enabledFlags &&& G.current : Nat) : Int) :=
    toInt32_of_lt (lt_of_le_of_lt hle h)
  refine ⟨h1, fun k hk => ⟨fun hb => ?_, fun hb => ?_⟩⟩
  · rw [h1, hk, Nat.and_two_pow, hb]
    simp
  · rw [h1, hk, Nat.and_two_pow, hb]
    simp [RAYLIB_GESTURE_NONE]

/-- Witness of C1: a HOLD (bit 2) in the initial recognizer, where all gestures
are enabled, is reported as HOLD. -/
theorem getGestureDetected_mask_witness :
    RaylibGetGestureDetected { GESTURES with current := RAYLIB_GESTURE_HOLD } =
      (RAYLIB_GESTURE_HOLD : Int) :=
  ((getGestureDetected_mask { GESTURES with current := RAYLIB_GESTURE_HOLD }
      (by decide)).2 2 (by decide)).1 (by decide)

/-! ## One-point sequences: DOWN, UpdateGestures, UP -/

theorem floatDiv_zero_not_gt (dt : ℚ) :
    (FloatQ.div 0 dt).gt RAYLIB_FORCE_TO_SWIPE = false := by
  unfold FloatQ.div
  by_cases h : dt = 0
  · simp [h, FloatQ.gt]
  · simp only [h, if_false, FloatQ.gt, zero_div, RAYLIB_FORCE_TO_SWIPE]
    norm_num

theorem floatDiv_gt_of_pos {d dt : ℚ} (hdt : 0 < dt) (h : d / dt > RAYLIB_FORCE_TO_SWIPE) :
    (FloatQ.div d dt).gt RAYLIB_FORCE_TO_SWIPE = true := by
  unfold FloatQ.div
  rw [if_neg (ne_of_gt hdt)]
  simpa [FloatQ.gt] using h

theorem rgVector2Distance_self (m : Libm) (h0 : m.sqrt 0 = 0) (p : RaylibVector2) :
    rgVector2Distance m p p = 0 := by
  simp [rgVector2Distance, h0]

theorem rgVector2Distance_of_sq (m : Libm) (hm : m.Exact) (v1 v2 : RaylibVector2) (d : ℚ)
    (hd : 0 ≤ d)
    (h : (v2.x - v1.x) * (v2.x - v1.x) + (v2.y - v1.y) * (v2.y - v1.y) = d * d) :
    rgVector2Distance m v1 v2 = d := by
  unfold rgVector2Distance
  dsimp only
  rw [h, hm.sqrt_sq d hd]

/-- State after a one-point DOWN followed by one `UpdateGestures` call. -/
theorem down_update_state (m : Libm) (G : GesturesData) (t0 tu : ℚ) (p0 : RaylibVector2) :
    (UpdateGestures tu
        (ProcessGestureEvent m t0 (touch1 RAYLIB_TOUCH_ACTION_DOWN p0) G)).current =
      RAYLIB_GESTURE_HOLD ∧
    (UpdateGestures tu
        (ProcessGestureEvent m t0 (touch1 RAYLIB_TOUCH_ACTION_DOWN p0) G)).Touch.downPositionA =
      p0 ∧
    (UpdateGestures tu
        (ProcessGestureEvent m t0 (touch1 RAYLIB_TOUCH_ACTION_DOWN p0) G)).Swipe.startTime =
      t0 ∧
    (UpdateGestures tu
        (ProcessGestureEvent m t0 (touch1 RAYLIB_TOUCH_ACTION_DOWN p0) G)).Touch.eventTime =
      t0 ∧
    (UpdateGestures tu
        (ProcessGestureEvent m t0 (touch1 RAYLIB_TOUCH_ACTION_DOWN p0) G)).Hold.timeDuration =
      tu ∧
    (UpdateGestures tu
        (ProcessGestureEvent m t0 (touch1 RAYLIB_TOUCH_ACTION_DOWN p0) G)).enabledFlags =
      G.enabledFlags := by
  rw [processGestureEvent_down, onePointDown_eq, updateGestures_eq]
  dsimp only [touch1]
  refine ⟨?_, rfl, rfl, rfl, ?_, rfl⟩
  · split_ifs <;> simp_all [RAYLIB_GESTURE_TAP, RAYLIB_GESTURE_DOUBLETAP]
  · split_ifs <;> simp_all [RAYLIB_GESTURE_TAP, RAYLIB_GESTURE_DOUBLETAP]

/-- A one-point UP processed while the gesture is HOLD. -/
theorem up_of_hold (m : Libm) (G : GesturesData) (now : ℚ) (p : RaylibVector2)
    (h : G.current = RAYLIB_GESTURE_HOLD) :
    (ProcessGestureEvent m now (touch1 RAYLIB_TOUCH_ACTION_UP p) G).current =
      (if (FloatQ.div (rgVector2Distance m G.Touch.downPositionA p)
            (now - G.Swipe.startTime)).gt RAYLIB_FORCE_TO_SWIPE = true
        then swipeDirection (360 - rgVector2Angle m G.Touch.downPositionA p)
        else RAYLIB_GESTURE_NONE) ∧
    (ProcessGestureEvent m now (touch1 RAYLIB_TOUCH_ACTION_UP p) G).Drag.angle =
      (if (FloatQ.div (rgVector2Distance m G.Touch.downPositionA p)
            (now - G.Swipe.startTime)).gt RAYLIB_FORCE_TO_SWIPE = true
        then 360 - rgVector2Angle m G.Touch.downPositionA p else 0) := by
  rw [processGestureEvent_up, onePointUp_eq]
  simp [touch1, h, RAYLIB_GESTURE_HOLD, RAYLIB_GESTURE_DRAG]

/-- The three calls DOWN at `p0`, `UpdateGestures`, UP at `p1`, from any state. -/
theorem down_update_up (m : Libm) (G : GesturesData) (t0 tu t1 : ℚ) (p0 p1 : RaylibVector2) :
    (run m G [Step.event t0 (touch1 RAYLIB_TOUCH_ACTION_DOWN p0), Step.update tu,
        Step.event t1 (touch1 RAYLIB_TOUCH_ACTION_UP p1)]).current =
      (if (FloatQ.div (rgVector2Distance m p0 p1) (t1 - t0)).gt RAYLIB_FORCE_TO_SWIPE = true
        then swipeDirection (360 - rgVector2Angle m p0 p1) else RAYLIB_GESTURE_NONE) ∧
    (run m G [Step.event t0 (touch1 RAYLIB_TOUCH_ACTION_DOWN p0), Step.update tu,
        Step.event t1 (touch1 RAYLIB_TOUCH_ACTION_UP p1)]).Drag.angle =
      (if (FloatQ.div (rgVector2Distance m p0 p1) (t1 - t0)).gt RAYLIB_FORCE_TO_SWIPE = true
        then 360 - rgVector2Angle m p0 p1 else 0) ∧
    (run m G [Step.event t0 (touch1 RAYLIB_TOUCH_ACTION_DOWN p0), Step.update tu,
        Step.event t1 (touch1 RAYLIB_TOUCH_ACTION_UP p1)]).enabledFlags = G.enabledFlags := by
  obtain ⟨hc, hA, hS, -, -, hF⟩ := down_update_state m G t0 tu p0
  have h := up_of_hold m _ t1 p1 hc
  rw [hA, hS] at h
  refine ⟨h.1, h.2, ?_⟩
  simp only [run, List.foldl, step]
  rw [processGestureEvent_enabledFlags, hF]

/-- A one-point UP processed while the gesture is neither HOLD nor DRAG and
`upPosition` still equals `downPositionA` resolves no swipe. -/
theorem up_of_tap (m : Libm) (h0 : m.sqrt 0 = 0) (G : GesturesData) (now : ℚ)
    (p : RaylibVector2) (hH : G.current ≠ RAYLIB_GESTURE_HOLD)
    (hD : G.current ≠ RAYLIB_GESTURE_DRAG) (hup : G.Touch.upPosition = G.Touch.downPositionA) :
    (ProcessGestureEvent m now (touch1 RAYLIB_TOUCH_ACTION_UP p) G).current =
      RAYLIB_GESTURE_NONE := by
  rw [processGestureEvent_up, onePointUp_eq]
  simp [hH, hD, hup, rgVector2Distance_self m h0, floatDiv_zero_not_gt]

/-- State after a one-point DOWN. -/
theorem down_state (m : Libm) (G : GesturesData) (t0 : ℚ) (p0 : RaylibVector2) :
    ((ProcessGestureEvent m t0 (touch1 RAYLIB_TOUCH_ACTION_DOWN p0) G).current =
        RAYLIB_GESTURE_TAP ∨
      (ProcessGestureEvent m t0 (touch1 RAYLIB_TOUCH_ACTION_DOWN p0) G).current =
        RAYLIB_GESTURE_DOUBLETAP) ∧
    (ProcessGestureEvent m t0 (touch1 RAYLIB_TOUCH_ACTION_DOWN p0) G).Touch.downPositionA = p0 ∧
    (ProcessGestureEvent m t0 (touch1 RAYLIB_TOUCH_ACTION_DOWN p0) G).Touch.upPosition = p0 ∧
    (ProcessGestureEvent m t0 (touch1 RAYLIB_TOUCH_ACTION_DOWN p0) G).Touch.eventTime = t0 ∧
    (ProcessGestureEvent m t0 (touch1 RAYLIB_TOUCH_ACTION_DOWN p0) G).Touch.pointCount = 1 := by
  rw [processGestureEvent_down, onePointDown_eq]
  dsimp only [touch1]
  refine ⟨?_, rfl, rfl, rfl, rfl⟩
  split_ifs
  · exact Or.inr rfl
  · exact Or.inl rfl

/-- The two calls DOWN, UP with nothing in between never resolve a swipe. -/
theorem down_up_none (m : Libm) (h0 : m.sqrt 0 = 0) (G : GesturesData) (t0 t1 : ℚ)
    (p0 p1 : RaylibVector2) :
    (run m G [Step.event t0 (touch1 RAYLIB_TOUCH_ACTION_DOWN p0),
        Step.event t1 (touch1 RAYLIB_TOUCH_ACTION_UP p1)]).current = RAYLIB_GESTURE_NONE := by
  obtain ⟨hc, hA, hU, -, -⟩ := down_state m G t0 p0
  simp only [run, List.foldl, step]
  apply up_of_tap m h0
  · rcases hc with hc | hc <;> rw [hc] <;> decide
  · rcases hc with hc | hc <;> rw [hc] <;> decide
  · rw [hA, hU]

/-! ## Angles along the axes -/

theorem rgVector2Angle_right (m : Libm) (hm : m.Exact) (v1 v2 : RaylibVector2)
    (hy : v2.y = v1.y) (hx : v1.x < v2.x) : rgVector2Angle m v1 v2 = 0 := by
  unfold rgVector2Angle
  rw [hy, sub_self, hm.atan_right _ (sub_pos.mpr hx)]
  simp

theorem rgVector2Angle_left (m : Libm) (hm : m.Exact) (v1 v2 : RaylibVector2)
    (hy : v2.y = v1.y) (hx : v2.x < v1.x) : rgVector2Angle m v1 v2 = 180 := by
  unfold rgVector2Angle
  rw [hy, sub_self, hm.atan_left _ (sub_neg.mpr hx)]
  norm_num

theorem rgVector2Angle_screenUp (m : Libm) (hm : m.Exact) (v1 v2 : RaylibVector2)
    (hx : v2.x = v1.x) (hy : v2.y < v1.y) : rgVector2Angle m v1 v2 = 270 := by
  unfold rgVector2Angle
  rw [hx, sub_self, hm.atan_neg _ (sub_neg.mpr hy)]
  norm_num

theorem rgVector2Angle_screenDown (m : Libm) (hm : m.Exact) (v1 v2 : RaylibVector2)
    (hx : v2.x = v1.x) (hy : v1.y < v2.y) : rgVector2Angle m v1 v2 = 90 := by
  unfold rgVector2Angle
  rw [hx, sub_self, hm.atan_pos _ (sub_pos.mpr hy)]
  norm_num

theorem swipeDirection_360 : swipeDirection (360 - 0) = RAYLIB_GESTURE_SWIPE_RIGHT := by
  norm_num [swipeDirection]

theorem swipeDirection_180 : swipeDirection (360 - 180) = RAYLIB_GESTURE_SWIPE_LEFT := by
  norm_num [swipeDirection]

theorem swipeDirection_90 : swipeDirection (360 - 270) = RAYLIB_GESTURE_SWIPE_UP := by
  norm_num [swipeDirection]

theorem swipeDirection_270 : swipeDirection (360 - 90) = RAYLIB_GESTURE_SWIPE_DOWN := by
  norm_num [swipeDirection]

theorem getGestureDetected_of_all (G : GesturesData) (g : Nat)
    (hF : G.enabledFlags = 0b0000001111111111) (hc : G.current = g) (hg : g < 2 ^ 10) :
    RaylibGetGestureDetected G = (g : Int) := by
  have hand : 1023 &&& g = g := by
    have h := Nat.and_pow_two_sub_one_of_lt_two_pow (x := g) (n := 10) hg
    rw [Nat.and_comm] at h
    simpa using h
  unfold RaylibGetGestureDetected
  rw [hF, hc, hand]
  exact toInt32_of_lt (by omega)

/-! ## C2: swipes by direction -/

/-- Counterexample to C2 as stated: from the initial state a one-point DOWN at
(0.5,0.5) at time 0 directly followed by a one-point UP at (0.9,0.5) at time 1
(distance 0.4 over 1 s, above `RAYLIB_FORCE_TO_SWIPE`) leaves the detected
gesture NONE, not SWIPE_RIGHT: the UP keeps `upPosition` unless the gesture is
HOLD or DRAG, so the measured distance is 0. -/
theorem swipe_without_update_counterexample :
    rgVector2Distance refLibm ⟨1 / 2, 1 / 2⟩ ⟨9 / 10, 1 / 2⟩ / (1 - 0) > RAYLIB_FORCE_TO_SWIPE ∧
    RaylibGetGestureDetected
        (run refLibm GESTURES
          [Step.event 0 (touch1 RAYLIB_TOUCH_ACTION_DOWN ⟨1 / 2, 1 / 2⟩),
           Step.event 1 (touch1 RAYLIB_TOUCH_ACTION_UP ⟨9 / 10, 1 / 2⟩)]) =
      (RAYLIB_GESTURE_NONE : Int) ∧
    RaylibGetGestureDetected
        (run refLibm GESTURES
          [Step.event 0 (touch1 RAYLIB_TOUCH_ACTION_DOWN ⟨1 / 2, 1 / 2⟩),
           Step.event 1 (touch1 RAYLIB_TOUCH_ACTION_UP ⟨9 / 10, 1 / 2⟩)]) ≠
      (RAYLIB_GESTURE_SWIPE_RIGHT : Int) := by
  have hd : rgVector2Distance refLibm ⟨1 / 2, 1 / 2⟩ ⟨9 / 10, 1 / 2⟩ = 2 / 5 :=
    rgVector2Distance_of_sq refLibm refLibm_exact _ _ (2 / 5) (by norm_num) (by norm_num)
  have hc := down_up_none refLibm refLibm_exact.sqrt_zero GESTURES 0 1 ⟨1 / 2, 1 / 2⟩
    ⟨9 / 10, 1 / 2⟩
  have hF : (run refLibm GESTURES
          [Step.event 0 (touch1 RAYLIB_TOUCH_ACTION_DOWN ⟨1 / 2, 1 / 2⟩),
           Step.event 1 (touch1 RAYLIB_TOUCH_ACTION_UP ⟨9 / 10, 1 / 2⟩)]).enabledFlags =
      0b0000001111111111 := by
    simp only [run, List.foldl, step, processGestureEvent_enabledFlags]
    rfl
  have hg := getGestureDetected_of_all _ RAYLIB_GESTURE_NONE hF hc (by decide)
  refine ⟨?_, hg, ?_⟩
  · rw [hd]
    norm_num [RAYLIB_FORCE_TO_SWIPE]
  · rw [hg]
    decide

/-- C2 (amended). Starting from the initial recognizer state, a one-point DOWN
at (0.5,0.5), one `UpdateGestures` call (which turns the TAP into HOLD) and then
a one-point UP, with the clock advancing between DOWN and UP by an interval
short enough that distance/elapsed > 0.2 (the distance is 0.4), leave the
detected gesture equal to SWIPE_RIGHT for an UP at (0.9,0.5), SWIPE_UP for
(0.5,0.1), SWIPE_LEFT for (0.1,0.5) and SWIPE_DOWN for (0.5,0.9). The maths
library is assumed exact on squares and on the axis directions. -/
theorem swipe_after_hold_cardinal (m : Libm) (hm : m.Exact) (t0 tu t1 : ℚ) (ht : t0 < t1)
    (hI : (2 / 5 : ℚ) / (t1 - t0) > RAYLIB_FORCE_TO_SWIPE) :
    RaylibGetGestureDetected
        (run m GESTURES
          [Step.event t0 (touch1 RAYLIB_TOUCH_ACTION_DOWN ⟨1 / 2, 1 / 2⟩), Step.update tu,
           Step.event t1 (touch1 RAYLIB_TOUCH_ACTION_UP ⟨9 / 10, 1 / 2⟩)]) =
      (RAYLIB_GESTURE_SWIPE_RIGHT : Int) ∧
    RaylibGetGestureDetected
        (run m GESTURES
          [Step.event t0 (touch1 RAYLIB_TOUCH_ACTION_DOWN ⟨1 / 2, 1 / 2⟩), Step.update tu,
           Step.event t1 (touch1 RAYLIB_TOUCH_ACTION_UP ⟨1 / 2, 1 / 10⟩)]) =
      (RAYLIB_GESTURE_SWIPE_UP : Int) ∧
    RaylibGetGestureDetected
        (run m GESTURES
          [Step.event t0 (touch1 RAYLIB_TOUCH_ACTION_DOWN ⟨1 / 2, 1 / 2⟩), Step.update tu,
           Step.event t1 (touch1 RAYLIB_TOUCH_ACTION_UP ⟨1 / 10, 1 / 2⟩)]) =
      (RAYLIB_GESTURE_SWIPE_LEFT : Int) ∧
    RaylibGetGestureDetected
        (run m GESTURES
          [Step.event t0 (touch1 RAYLIB_TOUCH_ACTION_DOWN ⟨1 / 2, 1 / 2⟩), Step.update tu,
           Step.event t1 (touch1 RAYLIB_TOUCH_ACTION_UP ⟨1 / 2, 9 / 10⟩)]) =
      (RAYLIB_GESTURE_SWIPE_DOWN : Int) := by
  have hgt : ∀ p1 : RaylibVector2, rgVector2Distance m ⟨1 / 2, 1 / 2⟩ p1 = 2 / 5 →
      (FloatQ.div (rgVector2Distance m ⟨1 / 2, 1 / 2⟩ p1) (t1 - t0)).gt
        RAYLIB_FORCE_TO_SWIPE = true := by
    intro p1 hp
    rw [hp]
    exact floatDiv_gt_of_pos (sub_pos.mpr ht) hI
  have key : ∀ (p1 : RaylibVector2) (g : Nat),
      rgVector2Distance m ⟨1 / 2, 1 / 2⟩ p1 = 2 / 5 →
      swipeDirection (360 - rgVector2Angle m ⟨1 / 2, 1 / 2⟩ p1) = g → g < 2 ^ 10 →
      RaylibGetGestureDetected
        (run m GESTURES
          [Step.event t0 (touch1 RAYLIB_TOUCH_ACTION_DOWN ⟨1 / 2, 1 / 2⟩), Step.update tu,
           Step.event t1 (touch1 RAYLIB_TOUCH_ACTION_UP p1)]) = (g : Int) := by
    intro p1 g hp hs hg
    obtain ⟨hc, -, hF⟩ := down_update_up m GESTURES t0 tu t1 ⟨1 / 2, 1 / 2⟩ p1
    rw [if_pos (hgt p1 hp), hs] at hc
    exact getGestureDetected_of_all _ g hF hc hg
  refine ⟨key _ _ ?_ ?_ (by decide), key _ _ ?_ ?_ (by decide), key _ _ ?_ ?_ (by decide),
    key _ _ ?_ ?_ (by decide)⟩
  · exact rgVector2Distance_of_sq m hm _ _ (2 / 5) (by norm_num) (by norm_num)
  · rw [rgVector2Angle_right m hm ⟨1 / 2, 1 / 2⟩ ⟨9 / 10, 1 / 2⟩ rfl (by norm_num)]
    exact swipeDirection_360
  · exact rgVector2Distance_of_sq m hm _ _ (2 / 5) (by norm_num) (by norm_num)
  · rw [rgVector2Angle_screenUp m hm ⟨1 / 2, 1 / 2⟩ ⟨1 / 2, 1 / 10⟩ rfl (by norm_num)]
    exact swipeDirection_90
  · exact rgVector2Distance_of_sq m hm _ _ (2 / 5) (by norm_num) (by norm_num)
  · rw [rgVector2Angle_left m hm ⟨1 / 2, 1 / 2⟩ ⟨1 / 10, 1 / 2⟩ rfl (by norm_num)]
    exact swipeDirection_180
  · exact rgVector2Distance_of_sq m hm _ _ (2 / 5) (by norm_num) (by norm_num)
  · rw [rgVector2Angle_screenDown m hm ⟨1 / 2, 1 / 2⟩ ⟨1 / 2, 9 / 10⟩ rfl (by norm_num)]
    exact swipeDirection_270

/-- Witness of C2 (amended): the concrete maths library, DOWN at time 0, the
frame update at 1/60 s and the UP at 1 s (0.4 / 1 > 0.2). -/
theorem swipe_after_hold_cardinal_witness :
    RaylibGetGestureDetected
        (run refLibm GESTURES
          [Step.event 0 (touch1 RAYLIB_TOUCH_ACTION_DOWN ⟨1 / 2, 1 / 2⟩), Step.update (1 / 60),
           Step.event 1 (touch1 RAYLIB_TOUCH_ACTION_UP ⟨9 / 10, 1 / 2⟩)]) =
      (RAYLIB_GESTURE_SWIPE_RIGHT : Int) :=
  (swipe_after_hold_cardinal refLibm refLibm_exact 0 (1 / 60) 1 (by norm_num)
    (by norm_num [RAYLIB_FORCE_TO_SWIPE])).1

/-! ## C3 and C4: taps and double taps -/

theorem run_nil (m : Libm) (G : GesturesData) : run m G [] = G := rfl

theorem run_cons (m : Libm) (G : GesturesData) (s : Step) (rest : List Step) :
    run m G (s :: rest) = run m (step m G s) rest := rfl

theorem run_append (m : Libm) (G : GesturesData) (xs ys : List Step) :
    run m G (xs ++ ys) = run m (run m G xs) ys := by
  simp [run, List.foldl_append]

/-- A one-point DOWN processed while a gesture is current is a TAP. -/
theorem down_of_ne_none (m : Libm) (G : GesturesData) (now : ℚ) (p : RaylibVector2)
    (h : G.current ≠ RAYLIB_GESTURE_NONE) :
    (ProcessGestureEvent m now (touch1 RAYLIB_TOUCH_ACTION_DOWN p) G).current =
      RAYLIB_GESTURE_TAP := by
  rw [processGestureEvent_down, onePointDown_eq]
  simp [h]

/-- A one-point DOWN processed with no tap pending is a TAP and leaves one pending. -/
theorem down_of_counter_zero (m : Libm) (G : GesturesData) (now : ℚ) (p : RaylibVector2)
    (h : G.Touch.tapCounter = 0) :
    (ProcessGestureEvent m now (touch1 RAYLIB_TOUCH_ACTION_DOWN p) G).current =
      RAYLIB_GESTURE_TAP ∧
    (ProcessGestureEvent m now (touch1 RAYLIB_TOUCH_ACTION_DOWN p) G).Touch.tapCounter = 1 := by
  rw [processGestureEvent_down, onePointDown_eq]
  simp [h]

/-- A one-point DOWN reported as TAP leaves `tapCounter = 1`. -/
theorem down_counter_of_tap (m : Libm) (G : GesturesData) (now : ℚ) (p : RaylibVector2)
    (h : (ProcessGestureEvent m now (touch1 RAYLIB_TOUCH_ACTION_DOWN p) G).current =
      RAYLIB_GESTURE_TAP) :
    (ProcessGestureEvent m now (touch1 RAYLIB_TOUCH_ACTION_DOWN p) G).Touch.tapCounter = 1 := by
  rw [processGestureEvent_down, onePointDown_eq] at h ⊢
  dsimp only at h ⊢
  split_ifs at h ⊢ with hc
  · exact absurd h (by decide)
  · rfl

/-- The double-tap branch of a one-point DOWN. -/
theorem down_doubletap (m : Libm) (G : GesturesData) (now : ℚ) (p : RaylibVector2)
    (hc : G.current = RAYLIB_GESTURE_NONE) (hn : G.Touch.tapCounter = 1)
    (ht : now - G.Touch.eventTime < RAYLIB_TAP_TIMEOUT)
    (hd : rgVector2Distance m G.Touch.downPositionA p < RAYLIB_DOUBLETAP_RANGE) :
    (ProcessGestureEvent m now (touch1 RAYLIB_TOUCH_ACTION_DOWN p) G).current =
      RAYLIB_GESTURE_DOUBLETAP := by
  rw [processGestureEvent_down, onePointDown_eq]
  simp [hc, hn, ht, touch1, hd]

/-- Counterexample to C3 as stated: from the initial state, two one-point DOWN
events at the same position at times 0 and 0.1 (0.1 < `RAYLIB_TAP_TIMEOUT`,
distance 0 < `RAYLIB_DOUBLETAP_RANGE`), all gestures enabled, are detected as
TAP, not DOUBLETAP: the second DOWN finds the gesture still TAP, not NONE. -/
theorem doubletap_without_release_counterexample :
    ((0 : ℚ) < 1 / 10 ∧ (1 / 10 : ℚ) - 0 < RAYLIB_TAP_TIMEOUT ∧
      rgVector2Distance refLibm ⟨1 / 2, 1 / 2⟩ ⟨1 / 2, 1 / 2⟩ < RAYLIB_DOUBLETAP_RANGE) ∧
    RaylibGetGestureDetected
        (run refLibm GESTURES
          [Step.event 0 (touch1 RAYLIB_TOUCH_ACTION_DOWN ⟨1 / 2, 1 / 2⟩),
           Step.event (1 / 10) (touch1 RAYLIB_TOUCH_ACTION_DOWN ⟨1 / 2, 1 / 2⟩)]) =
      (RAYLIB_GESTURE_TAP : Int) ∧
    RaylibGetGestureDetected
        (run refLibm GESTURES
          [Step.event 0 (touch1 RAYLIB_TOUCH_ACTION_DOWN ⟨1 / 2, 1 / 2⟩),
           Step.event (1 / 10) (touch1 RAYLIB_TOUCH_ACTION_DOWN ⟨1 / 2, 1 / 2⟩)]) ≠
      (RAYLIB_GESTURE_DOUBLETAP : Int) := by
  have h1 := down_of_counter_zero refLibm GESTURES 0 ⟨1 / 2, 1 / 2⟩ rfl
  have hc : (run refLibm GESTURES
          [Step.event 0 (touch1 RAYLIB_TOUCH_ACTION_DOWN ⟨1 / 2, 1 / 2⟩),
           Step.event (1 / 10) (touch1 RAYLIB_TOUCH_ACTION_DOWN ⟨1 / 2, 1 / 2⟩)]).current =
      RAYLIB_GESTURE_TAP := by
    simp only [run, List.foldl, step]
    apply down_of_ne_none
    rw [h1.1]
    decide
  have hF : (run refLibm GESTURES
          [Step.event 0 (touch1 RAYLIB_TOUCH_ACTION_DOWN ⟨1 / 2, 1 / 2⟩),
           Step.event (1 / 10) (touch1 RAYLIB_TOUCH_ACTION_DOWN ⟨1 / 2, 1 / 2⟩)]).enabledFlags =
      0b0000001111111111 := by
    simp only [run, List.foldl, step, processGestureEvent_enabledFlags]
    rfl
  have hg := getGestureDetected_of_all _ RAYLIB_GESTURE_TAP hF hc (by decide)
  refine ⟨⟨by norm_num, by norm_num [RAYLIB_TAP_TIMEOUT], ?_⟩, hg, ?_⟩
  · rw [rgVector2Distance_self refLibm refLibm_exact.sqrt_zero]
    norm_num [RAYLIB_DOUBLETAP_RANGE]
  · rw [hg]
    decide

theorem ratSqrt_zero : ratSqrt 0 = 0 := refLibm_exact.sqrt_zero

theorem touch2_position_zero (action : Int) (a b : RaylibVector2) :
    (touch2 action a b).position 0 = a := by
  simp [touch2]

theorem touch2_position_one (action : Int) (a b : RaylibVector2) :
    (touch2 action a b).position 1 = b := by
  simp [touch2]

/-- The gesture after a two-point DOWN at `(A0, B0)` followed by a two-point
MOVE to `(A1, B1)`. -/
theorem down2_move2_current (m : Libm) (G : GesturesData) (t0 t1 : ℚ)
    (A0 B0 A1 B1 : RaylibVector2) :
    (ProcessGestureEvent m t1 (touch2 RAYLIB_TOUCH_ACTION_MOVE A1 B1)
      (ProcessGestureEvent m t0 (touch2 RAYLIB_TOUCH_ACTION_DOWN A0 B0) G)).current =
      if rgVector2Distance m A0 A1 ≥ RAYLIB_MINIMUM_PINCH ∨
          rgVector2Distance m B0 B1 ≥ RAYLIB_MINIMUM_PINCH then
        if rgVector2Distance m A0 B0 > rgVector2Distance m A1 B1
        then RAYLIB_GESTURE_PINCH_IN else RAYLIB_GESTURE_PINCH_OUT
      else RAYLIB_GESTURE_HOLD := by
  rw [processGestureEvent_move2, processGestureEvent_down2, twoPointDown_eq, twoPointMove_eq]
  simp only [touch2_position_zero, touch2_position_one]

/-- C5. For a two-point DOWN at positions (A0,B0) followed by a two-point MOVE
to (A1,B1), from any state: when at least one point moved by
`RAYLIB_MINIMUM_PINCH` or more, the gesture becomes PINCH_IN if the new
inter-point distance |A1B1| is smaller than |A0B0| and PINCH_OUT if it is
larger; when both points moved by less than `RAYLIB_MINIMUM_PINCH` the gesture
is HOLD and not a pinch state. -/
theorem pinch_direction (m : Libm) (G : GesturesData) (t0 t1 : ℚ)
    (A0 B0 A1 B1 : RaylibVector2) :
    ((rgVector2Distance m A0 A1 ≥ RAYLIB_MINIMUM_PINCH ∨
        rgVector2Distance m B0 B1 ≥ RAYLIB_MINIMUM_PINCH) →
      (rgVector2Distance m A1 B1 < rgVector2Distance m A0 B0 →
        (ProcessGestureEvent m t1 (touch2 RAYLIB_TOUCH_ACTION_MOVE A1 B1)
          (ProcessGestureEvent m t0 (touch2 RAYLIB_TOUCH_ACTION_DOWN A0 B0) G)).current =
          RAYLIB_GESTURE_PINCH_IN) ∧
      (rgVector2Distance m A1 B1 > rgVector2Distance m A0 B0 →
        (ProcessGestureEvent m t1 (touch2 RAYLIB_TOUCH_ACTION_MOVE A1 B1)
          (ProcessGestureEvent m t0 (touch2 RAYLIB_TOUCH_ACTION_DOWN A0 B0) G)).current =
          RAYLIB_GESTURE_PINCH_OUT)) ∧
    (rgVector2Distance m A0 A1 < RAYLIB_MINIMUM_PINCH →
      rgVector2Distance m B0 B1 < RAYLIB_MINIMUM_PINCH →
      (ProcessGestureEvent m t1 (touch2 RAYLIB_TOUCH_ACTION_MOVE A1 B1)
        (ProcessGestureEvent m t0 (touch2 RAYLIB_TOUCH_ACTION_DOWN A0 B0) G)).current =
        RAYLIB_GESTURE_HOLD ∧
      (ProcessGestureEvent m t1 (touch2 RAYLIB_TOUCH_ACTION_MOVE A1 B1)
        (ProcessGestureEvent m t0 (touch2 RAYLIB_TOUCH_ACTION_DOWN A0 B0) G)).current ≠
        RAYLIB_GESTURE_PINCH_IN ∧
      (ProcessGestureEvent m t1 (touch2 RAYLIB_TOUCH_ACTION_MOVE A1 B1)
        (ProcessGestureEvent m t0 (touch2 RAYLIB_TOUCH_ACTION_DOWN A0 B0) G)).current ≠
        RAYLIB_GESTURE_PINCH_OUT) := by
  rw [down2_move2_current]
  refine ⟨fun hmoved => ⟨fun hin => ?_, fun hout => ?_⟩, fun hA hB => ?_⟩
  · rw [if_pos hmoved, if_pos hin]
  · rw [if_pos hmoved, if_neg (not_lt.mpr (le_of_lt hout))]
  · have hnot : ¬ (rgVector2Distance m A0 A1 ≥ RAYLIB_MINIMUM_PINCH ∨
        rgVector2Distance m B0 B1 ≥ RAYLIB_MINIMUM_PINCH) := by
      rintro (h | h)
      · exact absurd hA (not_lt.mpr h)
      · exact absurd hB (not_lt.mpr h)
    rw [if_neg hnot]
    exact ⟨rfl, by decide, by decide⟩

/-- Witness of C5: two fingers landing at (0.4,0.5) and (0.6,0.5) and moving to
(0.45,0.5) and (0.55,0.5): each moved by 0.05, the gap shrinks from 0.2 to 0.1,
and the gesture is PINCH_IN. -/
theorem pinch_direction_witness :
    (ProcessGestureEvent refLibm 1
      (touch2 RAYLIB_TOUCH_ACTION_MOVE ⟨45 / 100, 1 / 2⟩ ⟨55 / 100, 1 / 2⟩)
      (ProcessGestureEvent refLibm 0
        (touch2 RAYLIB_TOUCH_ACTION_DOWN ⟨4 / 10, 1 / 2⟩ ⟨6 / 10, 1 / 2⟩) GESTURES)).current =
      RAYLIB_GESTURE_PINCH_IN := by
  have d1 : rgVector2Distance refLibm ⟨4 / 10, 1 / 2⟩ ⟨45 / 100, 1 / 2⟩ = 5 / 100 :=
    rgVector2Distance_of_sq refLibm refLibm_exact _ _ _ (by norm_num) (by norm_num)
  have d2 : rgVector2Distance refLibm ⟨45 / 100, 1 / 2⟩ ⟨55 / 100, 1 / 2⟩ = 1 / 10 :=
    rgVector2Distance_of_sq refLibm refLibm_exact _ _ _ (by norm_num) (by norm_num)
  have d3 : rgVector2Distance refLibm ⟨4 / 10, 1 / 2⟩ ⟨6 / 10, 1 / 2⟩ = 2 / 10 :=
    rgVector2Distance_of_sq refLibm refLibm_exact _ _ _ (by norm_num) (by norm_num)
  exact ((pinch_direction refLibm GESTURES 0 1 ⟨4 / 10, 1 / 2⟩ ⟨6 / 10, 1 / 2⟩
    ⟨45 / 100, 1 / 2⟩ ⟨55 / 100, 1 / 2⟩).1
      (Or.inl (by rw [d1]; norm_num [RAYLIB_MINIMUM_PINCH]))).1
      (by rw [d2, d3]; norm_num)

/-! ## C6: the per-frame update -/

/-- C6. `UpdateGestures` changes the current gesture in exactly two cases: TAP
or DOUBLETAP with `Touch.pointCount < 2` becomes HOLD (and `Hold.timeDuration`
is set to the clock time of the call), and any of the four SWIPE values becomes
NONE; in every other state `current` is left unchanged. In particular a swipe
set by a one-point UP event reads back as NONE after the next `UpdateGestures`
call. -/
theorem updateGestures_transitions (now : ℚ) (G : GesturesData) :
    ((G.current = RAYLIB_GESTURE_TAP ∨ G.current = RAYLIB_GESTURE_DOUBLETAP) ∧
        G.Touch.pointCount < 2 →
      (UpdateGestures now G).current = RAYLIB_GESTURE_HOLD ∧
      (UpdateGestures now G).current ≠ G.current ∧
      (UpdateGestures now G).Hold.timeDuration = now) ∧
    (G.current = RAYLIB_GESTURE_SWIPE_RIGHT ∨ G.current = RAYLIB_GESTURE_SWIPE_UP ∨
        G.current = RAYLIB_GESTURE_SWIPE_LEFT ∨ G.current = RAYLIB_GESTURE_SWIPE_DOWN →
      (UpdateGestures now G).current = RAYLIB_GESTURE_NONE ∧
      (UpdateGestures now G).current ≠ G.current) ∧
    (¬ ((G.current = RAYLIB_GESTURE_TAP ∨ G.current = RAYLIB_GESTURE_DOUBLETAP) ∧
          G.Touch.pointCount < 2) →
      ¬ (G.current = RAYLIB_GESTURE_SWIPE_RIGHT ∨ G.current = RAYLIB_GESTURE_SWIPE_UP ∨
          G.current = RAYLIB_GESTURE_SWIPE_LEFT ∨ G.current = RAYLIB_GESTURE_SWIPE_DOWN) →
      (UpdateGestures now G).current = G.current) ∧
    (∀ (m : Libm) (t : ℚ) (ev : GestureEvent) (G0 : GesturesData),
      G = ProcessGestureEvent m t ev G0 → ev.pointCount = 1 →
      ev.touchAction = RAYLIB_TOUCH_ACTION_UP →
      (G.current = RAYLIB_GESTURE_SWIPE_RIGHT ∨ G.current = RAYLIB_GESTURE_SWIPE_UP ∨
        G.current = RAYLIB_GESTURE_SWIPE_LEFT ∨ G.current = RAYLIB_GESTURE_SWIPE_DOWN) →
      (UpdateGestures now G).current = RAYLIB_GESTURE_NONE) := by
  have hswipe : (G.current = RAYLIB_GESTURE_SWIPE_RIGHT ∨ G.current = RAYLIB_GESTURE_SWIPE_UP ∨
        G.current = RAYLIB_GESTURE_SWIPE_LEFT ∨ G.current = RAYLIB_GESTURE_SWIPE_DOWN) →
      (UpdateGestures now G).current = RAYLIB_GESTURE_NONE ∧
      (UpdateGestures now G).current ≠ G.current := by
    intro h
    have hnt : ¬ ((G.current = RAYLIB_GESTURE_TAP ∨ G.current = RAYLIB_GESTURE_DOUBLETAP) ∧
        G.Touch.pointCount < 2) := by
      rintro ⟨ht | ht, -⟩ <;> rcases h with h | h | h | h <;> rw [ht] at h <;>
        exact absurd h (by decide)
    have hn : G.current ≠ RAYLIB_GESTURE_NONE := by
      rcases h with h | h | h | h <;> rw [h] <;> decide
    rw [updateGestures_eq]
    dsimp only
    rw [if_neg hnt, if_pos h]
    exact ⟨rfl, fun hc => hn hc.symm⟩
  refine ⟨fun h => ?_, hswipe, fun h1 h2 => ?_, fun _ _ _ _ _ _ _ h => (hswipe h).1⟩
  · rw [updateGestures_eq]
    dsimp only
    rw [if_pos h, if_pos h]
    refine ⟨rfl, ?_, rfl⟩
    rcases h.1 with ht | ht <;> rw [ht] <;> decide
  · rw [updateGestures_eq]
    dsimp only
    rw [if_neg h1, if_neg h2]

/-- Witness of C6: the rightward swipe of DOWN, `UpdateGestures`, UP reads back
as NONE after the next `UpdateGestures` call. -/
theorem updateGestures_transitions_witness :
    (run refLibm GESTURES
        [Step.event 0 (touch1 RAYLIB_TOUCH_ACTION_DOWN ⟨1 / 2, 1 / 2⟩), Step.update (1 / 60),
         Step.event 1 (touch1 RAYLIB_TOUCH_ACTION_UP ⟨9 / 10, 1 / 2⟩)]).current =
      RAYLIB_GESTURE_SWIPE_RIGHT ∧
    (UpdateGestures (61 / 60)
      (run refLibm GESTURES
        [Step.event 0 (touch1 RAYLIB_TOUCH_ACTION_DOWN ⟨1 / 2, 1 / 2⟩), Step.update (1 / 60),
         Step.event 1 (touch1 RAYLIB_TOUCH_ACTION_UP ⟨9 / 10, 1 / 2⟩)])).current =
      RAYLIB_GESTURE_NONE := by
  have hd : rgVector2Distance refLibm ⟨1 / 2, 1 / 2⟩ ⟨9 / 10, 1 / 2⟩ = 2 / 5 :=
    rgVector2Distance_of_sq refLibm refLibm_exact _ _ (2 / 5) (by norm_num) (by norm_num)
  have hgt : (FloatQ.div (rgVector2Distance refLibm ⟨1 / 2, 1 / 2⟩ ⟨9 / 10, 1 / 2⟩)
      (1 - 0)).gt RAYLIB_FORCE_TO_SWIPE = true := by
    rw [hd]
    exact floatDiv_gt_of_pos (by norm_num) (by norm_num [RAYLIB_FORCE_TO_SWIPE])
  obtain ⟨hc, -, -⟩ := down_update_up refLibm GESTURES 0 (1 / 60) 1 ⟨1 / 2, 1 / 2⟩
    ⟨9 / 10, 1 / 2⟩
  rw [if_pos hgt, rgVector2Angle_right refLibm refLibm_exact ⟨1 / 2, 1 / 2⟩ ⟨9 / 10, 1 / 2⟩ rfl
    (by norm_num), swipeDirection_360] at hc
  exact ⟨hc, ((updateGestures_transitions (61 / 60) _).2.1 (Or.inl hc)).1⟩

/-! ## C7: hold duration -/

theorem step_keepsHold (m : Libm) (G : GesturesData) (td : ℚ) (s : Step)
    (hs : s.keepsHold td = true) (hc : G.current = RAYLIB_GESTURE_HOLD)
    (hE : G.Touch.eventTime = td) :
    (step m G s).current = RAYLIB_GESTURE_HOLD ∧
    (step m G s).Touch.eventTime = td ∧
    (step m G s).Hold.timeDuration = G.Hold.timeDuration := by
  cases s with
  | update now =>
    rw [show step m G (Step.update now) = UpdateGestures now G from rfl, updateGestures_eq]
    dsimp only
    have h1 : ¬ ((G.current = RAYLIB_GESTURE_TAP ∨ G.current = RAYLIB_GESTURE_DOUBLETAP) ∧
        G.Touch.pointCount < 2) := by
      rw [hc]
      rintro ⟨h | h, -⟩ <;> exact absurd h (by decide)
    have h2 : ¬ (G.current = RAYLIB_GESTURE_SWIPE_RIGHT ∨ G.current = RAYLIB_GESTURE_SWIPE_UP ∨
        G.current = RAYLIB_GESTURE_SWIPE_LEFT ∨ G.current = RAYLIB_GESTURE_SWIPE_DOWN) := by
      rw [hc]
      rintro (h | h | h | h) <;> exact absurd h (by decide)
    rw [if_neg h1, if_neg h2, if_neg h1]
    exact ⟨hc, hE, rfl⟩
  | setEnabled flags => simp [Step.keepsHold] at hs
  | event now ev =>
    simp only [Step.keepsHold, decide_eq_true_eq] at hs
    obtain ⟨hpc, hact, ht⟩ := hs
    rw [show step m G (Step.event now ev) = ProcessGestureEvent m now ev G from rfl,
      processGestureEvent_eq, if_pos hpc, hact, if_neg (by decide), if_neg (by decide),
      if_pos rfl, onePointMove_eq]
    dsimp only
    have hno : ¬ (G.current = RAYLIB_GESTURE_HOLD ∧
        now - G.Touch.eventTime > RAYLIB_DRAG_TIMEOUT) := by
      rintro ⟨-, h⟩
      rw [hE] at h
      exact absurd h (not_lt.mpr ht)
    rw [if_neg hno, if_neg hno]
    exact ⟨hc, hE, rfl⟩

theorem run_keepsHold (m : Libm) (td : ℚ) (mid : List Step) :
    ∀ G : GesturesData, (∀ s ∈ mid, s.keepsHold td = true) →
      G.current = RAYLIB_GESTURE_HOLD → G.Touch.eventTime = td →
      (run m G mid).current = RAYLIB_GESTURE_HOLD ∧
      (run m G mid).Touch.eventTime = td ∧
      (run m G mid).Hold.timeDuration = G.Hold.timeDuration := by
  induction mid with
  | nil => intro G _ hc hE; exact ⟨hc, hE, rfl⟩
  | cons s rest ih =>
    intro G h hc hE
    obtain ⟨h1, h2, h3⟩ := step_keepsHold m G td s (h s (List.mem_cons_self _ _)) hc hE
    obtain ⟨i1, i2, i3⟩ :=
      ih (step m G s) (fun x hx => h x (List.mem_cons_of_mem _ hx)) h1 h2
    rw [run_cons]
    exact ⟨i1, i2, i3.trans h3⟩

theorem holdDuration_of_hold (now : ℚ) (G : GesturesData)
    (h : G.current = RAYLIB_GESTURE_HOLD) :
    RaylibGetGestureHoldDuration now G = now - G.Hold.timeDuration := by
  simp [RaylibGetGestureHoldDuration, h]

/-- Counterexample to C7 as stated: from the initial state, DOWN at time 0 and
`UpdateGestures` at time 0 give HOLD; the duration read at 0.2 s is 0.2; a
one-point MOVE at 0.4 s (still before any UP) turns HOLD into DRAG and the
duration read at 0.5 s is 0, smaller than the earlier reading. -/
theorem holdDuration_drag_counterexample :
    (2 / 10 : ℚ) ≤ 5 / 10 ∧
    RaylibGetGestureHoldDuration (2 / 10)
        (run refLibm GESTURES
          [Step.event 0 (touch1 RAYLIB_TOUCH_ACTION_DOWN ⟨1 / 2, 1 / 2⟩), Step.update 0]) =
      2 / 10 ∧
    RaylibGetGestureHoldDuration (5 / 10)
        (run refLibm GESTURES
          [Step.event 0 (touch1 RAYLIB_TOUCH_ACTION_DOWN ⟨1 / 2, 1 / 2⟩), Step.update 0,
           Step.event (4 / 10) (touch1 RAYLIB_TOUCH_ACTION_MOVE ⟨6 / 10, 1 / 2⟩)]) = 0 ∧
    ¬ (RaylibGetGestureHoldDuration (2 / 10)
        (run refLibm GESTURES
          [Step.event 0 (touch1 RAYLIB_TOUCH_ACTION_DOWN ⟨1 / 2, 1 / 2⟩), Step.update 0]) ≤
      RaylibGetGestureHoldDuration (5 / 10)
        (run refLibm GESTURES
          [Step.event 0 (touch1 RAYLIB_TOUCH_ACTION_DOWN ⟨1 / 2, 1 / 2⟩), Step.update 0,
           Step.event (4 / 10) (touch1 RAYLIB_TOUCH_ACTION_MOVE ⟨6 / 10, 1 / 2⟩)])) := by
  have h1 : RaylibGetGestureHoldDuration (2 / 10)
        (run refLibm GESTURES
          [Step.event 0 (touch1 RAYLIB_TOUCH_ACTION_DOWN ⟨1 / 2, 1 / 2⟩), Step.update 0]) =
      2 / 10 := by
    simp only [run, List.foldl, step, processGestureEvent_down]
    simp only [onePointDown_eq, updateGestures_eq, GESTURES, touch1,
      RaylibGetGestureHoldDuration]
    norm_num [RAYLIB_GESTURE_NONE, RAYLIB_GESTURE_TAP, RAYLIB_GESTURE_DOUBLETAP,
      RAYLIB_GESTURE_HOLD]
  have h2 : RaylibGetGestureHoldDuration (5 / 10)
        (run refLibm GESTURES
          [Step.event 0 (touch1 RAYLIB_TOUCH_ACTION_DOWN ⟨1 / 2, 1 / 2⟩), Step.update 0,
           Step.event (4 / 10) (touch1 RAYLIB_TOUCH_ACTION_MOVE ⟨6 / 10, 1 / 2⟩)]) = 0 := by
    simp only [run, List.foldl, step, processGestureEvent_down, processGestureEvent_move]
    simp only [onePointDown_eq, onePointMove_eq, updateGestures_eq, GESTURES, touch1,
      RaylibGetGestureHoldDuration]
    norm_num [RAYLIB_GESTURE_NONE, RAYLIB_GESTURE_TAP, RAYLIB_GESTURE_DOUBLETAP,
      RAYLIB_GESTURE_HOLD, RAYLIB_GESTURE_DRAG, RAYLIB_DRAG_TIMEOUT]
  refine ⟨by norm_num, h1, h2, ?_⟩
  rw [h1, h2]
  norm_num

/-- C7 (amended). After a one-point DOWN at time td and one `UpdateGestures`
call (gesture HOLD), `RaylibGetGestureHoldDuration` increases monotonically
with the clock as long as the gesture stays HOLD: for all query times q1 <= q2,
with any `UpdateGestures` calls and any one-point MOVE events processed no
later than `RAYLIB_DRAG_TIMEOUT` after the DOWN in between, the duration read
at q1 is <= the duration read at q2 (each reading is the query time minus the
time of the first update). -/
theorem holdDuration_monotone (m : Libm) (G : GesturesData) (td tu : ℚ) (p : RaylibVector2)
    (mid1 mid2 : List Step) (q1 q2 : ℚ)
    (h1 : ∀ s ∈ mid1, s.keepsHold td = true) (h2 : ∀ s ∈ mid2, s.keepsHold td = true)
    (hq : q1 ≤ q2) :
    RaylibGetGestureHoldDuration q1
        (run m (UpdateGestures tu
          (ProcessGestureEvent m td (touch1 RAYLIB_TOUCH_ACTION_DOWN p) G)) mid1) ≤
      RaylibGetGestureHoldDuration q2
        (run m (UpdateGestures tu
          (ProcessGestureEvent m td (touch1 RAYLIB_TOUCH_ACTION_DOWN p) G)) (mid1 ++ mid2)) ∧
    RaylibGetGestureHoldDuration q1
        (run m (UpdateGestures tu
          (ProcessGestureEvent m td (touch1 RAYLIB_TOUCH_ACTION_DOWN p) G)) mid1) = q1 - tu ∧
    RaylibGetGestureHoldDuration q2
        (run m (UpdateGestures tu
          (ProcessGestureEvent m td (touch1 RAYLIB_TOUCH_ACTION_DOWN p) G)) (mid1 ++ mid2)) =
      q2 - tu := by
  obtain ⟨hc, -, -, hE, hT, -⟩ := down_update_state m G td tu p
  obtain ⟨a1, a2, a3⟩ := run_keepsHold m td mid1 _ h1 hc hE
  obtain ⟨b1, -, b3⟩ := run_keepsHold m td mid2 _ h2 a1 a2
  have e1 : RaylibGetGestureHoldDuration q1
        (run m (UpdateGestures tu
          (ProcessGestureEvent m td (touch1 RAYLIB_TOUCH_ACTION_DOWN p) G)) mid1) = q1 - tu := by
    rw [holdDuration_of_hold q1 _ a1, a3, hT]
  have e2 : RaylibGetGestureHoldDuration q2
        (run m (UpdateGestures tu
          (ProcessGestureEvent m td (touch1 RAYLIB_TOUCH_ACTION_DOWN p) G)) (mid1 ++ mid2)) =
      q2 - tu := by
    rw [run_append, holdDuration_of_hold q2 _ b1, b3, a3, hT]
  refine ⟨?_, e1, e2⟩
  rw [e1, e2]
  linarith

/-- Witness of C7 (amended): DOWN at time 0, first update at 1/60 s, a MOVE at
0.1 s, a reading at 0.15 s, another update at 0.2 s, a reading at 0.25 s. -/
theorem holdDuration_monotone_witness :
    RaylibGetGestureHoldDuration (15 / 100)
        (run refLibm (UpdateGestures (1 / 60)
          (ProcessGestureEvent refLibm 0 (touch1 RAYLIB_TOUCH_ACTION_DOWN ⟨1 / 2, 1 / 2⟩)
            GESTURES))
          [Step.event (1 / 10) (touch1 RAYLIB_TOUCH_ACTION_MOVE ⟨6 / 10, 1 / 2⟩)]) ≤
      RaylibGetGestureHoldDuration (25 / 100)
        (run refLibm (UpdateGestures (1 / 60)
          (ProcessGestureEvent refLibm 0 (touch1 RAYLIB_TOUCH_ACTION_DOWN ⟨1 / 2, 1 / 2⟩)
            GESTURES))
          ([Step.event (1 / 10) (touch1 RAYLIB_TOUCH_ACTION_MOVE ⟨6 / 10, 1 / 2⟩)] ++
            [Step.update (2 / 10)])) :=
  (holdDuration_monotone refLibm GESTURES 0 (1 / 60) ⟨1 / 2, 1 / 2⟩
    [Step.event (1 / 10) (touch1 RAYLIB_TOUCH_ACTION_MOVE ⟨6 / 10, 1 / 2⟩)]
    [Step.update (2 / 10)] (15 / 100) (25 / 100)
    (by
      intro s hs
      rw [List.mem_singleton] at hs
      subst hs
      norm_num [Step.keepsHold, touch1, RAYLIB_DRAG_TIMEOUT])
    (by
      intro s hs
      rw [List.mem_singleton] at hs
      subst hs
      rfl)
    (by norm_num)).1

/-! ## C8 and C9: swipe direction and drag angle -/

theorem swipeDirection_spec (a : ℚ) :
    ((0 ≤ a ∧ a < 30) ∨ (330 < a ∧ a < 360) → swipeDirection a = RAYLIB_GESTURE_SWIPE_RIGHT) ∧
    (30 ≤ a ∧ a ≤ 150 → swipeDirection a = RAYLIB_GESTURE_SWIPE_UP) ∧
    (150 < a ∧ a < 210 → swipeDirection a = RAYLIB_GESTURE_SWIPE_LEFT) ∧
    (210 ≤ a ∧ a ≤ 330 → swipeDirection a = RAYLIB_GESTURE_SWIPE_DOWN) ∧
    (swipeDirection a = RAYLIB_GESTURE_SWIPE_RIGHT ∨ swipeDirection a = RAYLIB_GESTURE_SWIPE_UP ∨
      swipeDirection a = RAYLIB_GESTURE_SWIPE_LEFT ∨
      swipeDirection a = RAYLIB_GESTURE_SWIPE_DOWN) := by
  unfold swipeDirection
  refine ⟨?_, ?_, ?_, ?_, ?_⟩
  · rintro (⟨-, h⟩ | ⟨h, -⟩)
    · rw [if_pos (Or.inl h)]
    · rw [if_pos (Or.inr h)]
  · rintro ⟨h1, h2⟩
    rw [if_neg (by rintro (h | h) <;> linarith), if_pos ⟨h1, h2⟩]
  · rintro ⟨h1, h2⟩
    rw [if_neg (by rintro (h | h) <;> linarith), if_neg (by rintro ⟨-, h⟩; linarith),
      if_pos ⟨h1, h2⟩]
  · rintro ⟨h1, h2⟩
    rw [if_neg (by rintro (h | h) <;> linarith), if_neg (by rintro ⟨-, h⟩; linarith),
      if_neg (by rintro ⟨-, h⟩; linarith), if_pos ⟨h1, h2⟩]
  · by_cases c1 : a < 30 ∨ a > 330
    · rw [if_pos c1]
      exact Or.inl rfl
    · rw [if_neg c1]
      rw [not_or, not_lt, not_lt] at c1
      by_cases c2 : a ≥ 30 ∧ a ≤ 150
      · rw [if_pos c2]
        exact Or.inr (Or.inl rfl)
      · rw [if_neg c2]
        by_cases c3 : a > 150 ∧ a < 210
        · rw [if_pos c3]
          exact Or.inr (Or.inr (Or.inl rfl))
        · rw [if_neg c3]
          have c4 : a ≥ 210 ∧ a ≤ 330 := by
            refine ⟨?_, c1.2⟩
            by_contra hlt
            rw [not_le] at hlt
            by_cases h150 : a ≤ 150
            · exact c2 ⟨c1.1, h150⟩
            · exact c3 ⟨not_le.mp h150, hlt⟩
          rw [if_pos c4]
          exact Or.inr (Or.inr (Or.inr rfl))

/-- A one-point UP that resolves a swipe. -/
theorem up_resolved (m : Libm) (now : ℚ) (ev : GestureEvent) (G : GesturesData)
    (hpc : ev.pointCount = 1) (hact : ev.touchAction = RAYLIB_TOUCH_ACTION_UP)
    (hI : (releaseIntensity m now ev G).gt RAYLIB_FORCE_TO_SWIPE = true)
    (hnd : G.current ≠ RAYLIB_GESTURE_DRAG) :
    (ProcessGestureEvent m now ev G).Drag.angle =
      360 - rgVector2Angle m G.Touch.downPositionA (releasePosition ev G) ∧
    (ProcessGestureEvent m now ev G).current =
      swipeDirection (360 - rgVector2Angle m G.Touch.downPositionA (releasePosition ev G)) := by
  rw [processGestureEvent_eq, if_pos hpc, hact, if_neg (by decide), if_pos rfl, onePointUp_eq]
  dsimp only
  have hsw : (FloatQ.div (rgVector2Distance m G.Touch.downPositionA
        (if G.current = RAYLIB_GESTURE_DRAG ∨ G.current = RAYLIB_GESTURE_HOLD
          then ev.position 0 else G.Touch.upPosition))
        (now - G.Swipe.startTime)).gt RAYLIB_FORCE_TO_SWIPE = true ∧
      G.current ≠ RAYLIB_GESTURE_DRAG := ⟨hI, hnd⟩
  rw [if_pos hsw, if_pos hsw]
  exact ⟨rfl, rfl⟩

/-- C8. Whenever a one-point UP resolves a swipe (the intensity it computes
exceeds `RAYLIB_FORCE_TO_SWIPE` and the gesture is not DRAG), the stored drag
angle a is 360 minus the angle from `downPositionA` to the release position,
and it decides the direction: a in [0,30) or (330,360) gives SWIPE_RIGHT, a in
[30,150] gives SWIPE_UP, a in (150,210) gives SWIPE_LEFT and a in [210,330]
gives SWIPE_DOWN; so the resolved gesture is one of the four SWIPE values and
never NONE. -/
theorem swipe_buckets (m : Libm) (now : ℚ) (ev : GestureEvent) (G : GesturesData)
    (hpc : ev.pointCount = 1) (hact : ev.touchAction = RAYLIB_TOUCH_ACTION_UP)
    (hI : (releaseIntensity m now ev G).gt RAYLIB_FORCE_TO_SWIPE = true)
    (hnd : G.current ≠ RAYLIB_GESTURE_DRAG) :
    (ProcessGestureEvent m now ev G).Drag.angle =
      360 - rgVector2Angle m G.Touch.downPositionA (releasePosition ev G) ∧
    ((0 ≤ (ProcessGestureEvent m now ev G).Drag.angle ∧
          (ProcessGestureEvent m now ev G).Drag.angle < 30) ∨
        (330 < (ProcessGestureEvent m now ev G).Drag.angle ∧
          (ProcessGestureEvent m now ev G).Drag.angle < 360) →
      (ProcessGestureEvent m now ev G).current = RAYLIB_GESTURE_SWIPE_RIGHT) ∧
    (30 ≤ (ProcessGestureEvent m now ev G).Drag.angle ∧
        (ProcessGestureEvent m now ev G).Drag.angle ≤ 150 →
      (ProcessGestureEvent m now ev G).current = RAYLIB_GESTURE_SWIPE_UP) ∧
    (150 < (ProcessGestureEvent m now ev G).Drag.angle ∧
        (ProcessGestureEvent m now ev G).Drag.angle < 210 →
      (ProcessGestureEvent m now ev G).current = RAYLIB_GESTURE_SWIPE_LEFT) ∧
    (210 ≤ (ProcessGestureEvent m now ev G).Drag.angle ∧
        (ProcessGestureEvent m now ev G).Drag.angle ≤ 330 →
      (ProcessGestureEvent m now ev G).current = RAYLIB_GESTURE_SWIPE_DOWN) ∧
    ((ProcessGestureEvent m now ev G).current = RAYLIB_GESTURE_SWIPE_RIGHT ∨
      (ProcessGestureEvent m now ev G).current = RAYLIB_GESTURE_SWIPE_UP ∨
      (ProcessGestureEvent m now ev G).current = RAYLIB_GESTURE_SWIPE_LEFT ∨
      (ProcessGestureEvent m now ev G).current = RAYLIB_GESTURE_SWIPE_DOWN) ∧
    (ProcessGestureEvent m now ev G).current ≠ RAYLIB_GESTURE_NONE := by
  obtain ⟨ha, hc⟩ := up_resolved m now ev G hpc hact hI hnd
  obtain ⟨s1, s2, s3, s4, s5⟩ :=
    swipeDirection_spec (360 - rgVector2Angle m G.Touch.downPositionA (releasePosition ev G))
  rw [ha, hc]
  refine ⟨rfl, s1, s2, s3, s4, s5, ?_⟩
  rcases s5 with h | h | h | h <;> rw [h] <;> decide

/-- Witness of C8: a HOLD at (0.5,0.5) begun at time 0 and released at
(0.5,0.1) at time 1 resolves a swipe with angle 90, SWIPE_UP. -/
theorem swipe_buckets_witness :
    (ProcessGestureEvent refLibm 1 (touch1 RAYLIB_TOUCH_ACTION_UP ⟨1 / 2, 1 / 10⟩)
      (UpdateGestures (1 / 60)
        (ProcessGestureEvent refLibm 0 (touch1 RAYLIB_TOUCH_ACTION_DOWN ⟨1 / 2, 1 / 2⟩)
          GESTURES))).Drag.angle = 90 ∧
    (ProcessGestureEvent refLibm 1 (touch1 RAYLIB_TOUCH_ACTION_UP ⟨1 / 2, 1 / 10⟩)
      (UpdateGestures (1 / 60)
        (ProcessGestureEvent refLibm 0 (touch1 RAYLIB_TOUCH_ACTION_DOWN ⟨1 / 2, 1 / 2⟩)
          GESTURES))).current = RAYLIB_GESTURE_SWIPE_UP := by
  obtain ⟨hc, hA, hS, -, -, -⟩ := down_update_state refLibm GESTURES 0 (1 / 60) ⟨1 / 2, 1 / 2⟩
  have hnd : (UpdateGestures (1 / 60)
        (ProcessGestureEvent refLibm 0 (touch1 RAYLIB_TOUCH_ACTION_DOWN ⟨1 / 2, 1 / 2⟩)
          GESTURES)).current ≠ RAYLIB_GESTURE_DRAG := by
    rw [hc]
    decide
  have hrel : releasePosition (touch1 RAYLIB_TOUCH_ACTION_UP ⟨1 / 2, 1 / 10⟩)
      (UpdateGestures (1 / 60)
        (ProcessGestureEvent refLibm 0 (touch1 RAYLIB_TOUCH_ACTION_DOWN ⟨1 / 2, 1 / 2⟩)
          GESTURES)) = ⟨1 / 2, 1 / 10⟩ := by
    unfold releasePosition
    rw [if_pos (Or.inr hc)]
    rfl
  have hd : rgVector2Distance refLibm ⟨1 / 2, 1 / 2⟩ ⟨1 / 2, 1 / 10⟩ = 2 / 5 :=
    rgVector2Distance_of_sq refLibm refLibm_exact _ _ (2 / 5) (by norm_num) (by norm_num)
  have hI : (releaseIntensity refLibm 1 (touch1 RAYLIB_TOUCH_ACTION_UP ⟨1 / 2, 1 / 10⟩)
      (UpdateGestures (1 / 60)
        (ProcessGestureEvent refLibm 0 (touch1 RAYLIB_TOUCH_ACTION_DOWN ⟨1 / 2, 1 / 2⟩)
          GESTURES))).gt RAYLIB_FORCE_TO_SWIPE = true := by
    unfold releaseIntensity
    rw [hrel, hA, hS, hd]
    exact floatDiv_gt_of_pos (by norm_num) (by norm_num [RAYLIB_FORCE_TO_SWIPE])
  have h := swipe_buckets refLibm 1 (touch1 RAYLIB_TOUCH_ACTION_UP ⟨1 / 2, 1 / 10⟩) _ rfl rfl
    hI hnd
  have ha : (ProcessGestureEvent refLibm 1 (touch1 RAYLIB_TOUCH_ACTION_UP ⟨1 / 2, 1 / 10⟩)
      (UpdateGestures (1 / 60)
        (ProcessGestureEvent refLibm 0 (touch1 RAYLIB_TOUCH_ACTION_DOWN ⟨1 / 2, 1 / 2⟩)
          GESTURES))).Drag.angle = 90 := by
    rw [h.1, hrel, hA,
      rgVector2Angle_screenUp refLibm refLibm_exact ⟨1 / 2, 1 / 2⟩ ⟨1 / 2, 1 / 10⟩ rfl
        (by norm_num)]
    norm_num
  refine ⟨ha, h.2.2.1 ?_⟩
  rw [ha]
  norm_num

theorem atanDegUnit_range (t : ℚ) (h0 : 0 ≤ t) (h1 : t ≤ 1) :
    0 ≤ atanDegUnit t ∧ atanDegUnit t ≤ 45 := by
  unfold atanDegUnit
  constructor
  · have : 0 ≤ (1 - t) * (1566 / 100) := mul_nonneg (by linarith) (by norm_num)
    exact mul_nonneg h0 (by linarith)
  · nlinarith [mul_nonneg h0 (sub_nonneg.mpr h1)]

/-- The concrete `atan2` stays within `[-180, 180]`. -/
theorem ratAtan2Deg_range (y x : ℚ) : -180 ≤ ratAtan2Deg y x ∧ ratAtan2Deg y x ≤ 180 := by
  unfold ratAtan2Deg
  by_cases h0 : x = 0 ∧ y = 0
  · rw [if_pos h0]; constructor <;> norm_num
  · rw [if_neg h0]
    by_cases hle : |y| ≤ |x|
    · rw [if_pos hle]
      have hx : 0 < |x| := by
        rcases lt_or_eq_of_le (abs_nonneg x) with h | h
        · exact h
        · exfalso
          have hx0 : x = 0 := abs_eq_zero.mp h.symm
          have hy0 : y = 0 := by
            have : |y| ≤ 0 := by rw [← h] at hle; exact hle
            exact abs_eq_zero.mp (le_antisymm this (abs_nonneg y))
          exact h0 ⟨hx0, hy0⟩
      obtain ⟨a0, a1⟩ := atanDegUnit_range (|y| / |x|) (div_nonneg (abs_nonneg y) hx.le)
        ((div_le_one hx).mpr hle)
      dsimp only
      split_ifs <;> constructor <;> linarith
    · rw [if_neg hle]
      rw [not_le] at hle
      have hy : 0 < |y| := lt_of_le_of_lt (abs_nonneg x) hle
      obtain ⟨a0, a1⟩ := atanDegUnit_range (|x| / |y|) (div_nonneg (abs_nonneg x) hy.le)
        ((div_le_one hy).mpr hle.le)
      dsimp only
      split_ifs <;> constructor <;> linarith

/-- With `atan2Deg` in `[-180, 180]`, `rgVector2Angle` lies in `[0, 360)`. -/
theorem rgVector2Angle_range (m : Libm)
    (hr : ∀ y x : ℚ, -180 ≤ m.atan2Deg y x ∧ m.atan2Deg y x ≤ 180) (v1 v2 : RaylibVector2) :
    0 ≤ rgVector2Angle m v1 v2 ∧ rgVector2Angle m v1 v2 < 360 := by
  unfold rgVector2Angle
  obtain ⟨h1, h2⟩ := hr (v2.y - v1.y) (v2.x - v1.x)
  dsimp only
  split_ifs with h
  · constructor <;> linarith
  · constructor <;> linarith

/-- With `atan2Deg` in `[-180, 180]`, the angle stored by a one-point UP that
resolves a swipe lies in `(0, 360]`: the inversion `360 - angle` of a value in
`[0, 360)`. -/
theorem up_resolved_angle_range (m : Libm)
    (hr : ∀ y x : ℚ, -180 ≤ m.atan2Deg y x ∧ m.atan2Deg y x ≤ 180)
    (now : ℚ) (ev : GestureEvent) (G : GesturesData)
    (hpc : ev.pointCount = 1) (hact : ev.touchAction = RAYLIB_TOUCH_ACTION_UP)
    (hI : (releaseIntensity m now ev G).gt RAYLIB_FORCE_TO_SWIPE = true)
    (hnd : G.current ≠ RAYLIB_GESTURE_DRAG) :
    0 < (ProcessGestureEvent m now ev G).Drag.angle ∧
    (ProcessGestureEvent m now ev G).Drag.angle ≤ 360 := by
  obtain ⟨ha, -⟩ := up_resolved m now ev G hpc hact hI hnd
  obtain ⟨h1, h2⟩ := rgVector2Angle_range m hr G.Touch.downPositionA (releasePosition ev G)
  rw [ha]
  constructor <;> linarith

theorem getGestureDragAngle_eq (G : GesturesData) :
    RaylibGetGestureDragAngle G = G.Drag.angle := rfl

/-- C9, the failing input. From the initial state, DOWN at (0.5,0.5) at time 0,
`UpdateGestures`, UP at (0.9,0.5) at time 1: a swipe pointing exactly to the
right is resolved (SWIPE_RIGHT) and the drag angle stored and returned by
`RaylibGetGestureDragAngle` is 360, not 0, so it is outside [0,360). -/
theorem dragAngle_right_swipe :
    RaylibGetGestureDetected
        (run refLibm GESTURES
          [Step.event 0 (touch1 RAYLIB_TOUCH_ACTION_DOWN ⟨1 / 2, 1 / 2⟩), Step.update (1 / 60),
           Step.event 1 (touch1 RAYLIB_TOUCH_ACTION_UP ⟨9 / 10, 1 / 2⟩)]) =
      (RAYLIB_GESTURE_SWIPE_RIGHT : Int) ∧
    RaylibGetGestureDragAngle
        (run refLibm GESTURES
          [Step.event 0 (touch1 RAYLIB_TOUCH_ACTION_DOWN ⟨1 / 2, 1 / 2⟩), Step.update (1 / 60),
           Step.event 1 (touch1 RAYLIB_TOUCH_ACTION_UP ⟨9 / 10, 1 / 2⟩)]) = 360 ∧
    ¬ (RaylibGetGestureDragAngle
        (run refLibm GESTURES
          [Step.event 0 (touch1 RAYLIB_TOUCH_ACTION_DOWN ⟨1 / 2, 1 / 2⟩), Step.update (1 / 60),
           Step.event 1 (touch1 RAYLIB_TOUCH_ACTION_UP ⟨9 / 10, 1 / 2⟩)]) < 360) := by
  have hd : rgVector2Distance refLibm ⟨1 / 2, 1 / 2⟩ ⟨9 / 10, 1 / 2⟩ = 2 / 5 :=
    rgVector2Distance_of_sq refLibm refLibm_exact _ _ (2 / 5) (by norm_num) (by norm_num)
  have hgt : (FloatQ.div (rgVector2Distance refLibm ⟨1 / 2, 1 / 2⟩ ⟨9 / 10, 1 / 2⟩)
      (1 - 0)).gt RAYLIB_FORCE_TO_SWIPE = true := by
    rw [hd]
    exact floatDiv_gt_of_pos (by norm_num) (by norm_num [RAYLIB_FORCE_TO_SWIPE])
  obtain ⟨hc, ha, hF⟩ := down_update_up refLibm GESTURES 0 (1 / 60) 1 ⟨1 / 2, 1 / 2⟩
    ⟨9 / 10, 1 / 2⟩
  rw [if_pos hgt, rgVector2Angle_right refLibm refLibm_exact ⟨1 / 2, 1 / 2⟩ ⟨9 / 10, 1 / 2⟩ rfl
    (by norm_num)] at hc ha
  rw [swipeDirection_360] at hc
  have hang : RaylibGetGestureDragAngle
        (run refLibm GESTURES
          [Step.event 0 (touch1 RAYLIB_TOUCH_ACTION_DOWN ⟨1 / 2, 1 / 2⟩), Step.update (1 / 60),
           Step.event 1 (touch1 RAYLIB_TOUCH_ACTION_UP ⟨9 / 10, 1 / 2⟩)]) = 360 := by
    rw [getGestureDragAngle_eq, ha]
    norm_num
  refine ⟨getGestureDetected_of_all _ _ hF hc (by decide), hang, ?_⟩
  rw [hang]
  norm_num

/-! ## C10: masking is not suppression -/

theorem processGestureEvent_flags (m : Libm) (now : ℚ) (ev : GestureEvent) (G : GesturesData)
    (f : Nat) :
    ProcessGestureEvent m now ev { G with enabledFlags := f } =
      { ProcessGestureEvent m now ev G with enabledFlags := f } := by
  rw [processGestureEvent_eq, processGestureEvent_eq]
  split_ifs <;>
    first
    | rfl
    | (simp only [onePointDown_eq, onePointUp_eq, onePointMove_eq, twoPointDown_eq,
        twoPointMove_eq, twoPointUp_eq])

theorem updateGestures_flags (now : ℚ) (G : GesturesData) (f : Nat) :
    UpdateGestures now { G with enabledFlags := f } =
      { UpdateGestures now G with enabledFlags := f } := by
  rw [updateGestures_eq, updateGestures_eq]

theorem run_flags (m : Libm) (steps : List Step) :
    ∀ (G : GesturesData) (f : Nat), ∃ f2 : Nat,
      run m { G with enabledFlags := f } steps =
        { run m G (steps.filter Step.isNotSetEnabled) with enabledFlags := f2 } := by
  induction steps with
  | nil => intro G f; exact ⟨f, rfl⟩
  | cons s rest ih =>
    intro G f
    cases s with
    | setEnabled flags =>
      obtain ⟨f2, h2⟩ := ih G (flags % 2 ^ 32)
      refine ⟨f2, ?_⟩
      rw [run_cons]
      simp only [List.filter, Step.isNotSetEnabled]
      exact h2
    | update now =>
      obtain ⟨f2, h2⟩ := ih (UpdateGestures now G) f
      refine ⟨f2, ?_⟩
      rw [run_cons]
      simp only [List.filter, Step.isNotSetEnabled, run_cons]
      rw [show step m { G with enabledFlags := f } (Step.update now) =
        UpdateGestures now { G with enabledFlags := f } from rfl, updateGestures_flags]
      exact h2
    | event now ev =>
      obtain ⟨f2, h2⟩ := ih (ProcessGestureEvent m now ev G) f
      refine ⟨f2, ?_⟩
      rw [run_cons]
      simp only [List.filter, Step.isNotSetEnabled, run_cons]
      rw [show step m { G with enabledFlags := f } (Step.event now ev) =
        ProcessGestureEvent m now ev { G with enabledFlags := f } from rfl,
        processGestureEvent_flags]
      exact h2

/-- C10. Masking is not suppression: `ProcessGestureEvent` and `UpdateGestures`
never read or write `enabledFlags`. Applied to a state with `enabledFlags`
replaced by any value f, each returns the state it returns otherwise with
`enabledFlags` replaced by f, for every event and clock value; so states that
differ only in `enabledFlags` are taken to states that differ only in
`enabledFlags`. Hence for every sequence of calls, the `RaylibSetGesturesEnabled`
calls in it change nothing but `enabledFlags`: the current gesture at the end is
the one obtained with those calls left out. -/
theorem masking_is_not_suppression (m : Libm) :
    (∀ (now : ℚ) (ev : GestureEvent) (G : GesturesData) (f : Nat),
      ProcessGestureEvent m now ev { G with enabledFlags := f } =
        { ProcessGestureEvent m now ev G with enabledFlags := f }) ∧
    (∀ (now : ℚ) (G : GesturesData) (f : Nat),
      UpdateGestures now { G with enabledFlags := f } =
        { UpdateGestures now G with enabledFlags := f }) ∧
    (∀ (now : ℚ) (ev : GestureEvent) (G : GesturesData),
      (ProcessGestureEvent m now ev G).enabledFlags = G.enabledFlags) ∧
    (∀ (now : ℚ) (G : GesturesData), (UpdateGestures now G).enabledFlags = G.enabledFlags) ∧
    (∀ (steps : List Step) (G : GesturesData) (f : Nat), ∃ f2 : Nat,
      run m { G with enabledFlags := f } steps =
        { run m G (steps.filter Step.isNotSetEnabled) with enabledFlags := f2 }) ∧
    (∀ (steps : List Step) (G : GesturesData),
      (run m G steps).current = (run m G (steps.filter Step.isNotSetEnabled)).current) := by
  refine ⟨processGestureEvent_flags m, updateGestures_flags, processGestureEvent_enabledFlags m,
    updateGestures_enabledFlags, fun steps => run_flags m steps, fun steps G => ?_⟩
  obtain ⟨f2, h2⟩ := run_flags m steps G G.enabledFlags
  have h3 : run m G steps =
      { run m G (steps.filter Step.isNotSetEnabled) with enabledFlags := f2 } := h2
  rw [h3]

/-! ## C11: the current gesture is always one of the eleven values -/

theorem swipeDirection_mem (a : ℚ) : swipeDirection a ∈ gestureValues := by
  rcases (swipeDirection_spec a).2.2.2.2 with h | h | h | h <;> rw [h] <;> decide

theorem processGestureEvent_current_mem (m : Libm) (now : ℚ) (ev : GestureEvent)
    (G : GesturesData) (h : G.current ∈ gestureValues) :
    (ProcessGestureEvent m now ev G).current ∈ gestureValues := by
  rw [processGestureEvent_eq]
  split_ifs <;>
    simp only [onePointDown_eq, onePointUp_eq, onePointMove_eq, twoPointDown_eq,
      twoPointMove_eq, twoPointUp_eq] <;>
    first
    | exact h
    | decide
    | (split_ifs <;> first | exact swipeDirection_mem _ | exact h | decide)

theorem updateGestures_current_mem (now : ℚ) (G : GesturesData)
    (h : G.current ∈ gestureValues) : (UpdateGestures now G).current ∈ gestureValues := by
  rw [updateGestures_eq]
  dsimp only
  split_ifs
  · decide
  · decide
  · exact h

theorem step_current_mem (m : Libm) (G : GesturesData) (s : Step)
    (h : G.current ∈ gestureValues) : (step m G s).current ∈ gestureValues := by
  cases s with
  | event now ev => exact processGestureEvent_current_mem m now ev G h
  | update now => exact updateGestures_current_mem now G h
  | setEnabled flags => exact h

theorem run_current_mem (m : Libm) (steps : List Step) :
    ∀ G : GesturesData, G.current ∈ gestureValues → (run m G steps).current ∈ gestureValues := by
  induction steps with
  | nil => intro G h; exact h
  | cons s rest ih =>
    intro G h
    rw [run_cons]
    exact ih _ (step_current_mem m G s h)

theorem gestureValues_bits (g : Nat) (h : g ∈ gestureValues) :
    g = 0 ∨ ∃ k : Nat, k < 10 ∧ g = 2 ^ k := by
  simp only [gestureValues, List.mem_cons, List.mem_singleton, List.not_mem_nil, or_false] at h
  rcases h with h | h | h | h | h | h | h | h | h | h | h
  · exact Or.inl h
  · exact Or.inr ⟨0, by decide, h⟩
  · exact Or.inr ⟨1, by decide, h⟩
  · exact Or.inr ⟨2, by decide, h⟩
  · exact Or.inr ⟨3, by decide, h⟩
  · exact Or.inr ⟨4, by decide, h⟩
  · exact Or.inr ⟨5, by decide, h⟩
  · exact Or.inr ⟨6, by decide, h⟩
  · exact Or.inr ⟨7, by decide, h⟩
  · exact Or.inr ⟨8, by decide, h⟩
  · exact Or.inr ⟨9, by decide, h⟩

/-- C11. In every state reachable from the initial state by any sequence of
`ProcessGestureEvent`, `UpdateGestures` and `RaylibSetGesturesEnabled` calls (any
maths library, any events, any clock readings), `current` is exactly one of the
eleven gesture values NONE=0, TAP=1, DOUBLETAP=2, HOLD=4, DRAG=8,
SWIPE_RIGHT=16, SWIPE_LEFT=32, SWIPE_UP=64, SWIPE_DOWN=128, PINCH_IN=256,
PINCH_OUT=512: it is 0 or a single bit below bit 10, never two gesture bits at
once and never an unknown value. -/
theorem current_is_one_gesture (m : Libm) (steps : List Step) :
    (run m GESTURES steps).current ∈
      [0, 1, 2, 4, 8, 16, 32, 64, 128, 256, 512] ∧
    (run m GESTURES steps).current ∈ gestureValues ∧
    ((run m GESTURES steps).current = 0 ∨
      ∃ k : Nat, k < 10 ∧ (run m GESTURES steps).current = 2 ^ k) := by
  have h := run_current_mem m steps GESTURES (by decide)
  exact ⟨h, h, gestureValues_bits _ h⟩

/-! ## C18, C19, C20: the three one-point branches -/

/-- C18. On a one-point DOWN processed at clock time `now`, with `tapCounter`
first incremented: the gesture becomes DOUBLETAP and `tapCounter` is reset to 0
if and only if `current` was NONE, the incremented `tapCounter` is >= 2,
`now - eventTime < RAYLIB_TAP_TIMEOUT` and the distance from `downPositionA` to
the event position is `< RAYLIB_DOUBLETAP_RANGE`; otherwise the gesture becomes
TAP with `tapCounter = 1`. In both cases `downPositionA`, `downDragPosition` and
`upPosition` become the event position, `eventTime` and `Swipe.startTime` become
`now` and the drag vector becomes zero.  `RAYLIB_TAP_TIMEOUT` is the float `0.3f`,
5033165 / 2^24, the value the `double` clock difference is compared with. -/
theorem onePointDown_behaviour (m : Libm) (now : ℚ) (ev : GestureEvent) (G : GesturesData)
    (hpc : ev.pointCount = 1) (hact : ev.touchAction = RAYLIB_TOUCH_ACTION_DOWN) :
    (((ProcessGestureEvent m now ev G).current = RAYLIB_GESTURE_DOUBLETAP ∧
        (ProcessGestureEvent m now ev G).Touch.tapCounter = 0) ↔
      (G.current = RAYLIB_GESTURE_NONE ∧ G.Touch.tapCounter + 1 ≥ 2 ∧
        now - G.Touch.eventTime < RAYLIB_TAP_TIMEOUT ∧
        rgVector2Distance m G.Touch.downPositionA (ev.position 0) < RAYLIB_DOUBLETAP_RANGE)) ∧
    (¬ (G.current = RAYLIB_GESTURE_NONE ∧ G.Touch.tapCounter + 1 ≥ 2 ∧
          now - G.Touch.eventTime < RAYLIB_TAP_TIMEOUT ∧
          rgVector2Distance m G.Touch.downPositionA (ev.position 0) <
            RAYLIB_DOUBLETAP_RANGE) →
      (ProcessGestureEvent m now ev G).current = RAYLIB_GESTURE_TAP ∧
      (ProcessGestureEvent m now ev G).Touch.tapCounter = 1) ∧
    (ProcessGestureEvent m now ev G).Touch.downPositionA = ev.position 0 ∧
    (ProcessGestureEvent m now ev G).Touch.downDragPosition = ev.position 0 ∧
    (ProcessGestureEvent m now ev G).Touch.upPosition = ev.position 0 ∧
    (ProcessGestureEvent m now ev G).Touch.eventTime = now ∧
    (ProcessGestureEvent m now ev G).Swipe.startTime = now ∧
    (ProcessGestureEvent m now ev G).Drag.vector = RaylibVector2.zero := by
  rw [processGestureEvent_eq, if_pos hpc, if_pos hact, onePointDown_eq]
  dsimp only
  refine ⟨?_, ?_, rfl, rfl, rfl, rfl, rfl, rfl⟩
  · constructor
    · rintro ⟨hc, -⟩
      by_contra hD
      rw [if_neg hD] at hc
      exact absurd hc (by decide)
    · intro hD
      rw [if_pos hD, if_pos hD]
      exact ⟨rfl, rfl⟩
  · intro hD
    rw [if_neg hD, if_neg hD]
    exact ⟨rfl, rfl⟩

/-- Witness of C18: the first DOWN on the initial recognizer is a TAP with
`tapCounter = 1`. -/
theorem onePointDown_behaviour_witness :
    (ProcessGestureEvent refLibm 0 (touch1 RAYLIB_TOUCH_ACTION_DOWN ⟨1 / 2, 1 / 2⟩)
        GESTURES).current = RAYLIB_GESTURE_TAP ∧
    (ProcessGestureEvent refLibm 0 (touch1 RAYLIB_TOUCH_ACTION_DOWN ⟨1 / 2, 1 / 2⟩)
        GESTURES).Touch.tapCounter = 1 :=
  (onePointDown_behaviour refLibm 0 (touch1 RAYLIB_TOUCH_ACTION_DOWN ⟨1 / 2, 1 / 2⟩) GESTURES
    rfl rfl).2.1 (by
      rintro ⟨-, h, -⟩
      exact absurd h (by decide))

/-- C19. On a one-point UP processed at a clock time later than
`Swipe.startTime`: `upPosition` is replaced by the event position only if
`current` was DRAG or HOLD; with intensity = distance(`downPositionA`,
`upPosition`) / (`now - Swipe.startTime`), the gesture becomes a SWIPE value if
and only if intensity > `RAYLIB_FORCE_TO_SWIPE` and `current` was not DRAG, and
otherwise becomes NONE with drag distance, intensity and angle set to zero. In
every case `downDragPosition` is reset to the origin and `Touch.pointCount` to 0. -/
theorem onePointUp_behaviour (m : Libm) (now : ℚ) (ev : GestureEvent) (G : GesturesData)
    (hpc : ev.pointCount = 1) (hact : ev.touchAction = RAYLIB_TOUCH_ACTION_UP)
    (ht : G.Swipe.startTime < now) :
    ((G.current = RAYLIB_GESTURE_DRAG ∨ G.current = RAYLIB_GESTURE_HOLD) →
      (ProcessGestureEvent m now ev G).Touch.upPosition = ev.position 0) ∧
    (¬ (G.current = RAYLIB_GESTURE_DRAG ∨ G.current = RAYLIB_GESTURE_HOLD) →
      (ProcessGestureEvent m now ev G).Touch.upPosition = G.Touch.upPosition) ∧
    ((ProcessGestureEvent m now ev G).current ∈ swipeValues ↔
      (rgVector2Distance m G.Touch.downPositionA
            (ProcessGestureEvent m now ev G).Touch.upPosition / (now - G.Swipe.startTime) >
          RAYLIB_FORCE_TO_SWIPE ∧
        G.current ≠ RAYLIB_GESTURE_DRAG)) ∧
    (¬ (rgVector2Distance m G.Touch.downPositionA
            (ProcessGestureEvent m now ev G).Touch.upPosition / (now - G.Swipe.startTime) >
          RAYLIB_FORCE_TO_SWIPE ∧
        G.current ≠ RAYLIB_GESTURE_DRAG) →
      (ProcessGestureEvent m now ev G).current = RAYLIB_GESTURE_NONE ∧
      (ProcessGestureEvent m now ev G).Drag.distance = 0 ∧
      (ProcessGestureEvent m now ev G).Drag.intensity = FloatQ.fin 0 ∧
      (ProcessGestureEvent m now ev G).Drag.angle = 0) ∧
    (ProcessGestureEvent m now ev G).Touch.downDragPosition = RaylibVector2.zero ∧
    (ProcessGestureEvent m now ev G).Touch.pointCount = 0 := by
  have hdt : ¬ now - G.Swipe.startTime = 0 := ne_of_gt (sub_pos.mpr ht)
  have hgt : ∀ d : ℚ, ((FloatQ.div d (now - G.Swipe.startTime)).gt RAYLIB_FORCE_TO_SWIPE = true ↔
      d / (now - G.Swipe.startTime) > RAYLIB_FORCE_TO_SWIPE) := by
    intro d
    unfold FloatQ.div
    rw [if_neg hdt]
    simp [FloatQ.gt]
  rw [processGestureEvent_eq, if_pos hpc, hact, if_neg (by decide), if_pos rfl, onePointUp_eq]
  dsimp only
  simp only [hgt]
  refine ⟨fun h => if_pos h, fun h => if_neg h, ?_, ?_, ?_⟩
  · constructor
    · intro hmem
      by_contra hno
      rw [if_neg hno] at hmem
      exact absurd hmem (by decide)
    · intro hyes
      rw [if_pos hyes]
      rcases (swipeDirection_spec _).2.2.2.2 with h | h | h | h <;> rw [h] <;> decide
  · intro hno
    rw [if_neg hno, if_neg hno, if_neg hno, if_neg hno]
    exact ⟨rfl, rfl, rfl, rfl⟩
  · first
    | exact ⟨rfl, rfl⟩
    | trivial

/-- Witness of C19: a TAP at (0.5,0.5) begun at time 0 and released at time 1
keeps `upPosition`, resolves no swipe and resets the touch count. -/
theorem onePointUp_behaviour_witness :
    (ProcessGestureEvent refLibm 1 (touch1 RAYLIB_TOUCH_ACTION_UP ⟨9 / 10, 1 / 2⟩)
      (ProcessGestureEvent refLibm 0 (touch1 RAYLIB_TOUCH_ACTION_DOWN ⟨1 / 2, 1 / 2⟩)
        GESTURES)).Touch.downDragPosition = RaylibVector2.zero ∧
    (ProcessGestureEvent refLibm 1 (touch1 RAYLIB_TOUCH_ACTION_UP ⟨9 / 10, 1 / 2⟩)
      (ProcessGestureEvent refLibm 0 (touch1 RAYLIB_TOUCH_ACTION_DOWN ⟨1 / 2, 1 / 2⟩)
        GESTURES)).Touch.pointCount = 0 :=
  (onePointUp_behaviour refLibm 1 (touch1 RAYLIB_TOUCH_ACTION_UP ⟨9 / 10, 1 / 2⟩)
    (ProcessGestureEvent refLibm 0 (touch1 RAYLIB_TOUCH_ACTION_DOWN ⟨1 / 2, 1 / 2⟩) GESTURES)
    rfl rfl (by
      rw [processGestureEvent_down, onePointDown_eq]
      norm_num)).2.2.2.2

/-- C20. On a one-point MOVE the current gesture changes only in one case: HOLD
becomes DRAG (and `eventTime` is refreshed to `now`) when
`now - eventTime > RAYLIB_DRAG_TIMEOUT`; for every other `current` value, and for
HOLD within the timeout, the gesture and `eventTime` are unchanged. In all cases
`moveDownPositionA` becomes the event position and the drag vector becomes
`moveDownPositionA - downDragPosition`.  `RAYLIB_DRAG_TIMEOUT` is the float `0.3f`,
5033165 / 2^24, the value the `double` clock difference is compared with. -/
theorem onePointMove_behaviour (m : Libm) (now : ℚ) (ev : GestureEvent) (G : GesturesData)
    (hpc : ev.pointCount = 1) (hact : ev.touchAction = RAYLIB_TOUCH_ACTION_MOVE) :
    (G.current = RAYLIB_GESTURE_HOLD ∧ now - G.Touch.eventTime > RAYLIB_DRAG_TIMEOUT →
      (ProcessGestureEvent m now ev G).current = RAYLIB_GESTURE_DRAG ∧
      (ProcessGestureEvent m now ev G).Touch.eventTime = now) ∧
    (¬ (G.current = RAYLIB_GESTURE_HOLD ∧ now - G.Touch.eventTime > RAYLIB_DRAG_TIMEOUT) →
      (ProcessGestureEvent m now ev G).current = G.current ∧
      (ProcessGestureEvent m now ev G).Touch.eventTime = G.Touch.eventTime) ∧
    (ProcessGestureEvent m now ev G).Touch.moveDownPositionA = ev.position 0 ∧
    (ProcessGestureEvent m now ev G).Touch.downDragPosition = G.Touch.downDragPosition ∧
    (ProcessGestureEvent m now ev G).Drag.vector =
      ⟨(ProcessGestureEvent m now ev G).Touch.moveDownPositionA.x -
          (ProcessGestureEvent m now ev G).Touch.downDragPosition.x,
        (ProcessGestureEvent m now ev G).Touch.moveDownPositionA.y -
          (ProcessGestureEvent m now ev G).Touch.downDragPosition.y⟩ := by
  rw [processGestureEvent_eq, if_pos hpc, hact, if_neg (by decide), if_neg (by decide),
    if_pos rfl, onePointMove_eq]
  dsimp only
  refine ⟨fun h => ?_, fun h => ?_, rfl, rfl, rfl⟩
  · rw [if_pos h, if_pos h]
    exact ⟨rfl, rfl⟩
  · rw [if_neg h, if_neg h]
    exact ⟨rfl, rfl⟩

/-- Witness of C20: a MOVE to (0.6,0.5) on the initial recognizer records the
position and leaves the gesture NONE. -/
theorem onePointMove_behaviour_witness :
    (ProcessGestureEvent refLibm 1 (touch1 RAYLIB_TOUCH_ACTION_MOVE ⟨6 / 10, 1 / 2⟩)
      GESTURES).Touch.moveDownPositionA = ⟨6 / 10, 1 / 2⟩ ∧
    (ProcessGestureEvent refLibm 1 (touch1 RAYLIB_TOUCH_ACTION_MOVE ⟨6 / 10, 1 / 2⟩)
      GESTURES).current = RAYLIB_GESTURE_NONE :=
  ⟨(onePointMove_behaviour refLibm 1 (touch1 RAYLIB_TOUCH_ACTION_MOVE ⟨6 / 10, 1 / 2⟩) GESTURES
      rfl rfl).2.2.1,
    ((onePointMove_behaviour refLibm 1 (touch1 RAYLIB_TOUCH_ACTION_MOVE ⟨6 / 10, 1 / 2⟩) GESTURES
      rfl rfl).2.1 (by
        rintro ⟨h, -⟩
        exact absurd h (by decide))).1⟩

/-! ## Platform layer: loops -/

theorem forLoop_nat {σ : Type} (lo : Int) (n : ℕ) (body : Int → σ → σ) (s : σ) :
    forLoop lo (lo + (n : Int)) body s
      = (List.range n).foldl (fun t (j : ℕ) => body (lo + (j : Int)) t) s := by
  unfold forLoop
  have h : (lo + (n : Int) - lo).toNat = n := by
    rw [add_sub_cancel_left]; exact Int.toNat_natCast n
  rw [h]

theorem forLoop_succ {σ : Type} (lo : Int) (n : ℕ) (body : Int → σ → σ) (s : σ) :
    forLoop lo (lo + ((n + 1 : ℕ) : Int)) body s
      = body (lo + (n : Int)) (forLoop lo (lo + (n : Int)) body s) := by
  rw [forLoop_nat, forLoop_nat, List.range_succ, List.foldl_append]
  rfl

theorem forLoop_of_le {σ : Type} (lo hi : Int) (h : hi ≤ lo) (body : Int → σ → σ) (s : σ) :
    forLoop lo hi body s = s := by
  unfold forLoop
  have h0 : (hi - lo).toNat = 0 := by
    apply Int.toNat_eq_zero.mpr; omega
  rw [h0]; rfl

theorem forLoop_cases (lo hi : Int) : hi ≤ lo ∨ ∃ n : ℕ, hi = lo + (n : Int) := by
  by_cases h : hi ≤ lo
  · exact Or.inl h
  · right
    refine ⟨(hi - lo).toNat, ?_⟩
    have : ((hi - lo).toNat : Int) = hi - lo := Int.toNat_of_nonneg (by omega)
    omega

/-- A quantity no iteration of the body changes is the same after the loop. -/
theorem forLoop_preserves {σ α : Type} (f : σ → α) (lo hi : Int) (body : Int → σ → σ) (s : σ)
    (h : ∀ i t, f (body i t) = f t) : f (forLoop lo hi body s) = f s := by
  rcases forLoop_cases lo hi with hle | ⟨n, rfl⟩
  · rw [forLoop_of_le lo hi hle]
  · induction n with
    | zero => rw [forLoop_of_le lo _ (by simp)]
    | succ n ih => rw [forLoop_succ, h, ih]

/-- A loop whose iteration `i` stores `val i` in cell `i` of an array, `val` being
read from members the loop leaves alone: afterwards the cells `lo ≤ k < hi` hold
`val k` and every other cell is as before. -/
theorem forLoop_update {σ β : Type} (get val : σ → Int → β) (lo hi : Int)
    (body : Int → σ → σ) (s : σ)
    (hget : ∀ i t k, get (body i t) k = if k = i then val t i else get t k)
    (hval : ∀ i t, val (body i t) = val t) (k : Int) :
    get (forLoop lo hi body s) k = if lo ≤ k ∧ k < hi then val s k else get s k := by
  rcases forLoop_cases lo hi with hle | ⟨n, rfl⟩
  · rw [forLoop_of_le lo hi hle, if_neg (by omega)]
  · induction n with
    | zero => rw [forLoop_of_le lo _ (by simp), if_neg (by push_cast; omega)]
    | succ n ih =>
      rw [forLoop_succ, hget, ih]
      have hv : val (forLoop lo (lo + (n : Int)) body s) = val s :=
        forLoop_preserves val lo _ body s hval
      rw [hv]
      by_cases hk : k = lo + (n : Int)
      · rw [if_pos hk, if_pos (by push_cast; omega), hk]
      · rw [if_neg hk]
        by_cases hk2 : lo ≤ k ∧ k < lo + (n : Int)
        · rw [if_pos hk2, if_pos (by push_cast; omega)]
        · rw [if_neg hk2, if_neg (by push_cast; omega)]

/-! ## Platform layer: the frame-start loops in closed form -/

theorem registerPreviousKeys_previousKeyState (n : Int) (W : Machine) (k : Int) :
    (registerPreviousKeys n W).CORE.Input.Keyboard.previousKeyState k
      = if 0 ≤ k ∧ k < n then W.CORE.Input.Keyboard.currentKeyState k
        else W.CORE.Input.Keyboard.previousKeyState k := by
  unfold registerPreviousKeys
  refine forLoop_update (fun W => W.CORE.Input.Keyboard.previousKeyState)
    (fun W => W.CORE.Input.Keyboard.currentKeyState) 0 n _ W ?_ ?_ k
  · intro i t k
    dsimp only
    by_cases hk : k = i
    · rw [if_pos hk, hk, Function.update_same]
    · rw [if_neg hk, Function.update_noteq hk]
  · intro i t
    rfl

theorem registerPreviousKeys_keyRepeatInFrame (n : Int) (W : Machine) (k : Int) :
    (registerPreviousKeys n W).CORE.Input.Keyboard.keyRepeatInFrame k
      = if 0 ≤ k ∧ k < n then 0 else W.CORE.Input.Keyboard.keyRepeatInFrame k := by
  unfold registerPreviousKeys
  refine forLoop_update (fun W => W.CORE.Input.Keyboard.keyRepeatInFrame)
    (fun _ _ => 0) 0 n _ W ?_ ?_ k
  · intro i t k
    dsimp only
    by_cases hk : k = i
    · rw [if_pos hk, hk, Function.update_same]
    · rw [if_neg hk, Function.update_noteq hk]
  · intro i t
    rfl

theorem registerPreviousKeys_preserves {α : Type} (f : Machine → α)
    (h1 : ∀ W v, f { W with CORE.Input.Keyboard.previousKeyState := v } = f W)
    (h2 : ∀ W v, f { W with CORE.Input.Keyboard.keyRepeatInFrame := v } = f W)
    (n : Int) (W : Machine) : f (registerPreviousKeys n W) = f W :=
  forLoop_preserves f 0 n _ W (fun _ _ => (h2 _ _).trans (h1 _ _))

theorem registerPreviousTouch_preserves {α : Type} (f : Machine → α)
    (h : ∀ W v, f { W with CORE.Input.Touch.previousTouchState := v } = f W)
    (W : Machine) : f (registerPreviousTouch W) = f W :=
  forLoop_preserves f 0 _ _ W (fun _ _ => h _ _)

theorem registerPreviousMouseButtons_preserves {α : Type} (f : Machine → α)
    (h : ∀ W v, f { W with CORE.Input.Mouse.previousButtonState := v } = f W)
    (cfg : Config) (W : Machine) : f (registerPreviousMouseButtons cfg W) = f W :=
  forLoop_preserves f 0 _ _ W (fun _ _ => h _ _)

theorem resetKeyRepeat_preserves {α : Type} (f : Machine → α)
    (h : ∀ W v, f { W with CORE.Input.Keyboard.keyRepeatInFrame := v } = f W)
    (n : Int) (W : Machine) : f (resetKeyRepeat n W) = f W :=
  forLoop_preserves f 0 _ _ W (fun _ _ => h _ _)

/-! ## Platform layer: the Android frame start and key events -/

theorem androidFrameStart_gestures (cfg : Config) (now : ℚ) (W : Machine) :
    (androidFrameStart cfg now W).gestures = UpdateGestures now W.gestures := by
  unfold androidFrameStart
  dsimp only
  rw [registerPreviousKeys_preserves (fun W => W.gestures) (fun _ _ => rfl) (fun _ _ => rfl),
    registerPreviousTouch_preserves (fun W => W.gestures) (fun _ _ => rfl),
    resetKeyRepeat_preserves (fun W => W.gestures) (fun _ _ => rfl)]

theorem androidFrameStart_currentKeyState (cfg : Config) (now : ℚ) (W : Machine) :
    (androidFrameStart cfg now W).CORE.Input.Keyboard.currentKeyState
      = W.CORE.Input.Keyboard.currentKeyState := by
  unfold androidFrameStart
  dsimp only
  rw [registerPreviousKeys_preserves (fun W => W.CORE.Input.Keyboard.currentKeyState)
      (fun _ _ => rfl) (fun _ _ => rfl),
    registerPreviousTouch_preserves (fun W => W.CORE.Input.Keyboard.currentKeyState)
      (fun _ _ => rfl),
    resetKeyRepeat_preserves (fun W => W.CORE.Input.Keyboard.currentKeyState) (fun _ _ => rfl)]

theorem androidFrameStart_previousKeyState (cfg : Config) (now : ℚ) (W : Machine) (k : Int) :
    (androidFrameStart cfg now W).CORE.Input.Keyboard.previousKeyState k
      = if 0 ≤ k ∧ k < 260 then W.CORE.Input.Keyboard.currentKeyState k
        else W.CORE.Input.Keyboard.previousKeyState k := by
  unfold androidFrameStart
  dsimp only
  rw [registerPreviousKeys_previousKeyState,
    registerPreviousTouch_preserves (fun W => W.CORE.Input.Keyboard.currentKeyState)
      (fun _ _ => rfl),
    registerPreviousTouch_preserves (fun W => W.CORE.Input.Keyboard.previousKeyState)
      (fun _ _ => rfl),
    resetKeyRepeat_preserves (fun W => W.CORE.Input.Keyboard.currentKeyState) (fun _ _ => rfl),
    resetKeyRepeat_preserves (fun W => W.CORE.Input.Keyboard.previousKeyState) (fun _ _ => rfl)]

theorem androidFrameStart_keyPressedQueueCount (cfg : Config) (now : ℚ) (W : Machine) :
    (androidFrameStart cfg now W).CORE.Input.Keyboard.keyPressedQueueCount = 0 := by
  unfold androidFrameStart
  dsimp only
  rw [registerPreviousKeys_preserves (fun W => W.CORE.Input.Keyboard.keyPressedQueueCount)
      (fun _ _ => rfl) (fun _ _ => rfl),
    registerPreviousTouch_preserves (fun W => W.CORE.Input.Keyboard.keyPressedQueueCount)
      (fun _ _ => rfl),
    resetKeyRepeat_preserves (fun W => W.CORE.Input.Keyboard.keyPressedQueueCount) (fun _ _ => rfl)]

theorem androidFrameStart_keyPressedQueue (cfg : Config) (now : ℚ) (W : Machine) :
    (androidFrameStart cfg now W).CORE.Input.Keyboard.keyPressedQueue
      = W.CORE.Input.Keyboard.keyPressedQueue := by
  unfold androidFrameStart
  dsimp only
  rw [registerPreviousKeys_preserves (fun W => W.CORE.Input.Keyboard.keyPressedQueue)
      (fun _ _ => rfl) (fun _ _ => rfl),
    registerPreviousTouch_preserves (fun W => W.CORE.Input.Keyboard.keyPressedQueue)
      (fun _ _ => rfl),
    resetKeyRepeat_preserves (fun W => W.CORE.Input.Keyboard.keyPressedQueue) (fun _ _ => rfl)]

theorem androidKey_dpad_up : androidKey 19 = RAYLIB_KEY_UP := by decide

theorem androidKey_a : androidKey 29 = RAYLIB_KEY_A := by decide

theorem androidKeyEvent_down (keycode : Int) (W : Machine)
    (hk : androidKey keycode ≠ RAYLIB_KEY_NULL) :
    androidKeyEvent keycode AKEY_EVENT_ACTION_DOWN W =
      { W with
        CORE.Input.Keyboard.currentKeyState :=
          Function.update W.CORE.Input.Keyboard.currentKeyState (androidKey keycode) 1
        CORE.Input.Keyboard.keyPressedQueue :=
          Function.update W.CORE.Input.Keyboard.keyPressedQueue
            W.CORE.Input.Keyboard.keyPressedQueueCount (androidKey keycode)
        CORE.Input.Keyboard.keyPressedQueueCount :=
          W.CORE.Input.Keyboard.keyPressedQueueCount + 1 } := by
  unfold androidKeyEvent
  dsimp only
  rw [if_pos hk, if_pos rfl]

theorem androidRegister_preserves {α : Type} (f : Machine → α)
    (h : ∀ W v, f { W with CORE.Input.Touch := v } = f W)
    (pointers : List AndroidPointer) (lo hi : Int) (W : Machine) :
    f (forLoop lo hi (androidRegisterPoint pointers) W) = f W :=
  forLoop_preserves f lo hi _ W
    (fun _ _ => (h _ _).trans ((h _ _).trans ((h _ _).trans (h _ _))))

theorem androidShift_preserves {α : Type} (f : Machine → α)
    (h : ∀ W v, f { W with CORE.Input.Touch := v } = f W)
    (lo hi : Int) (W : Machine) :
    f (forLoop lo hi androidShiftPoint W) = f W :=
  forLoop_preserves f lo hi _ W (fun _ _ => (h _ _).trans (h _ _))

theorem androidTouchEvent_Keyboard (m : Libm) (R : Rcore) (now : ℚ) (action : Nat)
    (pointers : List AndroidPointer) (W : Machine) :
    (androidTouchEvent m R now action pointers W).CORE.Input.Keyboard
      = W.CORE.Input.Keyboard := by
  unfold androidTouchEvent
  dsimp only
  split_ifs <;> dsimp only <;>
    simp only [androidShift_preserves (fun W => W.CORE.Input.Keyboard) (fun _ _ => rfl),
      androidRegister_preserves (fun W => W.CORE.Input.Keyboard) (fun _ _ => rfl)]

theorem androidKeyEvent_previousKeyState (keycode action : Int) (W : Machine) :
    (androidKeyEvent keycode action W).CORE.Input.Keyboard.previousKeyState
      = W.CORE.Input.Keyboard.previousKeyState := by
  unfold androidKeyEvent
  dsimp only
  split_ifs <;> rfl

theorem androidInputCallback_previousKeyState (m : Libm) (R : Rcore) (now : ℚ)
    (event : AndroidEvent) (W : Machine) :
    (AndroidInputCallback m R now event W).CORE.Input.Keyboard.previousKeyState
      = W.CORE.Input.Keyboard.previousKeyState := by
  cases event with
  | gamepadMotion x y z rz brake gas => rfl
  | gamepadKey => rfl
  | key keycode action => exact androidKeyEvent_previousKeyState keycode action W
  | motion action pointers =>
    exact congrArg KeyboardData.previousKeyState
      (androidTouchEvent_Keyboard m R now action pointers W)

theorem androidEvents_previousKeyState (m : Libm) (R : Rcore)
    (events : List (ℚ × AndroidEvent)) (W : Machine) :
    (events.foldl (fun W e => AndroidInputCallback m R e.1 e.2 W)
        W).CORE.Input.Keyboard.previousKeyState
      = W.CORE.Input.Keyboard.previousKeyState := by
  induction events generalizing W with
  | nil => rfl
  | cons e es ih =>
    rw [List.foldl_cons, ih, androidInputCallback_previousKeyState]

/-- The Android frame: `previousKeyState[k]` takes the value of
`currentKeyState[k]` for `0 ≤ k < 260` only. -/
theorem pollInputEventsAndroid_previousKeyState (cfg : Config) (m : Libm) (R : Rcore)
    (now : ℚ) (events : List (ℚ × AndroidEvent)) (W : Machine) (k : Int) :
    (PollInputEventsAndroid cfg m R now events W).CORE.Input.Keyboard.previousKeyState k
      = if 0 ≤ k ∧ k < 260 then W.CORE.Input.Keyboard.currentKeyState k
        else W.CORE.Input.Keyboard.previousKeyState k := by
  unfold PollInputEventsAndroid
  rw [androidEvents_previousKeyState, androidFrameStart_previousKeyState]

/-! ## C12: the key snapshot at frame start -/

/-- C12 (code bug, Android): the frame-start snapshot of the Android
`RaylibPollInputEvents` copies `currentKeyState` into `previousKeyState` for the
indices 0 to 259 only, although the file's own `KeycodeMap` delivers keys above
259.  Key code 19 (`AKEYCODE_DPAD_UP`) is `RAYLIB_KEY_UP` = 265; when it goes down
in one frame and is held through the next, which has no event, then after the
second frame `currentKeyState[265]` is 1 and `previousKeyState[265]` is 0, not the
1 that `currentKeyState[265]` had before the call: the key is reported as
pressed again.  On Android no frame, from any state and with any events, changes
`previousKeyState[265]`. -/
theorem android_key_snapshot_stops_at_260 :
    androidKey 19 = RAYLIB_KEY_UP ∧
    (PollInputEventsAndroid specConfig refLibm specRcore 0
        [(0, AndroidEvent.key 19 AKEY_EVENT_ACTION_DOWN)]
        initialMachine).CORE.Input.Keyboard.currentKeyState RAYLIB_KEY_UP = 1 ∧
    (PollInputEventsAndroid specConfig refLibm specRcore 1 []
        (PollInputEventsAndroid specConfig refLibm specRcore 0
          [(0, AndroidEvent.key 19 AKEY_EVENT_ACTION_DOWN)]
          initialMachine)).CORE.Input.Keyboard.currentKeyState RAYLIB_KEY_UP = 1 ∧
    (PollInputEventsAndroid specConfig refLibm specRcore 1 []
        (PollInputEventsAndroid specConfig refLibm specRcore 0
          [(0, AndroidEvent.key 19 AKEY_EVENT_ACTION_DOWN)]
          initialMachine)).CORE.Input.Keyboard.previousKeyState RAYLIB_KEY_UP = 0 ∧
    (∀ (cfg : Config) (m : Libm) (R : Rcore) (now : ℚ) (events : List (ℚ × AndroidEvent))
        (W : Machine),
      (PollInputEventsAndroid cfg m R now events W).CORE.Input.Keyboard.previousKeyState
          RAYLIB_KEY_UP
        = W.CORE.Input.Keyboard.previousKeyState RAYLIB_KEY_UP) := by
  have hkey : androidKey 19 ≠ RAYLIB_KEY_NULL := by decide
  have h1 : (PollInputEventsAndroid specConfig refLibm specRcore 0
        [(0, AndroidEvent.key 19 AKEY_EVENT_ACTION_DOWN)]
        initialMachine).CORE.Input.Keyboard.currentKeyState RAYLIB_KEY_UP = 1 := by
    unfold PollInputEventsAndroid
    simp only [List.foldl, AndroidInputCallback]
    rw [androidKeyEvent_down 19 _ hkey]
    dsimp only
    rw [androidKey_dpad_up, Function.update_same]
  have hgen : ∀ (cfg : Config) (m : Libm) (R : Rcore) (now : ℚ)
      (events : List (ℚ × AndroidEvent)) (W : Machine),
      (PollInputEventsAndroid cfg m R now events W).CORE.Input.Keyboard.previousKeyState
          RAYLIB_KEY_UP
        = W.CORE.Input.Keyboard.previousKeyState RAYLIB_KEY_UP := by
    intro cfg m R now events W
    rw [pollInputEventsAndroid_previousKeyState, if_neg (by decide)]
  refine ⟨androidKey_dpad_up, h1, ?_, ?_, hgen⟩
  · have h2 : ∀ W : Machine,
        (PollInputEventsAndroid specConfig refLibm specRcore 1 []
          W).CORE.Input.Keyboard.currentKeyState = W.CORE.Input.Keyboard.currentKeyState :=
      fun W => androidFrameStart_currentKeyState specConfig 1 W
    rw [h2, h1]
  · rw [hgen, hgen]
    rfl

/-! ## C14: the pressed-key queue -/

/-- Key-down events of key code 29 (`AKEYCODE_A`), `n` in a row: every one is
appended, whatever the count. -/
theorem androidKeyDowns (m : Libm) (R : Rcore) (t : ℚ) (n : ℕ) (W : Machine) :
    ((List.replicate n (t, AndroidEvent.key 29 AKEY_EVENT_ACTION_DOWN)).foldl
        (fun W e => AndroidInputCallback m R e.1 e.2 W)
        W).CORE.Input.Keyboard.keyPressedQueueCount
      = W.CORE.Input.Keyboard.keyPressedQueueCount + (n : Int) ∧
    ∀ k : Int,
      ((List.replicate n (t, AndroidEvent.key 29 AKEY_EVENT_ACTION_DOWN)).foldl
          (fun W e => AndroidInputCallback m R e.1 e.2 W)
          W).CORE.Input.Keyboard.keyPressedQueue k
        = if W.CORE.Input.Keyboard.keyPressedQueueCount ≤ k ∧
              k < W.CORE.Input.Keyboard.keyPressedQueueCount + (n : Int)
          then RAYLIB_KEY_A else W.CORE.Input.Keyboard.keyPressedQueue k := by
  have hkey : androidKey 29 ≠ RAYLIB_KEY_NULL := by decide
  induction n generalizing W with
  | zero =>
    refine ⟨by simp, fun k => ?_⟩
    rw [if_neg (by push_cast; omega)]
    rfl
  | succ n ih =>
    rw [List.replicate_succ, List.foldl_cons]
    have hstep : AndroidInputCallback m R t (AndroidEvent.key 29 AKEY_EVENT_ACTION_DOWN) W
        = androidKeyEvent 29 AKEY_EVENT_ACTION_DOWN W := rfl
    dsimp only
    rw [hstep, androidKeyEvent_down 29 W hkey, androidKey_a]
    obtain ⟨hc, hq⟩ := ih
      { W with
        CORE.Input.Keyboard.currentKeyState :=
          Function.update W.CORE.Input.Keyboard.currentKeyState RAYLIB_KEY_A 1
        CORE.Input.Keyboard.keyPressedQueue :=
          Function.update W.CORE.Input.Keyboard.keyPressedQueue
            W.CORE.Input.Keyboard.keyPressedQueueCount RAYLIB_KEY_A
        CORE.Input.Keyboard.keyPressedQueueCount :=
          W.CORE.Input.Keyboard.keyPressedQueueCount + 1 }
    refine ⟨?_, fun k => ?_⟩
    · rw [hc]; push_cast; ring
    · rw [hq k]
      dsimp only
      by_cases hk : k = W.CORE.Input.Keyboard.keyPressedQueueCount
      · rw [hk, if_neg (by omega), Function.update_same, if_pos (by push_cast; omega)]
      · rw [Function.update_noteq hk]
        by_cases hk2 : W.CORE.Input.Keyboard.keyPressedQueueCount + 1 ≤ k ∧
            k < W.CORE.Input.Keyboard.keyPressedQueueCount + 1 + (n : Int)
        · rw [if_pos hk2, if_pos (by push_cast; omega)]
        · rw [if_neg hk2, if_neg (by push_cast; omega)]

/-- C14 (code bug, Android): the key-down branch of `AndroidInputCallback` appends
to `keyPressedQueue` and increments `keyPressedQueueCount` without comparing the
count with the capacity (the SDL and RGFW files test `keyPressedQueueCount <
RAYLIB_MAX_KEY_PRESSED_QUEUE` first).  A frame with `n` key-down events of key code
29 (`RAYLIB_KEY_A`) ends with the count `n` and with the cells 0 to `n - 1`
written, for every `n` and every capacity; with a capacity of 16 and 17 events
the count is 17 and cell 16, which is outside the queue, holds the key. -/
theorem android_key_queue_overflow :
    (∀ (cfg : Config) (m : Libm) (R : Rcore) (now : ℚ) (W : Machine) (n : ℕ),
      (PollInputEventsAndroid cfg m R now
          (List.replicate n (now, AndroidEvent.key 29 AKEY_EVENT_ACTION_DOWN))
          W).CORE.Input.Keyboard.keyPressedQueueCount = (n : Int) ∧
      ∀ k : Int,
        (PollInputEventsAndroid cfg m R now
            (List.replicate n (now, AndroidEvent.key 29 AKEY_EVENT_ACTION_DOWN))
            W).CORE.Input.Keyboard.keyPressedQueue k
          = if 0 ≤ k ∧ k < (n : Int) then RAYLIB_KEY_A
            else W.CORE.Input.Keyboard.keyPressedQueue k) ∧
    specConfig.MAX_KEY_PRESSED_QUEUE = 16 ∧
    (PollInputEventsAndroid specConfig refLibm specRcore 0
        (List.replicate 17 (0, AndroidEvent.key 29 AKEY_EVENT_ACTION_DOWN))
        initialMachine).CORE.Input.Keyboard.keyPressedQueueCount = 17 ∧
    initialMachine.CORE.Input.Keyboard.keyPressedQueue 16 = 0 ∧
    (PollInputEventsAndroid specConfig refLibm specRcore 0
        (List.replicate 17 (0, AndroidEvent.key 29 AKEY_EVENT_ACTION_DOWN))
        initialMachine).CORE.Input.Keyboard.keyPressedQueue 16 = 65 := by
  have hgen : ∀ (cfg : Config) (m : Libm) (R : Rcore) (now : ℚ) (W : Machine) (n : ℕ),
      (PollInputEventsAndroid cfg m R now
          (List.replicate n (now, AndroidEvent.key 29 AKEY_EVENT_ACTION_DOWN))
          W).CORE.Input.Keyboard.keyPressedQueueCount = (n : Int) ∧
      ∀ k : Int,
        (PollInputEventsAndroid cfg m R now
            (List.replicate n (now, AndroidEvent.key 29 AKEY_EVENT_ACTION_DOWN))
            W).CORE.Input.Keyboard.keyPressedQueue k
          = if 0 ≤ k ∧ k < (n : Int) then RAYLIB_KEY_A
            else W.CORE.Input.Keyboard.keyPressedQueue k := by
    intro cfg m R now W n
    unfold PollInputEventsAndroid
    obtain ⟨hc, hq⟩ := androidKeyDowns m R now n (androidFrameStart cfg now W)
    rw [androidFrameStart_keyPressedQueueCount] at hc
    refine ⟨by rw [hc, zero_add], fun k => ?_⟩
    rw [hq k, androidFrameStart_keyPressedQueueCount, androidFrameStart_keyPressedQueue,
      zero_add]
  refine ⟨hgen, rfl, ?_, rfl, ?_⟩
  · exact (hgen specConfig refLibm specRcore 0 initialMachine 17).1
  · rw [(hgen specConfig refLibm specRcore 0 initialMachine 17).2 16, if_pos (by decide)]
    rfl

/-! ## Platform layer: the recognizer during a frame -/

theorem desktopGesture_CORE (m : Libm) (R : Rcore) (now : ℚ) (L : PollLocals) :
    (desktopGesture m R now L).W.CORE = L.W.CORE := by
  unfold desktopGesture
  split_ifs <;> rfl

theorem desktopGesture_realTouch (m : Libm) (R : Rcore) (now : ℚ) (L : PollLocals) :
    (desktopGesture m R now L).realTouch = L.realTouch := by
  unfold desktopGesture
  split_ifs <;> rfl

theorem desktopGesture_gestures (m : Libm) (R : Rcore) (now : ℚ) (L : PollLocals) :
    (desktopGesture m R now L).W.gestures
      = run m L.W.gestures (desktopGestureCall R now L) := by
  unfold desktopGesture desktopGestureCall
  split_ifs <;> rfl

theorem updateTouchPointsSDL_preserves {α : Type} (f : Machine → α)
    (h : ∀ W v, f { W with CORE.Input.Touch := v } = f W)
    (fingers : List SDLFinger) (W : Machine) :
    f (UpdateTouchPointsSDL fingers W) = f W := by
  unfold UpdateTouchPointsSDL
  dsimp only
  rw [forLoop_preserves f _ _ _ _ (fun _ _ => h _ _),
    forLoop_preserves f _ _ (sdlRegisterFinger fingers) _
      (fun _ _ => (h _ _).trans ((h _ _).trans ((h _ _).trans (h _ _))))]
  exact h _ _

theorem desktopRegisterKey_gestures (cfg : Config) (key : Int) (W : Machine) :
    (desktopRegisterKey cfg key W).gestures = W.gestures := by
  unfold desktopRegisterKey
  dsimp only
  split_ifs <;> rfl

theorem checkExitKey_gestures (W : Machine) : (checkExitKey W).gestures = W.gestures := by
  unfold checkExitKey
  split_ifs <;> rfl

theorem desktopKeyUp_gestures (key : Int) (W : Machine) :
    (desktopKeyUp key W).gestures = W.gestures := by
  unfold desktopKeyUp
  split_ifs <;> rfl

theorem sdlJoyAxisMotion_gestures (which axis value : Int) (W : Machine) :
    (sdlJoyAxisMotion which axis value W).gestures = W.gestures := by
  unfold sdlJoyAxisMotion
  dsimp only
  split_ifs <;> rfl

theorem sdlSwitch_gestures (cfg : Config) (cursorRelative : Bool) (event : SDLEvent)
    (L : PollLocals) :
    (sdlSwitch cfg cursorRelative event L).W.gestures = L.W.gestures := by
  cases event with
  | quit => rfl
  | windowResized width height => rfl
  | keyDown scancode rep =>
    unfold sdlSwitch
    dsimp only
    rw [checkExitKey_gestures]
    split_ifs <;> exact desktopRegisterKey_gestures _ _ _
  | keyUp scancode => exact desktopKeyUp_gestures _ _
  | mouseButtonDown button => rfl
  | mouseButtonUp button => rfl
  | mouseWheel x y => rfl
  | mouseMotion x y xrel yrel =>
    unfold sdlSwitch
    dsimp only
    split_ifs <;> rfl
  | fingerDown fingers =>
    exact updateTouchPointsSDL_preserves (fun W => W.gestures) (fun _ _ => rfl) _ _
  | fingerUp fingers =>
    exact updateTouchPointsSDL_preserves (fun W => W.gestures) (fun _ _ => rfl) _ _
  | fingerMotion fingers =>
    exact updateTouchPointsSDL_preserves (fun W => W.gestures) (fun _ _ => rfl) _ _
  | joyAxisMotion which axis value => exact sdlJoyAxisMotion_gestures _ _ _ _

theorem rgfwSwitch_gestures (cfg : Config) (Lib : RGFWLib) (event : RGFWEvent)
    (L : PollLocals) :
    (rgfwSwitch cfg Lib event L).W.gestures = L.W.gestures := by
  cases event with
  | quit => rfl
  | windowAttribsChange width height => rfl
  | keyPressed keyCode =>
    unfold rgfwSwitch
    dsimp only
    rw [checkExitKey_gestures]
    exact desktopRegisterKey_gestures _ _ _
  | keyReleased keyCode => exact desktopKeyUp_gestures _ _
  | mouseButtonPressed button scroll =>
    unfold rgfwSwitch
    dsimp only
    split_ifs <;> rfl
  | mouseButtonReleased button scroll =>
    unfold rgfwSwitch
    dsimp only
    split_ifs <;> rfl
  | mousePosChanged x y rw rh =>
    unfold rgfwSwitch
    dsimp only
    split_ifs <;> rfl

theorem sdlFrameStart_gestures (cfg : Config) (cursorRelative : Bool) (now : ℚ)
    (W : Machine) :
    (sdlFrameStart cfg cursorRelative now W).W.gestures = UpdateGestures now W.gestures := by
  unfold sdlFrameStart
  dsimp only
  rw [registerPreviousMouseButtons_preserves (fun W => W.gestures) (fun _ _ => rfl),
    registerPreviousKeys_preserves (fun W => W.gestures) (fun _ _ => rfl) (fun _ _ => rfl)]
  dsimp only
  rw [registerPreviousTouch_preserves (fun W => W.gestures) (fun _ _ => rfl)]
  split_ifs <;> rfl

theorem rgfwFrameStart_gestures (cfg : Config) (Lib : RGFWLib) (now : ℚ) (W : Machine) :
    (rgfwFrameStart cfg Lib now W).W.gestures = UpdateGestures now W.gestures := by
  unfold rgfwFrameStart
  dsimp only
  have h : (registerPreviousMouseButtons cfg
      (registerPreviousKeys cfg.MAX_KEYBOARD_KEYS
        { (registerPreviousTouch
            { W with
              gestures := UpdateGestures now W.gestures
              CORE.Input.Keyboard.keyPressedQueueCount := 0
              CORE.Input.Mouse.currentWheelMove := ⟨0, 0⟩ }) with
          CORE.Input.Touch.position :=
            Function.update
              (registerPreviousTouch
                { W with
                  gestures := UpdateGestures now W.gestures
                  CORE.Input.Keyboard.keyPressedQueueCount := 0
                  CORE.Input.Mouse.currentWheelMove := ⟨0, 0⟩ }).CORE.Input.Touch.position 0
              (registerPreviousTouch
                { W with
                  gestures := UpdateGestures now W.gestures
                  CORE.Input.Keyboard.keyPressedQueueCount := 0
                  CORE.Input.Mouse.currentWheelMove :=
                    ⟨0, 0⟩ }).CORE.Input.Mouse.currentPosition })).gestures
      = UpdateGestures now W.gestures := by
    rw [registerPreviousMouseButtons_preserves (fun W => W.gestures) (fun _ _ => rfl),
      registerPreviousKeys_preserves (fun W => W.gestures) (fun _ _ => rfl) (fun _ _ => rfl)]
    dsimp only
    rw [registerPreviousTouch_preserves (fun W => W.gestures) (fun _ _ => rfl)]
  split_ifs <;> exact h

theorem androidInputCallback_gestures (m : Libm) (R : Rcore) (now : ℚ)
    (event : AndroidEvent) (W : Machine) :
    (AndroidInputCallback m R now event W).gestures
      = run m W.gestures (androidGestureCall R now event W) := by
  cases event with
  | gamepadMotion x y z rz brake gas => rfl
  | gamepadKey => rfl
  | key keycode action =>
    show (androidKeyEvent keycode action W).gestures = W.gestures
    unfold androidKeyEvent
    dsimp only
    split_ifs <;> rfl
  | motion action pointers =>
    show (androidTouchEvent m R now action pointers W).gestures = _
    unfold androidTouchEvent androidGestureCall
    dsimp only
    split_ifs <;> dsimp only <;>
      simp only [androidShift_preserves (fun W => W.gestures) (fun _ _ => rfl),
        androidRegister_preserves (fun W => W.gestures) (fun _ _ => rfl)] <;> rfl

theorem androidEvents_gestures (m : Libm) (R : Rcore) (events : List (ℚ × AndroidEvent))
    (W : Machine) :
    (events.foldl (fun W e => AndroidInputCallback m R e.1 e.2 W) W).gestures
      = run m W.gestures (androidGestureCalls m R events W) := by
  induction events generalizing W with
  | nil => rfl
  | cons e es ih =>
    rw [List.foldl_cons, ih, androidInputCallback_gestures, androidGestureCalls, run_append]

theorem sdlEvent_gestures (cfg : Config) (m : Libm) (R : Rcore) (cursorRelative : Bool)
    (now : ℚ) (event : SDLEvent) (L : PollLocals) :
    (sdlEvent cfg m R cursorRelative now event L).W.gestures
      = run m L.W.gestures (desktopGestureCall R now (sdlSwitch cfg cursorRelative event L)) := by
  unfold sdlEvent
  rw [desktopGesture_gestures, sdlSwitch_gestures]

theorem rgfwEvent_gestures (cfg : Config) (m : Libm) (R : Rcore) (Lib : RGFWLib)
    (now : ℚ) (event : RGFWEvent) (L : PollLocals) :
    (rgfwEvent cfg m R Lib now event L).W.gestures
      = run m L.W.gestures (desktopGestureCall R now (rgfwSwitch cfg Lib event L)) := by
  unfold rgfwEvent
  rw [desktopGesture_gestures, rgfwSwitch_gestures]

theorem sdlEvents_gestures (cfg : Config) (m : Libm) (R : Rcore) (cursorRelative : Bool)
    (events : List (ℚ × SDLEvent)) (L : PollLocals) :
    (events.foldl (fun L e => sdlEvent cfg m R cursorRelative e.1 e.2 L) L).W.gestures
      = run m L.W.gestures (sdlGestureCalls cfg m R cursorRelative events L) := by
  induction events generalizing L with
  | nil => rfl
  | cons e es ih =>
    rw [List.foldl_cons, ih, sdlEvent_gestures, sdlGestureCalls, run_append]

theorem rgfwEvents_gestures (cfg : Config) (m : Libm) (R : Rcore) (Lib : RGFWLib)
    (events : List (ℚ × RGFWEvent)) (L : PollLocals) :
    (events.foldl (fun L e => rgfwEvent cfg m R Lib e.1 e.2 L) L).W.gestures
      = run m L.W.gestures (rgfwGestureCalls cfg m R Lib events L) := by
  induction events generalizing L with
  | nil => rfl
  | cons e es ih =>
    rw [List.foldl_cons, ih, rgfwEvent_gestures, rgfwGestureCalls, run_append]

theorem desktopGestureEvent_pointCount (R : Rcore) (L : PollLocals) :
    (desktopGestureEvent R L).pointCount = 1 := by
  unfold desktopGestureEvent
  dsimp only
  split_ifs <;> rfl

theorem desktopGestureEvent_touchAction (R : Rcore) (L : PollLocals) :
    (desktopGestureEvent R L).touchAction = L.touchAction := by
  unfold desktopGestureEvent
  dsimp only
  split_ifs <;> rfl

/-- A one-point DOWN with no tap pending is reported as TAP, and the next
`UpdateGestures` turns it into HOLD. -/
theorem down_then_update (m : Libm) (t tu : ℚ) (ev : GestureEvent) (G : GesturesData)
    (hpc : ev.pointCount = 1) (hact : ev.touchAction = RAYLIB_TOUCH_ACTION_DOWN)
    (hG : G.Touch.tapCounter = 0) :
    (ProcessGestureEvent m t ev G).current = RAYLIB_GESTURE_TAP ∧
    (UpdateGestures tu (ProcessGestureEvent m t ev G)).current = RAYLIB_GESTURE_HOLD := by
  have h1 : (ProcessGestureEvent m t ev G).current = RAYLIB_GESTURE_TAP ∧
      (ProcessGestureEvent m t ev G).Touch.pointCount = 1 := by
    rw [processGestureEvent_eq, if_pos hpc, if_pos hact, onePointDown_eq]
    dsimp only
    rw [if_neg (by rw [hG]; rintro ⟨-, h, -⟩; exact absurd h (by decide))]
    exact ⟨rfl, hpc⟩
  refine ⟨h1.1, ?_⟩
  rw [updateGestures_eq]
  dsimp only
  rw [if_pos ⟨Or.inl h1.1, by rw [h1.2]; decide⟩]

/-! ## C13: the recognizer within a frame -/

/-- C13 (counterexample): an SDL frame on the start-up state whose only event is
a press of the left mouse button.  The frame ends with the gesture TAP, whereas
`UpdateGestures` applied after the frame's one `ProcessGestureEvent` call gives
HOLD. -/
theorem update_after_events_counterexample :
    (PollInputEventsSDL specConfig refLibm specRcore false 0
        [(0, SDLEvent.mouseButtonDown 1)] initialMachine).gestures.current
      = RAYLIB_GESTURE_TAP ∧
    (run refLibm initialMachine.gestures
        (sdlGestureCalls specConfig refLibm specRcore false [(0, SDLEvent.mouseButtonDown 1)]
            (sdlFrameStart specConfig false 0 initialMachine) ++
          [Step.update 0])).current
      = RAYLIB_GESTURE_HOLD := by
  have hcalls : sdlGestureCalls specConfig refLibm specRcore false
      [(0, SDLEvent.mouseButtonDown 1)] (sdlFrameStart specConfig false 0 initialMachine)
      = [Step.event 0 (desktopGestureEvent specRcore
          (sdlSwitch specConfig false (SDLEvent.mouseButtonDown 1)
            (sdlFrameStart specConfig false 0 initialMachine)))] := by
    rw [sdlGestureCalls, sdlGestureCalls, List.append_nil]
    unfold desktopGestureCall
    rw [if_pos (by show (1 : Int) > -1; decide)]
  have hpc := desktopGestureEvent_pointCount specRcore
    (sdlSwitch specConfig false (SDLEvent.mouseButtonDown 1)
      (sdlFrameStart specConfig false 0 initialMachine))
  have hact : (desktopGestureEvent specRcore
      (sdlSwitch specConfig false (SDLEvent.mouseButtonDown 1)
        (sdlFrameStart specConfig false 0 initialMachine))).touchAction
      = RAYLIB_TOUCH_ACTION_DOWN := by
    rw [desktopGestureEvent_touchAction]
    rfl
  constructor
  · unfold PollInputEventsSDL
    rw [sdlEvents_gestures, hcalls, sdlFrameStart_gestures]
    have hU : (UpdateGestures 0 initialMachine.gestures).Touch.tapCounter = 0 := by
      rw [updateGestures_eq]
      rfl
    exact (down_then_update refLibm 0 0 _ _ hpc hact hU).1
  · rw [hcalls]
    have hG : initialMachine.gestures.Touch.tapCounter = 0 := rfl
    exact (down_then_update refLibm 0 0 _ _ hpc hact hG).2

/-- C13 (amended): in the Android, SDL and RGFW `RaylibPollInputEvents` the
call of `UpdateGestures` is the first statement, before the snapshot and the
event loop.  For every frame, from every state and with every list of events,
the recognizer state at the end of the frame is the one reached from the state
before the frame by `UpdateGestures` first and then the frame's
`ProcessGestureEvent` calls in order. -/
theorem pollInputEvents_update_first (cfg : Config) (m : Libm) (R : Rcore) (now : ℚ)
    (W : Machine) :
    (∀ events : List (ℚ × AndroidEvent),
      (PollInputEventsAndroid cfg m R now events W).gestures
        = run m W.gestures
            (Step.update now ::
              androidGestureCalls m R events (androidFrameStart cfg now W))) ∧
    (∀ (cursorRelative : Bool) (events : List (ℚ × SDLEvent)),
      (PollInputEventsSDL cfg m R cursorRelative now events W).gestures
        = run m W.gestures
            (Step.update now ::
              sdlGestureCalls cfg m R cursorRelative events
                (sdlFrameStart cfg cursorRelative now W))) ∧
    (∀ (Lib : RGFWLib) (events : List (ℚ × RGFWEvent)),
      (PollInputEventsRGFW cfg m R Lib now events W).gestures
        = run m W.gestures
            (Step.update now ::
              rgfwGestureCalls cfg m R Lib events (rgfwFrameStart cfg Lib now W))) := by
  refine ⟨fun events => ?_, fun cursorRelative events => ?_, fun Lib events => ?_⟩
  · unfold PollInputEventsAndroid
    rw [androidEvents_gestures, androidFrameStart_gestures]
    rfl
  · unfold PollInputEventsSDL
    rw [sdlEvents_gestures, sdlFrameStart_gestures]
    rfl
  · unfold PollInputEventsRGFW
    rw [rgfwEvents_gestures, rgfwFrameStart_gestures]
    rfl

/-! ## Platform layer: the mouse wheel during a frame -/

theorem getLast?_cons_getD {α : Type} (a w : α) (l : List α) :
    ((a :: l).getLast?).getD w = (l.getLast?).getD a := by
  cases l with
  | nil => rfl
  | cons b t =>
    rw [List.getLast?_cons_cons]
    cases h : (b :: t).getLast? with
    | none => exact absurd h (by simp)
    | some c => rfl

theorem sdlSwitch_wheel (cfg : Config) (cursorRelative : Bool) (event : SDLEvent)
    (L : PollLocals) :
    (sdlSwitch cfg cursorRelative event L).W.CORE.Input.Mouse.currentWheelMove
      = (sdlWheelDelta event).getD L.W.CORE.Input.Mouse.currentWheelMove := by
  cases event with
  | quit => rfl
  | windowResized width height => rfl
  | keyDown scancode rep =>
    unfold sdlSwitch checkExitKey desktopRegisterKey
    dsimp only
    split_ifs <;> rfl
  | keyUp scancode =>
    unfold sdlSwitch desktopKeyUp
    dsimp only
    split_ifs <;> rfl
  | mouseButtonDown button => rfl
  | mouseButtonUp button => rfl
  | mouseWheel x y => rfl
  | mouseMotion x y xrel yrel =>
    unfold sdlSwitch
    dsimp only
    split_ifs <;> rfl
  | fingerDown fingers =>
    exact updateTouchPointsSDL_preserves (fun W => W.CORE.Input.Mouse.currentWheelMove)
      (fun _ _ => rfl) _ _
  | fingerUp fingers =>
    exact updateTouchPointsSDL_preserves (fun W => W.CORE.Input.Mouse.currentWheelMove)
      (fun _ _ => rfl) _ _
  | fingerMotion fingers =>
    exact updateTouchPointsSDL_preserves (fun W => W.CORE.Input.Mouse.currentWheelMove)
      (fun _ _ => rfl) _ _
  | joyAxisMotion which axis value =>
    unfold sdlSwitch sdlJoyAxisMotion
    dsimp only
    split_ifs <;> rfl

theorem rgfwSwitch_wheel (cfg : Config) (Lib : RGFWLib) (event : RGFWEvent)
    (L : PollLocals) :
    (rgfwSwitch cfg Lib event L).W.CORE.Input.Mouse.currentWheelMove
      = ⟨L.W.CORE.Input.Mouse.currentWheelMove.x,
          (rgfwWheelDelta Lib event).getD L.W.CORE.Input.Mouse.currentWheelMove.y⟩ := by
  cases event with
  | quit => rfl
  | windowAttribsChange width height => rfl
  | keyPressed keyCode =>
    unfold rgfwSwitch checkExitKey desktopRegisterKey
    dsimp only
    split_ifs <;> rfl
  | keyReleased keyCode =>
    unfold rgfwSwitch desktopKeyUp
    dsimp only
    split_ifs <;> rfl
  | mouseButtonPressed button scroll =>
    unfold rgfwSwitch rgfwWheelDelta
    dsimp only
    split_ifs <;> rfl
  | mouseButtonReleased button scroll =>
    unfold rgfwSwitch rgfwWheelDelta
    dsimp only
    split_ifs <;> rfl
  | mousePosChanged x y rw rh =>
    unfold rgfwSwitch
    dsimp only
    split_ifs <;> rfl

theorem sdlEvents_wheel (cfg : Config) (m : Libm) (R : Rcore) (cursorRelative : Bool)
    (events : List (ℚ × SDLEvent)) (L : PollLocals) :
    (events.foldl (fun L e => sdlEvent cfg m R cursorRelative e.1 e.2 L)
        L).W.CORE.Input.Mouse.currentWheelMove
      = ((events.filterMap (fun e => sdlWheelDelta e.2)).getLast?).getD
          L.W.CORE.Input.Mouse.currentWheelMove := by
  induction events generalizing L with
  | nil => rfl
  | cons e es ih =>
    rw [List.foldl_cons, ih]
    have hstep : (sdlEvent cfg m R cursorRelative e.1 e.2 L).W.CORE.Input.Mouse.currentWheelMove
        = (sdlWheelDelta e.2).getD L.W.CORE.Input.Mouse.currentWheelMove := by
      unfold sdlEvent
      rw [desktopGesture_CORE, sdlSwitch_wheel]
    rw [hstep, List.filterMap_cons]
    cases hd : sdlWheelDelta e.2 with
    | none => rfl
    | some d =>
      dsimp only
      rw [getLast?_cons_getD]
      rfl

theorem rgfwEvents_wheel (cfg : Config) (m : Libm) (R : Rcore) (Lib : RGFWLib)
    (events : List (ℚ × RGFWEvent)) (L : PollLocals) :
    (events.foldl (fun L e => rgfwEvent cfg m R Lib e.1 e.2 L)
        L).W.CORE.Input.Mouse.currentWheelMove
      = ⟨L.W.CORE.Input.Mouse.currentWheelMove.x,
          ((events.filterMap (fun e => rgfwWheelDelta Lib e.2)).getLast?).getD
            L.W.CORE.Input.Mouse.currentWheelMove.y⟩ := by
  induction events generalizing L with
  | nil => rfl
  | cons e es ih =>
    rw [List.foldl_cons, ih]
    have hstep : (rgfwEvent cfg m R Lib e.1 e.2 L).W.CORE.Input.Mouse.currentWheelMove
        = ⟨L.W.CORE.Input.Mouse.currentWheelMove.x,
            (rgfwWheelDelta Lib e.2).getD L.W.CORE.Input.Mouse.currentWheelMove.y⟩ := by
      unfold rgfwEvent
      rw [desktopGesture_CORE, rgfwSwitch_wheel]
    rw [hstep, List.filterMap_cons]
    cases hd : rgfwWheelDelta Lib e.2 with
    | none => rfl
    | some d =>
      dsimp only
      rw [getLast?_cons_getD]
      rfl

theorem sdlFrameStart_wheel (cfg : Config) (cursorRelative : Bool) (now : ℚ) (W : Machine) :
    (sdlFrameStart cfg cursorRelative now W).W.CORE.Input.Mouse.currentWheelMove
      = RaylibVector2.zero := by
  unfold sdlFrameStart
  dsimp only
  rw [registerPreviousMouseButtons_preserves (fun W => W.CORE.Input.Mouse.currentWheelMove)
      (fun _ _ => rfl),
    registerPreviousKeys_preserves (fun W => W.CORE.Input.Mouse.currentWheelMove)
      (fun _ _ => rfl) (fun _ _ => rfl)]
  dsimp only
  rw [registerPreviousTouch_preserves (fun W => W.CORE.Input.Mouse.currentWheelMove)
      (fun _ _ => rfl)]
  split_ifs <;> rfl

theorem rgfwFrameStart_wheel (cfg : Config) (Lib : RGFWLib) (now : ℚ) (W : Machine) :
    (rgfwFrameStart cfg Lib now W).W.CORE.Input.Mouse.currentWheelMove
      = RaylibVector2.zero := by
  unfold rgfwFrameStart
  dsimp only
  have h : (registerPreviousMouseButtons cfg
      (registerPreviousKeys cfg.MAX_KEYBOARD_KEYS
        { (registerPreviousTouch
            { W with
              gestures := UpdateGestures now W.gestures
              CORE.Input.Keyboard.keyPressedQueueCount := 0
              CORE.Input.Mouse.currentWheelMove := ⟨0, 0⟩ }) with
          CORE.Input.Touch.position :=
            Function.update
              (registerPreviousTouch
                { W with
                  gestures := UpdateGestures now W.gestures
                  CORE.Input.Keyboard.keyPressedQueueCount := 0
                  CORE.Input.Mouse.currentWheelMove := ⟨0, 0⟩ }).CORE.Input.Touch.position 0
              (registerPreviousTouch
                { W with
                  gestures := UpdateGestures now W.gestures
                  CORE.Input.Keyboard.keyPressedQueueCount := 0
                  CORE.Input.Mouse.currentWheelMove :=
                    ⟨0, 0⟩ }).CORE.Input.Mouse.currentPosition })).CORE.Input.Mouse.currentWheelMove
      = RaylibVector2.zero := by
    rw [registerPreviousMouseButtons_preserves (fun W => W.CORE.Input.Mouse.currentWheelMove)
        (fun _ _ => rfl),
      registerPreviousKeys_preserves (fun W => W.CORE.Input.Mouse.currentWheelMove)
        (fun _ _ => rfl) (fun _ _ => rfl)]
    dsimp only
    rw [registerPreviousTouch_preserves (fun W => W.CORE.Input.Mouse.currentWheelMove)
        (fun _ _ => rfl)]
    rfl
  split_ifs <;> exact h

/-- The SDL frame: the wheel move at its end is the delta of the last wheel event,
zero when there is none. -/
theorem pollInputEventsSDL_wheel (cfg : Config) (m : Libm) (R : Rcore)
    (cursorRelative : Bool) (now : ℚ) (events : List (ℚ × SDLEvent)) (W : Machine) :
    (PollInputEventsSDL cfg m R cursorRelative now events W).CORE.Input.Mouse.currentWheelMove
      = ((events.filterMap (fun e => sdlWheelDelta e.2)).getLast?).getD
          RaylibVector2.zero := by
  unfold PollInputEventsSDL
  rw [sdlEvents_wheel, sdlFrameStart_wheel]

/-- The RGFW frame: the vertical wheel move at its end is the scroll of the last
scroll-button event, zero when there is none; the horizontal one is zero. -/
theorem pollInputEventsRGFW_wheel (cfg : Config) (m : Libm) (R : Rcore) (Lib : RGFWLib)
    (now : ℚ) (events : List (ℚ × RGFWEvent)) (W : Machine) :
    (PollInputEventsRGFW cfg m R Lib now events W).CORE.Input.Mouse.currentWheelMove
      = ⟨0, ((events.filterMap (fun e => rgfwWheelDelta Lib e.2)).getLast?).getD 0⟩ := by
  unfold PollInputEventsRGFW
  rw [rgfwEvents_wheel, rgfwFrameStart_wheel]
  rfl

/-! ## C16: the mouse wheel -/

/-- C16 (counterexample): an SDL frame with two wheel events, of vertical deltas 1
and 2, ends with the vertical wheel move 2, not their sum 3. -/
theorem wheel_not_accumulated_counterexample :
    (PollInputEventsSDL specConfig refLibm specRcore false 0
        [(0, SDLEvent.mouseWheel 0 1), (0, SDLEvent.mouseWheel 0 2)]
        initialMachine).CORE.Input.Mouse.currentWheelMove.y = 2 ∧
    (PollInputEventsSDL specConfig refLibm specRcore false 0
        [(0, SDLEvent.mouseWheel 0 1), (0, SDLEvent.mouseWheel 0 2)]
        initialMachine).CORE.Input.Mouse.currentWheelMove.y ≠ 1 + 2 := by
  have h : (PollInputEventsSDL specConfig refLibm specRcore false 0
        [(0, SDLEvent.mouseWheel 0 1), (0, SDLEvent.mouseWheel 0 2)]
        initialMachine).CORE.Input.Mouse.currentWheelMove.y = 2 := by
    rw [pollInputEventsSDL_wheel]
    simp [sdlWheelDelta]
  refine ⟨h, ?_⟩
  rw [h]
  norm_num

/-- C16 (amended): in the SDL and RGFW files the wheel move is set to zero at the
start of every frame and every wheel event assigns its delta to it.  After a
frame, from any state and with any events, `currentWheelMove` is the delta of
the frame's last wheel event, and zero when the frame has none; in the RGFW file
a wheel event is a press or release of a scroll button, its delta is the event's
`scroll`, and only the vertical component is written. -/
theorem wheel_is_last_delta (cfg : Config) (m : Libm) (R : Rcore) (now : ℚ) (W : Machine) :
    (∀ (cursorRelative : Bool) (events : List (ℚ × SDLEvent)),
      (PollInputEventsSDL cfg m R cursorRelative now events
          W).CORE.Input.Mouse.currentWheelMove
        = ((events.filterMap (fun e => sdlWheelDelta e.2)).getLast?).getD
            RaylibVector2.zero) ∧
    (∀ (Lib : RGFWLib) (events : List (ℚ × RGFWEvent)),
      (PollInputEventsRGFW cfg m R Lib now events W).CORE.Input.Mouse.currentWheelMove
        = ⟨0, ((events.filterMap (fun e => rgfwWheelDelta Lib e.2)).getLast?).getD 0⟩) :=
  ⟨fun cursorRelative events => pollInputEventsSDL_wheel cfg m R cursorRelative now events W,
    fun Lib events => pollInputEventsRGFW_wheel cfg m R Lib now events W⟩

/-! ## C17: the SDL joystick axis value -/

theorem sdlJoyAxisMotion_axisState (which axis value : Int) (W : Machine)
    (h : sdlAxis axis ≥ 0) :
    (sdlJoyAxisMotion which axis value W).CORE.Input.Gamepad.axisState which (sdlAxis axis)
      = (value : ℚ) / 32767 := by
  unfold sdlJoyAxisMotion
  dsimp only
  rw [if_pos h]
  dsimp only
  rw [Function.update_same, Function.update_same]

/-- The axis state an SDL frame stores for its last event, a joystick axis motion. -/
theorem pollInputEventsSDL_axis (cfg : Config) (m : Libm) (R : Rcore) (cursorRelative : Bool)
    (now t : ℚ) (which axis value : Int) (W : Machine) (h : sdlAxis axis ≥ 0) :
    (PollInputEventsSDL cfg m R cursorRelative now
        [(t, SDLEvent.joyAxisMotion which axis value)]
        W).CORE.Input.Gamepad.axisState which (sdlAxis axis)
      = (value : ℚ) / 32767 := by
  unfold PollInputEventsSDL
  simp only [List.foldl]
  unfold sdlEvent
  rw [desktopGesture_CORE]
  exact sdlJoyAxisMotion_axisState which axis value _ h

/-- Every raw value from -32767 to 32767 is stored as a value in [-1, 1]. -/
theorem sdlAxis_value_range (v : Int) (hlo : -32767 ≤ v) (hhi : v ≤ 32767) :
    -1 ≤ (v : ℚ) / 32767 ∧ (v : ℚ) / 32767 ≤ 1 := by
  have h1 : ((-32767 : Int) : ℚ) ≤ (v : ℚ) := by exact_mod_cast hlo
  have h2 : (v : ℚ) ≤ ((32767 : Int) : ℚ) := by exact_mod_cast hhi
  push_cast at h1 h2
  constructor
  · rw [le_div_iff₀ (by norm_num)]
    linarith
  · rw [div_le_iff₀ (by norm_num)]
    linarith

/-- C17 (code bug): the `SDL_JOYAXISMOTION` case stores the raw axis value divided
by 32767, under the comment that the SDL range -32768 to 32767 is normalised to
-1.0 to 1.0.  For the raw value -32768 on the left stick's horizontal axis the
frame, from any state, stores -32768/32767, which is below -1. -/
theorem sdl_axis_below_minus_one :
    (∀ (cfg : Config) (m : Libm) (R : Rcore) (cursorRelative : Bool) (now : ℚ) (W : Machine),
      (PollInputEventsSDL cfg m R cursorRelative now
          [(now, SDLEvent.joyAxisMotion 0 SDL_CONTROLLER_AXIS_LEFTX (-32768))]
          W).CORE.Input.Gamepad.axisState 0 RAYLIB_GAMEPAD_AXIS_LEFT_X
        = -32768 / 32767) ∧
    (PollInputEventsSDL specConfig refLibm specRcore false 0
        [(0, SDLEvent.joyAxisMotion 0 SDL_CONTROLLER_AXIS_LEFTX (-32768))]
        initialMachine).CORE.Input.Gamepad.axisState 0 RAYLIB_GAMEPAD_AXIS_LEFT_X < -1 := by
  have hax : sdlAxis SDL_CONTROLLER_AXIS_LEFTX = RAYLIB_GAMEPAD_AXIS_LEFT_X := by decide
  have hgen : ∀ (cfg : Config) (m : Libm) (R : Rcore) (cursorRelative : Bool) (now : ℚ)
      (W : Machine),
      (PollInputEventsSDL cfg m R cursorRelative now
          [(now, SDLEvent.joyAxisMotion 0 SDL_CONTROLLER_AXIS_LEFTX (-32768))]
          W).CORE.Input.Gamepad.axisState 0 RAYLIB_GAMEPAD_AXIS_LEFT_X
        = -32768 / 32767 := by
    intro cfg m R cursorRelative now W
    have h := pollInputEventsSDL_axis cfg m R cursorRelative now now 0
      SDL_CONTROLLER_AXIS_LEFTX (-32768) W (by decide)
    rw [hax] at h
    rw [h]
    norm_num
  refine ⟨hgen, ?_⟩
  rw [hgen]
  norm_num

/-! ## Platform layer: touch points -/

/-- A loop whose iteration `i` stores cell `i + 1` of an array in its cell `i`:
afterwards the cells `lo ≤ k < hi` hold what their upper neighbour held before
the loop, and every other cell is as before. -/
theorem forLoop_shift {σ β : Type} (get : σ → Int → β) (lo hi : Int)
    (body : Int → σ → σ) (s : σ)
    (hget : ∀ i t k, get (body i t) k = if k = i then get t (i + 1) else get t k) (k : Int) :
    get (forLoop lo hi body s) k = if lo ≤ k ∧ k < hi then get s (k + 1) else get s k := by
  rcases forLoop_cases lo hi with hle | ⟨n, rfl⟩
  · rw [forLoop_of_le lo hi hle, if_neg (by omega)]
  · induction n generalizing k with
    | zero => rw [forLoop_of_le lo _ (by simp), if_neg (by push_cast; omega)]
    | succ n ih =>
      rw [forLoop_succ, hget, ih, ih]
      by_cases hk : k = lo + (n : Int)
      · rw [if_pos hk, if_neg (by omega), if_pos (by push_cast; omega), hk]
      · rw [if_neg hk]
        by_cases hk2 : lo ≤ k ∧ k < lo + (n : Int)
        · rw [if_pos hk2, if_pos (by push_cast; omega)]
        · rw [if_neg hk2, if_neg (by push_cast; omega)]

theorem androidRegister_pointCount (pointers : List AndroidPointer) (lo hi : Int)
    (W : Machine) :
    (forLoop lo hi (androidRegisterPoint pointers) W).CORE.Input.Touch.pointCount
      = W.CORE.Input.Touch.pointCount :=
  forLoop_preserves (fun W : Machine => W.CORE.Input.Touch.pointCount) lo hi
    (androidRegisterPoint pointers) W (fun _ _ => rfl)

theorem androidShift_pointCount (lo hi : Int) (W : Machine) :
    (forLoop lo hi androidShiftPoint W).CORE.Input.Touch.pointCount
      = W.CORE.Input.Touch.pointCount :=
  forLoop_preserves (fun W : Machine => W.CORE.Input.Touch.pointCount) lo hi androidShiftPoint W
    (fun _ _ => rfl)

theorem androidRegister_pointId (pointers : List AndroidPointer) (lo hi : Int)
    (W : Machine) (k : Int) :
    (forLoop lo hi (androidRegisterPoint pointers) W).CORE.Input.Touch.pointId k
      = if lo ≤ k ∧ k < hi then (pointers.getD k.toNat ⟨0, 0, 0⟩).id
        else W.CORE.Input.Touch.pointId k := by
  refine forLoop_update (fun W => W.CORE.Input.Touch.pointId)
    (fun _ k => (pointers.getD k.toNat ⟨0, 0, 0⟩).id) lo hi _ W ?_ ?_ k
  · intro i t k
    unfold androidRegisterPoint
    dsimp only
    by_cases hk : k = i
    · rw [if_pos hk, hk, Function.update_same]
    · rw [if_neg hk, Function.update_noteq hk]
  · intro i t
    rfl

theorem androidRegister_position (pointers : List AndroidPointer) (lo hi : Int)
    (W : Machine) (k : Int) :
    (forLoop lo hi (androidRegisterPoint pointers) W).CORE.Input.Touch.position k
      = if lo ≤ k ∧ k < hi then androidScreenPosition W (pointers.getD k.toNat ⟨0, 0, 0⟩)
        else W.CORE.Input.Touch.position k := by
  have h := forLoop_update (fun W => W.CORE.Input.Touch.position)
    (fun W k => androidScreenPosition W (pointers.getD k.toNat ⟨0, 0, 0⟩)) lo hi
    (androidRegisterPoint pointers) W ?_ ?_ k
  · exact h
  · intro i t k
    unfold androidRegisterPoint androidScreenPosition
    dsimp only
    by_cases hk : k = i
    · rw [if_pos hk, hk]
      simp only [Function.update_same]
    · rw [if_neg hk]
      simp only [Function.update_noteq hk]
  · intro i t
    rfl

theorem androidShift_pointId (lo hi : Int) (W : Machine) (k : Int) :
    (forLoop lo hi androidShiftPoint W).CORE.Input.Touch.pointId k
      = if lo ≤ k ∧ k < hi then W.CORE.Input.Touch.pointId (k + 1)
        else W.CORE.Input.Touch.pointId k := by
  refine forLoop_shift (fun W => W.CORE.Input.Touch.pointId) lo hi _ W ?_ k
  intro i t k
  unfold androidShiftPoint
  dsimp only
  by_cases hk : k = i
  · rw [if_pos hk, hk, Function.update_same]
  · rw [if_neg hk, Function.update_noteq hk]

theorem androidShift_position (lo hi : Int) (W : Machine) (k : Int) :
    (forLoop lo hi androidShiftPoint W).CORE.Input.Touch.position k
      = if lo ≤ k ∧ k < hi then W.CORE.Input.Touch.position (k + 1)
        else W.CORE.Input.Touch.position k := by
  refine forLoop_shift (fun W => W.CORE.Input.Touch.position) lo hi _ W ?_ k
  intro i t k
  unfold androidShiftPoint
  dsimp only
  by_cases hk : k = i
  · rw [if_pos hk, hk, Function.update_same]
  · rw [if_neg hk, Function.update_noteq hk]

theorem androidTouchEvent_pointCount (m : Libm) (R : Rcore) (now : ℚ) (action : Nat)
    (pointers : List AndroidPointer) (W : Machine) :
    (androidTouchEvent m R now action pointers W).CORE.Input.Touch.pointCount
      = if action &&& AMOTION_EVENT_ACTION_MASK = AMOTION_EVENT_ACTION_CANCEL then 0
        else if action &&& AMOTION_EVENT_ACTION_MASK = AMOTION_EVENT_ACTION_POINTER_UP ∨
            action &&& AMOTION_EVENT_ACTION_MASK = AMOTION_EVENT_ACTION_UP
          then (pointers.length : Int) - 1
        else (pointers.length : Int) := by
  unfold androidTouchEvent
  dsimp only
  split_ifs <;> dsimp only <;>
    simp only [androidShift_pointCount, androidRegister_pointCount]

theorem androidTouchEvent_pointId (m : Libm) (R : Rcore) (now : ℚ) (action : Nat)
    (pointers : List AndroidPointer) (W : Machine) (k : Int) :
    (androidTouchEvent m R now action pointers W).CORE.Input.Touch.pointId k
      = if action &&& AMOTION_EVENT_ACTION_MASK = AMOTION_EVENT_ACTION_POINTER_UP ∨
            action &&& AMOTION_EVENT_ACTION_MASK = AMOTION_EVENT_ACTION_UP
        then
          (forLoop
            (((action &&& AMOTION_EVENT_ACTION_POINTER_INDEX_MASK) >>>
              AMOTION_EVENT_ACTION_POINTER_INDEX_SHIFT : Nat) : Int)
            (min ((pointers.length : Int) - 1) (RAYLIB_MAX_TOUCH_POINTS : Int))
            androidShiftPoint
            (forLoop 0 (min (pointers.length : Int) (RAYLIB_MAX_TOUCH_POINTS : Int))
              (androidRegisterPoint pointers)
              { W with CORE.Input.Touch.pointCount := (pointers.length : Int) })).CORE.Input.Touch.pointId k
        else
          (forLoop 0 (min (pointers.length : Int) (RAYLIB_MAX_TOUCH_POINTS : Int))
            (androidRegisterPoint pointers)
            { W with CORE.Input.Touch.pointCount := (pointers.length : Int) }).CORE.Input.Touch.pointId k := by
  unfold androidTouchEvent
  dsimp only
  split_ifs <;> dsimp only <;>
    simp only [androidShift_pointCount, androidRegister_pointCount] <;>
    first
      | rfl
      | rw [androidShift_pointId, androidShift_pointId]

theorem androidTouchEvent_position (m : Libm) (R : Rcore) (now : ℚ) (action : Nat)
    (pointers : List AndroidPointer) (W : Machine) (k : Int) :
    (androidTouchEvent m R now action pointers W).CORE.Input.Touch.position k
      = if action &&& AMOTION_EVENT_ACTION_MASK = AMOTION_EVENT_ACTION_POINTER_UP ∨
            action &&& AMOTION_EVENT_ACTION_MASK = AMOTION_EVENT_ACTION_UP
        then
          (forLoop
            (((action &&& AMOTION_EVENT_ACTION_POINTER_INDEX_MASK) >>>
              AMOTION_EVENT_ACTION_POINTER_INDEX_SHIFT : Nat) : Int)
            (min ((pointers.length : Int) - 1) (RAYLIB_MAX_TOUCH_POINTS : Int))
            androidShiftPoint
            (forLoop 0 (min (pointers.length : Int) (RAYLIB_MAX_TOUCH_POINTS : Int))
              (androidRegisterPoint pointers)
              { W with CORE.Input.Touch.pointCount := (pointers.length : Int) })).CORE.Input.Touch.position k
        else
          (forLoop 0 (min (pointers.length : Int) (RAYLIB_MAX_TOUCH_POINTS : Int))
            (androidRegisterPoint pointers)
            { W with CORE.Input.Touch.pointCount := (pointers.length : Int) }).CORE.Input.Touch.position k := by
  unfold androidTouchEvent
  dsimp only
  split_ifs <;> dsimp only <;>
    simp only [androidShift_pointCount, androidRegister_pointCount] <;>
    first
      | rfl
      | rw [androidShift_position, androidShift_position]

theorem sdlRegister_pointCount (fingers : List SDLFinger) (lo hi : Int) (W : Machine) :
    (forLoop lo hi (sdlRegisterFinger fingers) W).CORE.Input.Touch.pointCount
      = W.CORE.Input.Touch.pointCount :=
  forLoop_preserves (fun W : Machine => W.CORE.Input.Touch.pointCount) lo hi
    (sdlRegisterFinger fingers) W (fun _ _ => rfl)

theorem sdlRegister_pointId (fingers : List SDLFinger) (lo hi : Int) (W : Machine)
    (k : Int) :
    (forLoop lo hi (sdlRegisterFinger fingers) W).CORE.Input.Touch.pointId k
      = if lo ≤ k ∧ k < hi then (fingers.getD k.toNat ⟨0, 0, 0⟩).id
        else W.CORE.Input.Touch.pointId k := by
  refine forLoop_update (fun W => W.CORE.Input.Touch.pointId)
    (fun _ k => (fingers.getD k.toNat ⟨0, 0, 0⟩).id) lo hi _ W ?_ ?_ k
  · intro i t k
    unfold sdlRegisterFinger
    dsimp only
    by_cases hk : k = i
    · rw [if_pos hk, hk, Function.update_same]
    · rw [if_neg hk, Function.update_noteq hk]
  · intro i t
    rfl

theorem sdlRegister_position (fingers : List SDLFinger) (lo hi : Int) (W : Machine)
    (k : Int) :
    (forLoop lo hi (sdlRegisterFinger fingers) W).CORE.Input.Touch.position k
      = if lo ≤ k ∧ k < hi then
          ⟨(fingers.getD k.toNat ⟨0, 0, 0⟩).x * (W.CORE.Window.screen.width : ℚ),
            (fingers.getD k.toNat ⟨0, 0, 0⟩).y * (W.CORE.Window.screen.height : ℚ)⟩
        else W.CORE.Input.Touch.position k := by
  have h := forLoop_update (fun W => W.CORE.Input.Touch.position)
    (fun W k =>
      (⟨(fingers.getD k.toNat ⟨0, 0, 0⟩).x * (W.CORE.Window.screen.width : ℚ),
        (fingers.getD k.toNat ⟨0, 0, 0⟩).y * (W.CORE.Window.screen.height : ℚ)⟩ :
        RaylibVector2))
    lo hi (sdlRegisterFinger fingers) W ?_ ?_ k
  · exact h
  · intro i t k
    unfold sdlRegisterFinger
    dsimp only
    by_cases hk : k = i
    · rw [if_pos hk, hk]
      simp only [Function.update_same]
    · rw [if_neg hk]
      simp only [Function.update_noteq hk]
  · intro i t
    rfl

theorem sdlRegister_currentTouchState (fingers : List SDLFinger) (lo hi : Int) (W : Machine)
    (k : Int) :
    (forLoop lo hi (sdlRegisterFinger fingers) W).CORE.Input.Touch.currentTouchState k
      = if lo ≤ k ∧ k < hi then 1 else W.CORE.Input.Touch.currentTouchState k := by
  refine forLoop_update (fun W => W.CORE.Input.Touch.currentTouchState)
    (fun _ _ => 1) lo hi _ W ?_ ?_ k
  · intro i t k
    unfold sdlRegisterFinger
    dsimp only
    by_cases hk : k = i
    · rw [if_pos hk, hk, Function.update_same]
    · rw [if_neg hk, Function.update_noteq hk]
  · intro i t
    rfl

/-- The loop of `UpdateTouchPointsSDL` that clears the touch states from
`pointCount` on. -/
theorem sdlClear_closed (lo hi : Int) (W : Machine) :
    (forLoop lo hi
        (fun i W =>
          { W with
            CORE.Input.Touch.currentTouchState :=
              Function.update W.CORE.Input.Touch.currentTouchState i 0 })
        W).CORE.Input.Touch.pointCount = W.CORE.Input.Touch.pointCount ∧
    (forLoop lo hi
        (fun i W =>
          { W with
            CORE.Input.Touch.currentTouchState :=
              Function.update W.CORE.Input.Touch.currentTouchState i 0 })
        W).CORE.Input.Touch.pointId = W.CORE.Input.Touch.pointId ∧
    (forLoop lo hi
        (fun i W =>
          { W with
            CORE.Input.Touch.currentTouchState :=
              Function.update W.CORE.Input.Touch.currentTouchState i 0 })
        W).CORE.Input.Touch.position = W.CORE.Input.Touch.position ∧
    ∀ k : Int,
      (forLoop lo hi
          (fun i W =>
            { W with
              CORE.Input.Touch.currentTouchState :=
                Function.update W.CORE.Input.Touch.currentTouchState i 0 })
          W).CORE.Input.Touch.currentTouchState k
        = if lo ≤ k ∧ k < hi then 0 else W.CORE.Input.Touch.currentTouchState k := by
  refine ⟨?_, ?_, ?_, fun k => ?_⟩
  · exact forLoop_preserves (fun W : Machine => W.CORE.Input.Touch.pointCount) lo hi
      (fun i W =>
          { W with
            CORE.Input.Touch.currentTouchState :=
              Function.update W.CORE.Input.Touch.currentTouchState i 0 }) W (fun _ _ => rfl)
  · exact forLoop_preserves (fun W : Machine => W.CORE.Input.Touch.pointId) lo hi
      (fun i W =>
          { W with
            CORE.Input.Touch.currentTouchState :=
              Function.update W.CORE.Input.Touch.currentTouchState i 0 }) W (fun _ _ => rfl)
  · exact forLoop_preserves (fun W : Machine => W.CORE.Input.Touch.position) lo hi
      (fun i W =>
          { W with
            CORE.Input.Touch.currentTouchState :=
              Function.update W.CORE.Input.Touch.currentTouchState i 0 }) W (fun _ _ => rfl)
  · refine forLoop_update (fun W : Machine => W.CORE.Input.Touch.currentTouchState)
      (fun _ _ => 0) lo hi
      (fun i W =>
          { W with
            CORE.Input.Touch.currentTouchState :=
              Function.update W.CORE.Input.Touch.currentTouchState i 0 }) W ?_ ?_ k
    · intro i t k
      dsimp only
      by_cases hk : k = i
      · rw [if_pos hk, hk, Function.update_same]
      · rw [if_neg hk, Function.update_noteq hk]
    · intro i t
      rfl

theorem updateTouchPointsSDL_pointCount (fingers : List SDLFinger) (W : Machine) :
    (UpdateTouchPointsSDL fingers W).CORE.Input.Touch.pointCount = (fingers.length : Int) := by
  unfold UpdateTouchPointsSDL
  dsimp only
  rw [(sdlClear_closed _ _ _).1, sdlRegister_pointCount]

theorem updateTouchPointsSDL_pointId (fingers : List SDLFinger) (W : Machine) (k : Int) :
    (UpdateTouchPointsSDL fingers W).CORE.Input.Touch.pointId k
      = if 0 ≤ k ∧ k < (fingers.length : Int) then (fingers.getD k.toNat ⟨0, 0, 0⟩).id
        else W.CORE.Input.Touch.pointId k := by
  unfold UpdateTouchPointsSDL
  dsimp only
  rw [(sdlClear_closed _ _ _).2.1, sdlRegister_pointId]

theorem updateTouchPointsSDL_position (fingers : List SDLFinger) (W : Machine) (k : Int) :
    (UpdateTouchPointsSDL fingers W).CORE.Input.Touch.position k
      = if 0 ≤ k ∧ k < (fingers.length : Int) then
          ⟨(fingers.getD k.toNat ⟨0, 0, 0⟩).x * (W.CORE.Window.screen.width : ℚ),
            (fingers.getD k.toNat ⟨0, 0, 0⟩).y * (W.CORE.Window.screen.height : ℚ)⟩
        else W.CORE.Input.Touch.position k := by
  unfold UpdateTouchPointsSDL
  dsimp only
  rw [(sdlClear_closed _ _ _).2.2.1, sdlRegister_position]

theorem updateTouchPointsSDL_currentTouchState (fingers : List SDLFinger) (W : Machine)
    (k : Int) :
    (UpdateTouchPointsSDL fingers W).CORE.Input.Touch.currentTouchState k
      = if (fingers.length : Int) ≤ k ∧ k < (RAYLIB_MAX_TOUCH_POINTS : Int) then 0
        else if 0 ≤ k ∧ k < (fingers.length : Int) then 1
        else W.CORE.Input.Touch.currentTouchState k := by
  unfold UpdateTouchPointsSDL
  dsimp only
  rw [(sdlClear_closed _ _ _).2.2.2, sdlRegister_pointCount, sdlRegister_currentTouchState]

theorem androidTouchEvent_currentTouchState (m : Libm) (R : Rcore) (now : ℚ) (action : Nat)
    (pointers : List AndroidPointer) (W : Machine) (k : Int)
    (hk : k ≠ RAYLIB_MOUSE_BUTTON_LEFT) :
    (androidTouchEvent m R now action pointers W).CORE.Input.Touch.currentTouchState k
      = W.CORE.Input.Touch.currentTouchState k := by
  have hreg : ∀ (lo hi : Int) (W : Machine),
      (forLoop lo hi (androidRegisterPoint pointers) W).CORE.Input.Touch.currentTouchState
        = W.CORE.Input.Touch.currentTouchState :=
    fun lo hi W =>
      forLoop_preserves (fun W : Machine => W.CORE.Input.Touch.currentTouchState) lo hi
        (androidRegisterPoint pointers) W (fun _ _ => rfl)
  have hsh : ∀ (lo hi : Int) (W : Machine),
      (forLoop lo hi androidShiftPoint W).CORE.Input.Touch.currentTouchState
        = W.CORE.Input.Touch.currentTouchState :=
    fun lo hi W =>
      forLoop_preserves (fun W : Machine => W.CORE.Input.Touch.currentTouchState) lo hi
        androidShiftPoint W (fun _ _ => rfl)
  unfold androidTouchEvent
  dsimp only
  split_ifs <;> dsimp only <;> rw [Function.update_noteq hk] <;>
    simp only [hsh, hreg]

/-! ## C15: touch points -/

/-- C15 (counterexample): an Android MOVE event with nine pointers leaves
`Touch.pointCount = 9`, which is not `min(9, 8)`. -/
theorem pointCount_not_clamped_counterexample :
    (AndroidInputCallback refLibm specRcore 0
        (AndroidEvent.motion AMOTION_EVENT_ACTION_MOVE
          [⟨0, 0, 0⟩, ⟨1, 0, 0⟩, ⟨2, 0, 0⟩, ⟨3, 0, 0⟩, ⟨4, 0, 0⟩, ⟨5, 0, 0⟩, ⟨6, 0, 0⟩,
            ⟨7, 0, 0⟩, ⟨8, 0, 0⟩])
        initialMachine).CORE.Input.Touch.pointCount = 9 ∧
    (9 : Int) ≠ min 9 (RAYLIB_MAX_TOUCH_POINTS : Int) := by
  refine ⟨?_, by decide⟩
  show (androidTouchEvent refLibm specRcore 0 AMOTION_EVENT_ACTION_MOVE _
    initialMachine).CORE.Input.Touch.pointCount = 9
  rw [androidTouchEvent_pointCount, if_neg (by decide), if_neg (by decide)]
  rfl

/-- C15 (amended): after the touch branch of the Android input callback, with
any number of pointers, `Touch.pointCount` is the native pointer count itself
(one less after a POINTER_UP or UP action and 0 after CANCEL): the count is not
clamped, the loops over the arrays are, so no cell of `pointId`, `position` or
`currentTouchState` at index 8 or above is written.  The entries below both the
count and 8 hold the event's pointers in order, and when pointer `p` is released
(`p` the pointer index of the action word) the entries after `p` each take the id
and position of the next pointer, for every entry whose successor is below 8, so
the entries below the decremented count are the remaining pointers in order.
After SDL's `UpdateTouchPointsSDL` with at most 8 fingers, `Touch.pointCount`
is the finger count, no cell at index 8 or above is written and the entries below
the count hold the fingers in order. -/
theorem touch_points_count_and_release (m : Libm) (R : Rcore) (now : ℚ) (action : Nat)
    (pointers : List AndroidPointer) (fingers : List SDLFinger) (W : Machine) :
    (androidTouchEvent m R now action pointers W).CORE.Input.Touch.pointCount
      = (if action &&& AMOTION_EVENT_ACTION_MASK = AMOTION_EVENT_ACTION_CANCEL then 0
        else if action &&& AMOTION_EVENT_ACTION_MASK = AMOTION_EVENT_ACTION_POINTER_UP ∨
            action &&& AMOTION_EVENT_ACTION_MASK = AMOTION_EVENT_ACTION_UP
          then (pointers.length : Int) - 1
        else (pointers.length : Int)) ∧
    (∀ k : Int, (RAYLIB_MAX_TOUCH_POINTS : Int) ≤ k →
      (androidTouchEvent m R now action pointers W).CORE.Input.Touch.pointId k
        = W.CORE.Input.Touch.pointId k ∧
      (androidTouchEvent m R now action pointers W).CORE.Input.Touch.position k
        = W.CORE.Input.Touch.position k ∧
      (androidTouchEvent m R now action pointers W).CORE.Input.Touch.currentTouchState k
        = W.CORE.Input.Touch.currentTouchState k) ∧
    (¬ (action &&& AMOTION_EVENT_ACTION_MASK = AMOTION_EVENT_ACTION_POINTER_UP ∨
          action &&& AMOTION_EVENT_ACTION_MASK = AMOTION_EVENT_ACTION_UP) →
      ∀ i : ℕ, i < pointers.length → i < RAYLIB_MAX_TOUCH_POINTS →
        (androidTouchEvent m R now action pointers W).CORE.Input.Touch.pointId (i : Int)
          = (pointers.getD i ⟨0, 0, 0⟩).id ∧
        (androidTouchEvent m R now action pointers W).CORE.Input.Touch.position (i : Int)
          = androidScreenPosition W (pointers.getD i ⟨0, 0, 0⟩)) ∧
    ((action &&& AMOTION_EVENT_ACTION_MASK = AMOTION_EVENT_ACTION_POINTER_UP ∨
          action &&& AMOTION_EVENT_ACTION_MASK = AMOTION_EVENT_ACTION_UP) →
      ∀ i : ℕ, i + 1 < pointers.length → i + 1 < RAYLIB_MAX_TOUCH_POINTS →
        (androidTouchEvent m R now action pointers W).CORE.Input.Touch.pointId (i : Int)
          = (pointers.getD
              (if i < (action &&& AMOTION_EVENT_ACTION_POINTER_INDEX_MASK) >>>
                  AMOTION_EVENT_ACTION_POINTER_INDEX_SHIFT then i else i + 1)
              ⟨0, 0, 0⟩).id ∧
        (androidTouchEvent m R now action pointers W).CORE.Input.Touch.position (i : Int)
          = androidScreenPosition W
              (pointers.getD
                (if i < (action &&& AMOTION_EVENT_ACTION_POINTER_INDEX_MASK) >>>
                    AMOTION_EVENT_ACTION_POINTER_INDEX_SHIFT then i else i + 1)
                ⟨0, 0, 0⟩)) ∧
    (fingers.length ≤ RAYLIB_MAX_TOUCH_POINTS →
      (UpdateTouchPointsSDL fingers W).CORE.Input.Touch.pointCount = (fingers.length : Int) ∧
      (∀ k : Int, (RAYLIB_MAX_TOUCH_POINTS : Int) ≤ k →
        (UpdateTouchPointsSDL fingers W).CORE.Input.Touch.pointId k
          = W.CORE.Input.Touch.pointId k ∧
        (UpdateTouchPointsSDL fingers W).CORE.Input.Touch.position k
          = W.CORE.Input.Touch.position k ∧
        (UpdateTouchPointsSDL fingers W).CORE.Input.Touch.currentTouchState k
          = W.CORE.Input.Touch.currentTouchState k) ∧
      (∀ i : ℕ, i < fingers.length →
        (UpdateTouchPointsSDL fingers W).CORE.Input.Touch.pointId (i : Int)
          = (fingers.getD i ⟨0, 0, 0⟩).id ∧
        (UpdateTouchPointsSDL fingers W).CORE.Input.Touch.position (i : Int)
          = ⟨(fingers.getD i ⟨0, 0, 0⟩).x * (W.CORE.Window.screen.width : ℚ),
              (fingers.getD i ⟨0, 0, 0⟩).y * (W.CORE.Window.screen.height : ℚ)⟩ ∧
        (UpdateTouchPointsSDL fingers W).CORE.Input.Touch.currentTouchState (i : Int) = 1)) := by
  have h8 : (RAYLIB_MAX_TOUCH_POINTS : Int) = 8 := rfl
  have h8n : RAYLIB_MAX_TOUCH_POINTS = 8 := rfl
  have hRL : RAYLIB_MOUSE_BUTTON_LEFT = 0 := rfl
  refine ⟨androidTouchEvent_pointCount m R now action pointers W, ?_, ?_, ?_, ?_⟩
  · intro k hk
    rw [h8] at hk
    refine ⟨?_, ?_, ?_⟩
    · rw [androidTouchEvent_pointId]
      split_ifs
      · rw [androidShift_pointId, if_neg (by rw [h8]; omega), androidRegister_pointId,
          if_neg (by rw [h8]; omega)]
      · rw [androidRegister_pointId, if_neg (by rw [h8]; omega)]
    · rw [androidTouchEvent_position]
      split_ifs
      · rw [androidShift_position, if_neg (by rw [h8]; omega), androidRegister_position,
          if_neg (by rw [h8]; omega)]
      · rw [androidRegister_position, if_neg (by rw [h8]; omega)]
    · exact androidTouchEvent_currentTouchState m R now action pointers W k
        (by rw [hRL]; omega)
  · intro hrel i hi hi8
    rw [h8n] at hi8
    have hi' : (i : Int) < (pointers.length : Int) := by exact_mod_cast hi
    have hi8' : (i : Int) < 8 := by exact_mod_cast hi8
    constructor
    · rw [androidTouchEvent_pointId, if_neg hrel, androidRegister_pointId,
        if_pos (by rw [h8]; omega), Int.toNat_natCast]
    · rw [androidTouchEvent_position, if_neg hrel, androidRegister_position,
        if_pos (by rw [h8]; omega), Int.toNat_natCast]
      rfl
  · intro hrel i hi hi8
    rw [h8n] at hi8
    have hi' : (i : Int) + 1 < (pointers.length : Int) := by exact_mod_cast hi
    have hi8' : (i : Int) + 1 < 8 := by exact_mod_cast hi8
    have ht : ((i : Int) + 1).toNat = i + 1 := by
      have : ((i : Int) + 1) = ((i + 1 : ℕ) : Int) := by push_cast; rfl
      rw [this, Int.toNat_natCast]
    by_cases hp : i < (action &&& AMOTION_EVENT_ACTION_POINTER_INDEX_MASK) >>>
        AMOTION_EVENT_ACTION_POINTER_INDEX_SHIFT
    · have hp' : (i : Int) < (((action &&& AMOTION_EVENT_ACTION_POINTER_INDEX_MASK) >>>
          AMOTION_EVENT_ACTION_POINTER_INDEX_SHIFT : ℕ) : Int) := by exact_mod_cast hp
      rw [if_pos hp]
      constructor
      · rw [androidTouchEvent_pointId, if_pos hrel, androidShift_pointId, if_neg (by omega),
          androidRegister_pointId, if_pos (by rw [h8]; omega), Int.toNat_natCast]
      · rw [androidTouchEvent_position, if_pos hrel, androidShift_position, if_neg (by omega),
          androidRegister_position, if_pos (by rw [h8]; omega), Int.toNat_natCast]
        rfl
    · have hp' : (((action &&& AMOTION_EVENT_ACTION_POINTER_INDEX_MASK) >>>
          AMOTION_EVENT_ACTION_POINTER_INDEX_SHIFT : ℕ) : Int) ≤ (i : Int) := by
        exact_mod_cast Nat.le_of_not_lt hp
      rw [if_neg hp]
      constructor
      · rw [androidTouchEvent_pointId, if_pos hrel, androidShift_pointId,
          if_pos (by rw [h8]; omega), androidRegister_pointId, if_pos (by rw [h8]; omega), ht]
      · rw [androidTouchEvent_position, if_pos hrel, androidShift_position,
          if_pos (by rw [h8]; omega), androidRegister_position, if_pos (by rw [h8]; omega), ht]
        rfl
  · intro hf
    have hf8 : (fingers.length : Int) ≤ 8 := by
      have : ((fingers.length : ℕ) : Int) ≤ ((RAYLIB_MAX_TOUCH_POINTS : ℕ) : Int) := by
        exact_mod_cast hf
      rwa [h8] at this
    refine ⟨updateTouchPointsSDL_pointCount fingers W, ?_, ?_⟩
    · intro k hk
      rw [h8] at hk
      refine ⟨?_, ?_, ?_⟩
      · rw [updateTouchPointsSDL_pointId, if_neg (by omega)]
      · rw [updateTouchPointsSDL_position, if_neg (by omega)]
      · rw [updateTouchPointsSDL_currentTouchState, if_neg (by rw [h8]; omega),
          if_neg (by omega)]
    · intro i hi
      have hi' : (i : Int) < (fingers.length : Int) := by exact_mod_cast hi
      refine ⟨?_, ?_, ?_⟩
      · rw [updateTouchPointsSDL_pointId, if_pos (by omega), Int.toNat_natCast]
      · rw [updateTouchPointsSDL_position, if_pos (by omega), Int.toNat_natCast]
      · rw [updateTouchPointsSDL_currentTouchState, if_neg (by omega), if_pos (by omega)]

/-- Witness of C15: an Android POINTER_UP event (action word 6, pointer index 0)
with the two pointers 10 and 11 leaves one touch point, pointer 11 in entry 0;
`UpdateTouchPointsSDL` with one finger leaves the count 1. -/
theorem touch_points_count_and_release_witness :
    (androidTouchEvent refLibm specRcore 0 6 [⟨10, 100, 200⟩, ⟨11, 300, 400⟩]
        initialMachine).CORE.Input.Touch.pointCount = 1 ∧
    (androidTouchEvent refLibm specRcore 0 6 [⟨10, 100, 200⟩, ⟨11, 300, 400⟩]
        initialMachine).CORE.Input.Touch.pointId 0 = 11 ∧
    (UpdateTouchPointsSDL [⟨5, 1 / 2, 1 / 2⟩] initialMachine).CORE.Input.Touch.pointCount
      = 1 := by
  obtain ⟨h1, -, -, h4, h5⟩ :=
    touch_points_count_and_release refLibm specRcore 0 6 [⟨10, 100, 200⟩, ⟨11, 300, 400⟩]
      [⟨5, 1 / 2, 1 / 2⟩] initialMachine
  refine ⟨?_, ?_, ?_⟩
  · rw [h1, if_neg (by decide), if_pos (by decide)]
    rfl
  · have h := (h4 (by decide) 0 (by decide) (by decide)).1
    rw [if_neg (by decide)] at h
    exact h
  · rw [(h5 (by decide)).1]
    rfl

/-- The register loop of `UpdateTouchPointsSDL` has no `i < RAYLIB_MAX_TOUCH_POINTS`
test, unlike the Android loops: with nine fingers it assigns entry 8 of
`pointId`, an index that the C arrays of `RAYLIB_MAX_TOUCH_POINTS` entries do
not have.  The statement of C15 above leaves this case out. -/
theorem sdl_register_loop_unguarded :
    initialMachine.CORE.Input.Touch.pointId 8 = 0 ∧
    (UpdateTouchPointsSDL
        [⟨10, 0, 0⟩, ⟨11, 0, 0⟩, ⟨12, 0, 0⟩, ⟨13, 0, 0⟩, ⟨14, 0, 0⟩, ⟨15, 0, 0⟩, ⟨16, 0, 0⟩,
          ⟨17, 0, 0⟩, ⟨18, 0, 0⟩]
        initialMachine).CORE.Input.Touch.pointId 8 = 18 := by
  refine ⟨rfl, ?_⟩
  rw [updateTouchPointsSDL_pointId, if_pos (by decide)]
  rfl

/-! ## The desktop files: key snapshot and pressed-key queue

The SDL and RGFW files do what C12 and C14 say: their snapshot loop runs over all
`RAYLIB_MAX_KEYBOARD_KEYS` keys, and their key-down cases append to the queue only
below its capacity. -/

theorem desktopRegisterKey_previousKeyState (cfg : Config) (key : Int) (W : Machine) :
    (desktopRegisterKey cfg key W).CORE.Input.Keyboard.previousKeyState
      = W.CORE.Input.Keyboard.previousKeyState := by
  unfold desktopRegisterKey
  dsimp only
  split_ifs <;> rfl

theorem sdlSwitch_previousKeyState (cfg : Config) (cursorRelative : Bool) (event : SDLEvent)
    (L : PollLocals) :
    (sdlSwitch cfg cursorRelative event L).W.CORE.Input.Keyboard.previousKeyState
      = L.W.CORE.Input.Keyboard.previousKeyState := by
  cases event with
  | quit => rfl
  | windowResized width height => rfl
  | keyDown scancode rep =>
    unfold sdlSwitch checkExitKey
    dsimp only
    split_ifs <;> exact desktopRegisterKey_previousKeyState _ _ _
  | keyUp scancode =>
    unfold sdlSwitch desktopKeyUp
    dsimp only
    split_ifs <;> rfl
  | mouseButtonDown button => rfl
  | mouseButtonUp button => rfl
  | mouseWheel x y => rfl
  | mouseMotion x y xrel yrel =>
    unfold sdlSwitch
    dsimp only
    split_ifs <;> rfl
  | fingerDown fingers =>
    exact updateTouchPointsSDL_preserves (fun W => W.CORE.Input.Keyboard.previousKeyState)
      (fun _ _ => rfl) _ _
  | fingerUp fingers =>
    exact updateTouchPointsSDL_preserves (fun W => W.CORE.Input.Keyboard.previousKeyState)
      (fun _ _ => rfl) _ _
  | fingerMotion fingers =>
    exact updateTouchPointsSDL_preserves (fun W => W.CORE.Input.Keyboard.previousKeyState)
      (fun _ _ => rfl) _ _
  | joyAxisMotion which axis value =>
    unfold sdlSwitch sdlJoyAxisMotion
    dsimp only
    split_ifs <;> rfl

theorem rgfwSwitch_previousKeyState (cfg : Config) (Lib : RGFWLib) (event : RGFWEvent)
    (L : PollLocals) :
    (rgfwSwitch cfg Lib event L).W.CORE.Input.Keyboard.previousKeyState
      = L.W.CORE.Input.Keyboard.previousKeyState := by
  cases event with
  | quit => rfl
  | windowAttribsChange width height => rfl
  | keyPressed keyCode =>
    unfold rgfwSwitch checkExitKey
    dsimp only
    split_ifs <;> exact desktopRegisterKey_previousKeyState _ _ _
  | keyReleased keyCode =>
    unfold rgfwSwitch desktopKeyUp
    dsimp only
    split_ifs <;> rfl
  | mouseButtonPressed button scroll =>
    unfold rgfwSwitch
    dsimp only
    split_ifs <;> rfl
  | mouseButtonReleased button scroll =>
    unfold rgfwSwitch
    dsimp only
    split_ifs <;> rfl
  | mousePosChanged x y rw rh =>
    unfold rgfwSwitch
    dsimp only
    split_ifs <;> rfl

theorem sdlEvents_previousKeyState (cfg : Config) (m : Libm) (R : Rcore)
    (cursorRelative : Bool) (events : List (ℚ × SDLEvent)) (L : PollLocals) :
    (events.foldl (fun L e => sdlEvent cfg m R cursorRelative e.1 e.2 L)
        L).W.CORE.Input.Keyboard.previousKeyState
      = L.W.CORE.Input.Keyboard.previousKeyState := by
  induction events generalizing L with
  | nil => rfl
  | cons e es ih =>
    rw [List.foldl_cons, ih]
    unfold sdlEvent
    rw [desktopGesture_CORE, sdlSwitch_previousKeyState]

theorem rgfwEvents_previousKeyState (cfg : Config) (m : Libm) (R : Rcore) (Lib : RGFWLib)
    (events : List (ℚ × RGFWEvent)) (L : PollLocals) :
    (events.foldl (fun L e => rgfwEvent cfg m R Lib e.1 e.2 L)
        L).W.CORE.Input.Keyboard.previousKeyState
      = L.W.CORE.Input.Keyboard.previousKeyState := by
  induction events generalizing L with
  | nil => rfl
  | cons e es ih =>
    rw [List.foldl_cons, ih]
    unfold rgfwEvent
    rw [desktopGesture_CORE, rgfwSwitch_previousKeyState]

theorem sdlFrameStart_previousKeyState (cfg : Config) (cursorRelative : Bool) (now : ℚ)
    (W : Machine) (k : Int) :
    (sdlFrameStart cfg cursorRelative now W).W.CORE.Input.Keyboard.previousKeyState k
      = if 0 ≤ k ∧ k < cfg.MAX_KEYBOARD_KEYS then W.CORE.Input.Keyboard.currentKeyState k
        else W.CORE.Input.Keyboard.previousKeyState k := by
  unfold sdlFrameStart
  dsimp only
  rw [registerPreviousMouseButtons_preserves
      (fun W => W.CORE.Input.Keyboard.previousKeyState) (fun _ _ => rfl),
    registerPreviousKeys_previousKeyState]
  dsimp only
  rw [registerPreviousTouch_preserves (fun W => W.CORE.Input.Keyboard.currentKeyState)
      (fun _ _ => rfl),
    registerPreviousTouch_preserves (fun W => W.CORE.Input.Keyboard.previousKeyState)
      (fun _ _ => rfl)]
  split_ifs <;> rfl

theorem rgfwFrameStart_previousKeyState (cfg : Config) (Lib : RGFWLib) (now : ℚ)
    (W : Machine) (k : Int) :
    (rgfwFrameStart cfg Lib now W).W.CORE.Input.Keyboard.previousKeyState k
      = if 0 ≤ k ∧ k < cfg.MAX_KEYBOARD_KEYS then W.CORE.Input.Keyboard.currentKeyState k
        else W.CORE.Input.Keyboard.previousKeyState k := by
  have h : ∀ W0 : Machine,
      (registerPreviousMouseButtons cfg
        (registerPreviousKeys cfg.MAX_KEYBOARD_KEYS
          { (registerPreviousTouch W0) with
            CORE.Input.Touch.position :=
              Function.update (registerPreviousTouch W0).CORE.Input.Touch.position 0
                (registerPreviousTouch W0).CORE.Input.Mouse.currentPosition
                })).CORE.Input.Keyboard.previousKeyState k
        = if 0 ≤ k ∧ k < cfg.MAX_KEYBOARD_KEYS then W0.CORE.Input.Keyboard.currentKeyState k
          else W0.CORE.Input.Keyboard.previousKeyState k := by
    intro W0
    rw [registerPreviousMouseButtons_preserves
        (fun W => W.CORE.Input.Keyboard.previousKeyState) (fun _ _ => rfl),
      registerPreviousKeys_previousKeyState]
    dsimp only
    rw [registerPreviousTouch_preserves (fun W => W.CORE.Input.Keyboard.currentKeyState)
        (fun _ _ => rfl),
      registerPreviousTouch_preserves (fun W => W.CORE.Input.Keyboard.previousKeyState)
        (fun _ _ => rfl)]
  unfold rgfwFrameStart
  dsimp only
  by_cases hx : Lib.x11 = true
  · rw [if_pos hx]
    by_cases hh : Lib.holdMouse = true
    · rw [if_pos hh]
      exact h _
    · rw [if_neg hh]
      exact h _
  · rw [if_neg hx]
    exact h _

/-- The SDL and RGFW frames: `previousKeyState[k]` is the value `currentKeyState[k]`
had before the call, for every `k` below `RAYLIB_MAX_KEYBOARD_KEYS`. -/
theorem desktop_key_snapshot (cfg : Config) (m : Libm) (R : Rcore) (now : ℚ) (W : Machine)
    (k : Int) (h0 : 0 ≤ k) (h1 : k < cfg.MAX_KEYBOARD_KEYS) :
    (∀ (cursorRelative : Bool) (events : List (ℚ × SDLEvent)),
      (PollInputEventsSDL cfg m R cursorRelative now events
          W).CORE.Input.Keyboard.previousKeyState k
        = W.CORE.Input.Keyboard.currentKeyState k) ∧
    (∀ (Lib : RGFWLib) (events : List (ℚ × RGFWEvent)),
      (PollInputEventsRGFW cfg m R Lib now events W).CORE.Input.Keyboard.previousKeyState k
        = W.CORE.Input.Keyboard.currentKeyState k) := by
  constructor
  · intro cursorRelative events
    unfold PollInputEventsSDL
    rw [sdlEvents_previousKeyState, sdlFrameStart_previousKeyState, if_pos ⟨h0, h1⟩]
  · intro Lib events
    unfold PollInputEventsRGFW
    rw [rgfwEvents_previousKeyState, rgfwFrameStart_previousKeyState, if_pos ⟨h0, h1⟩]

theorem desktopRegisterKey_queueStep (cfg : Config) (key : Int) (W : Machine) :
    QueueStep cfg W (desktopRegisterKey cfg key W) := by
  unfold desktopRegisterKey QueueStep
  dsimp only
  split_ifs with h1 h2
  · exact Or.inr ⟨h2.2, rfl, key, rfl⟩
  · exact Or.inl ⟨rfl, rfl⟩
  · exact Or.inl ⟨rfl, rfl⟩

theorem QueueStep.of_eq (cfg : Config) (W W1 W2 : Machine) (h : QueueStep cfg W W1)
    (hc : W2.CORE.Input.Keyboard.keyPressedQueueCount
      = W1.CORE.Input.Keyboard.keyPressedQueueCount)
    (hq : W2.CORE.Input.Keyboard.keyPressedQueue = W1.CORE.Input.Keyboard.keyPressedQueue) :
    QueueStep cfg W W2 := by
  unfold QueueStep at h ⊢
  rw [hc, hq]
  exact h

theorem QueueStep.refl (cfg : Config) (W W1 : Machine)
    (hc : W1.CORE.Input.Keyboard.keyPressedQueueCount
      = W.CORE.Input.Keyboard.keyPressedQueueCount)
    (hq : W1.CORE.Input.Keyboard.keyPressedQueue = W.CORE.Input.Keyboard.keyPressedQueue) :
    QueueStep cfg W W1 :=
  Or.inl ⟨hc, hq⟩

theorem checkExitKey_Keyboard (W : Machine) :
    (checkExitKey W).CORE.Input.Keyboard = W.CORE.Input.Keyboard := by
  unfold checkExitKey
  split_ifs <;> rfl

theorem sdlSwitch_queueStep (cfg : Config) (cursorRelative : Bool) (event : SDLEvent)
    (L : PollLocals) :
    QueueStep cfg L.W (sdlSwitch cfg cursorRelative event L).W := by
  cases event with
  | quit => exact QueueStep.refl _ _ _ rfl rfl
  | windowResized width height => exact QueueStep.refl _ _ _ rfl rfl
  | keyDown scancode rep =>
    refine QueueStep.of_eq cfg _ _ _
      (desktopRegisterKey_queueStep cfg (ConvertScancodeToKey scancode) L.W) ?_ ?_
    · unfold sdlSwitch
      dsimp only
      rw [checkExitKey_Keyboard]
      split_ifs <;> rfl
    · unfold sdlSwitch
      dsimp only
      rw [checkExitKey_Keyboard]
      split_ifs <;> rfl
  | keyUp scancode =>
    refine QueueStep.refl _ _ _ ?_ ?_ <;>
      (unfold sdlSwitch desktopKeyUp; dsimp only; split_ifs <;> rfl)
  | mouseButtonDown button => exact QueueStep.refl _ _ _ rfl rfl
  | mouseButtonUp button => exact QueueStep.refl _ _ _ rfl rfl
  | mouseWheel x y => exact QueueStep.refl _ _ _ rfl rfl
  | mouseMotion x y xrel yrel =>
    refine QueueStep.refl _ _ _ ?_ ?_ <;>
      (unfold sdlSwitch; dsimp only; split_ifs <;> rfl)
  | fingerDown fingers =>
    exact QueueStep.refl _ _ _
      (updateTouchPointsSDL_preserves (fun W => W.CORE.Input.Keyboard.keyPressedQueueCount)
        (fun _ _ => rfl) _ _)
      (updateTouchPointsSDL_preserves (fun W => W.CORE.Input.Keyboard.keyPressedQueue)
        (fun _ _ => rfl) _ _)
  | fingerUp fingers =>
    exact QueueStep.refl _ _ _
      (updateTouchPointsSDL_preserves (fun W => W.CORE.Input.Keyboard.keyPressedQueueCount)
        (fun _ _ => rfl) _ _)
      (updateTouchPointsSDL_preserves (fun W => W.CORE.Input.Keyboard.keyPressedQueue)
        (fun _ _ => rfl) _ _)
  | fingerMotion fingers =>
    exact QueueStep.refl _ _ _
      (updateTouchPointsSDL_preserves (fun W => W.CORE.Input.Keyboard.keyPressedQueueCount)
        (fun _ _ => rfl) _ _)
      (updateTouchPointsSDL_preserves (fun W => W.CORE.Input.Keyboard.keyPressedQueue)
        (fun _ _ => rfl) _ _)
  | joyAxisMotion which axis value =>
    refine QueueStep.refl _ _ _ ?_ ?_ <;>
      (unfold sdlSwitch sdlJoyAxisMotion; dsimp only; split_ifs <;> rfl)

theorem rgfwSwitch_queueStep (cfg : Config) (Lib : RGFWLib) (event : RGFWEvent)
    (L : PollLocals) :
    QueueStep cfg L.W (rgfwSwitch cfg Lib event L).W := by
  cases event with
  | quit => exact QueueStep.refl _ _ _ rfl rfl
  | windowAttribsChange width height => exact QueueStep.refl _ _ _ rfl rfl
  | keyPressed keyCode =>
    refine QueueStep.of_eq cfg _ _ _
      (desktopRegisterKey_queueStep cfg (Lib.ConvertScancodeToKey keyCode) L.W) ?_ ?_
    · unfold rgfwSwitch
      dsimp only
      rw [checkExitKey_Keyboard]
    · unfold rgfwSwitch
      dsimp only
      rw [checkExitKey_Keyboard]
  | keyReleased keyCode =>
    refine QueueStep.refl _ _ _ ?_ ?_ <;>
      (unfold rgfwSwitch desktopKeyUp; dsimp only; split_ifs <;> rfl)
  | mouseButtonPressed button scroll =>
    refine QueueStep.refl _ _ _ ?_ ?_ <;>
      (unfold rgfwSwitch; dsimp only; split_ifs <;> rfl)
  | mouseButtonReleased button scroll =>
    refine QueueStep.refl _ _ _ ?_ ?_ <;>
      (unfold rgfwSwitch; dsimp only; split_ifs <;> rfl)
  | mousePosChanged x y rw rh =>
    refine QueueStep.refl _ _ _ ?_ ?_ <;>
      (unfold rgfwSwitch; dsimp only; split_ifs <;> rfl)

/-- A queue step keeps the count between 0 and the capacity and writes no cell
outside the queue. -/
theorem QueueStep.bounded (cfg : Config) (W W1 : Machine) (h : QueueStep cfg W W1)
    (h0 : 0 ≤ W.CORE.Input.Keyboard.keyPressedQueueCount)
    (h1 : W.CORE.Input.Keyboard.keyPressedQueueCount ≤ cfg.MAX_KEY_PRESSED_QUEUE) :
    0 ≤ W1.CORE.Input.Keyboard.keyPressedQueueCount ∧
    W1.CORE.Input.Keyboard.keyPressedQueueCount ≤ cfg.MAX_KEY_PRESSED_QUEUE ∧
    ∀ k : Int, k < 0 ∨ cfg.MAX_KEY_PRESSED_QUEUE ≤ k →
      W1.CORE.Input.Keyboard.keyPressedQueue k = W.CORE.Input.Keyboard.keyPressedQueue k := by
  rcases h with ⟨hc, hq⟩ | ⟨hlt, hc, key, hq⟩
  · rw [hc, hq]
    exact ⟨h0, h1, fun _ _ => rfl⟩
  · rw [hc, hq]
    refine ⟨by omega, by omega, fun k hk => ?_⟩
    rw [Function.update_noteq (by omega)]

theorem sdlEvents_queue (cfg : Config) (m : Libm) (R : Rcore) (cursorRelative : Bool)
    (events : List (ℚ × SDLEvent)) (L : PollLocals)
    (h0 : 0 ≤ L.W.CORE.Input.Keyboard.keyPressedQueueCount)
    (h1 : L.W.CORE.Input.Keyboard.keyPressedQueueCount ≤ cfg.MAX_KEY_PRESSED_QUEUE) :
    0 ≤ (events.foldl (fun L e => sdlEvent cfg m R cursorRelative e.1 e.2 L)
        L).W.CORE.Input.Keyboard.keyPressedQueueCount ∧
    (events.foldl (fun L e => sdlEvent cfg m R cursorRelative e.1 e.2 L)
        L).W.CORE.Input.Keyboard.keyPressedQueueCount ≤ cfg.MAX_KEY_PRESSED_QUEUE ∧
    ∀ k : Int, k < 0 ∨ cfg.MAX_KEY_PRESSED_QUEUE ≤ k →
      (events.foldl (fun L e => sdlEvent cfg m R cursorRelative e.1 e.2 L)
          L).W.CORE.Input.Keyboard.keyPressedQueue k
        = L.W.CORE.Input.Keyboard.keyPressedQueue k := by
  induction events generalizing L with
  | nil => exact ⟨h0, h1, fun _ _ => rfl⟩
  | cons e es ih =>
    rw [List.foldl_cons]
    have hs : QueueStep cfg L.W (sdlEvent cfg m R cursorRelative e.1 e.2 L).W := by
      refine QueueStep.of_eq cfg _ _ _ (sdlSwitch_queueStep cfg cursorRelative e.2 L) ?_ ?_
      · unfold sdlEvent
        rw [desktopGesture_CORE]
      · unfold sdlEvent
        rw [desktopGesture_CORE]
    obtain ⟨a0, a1, aq⟩ := QueueStep.bounded cfg _ _ hs h0 h1
    obtain ⟨b0, b1, bq⟩ := ih (sdlEvent cfg m R cursorRelative e.1 e.2 L) a0 a1
    exact ⟨b0, b1, fun k hk => (bq k hk).trans (aq k hk)⟩

theorem rgfwEvents_queue (cfg : Config) (m : Libm) (R : Rcore) (Lib : RGFWLib)
    (events : List (ℚ × RGFWEvent)) (L : PollLocals)
    (h0 : 0 ≤ L.W.CORE.Input.Keyboard.keyPressedQueueCount)
    (h1 : L.W.CORE.Input.Keyboard.keyPressedQueueCount ≤ cfg.MAX_KEY_PRESSED_QUEUE) :
    0 ≤ (events.foldl (fun L e => rgfwEvent cfg m R Lib e.1 e.2 L)
        L).W.CORE.Input.Keyboard.keyPressedQueueCount ∧
    (events.foldl (fun L e => rgfwEvent cfg m R Lib e.1 e.2 L)
        L).W.CORE.Input.Keyboard.keyPressedQueueCount ≤ cfg.MAX_KEY_PRESSED_QUEUE ∧
    ∀ k : Int, k < 0 ∨ cfg.MAX_KEY_PRESSED_QUEUE ≤ k →
      (events.foldl (fun L e => rgfwEvent cfg m R Lib e.1 e.2 L)
          L).W.CORE.Input.Keyboard.keyPressedQueue k
        = L.W.CORE.Input.Keyboard.keyPressedQueue k := by
  induction events generalizing L with
  | nil => exact ⟨h0, h1, fun _ _ => rfl⟩
  | cons e es ih =>
    rw [List.foldl_cons]
    have hs : QueueStep cfg L.W (rgfwEvent cfg m R Lib e.1 e.2 L).W := by
      refine QueueStep.of_eq cfg _ _ _ (rgfwSwitch_queueStep cfg Lib e.2 L) ?_ ?_
      · unfold rgfwEvent
        rw [desktopGesture_CORE]
      · unfold rgfwEvent
        rw [desktopGesture_CORE]
    obtain ⟨a0, a1, aq⟩ := QueueStep.bounded cfg _ _ hs h0 h1
    obtain ⟨b0, b1, bq⟩ := ih (rgfwEvent cfg m R Lib e.1 e.2 L) a0 a1
    exact ⟨b0, b1, fun k hk => (bq k hk).trans (aq k hk)⟩

theorem sdlFrameStart_queue (cfg : Config) (cursorRelative : Bool) (now : ℚ) (W : Machine) :
    (sdlFrameStart cfg cursorRelative now W).W.CORE.Input.Keyboard.keyPressedQueueCount = 0 ∧
    (sdlFrameStart cfg cursorRelative now W).W.CORE.Input.Keyboard.keyPressedQueue
      = W.CORE.Input.Keyboard.keyPressedQueue := by
  unfold sdlFrameStart
  dsimp only
  constructor
  · rw [registerPreviousMouseButtons_preserves
        (fun W => W.CORE.Input.Keyboard.keyPressedQueueCount) (fun _ _ => rfl),
      registerPreviousKeys_preserves (fun W => W.CORE.Input.Keyboard.keyPressedQueueCount)
        (fun _ _ => rfl) (fun _ _ => rfl)]
    dsimp only
    rw [registerPreviousTouch_preserves (fun W => W.CORE.Input.Keyboard.keyPressedQueueCount)
        (fun _ _ => rfl)]
    split_ifs <;> rfl
  · rw [registerPreviousMouseButtons_preserves
        (fun W => W.CORE.Input.Keyboard.keyPressedQueue) (fun _ _ => rfl),
      registerPreviousKeys_preserves (fun W => W.CORE.Input.Keyboard.keyPressedQueue)
        (fun _ _ => rfl) (fun _ _ => rfl)]
    dsimp only
    rw [registerPreviousTouch_preserves (fun W => W.CORE.Input.Keyboard.keyPressedQueue)
        (fun _ _ => rfl)]
    split_ifs <;> rfl

theorem rgfwFrameStart_queue (cfg : Config) (Lib : RGFWLib) (now : ℚ) (W : Machine) :
    (rgfwFrameStart cfg Lib now W).W.CORE.Input.Keyboard.keyPressedQueueCount = 0 ∧
    (rgfwFrameStart cfg Lib now W).W.CORE.Input.Keyboard.keyPressedQueue
      = W.CORE.Input.Keyboard.keyPressedQueue := by
  have h : ∀ W0 : Machine,
      (registerPreviousMouseButtons cfg
        (registerPreviousKeys cfg.MAX_KEYBOARD_KEYS
          { (registerPreviousTouch W0) with
            CORE.Input.Touch.position :=
              Function.update (registerPreviousTouch W0).CORE.Input.Touch.position 0
                (registerPreviousTouch W0).CORE.Input.Mouse.currentPosition
                })).CORE.Input.Keyboard.keyPressedQueueCount
        = W0.CORE.Input.Keyboard.keyPressedQueueCount ∧
      (registerPreviousMouseButtons cfg
        (registerPreviousKeys cfg.MAX_KEYBOARD_KEYS
          { (registerPreviousTouch W0) with
            CORE.Input.Touch.position :=
              Function.update (registerPreviousTouch W0).CORE.Input.Touch.position 0
                (registerPreviousTouch W0).CORE.Input.Mouse.currentPosition
                })).CORE.Input.Keyboard.keyPressedQueue
        = W0.CORE.Input.Keyboard.keyPressedQueue := by
    intro W0
    constructor
    · rw [registerPreviousMouseButtons_preserves
          (fun W => W.CORE.Input.Keyboard.keyPressedQueueCount) (fun _ _ => rfl),
        registerPreviousKeys_preserves (fun W => W.CORE.Input.Keyboard.keyPressedQueueCount)
          (fun _ _ => rfl) (fun _ _ => rfl)]
      dsimp only
      rw [registerPreviousTouch_preserves
          (fun W => W.CORE.Input.Keyboard.keyPressedQueueCount) (fun _ _ => rfl)]
    · rw [registerPreviousMouseButtons_preserves
          (fun W => W.CORE.Input.Keyboard.keyPressedQueue) (fun _ _ => rfl),
        registerPreviousKeys_preserves (fun W => W.CORE.Input.Keyboard.keyPressedQueue)
          (fun _ _ => rfl) (fun _ _ => rfl)]
      dsimp only
      rw [registerPreviousTouch_preserves (fun W => W.CORE.Input.Keyboard.keyPressedQueue)
          (fun _ _ => rfl)]
  unfold rgfwFrameStart
  dsimp only
  by_cases hx : Lib.x11 = true
  · rw [if_pos hx]
    by_cases hh : Lib.holdMouse = true
    · rw [if_pos hh]
      exact h _
    · rw [if_neg hh]
      exact h _
  · rw [if_neg hx]
    exact h _

/-- The SDL and RGFW frames: the count of the pressed-key queue never exceeds the
capacity, and no cell outside the queue is written. -/
theorem desktop_key_queue_bounded (cfg : Config) (m : Libm) (R : Rcore) (now : ℚ)
    (W : Machine) (hcap : 0 ≤ cfg.MAX_KEY_PRESSED_QUEUE) :
    (∀ (cursorRelative : Bool) (events : List (ℚ × SDLEvent)),
      (PollInputEventsSDL cfg m R cursorRelative now events
          W).CORE.Input.Keyboard.keyPressedQueueCount ≤ cfg.MAX_KEY_PRESSED_QUEUE ∧
      ∀ k : Int, k < 0 ∨ cfg.MAX_KEY_PRESSED_QUEUE ≤ k →
        (PollInputEventsSDL cfg m R cursorRelative now events
            W).CORE.Input.Keyboard.keyPressedQueue k
          = W.CORE.Input.Keyboard.keyPressedQueue k) ∧
    (∀ (Lib : RGFWLib) (events : List (ℚ × RGFWEvent)),
      (PollInputEventsRGFW cfg m R Lib now events
          W).CORE.Input.Keyboard.keyPressedQueueCount ≤ cfg.MAX_KEY_PRESSED_QUEUE ∧
      ∀ k : Int, k < 0 ∨ cfg.MAX_KEY_PRESSED_QUEUE ≤ k →
        (PollInputEventsRGFW cfg m R Lib now events W).CORE.Input.Keyboard.keyPressedQueue k
          = W.CORE.Input.Keyboard.keyPressedQueue k) := by
  constructor
  · intro cursorRelative events
    unfold PollInputEventsSDL
    obtain ⟨hc, hq⟩ := sdlFrameStart_queue cfg cursorRelative now W
    obtain ⟨-, b1, bq⟩ := sdlEvents_queue cfg m R cursorRelative events
      (sdlFrameStart cfg cursorRelative now W) (by rw [hc]) (by rw [hc]; exact hcap)
    exact ⟨b1, fun k hk => by rw [bq k hk, hq]⟩
  · intro Lib events
    unfold PollInputEventsRGFW
    obtain ⟨hc, hq⟩ := rgfwFrameStart_queue cfg Lib now W
    obtain ⟨-, b1, bq⟩ := rgfwEvents_queue cfg m R Lib events
      (rgfwFrameStart cfg Lib now W) (by rw [hc]) (by rw [hc]; exact hcap)
    exact ⟨b1, fun k hk => by rw [bq k hk, hq]⟩

/-! ## Invariants of the recognizer: `tapCounter` and `resetRequired` -/

theorem processGestureEvent_resetRequired (m : Libm) (now : ℚ) (ev : GestureEvent)
    (G : GesturesData) (h : G.Hold.resetRequired = false) :
    (ProcessGestureEvent m now ev G).Hold.resetRequired = false := by
  rw [processGestureEvent_eq]
  split_ifs <;>
    simp only [onePointDown_eq, onePointUp_eq, onePointMove_eq, twoPointDown_eq,
      twoPointMove_eq, twoPointUp_eq] <;>
    first
    | exact h
    | (split_ifs <;> first | rfl | exact h)

theorem updateGestures_resetRequired (now : ℚ) (G : GesturesData) :
    (UpdateGestures now G).Hold.resetRequired = G.Hold.resetRequired := by
  rw [updateGestures_eq]

theorem step_resetRequired (m : Libm) (G : GesturesData) (s : Step)
    (h : G.Hold.resetRequired = false) : (step m G s).Hold.resetRequired = false := by
  cases s with
  | event now ev => exact processGestureEvent_resetRequired m now ev G h
  | update now => exact (updateGestures_resetRequired now G).trans h
  | setEnabled flags => exact h

theorem run_resetRequired (m : Libm) (steps : List Step) :
    ∀ G : GesturesData, G.Hold.resetRequired = false →
      (run m G steps).Hold.resetRequired = false := by
  induction steps with
  | nil => intro G h; exact h
  | cons s rest ih =>
    intro G h
    rw [run_cons]
    exact ih _ (step_resetRequired m G s h)

/-- A one-point MOVE leaves `downPositionA` as it is unless `resetRequired` is set. -/
theorem move_downPositionA (m : Libm) (now : ℚ) (p : RaylibVector2) (G : GesturesData)
    (h : G.Hold.resetRequired = false) :
    (ProcessGestureEvent m now (touch1 RAYLIB_TOUCH_ACTION_MOVE p) G).Touch.downPositionA
      = G.Touch.downPositionA := by
  rw [processGestureEvent_move, onePointMove_eq]
  dsimp only
  rw [if_neg (by rw [h]; rintro ⟨-, h2⟩; exact absurd h2 (by decide))]

/-! ## C21: the re-anchor of `downPositionA` -/

/-- C21 (code bug): the one-point MOVE branch re-anchors `downPositionA` only
when `Hold.resetRequired` is set, and nothing in the module ever sets it, so the
re-anchor never happens.  In every state reachable from the initial state a
one-point MOVE leaves `downPositionA` unchanged.  From the initial state, a DOWN
at (0.5, 0.5) at time 0, `UpdateGestures` at 0.1 (the gesture is HOLD) and the
first MOVE, to (0.6, 0.5) at 0.2, leave `downPositionA` = (0.5, 0.5), not the
event position, and the gesture HOLD. -/
theorem hold_move_does_not_reanchor :
    (∀ (m : Libm) (steps : List Step) (now : ℚ) (p : RaylibVector2),
      (ProcessGestureEvent m now (touch1 RAYLIB_TOUCH_ACTION_MOVE p)
          (run m GESTURES steps)).Touch.downPositionA
        = (run m GESTURES steps).Touch.downPositionA) ∧
    (run refLibm GESTURES
        [Step.event 0 (touch1 RAYLIB_TOUCH_ACTION_DOWN ⟨1 / 2, 1 / 2⟩),
          Step.update (1 / 10)]).current = RAYLIB_GESTURE_HOLD ∧
    (run refLibm GESTURES
        [Step.event 0 (touch1 RAYLIB_TOUCH_ACTION_DOWN ⟨1 / 2, 1 / 2⟩),
          Step.update (1 / 10),
          Step.event (2 / 10) (touch1 RAYLIB_TOUCH_ACTION_MOVE ⟨3 / 5, 1 / 2⟩)]).current
      = RAYLIB_GESTURE_HOLD ∧
    (run refLibm GESTURES
        [Step.event 0 (touch1 RAYLIB_TOUCH_ACTION_DOWN ⟨1 / 2, 1 / 2⟩),
          Step.update (1 / 10),
          Step.event (2 / 10)
            (touch1 RAYLIB_TOUCH_ACTION_MOVE ⟨3 / 5, 1 / 2⟩)]).Touch.downPositionA
      = ⟨1 / 2, 1 / 2⟩ ∧
    (run refLibm GESTURES
        [Step.event 0 (touch1 RAYLIB_TOUCH_ACTION_DOWN ⟨1 / 2, 1 / 2⟩),
          Step.update (1 / 10),
          Step.event (2 / 10)
            (touch1 RAYLIB_TOUCH_ACTION_MOVE ⟨3 / 5, 1 / 2⟩)]).Touch.downPositionA
      ≠ (touch1 RAYLIB_TOUCH_ACTION_MOVE ⟨3 / 5, 1 / 2⟩).position 0 := by
  have hgen : ∀ (m : Libm) (steps : List Step) (now : ℚ) (p : RaylibVector2),
      (ProcessGestureEvent m now (touch1 RAYLIB_TOUCH_ACTION_MOVE p)
          (run m GESTURES steps)).Touch.downPositionA
        = (run m GESTURES steps).Touch.downPositionA :=
    fun m steps now p =>
      move_downPositionA m now p _ (run_resetRequired m steps GESTURES rfl)
  have hS := down_update_state refLibm GESTURES 0 (1 / 10) ⟨1 / 2, 1 / 2⟩
  have hrun2 : run refLibm GESTURES
      [Step.event 0 (touch1 RAYLIB_TOUCH_ACTION_DOWN ⟨1 / 2, 1 / 2⟩), Step.update (1 / 10)]
      = UpdateGestures (1 / 10)
          (ProcessGestureEvent refLibm 0 (touch1 RAYLIB_TOUCH_ACTION_DOWN ⟨1 / 2, 1 / 2⟩)
            GESTURES) := rfl
  have hrun3 : run refLibm GESTURES
      [Step.event 0 (touch1 RAYLIB_TOUCH_ACTION_DOWN ⟨1 / 2, 1 / 2⟩), Step.update (1 / 10),
        Step.event (2 / 10) (touch1 RAYLIB_TOUCH_ACTION_MOVE ⟨3 / 5, 1 / 2⟩)]
      = ProcessGestureEvent refLibm (2 / 10) (touch1 RAYLIB_TOUCH_ACTION_MOVE ⟨3 / 5, 1 / 2⟩)
          (run refLibm GESTURES
            [Step.event 0 (touch1 RAYLIB_TOUCH_ACTION_DOWN ⟨1 / 2, 1 / 2⟩),
              Step.update (1 / 10)]) := rfl
  have hA : (run refLibm GESTURES
        [Step.event 0 (touch1 RAYLIB_TOUCH_ACTION_DOWN ⟨1 / 2, 1 / 2⟩),
          Step.update (1 / 10),
          Step.event (2 / 10)
            (touch1 RAYLIB_TOUCH_ACTION_MOVE ⟨3 / 5, 1 / 2⟩)]).Touch.downPositionA
      = ⟨1 / 2, 1 / 2⟩ := by
    rw [hrun3, hgen, hrun2]
    exact hS.2.1
  refine ⟨hgen, ?_, ?_, hA, ?_⟩
  · rw [hrun2]
    exact hS.1
  · rw [hrun3, hrun2, processGestureEvent_move, onePointMove_eq]
    dsimp only
    rw [if_neg]
    · exact hS.1
    · rintro ⟨-, h⟩
      rw [hS.2.2.2.1] at h
      norm_num [RAYLIB_DRAG_TIMEOUT] at h
  · rw [hA]
    intro h
    have hx := congrArg RaylibVector2.x h
    norm_num [touch1] at hx

/-! ## C22 and C28: events that only record the point count -/

/-- An event with more than two touch points only records the point count. -/
theorem processGestureEvent_many (m : Libm) (now : ℚ) (ev : GestureEvent) (G : GesturesData)
    (h : 2 < ev.pointCount) :
    ProcessGestureEvent m now ev G = { G with Touch.pointCount := ev.pointCount } := by
  rw [processGestureEvent_eq, if_neg (by omega), if_neg (by omega)]

/-- An event whose action is none of UP, DOWN and MOVE only records the point
count. -/
theorem processGestureEvent_other (m : Libm) (now : ℚ) (ev : GestureEvent) (G : GesturesData)
    (hU : ev.touchAction ≠ RAYLIB_TOUCH_ACTION_UP)
    (hD : ev.touchAction ≠ RAYLIB_TOUCH_ACTION_DOWN)
    (hM : ev.touchAction ≠ RAYLIB_TOUCH_ACTION_MOVE) :
    ProcessGestureEvent m now ev G = { G with Touch.pointCount := ev.pointCount } := by
  rw [processGestureEvent_eq, if_neg hD, if_neg hU, if_neg hM, if_neg hD, if_neg hM, if_neg hU]
  split_ifs <;> rfl

/-- C22 (counterexample): an event with three touch points is not a no-op.  From
the initial state it changes `Touch.pointCount` from 0 to 3; and after a one-point
DOWN (gesture TAP) it makes the next `UpdateGestures` leave the gesture TAP, where
without the event `UpdateGestures` turns it into HOLD. -/
theorem three_points_counterexample :
    ProcessGestureEvent refLibm 0
        { touchAction := RAYLIB_TOUCH_ACTION_MOVE, pointCount := 3, pointId := fun _ => 0,
          position := fun _ => ⟨1 / 2, 1 / 2⟩ }
        GESTURES ≠ GESTURES ∧
    (ProcessGestureEvent refLibm 0
        { touchAction := RAYLIB_TOUCH_ACTION_MOVE, pointCount := 3, pointId := fun _ => 0,
          position := fun _ => ⟨1 / 2, 1 / 2⟩ }
        GESTURES).Touch.pointCount = 3 ∧
    (run refLibm GESTURES
        [Step.event 0 (touch1 RAYLIB_TOUCH_ACTION_DOWN ⟨1 / 2, 1 / 2⟩),
          Step.event (1 / 10)
            { touchAction := RAYLIB_TOUCH_ACTION_MOVE, pointCount := 3, pointId := fun _ => 0,
              position := fun _ => ⟨1 / 2, 1 / 2⟩ },
          Step.update (2 / 10)]).current = RAYLIB_GESTURE_TAP ∧
    (run refLibm GESTURES
        [Step.event 0 (touch1 RAYLIB_TOUCH_ACTION_DOWN ⟨1 / 2, 1 / 2⟩),
          Step.update (2 / 10)]).current = RAYLIB_GESTURE_HOLD := by
  have h3 : ∀ G : GesturesData,
      ProcessGestureEvent refLibm (1 / 10)
        { touchAction := RAYLIB_TOUCH_ACTION_MOVE, pointCount := 3, pointId := fun _ => 0,
          position := fun _ => ⟨1 / 2, 1 / 2⟩ } G
        = { G with Touch.pointCount := 3 } :=
    fun G => processGestureEvent_many refLibm (1 / 10) _ G (by decide)
  have h0 : (ProcessGestureEvent refLibm 0
        { touchAction := RAYLIB_TOUCH_ACTION_MOVE, pointCount := 3, pointId := fun _ => 0,
          position := fun _ => ⟨1 / 2, 1 / 2⟩ }
        GESTURES).Touch.pointCount = 3 := by
    rw [processGestureEvent_many refLibm 0 _ GESTURES (by decide)]
  refine ⟨?_, h0, ?_, ?_⟩
  · intro h
    rw [h] at h0
    exact absurd h0 (by decide)
  · have hrun : run refLibm GESTURES
        [Step.event 0 (touch1 RAYLIB_TOUCH_ACTION_DOWN ⟨1 / 2, 1 / 2⟩),
          Step.event (1 / 10)
            { touchAction := RAYLIB_TOUCH_ACTION_MOVE, pointCount := 3, pointId := fun _ => 0,
              position := fun _ => ⟨1 / 2, 1 / 2⟩ },
          Step.update (2 / 10)]
        = UpdateGestures (2 / 10)
            (ProcessGestureEvent refLibm (1 / 10)
              { touchAction := RAYLIB_TOUCH_ACTION_MOVE, pointCount := 3, pointId := fun _ => 0,
                position := fun _ => ⟨1 / 2, 1 / 2⟩ }
              (ProcessGestureEvent refLibm 0 (touch1 RAYLIB_TOUCH_ACTION_DOWN ⟨1 / 2, 1 / 2⟩)
                GESTURES)) := rfl
    have hT := (down_of_counter_zero refLibm GESTURES 0 ⟨1 / 2, 1 / 2⟩ rfl).1
    rw [hrun, h3, updateGestures_eq]
    dsimp only
    rw [if_neg (by rintro ⟨-, h⟩; exact absurd h (by decide)), hT,
      if_neg (by decide)]
  · exact (down_update_state refLibm GESTURES 0 (2 / 10) ⟨1 / 2, 1 / 2⟩).1

/-- C22 (amended): for every event with more than two touch points, whatever the
touch action, `ProcessGestureEvent` changes nothing in the recognizer state but
`Touch.pointCount`, which becomes the event's point count; the current gesture
and every other member are as before. -/
theorem many_points_only_pointCount (m : Libm) (now : ℚ) (ev : GestureEvent)
    (G : GesturesData) (h : 2 < ev.pointCount) :
    ProcessGestureEvent m now ev G = { G with Touch.pointCount := ev.pointCount } ∧
    (ProcessGestureEvent m now ev G).current = G.current ∧
    (ProcessGestureEvent m now ev G).enabledFlags = G.enabledFlags ∧
    (ProcessGestureEvent m now ev G).Touch = { G.Touch with pointCount := ev.pointCount } ∧
    (ProcessGestureEvent m now ev G).Hold = G.Hold ∧
    (ProcessGestureEvent m now ev G).Drag = G.Drag ∧
    (ProcessGestureEvent m now ev G).Swipe = G.Swipe ∧
    (ProcessGestureEvent m now ev G).Pinch = G.Pinch := by
  rw [processGestureEvent_many m now ev G h]
  exact ⟨rfl, rfl, rfl, rfl, rfl, rfl, rfl, rfl⟩

/-- Witness of C22 (amended): a three-point MOVE on the state after a one-point
DOWN keeps the gesture TAP and sets the point count to 3. -/
theorem many_points_only_pointCount_witness :
    (ProcessGestureEvent refLibm (1 / 10)
        { touchAction := RAYLIB_TOUCH_ACTION_MOVE, pointCount := 3, pointId := fun _ => 0,
          position := fun _ => ⟨1 / 2, 1 / 2⟩ }
        (ProcessGestureEvent refLibm 0 (touch1 RAYLIB_TOUCH_ACTION_DOWN ⟨1 / 2, 1 / 2⟩)
          GESTURES)).current = RAYLIB_GESTURE_TAP ∧
    (ProcessGestureEvent refLibm (1 / 10)
        { touchAction := RAYLIB_TOUCH_ACTION_MOVE, pointCount := 3, pointId := fun _ => 0,
          position := fun _ => ⟨1 / 2, 1 / 2⟩ }
        (ProcessGestureEvent refLibm 0 (touch1 RAYLIB_TOUCH_ACTION_DOWN ⟨1 / 2, 1 / 2⟩)
          GESTURES)).Touch.pointCount = 3 := by
  have h := many_points_only_pointCount refLibm (1 / 10)
    { touchAction := RAYLIB_TOUCH_ACTION_MOVE, pointCount := 3, pointId := fun _ => 0,
      position := fun _ => ⟨1 / 2, 1 / 2⟩ }
    (ProcessGestureEvent refLibm 0 (touch1 RAYLIB_TOUCH_ACTION_DOWN ⟨1 / 2, 1 / 2⟩) GESTURES)
    (by decide)
  refine ⟨?_, ?_⟩
  · rw [h.2.1]
    exact (down_of_counter_zero refLibm GESTURES 0 ⟨1 / 2, 1 / 2⟩ rfl).1
  · rw [h.2.2.2.1]

/-- C28. For every event whose touch action is CANCEL, or any value other than
UP, DOWN and MOVE, and whatever its point count, `ProcessGestureEvent` changes no
member of the recognizer state other than `Touch.pointCount`, which becomes the
event's point count; the current gesture stays in place. -/
theorem cancel_only_pointCount (m : Libm) (now : ℚ) (ev : GestureEvent) (G : GesturesData)
    (hU : ev.touchAction ≠ RAYLIB_TOUCH_ACTION_UP)
    (hD : ev.touchAction ≠ RAYLIB_TOUCH_ACTION_DOWN)
    (hM : ev.touchAction ≠ RAYLIB_TOUCH_ACTION_MOVE) :
    ProcessGestureEvent m now ev G = { G with Touch.pointCount := ev.pointCount } ∧
    (ProcessGestureEvent m now ev G).current = G.current ∧
    (ProcessGestureEvent m now ev G).enabledFlags = G.enabledFlags ∧
    (ProcessGestureEvent m now ev G).Touch = { G.Touch with pointCount := ev.pointCount } ∧
    (ProcessGestureEvent m now ev G).Hold = G.Hold ∧
    (ProcessGestureEvent m now ev G).Drag = G.Drag ∧
    (ProcessGestureEvent m now ev G).Swipe = G.Swipe ∧
    (ProcessGestureEvent m now ev G).Pinch = G.Pinch := by
  rw [processGestureEvent_other m now ev G hU hD hM]
  exact ⟨rfl, rfl, rfl, rfl, rfl, rfl, rfl, rfl⟩

/-- Witness of C28: a one-point CANCEL on a HOLD (a DOWN followed by
`UpdateGestures`) leaves the gesture HOLD. -/
theorem cancel_only_pointCount_witness :
    (ProcessGestureEvent refLibm (2 / 10) (touch1 RAYLIB_TOUCH_ACTION_CANCEL ⟨1 / 2, 1 / 2⟩)
        (UpdateGestures (1 / 10)
          (ProcessGestureEvent refLibm 0 (touch1 RAYLIB_TOUCH_ACTION_DOWN ⟨1 / 2, 1 / 2⟩)
            GESTURES))).current = RAYLIB_GESTURE_HOLD := by
  have h := cancel_only_pointCount refLibm (2 / 10)
    (touch1 RAYLIB_TOUCH_ACTION_CANCEL ⟨1 / 2, 1 / 2⟩)
    (UpdateGestures (1 / 10)
      (ProcessGestureEvent refLibm 0 (touch1 RAYLIB_TOUCH_ACTION_DOWN ⟨1 / 2, 1 / 2⟩) GESTURES))
    (by decide) (by decide) (by decide)
  rw [h.2.1]
  exact (down_update_state refLibm GESTURES 0 (1 / 10) ⟨1 / 2, 1 / 2⟩).1

/-! ## C24: one-point events without `UpdateGestures` -/

theorem onePoint_keeps_tap (m : Libm) (h0 : m.sqrt 0 = 0) (now : ℚ) (ev : GestureEvent)
    (G : GesturesData) (hpc : ev.pointCount = 1)
    (hup : G.Touch.upPosition = G.Touch.downPositionA)
    (hc : G.current = RAYLIB_GESTURE_NONE ∨ G.current = RAYLIB_GESTURE_TAP ∨
      G.current = RAYLIB_GESTURE_DOUBLETAP) :
    (ProcessGestureEvent m now ev G).Touch.upPosition
      = (ProcessGestureEvent m now ev G).Touch.downPositionA ∧
    ((ProcessGestureEvent m now ev G).current = RAYLIB_GESTURE_NONE ∨
      (ProcessGestureEvent m now ev G).current = RAYLIB_GESTURE_TAP ∨
      (ProcessGestureEvent m now ev G).current = RAYLIB_GESTURE_DOUBLETAP) := by
  have hH : G.current ≠ RAYLIB_GESTURE_HOLD := by
    rcases hc with h | h | h <;> rw [h] <;> decide
  have hD : G.current ≠ RAYLIB_GESTURE_DRAG := by
    rcases hc with h | h | h <;> rw [h] <;> decide
  rw [processGestureEvent_eq, if_pos hpc]
  by_cases hd : ev.touchAction = RAYLIB_TOUCH_ACTION_DOWN
  · rw [if_pos hd, onePointDown_eq]
    dsimp only
    refine ⟨rfl, ?_⟩
    split_ifs
    · exact Or.inr (Or.inr rfl)
    · exact Or.inr (Or.inl rfl)
  · rw [if_neg hd]
    by_cases hu : ev.touchAction = RAYLIB_TOUCH_ACTION_UP
    · rw [if_pos hu, onePointUp_eq]
      dsimp only
      rw [if_neg (by rintro (h | h); exact hD h; exact hH h), hup,
        rgVector2Distance_self m h0, floatDiv_zero_not_gt,
        if_neg (by rintro ⟨h, -⟩; exact absurd h (by decide))]
      exact ⟨rfl, Or.inl rfl⟩
    · rw [if_neg hu]
      by_cases hm : ev.touchAction = RAYLIB_TOUCH_ACTION_MOVE
      · rw [if_pos hm, onePointMove_eq]
        dsimp only
        rw [if_neg (by rintro ⟨h, -⟩; exact hH h), if_neg (by rintro ⟨h, -⟩; exact hH h)]
        exact ⟨hup, hc⟩
      · rw [if_neg hm]
        exact ⟨hup, hc⟩

theorem run_onePoint_keeps_tap (m : Libm) (h0 : m.sqrt 0 = 0) (steps : List Step) :
    ∀ G : GesturesData, (∀ s ∈ steps, s.isOnePoint = true) →
      G.Touch.upPosition = G.Touch.downPositionA →
      (G.current = RAYLIB_GESTURE_NONE ∨ G.current = RAYLIB_GESTURE_TAP ∨
        G.current = RAYLIB_GESTURE_DOUBLETAP) →
      (run m G steps).Touch.upPosition = (run m G steps).Touch.downPositionA ∧
      ((run m G steps).current = RAYLIB_GESTURE_NONE ∨
        (run m G steps).current = RAYLIB_GESTURE_TAP ∨
        (run m G steps).current = RAYLIB_GESTURE_DOUBLETAP) := by
  induction steps with
  | nil => intro G _ hup hc; exact ⟨hup, hc⟩
  | cons s rest ih =>
    intro G hs hup hc
    rw [run_cons]
    have h1 := hs s (List.mem_cons_self _ _)
    cases s with
    | event now ev =>
      have hpc : ev.pointCount = 1 := by simpa [Step.isOnePoint] using h1
      obtain ⟨a, b⟩ := onePoint_keeps_tap m h0 now ev G hpc hup hc
      exact ih _ (fun s hs' => hs s (List.mem_cons_of_mem _ hs')) a b
    | update now => exact absurd h1 (by simp [Step.isOnePoint])
    | setEnabled flags => exact absurd h1 (by simp [Step.isOnePoint])

/-- C24. In any sequence made only of `ProcessGestureEvent` calls with one touch
point (DOWN, MOVE, UP or any other action, in any order, with any clock readings
and positions, and no `UpdateGestures` call), started from the initial state,
`upPosition` equals `downPositionA` after every call and the gesture is NONE, TAP
or DOUBLETAP: it is never HOLD, DRAG or one of the four SWIPE values.  The maths
library is any one whose `sqrt` returns 0 at 0. -/
theorem no_hold_without_update (m : Libm) (h0 : m.sqrt 0 = 0) (steps : List Step)
    (hs : ∀ s ∈ steps, s.isOnePoint = true) :
    (run m GESTURES steps).Touch.upPosition = (run m GESTURES steps).Touch.downPositionA ∧
    ((run m GESTURES steps).current = RAYLIB_GESTURE_NONE ∨
      (run m GESTURES steps).current = RAYLIB_GESTURE_TAP ∨
      (run m GESTURES steps).current = RAYLIB_GESTURE_DOUBLETAP) ∧
    (run m GESTURES steps).current ≠ RAYLIB_GESTURE_HOLD ∧
    (run m GESTURES steps).current ≠ RAYLIB_GESTURE_DRAG ∧
    (run m GESTURES steps).current ∉ swipeValues := by
  obtain ⟨a, b⟩ := run_onePoint_keeps_tap m h0 steps GESTURES hs rfl (Or.inl rfl)
  refine ⟨a, b, ?_, ?_, ?_⟩ <;> rcases b with h | h | h <;> rw [h] <;> decide

/-- Witness of C24: a DOWN at (0.5, 0.5), a MOVE to (0.7, 0.5) and an UP at
(0.9, 0.5), 0.4 away from the DOWN within one second, with no `UpdateGestures`
call: the gesture is not a swipe and `upPosition` is still `downPositionA`. -/
theorem no_hold_without_update_witness :
    (run refLibm GESTURES
        [Step.event 0 (touch1 RAYLIB_TOUCH_ACTION_DOWN ⟨1 / 2, 1 / 2⟩),
          Step.event (1 / 2) (touch1 RAYLIB_TOUCH_ACTION_MOVE ⟨7 / 10, 1 / 2⟩),
          Step.event 1 (touch1 RAYLIB_TOUCH_ACTION_UP ⟨9 / 10, 1 / 2⟩)]).Touch.upPosition
      = (run refLibm GESTURES
        [Step.event 0 (touch1 RAYLIB_TOUCH_ACTION_DOWN ⟨1 / 2, 1 / 2⟩),
          Step.event (1 / 2) (touch1 RAYLIB_TOUCH_ACTION_MOVE ⟨7 / 10, 1 / 2⟩),
          Step.event 1 (touch1 RAYLIB_TOUCH_ACTION_UP ⟨9 / 10, 1 / 2⟩)]).Touch.downPositionA ∧
    (run refLibm GESTURES
        [Step.event 0 (touch1 RAYLIB_TOUCH_ACTION_DOWN ⟨1 / 2, 1 / 2⟩),
          Step.event (1 / 2) (touch1 RAYLIB_TOUCH_ACTION_MOVE ⟨7 / 10, 1 / 2⟩),
          Step.event 1 (touch1 RAYLIB_TOUCH_ACTION_UP ⟨9 / 10, 1 / 2⟩)]).current
      ∉ swipeValues := by
  have h := no_hold_without_update refLibm ratSqrt_zero
    [Step.event 0 (touch1 RAYLIB_TOUCH_ACTION_DOWN ⟨1 / 2, 1 / 2⟩),
      Step.event (1 / 2) (touch1 RAYLIB_TOUCH_ACTION_MOVE ⟨7 / 10, 1 / 2⟩),
      Step.event 1 (touch1 RAYLIB_TOUCH_ACTION_UP ⟨9 / 10, 1 / 2⟩)]
    (by
      intro s hs
      simp only [List.mem_cons, List.mem_singleton, List.not_mem_nil, or_false] at hs
      rcases hs with h | h | h <;> rw [h] <;> rfl)
  exact ⟨h.1, h.2.2.2.2⟩

/-! ## C26: `tapCounter` is 0 or 1 -/

/-- Only a two-point DOWN writes `previousPositionA` and `previousPositionB`. -/
theorem processGestureEvent_previousPosition (m : Libm) (now : ℚ) (ev : GestureEvent)
    (G : GesturesData)
    (h : ¬ (ev.pointCount = 2 ∧ ev.touchAction = RAYLIB_TOUCH_ACTION_DOWN)) :
    (ProcessGestureEvent m now ev G).Touch.previousPositionA = G.Touch.previousPositionA ∧
    (ProcessGestureEvent m now ev G).Touch.previousPositionB = G.Touch.previousPositionB := by
  rw [processGestureEvent_eq]
  by_cases h1 : ev.pointCount = 1
  · rw [if_pos h1]
    split_ifs <;> simp only [onePointDown_eq, onePointUp_eq, onePointMove_eq] <;>
      first | exact ⟨rfl, rfl⟩ | exact ⟨trivial, trivial⟩
  · rw [if_neg h1]
    by_cases h2 : ev.pointCount = 2
    · rw [if_pos h2, if_neg (fun hd => h ⟨h2, hd⟩)]
      split_ifs <;> simp only [twoPointMove_eq, twoPointUp_eq] <;>
        first | exact ⟨rfl, rfl⟩ | exact ⟨trivial, trivial⟩
    · rw [if_neg h2]
      exact ⟨rfl, rfl⟩

theorem run_moves2_previousPosition (m : Libm)
    (moves : List (ℚ × RaylibVector2 × RaylibVector2)) :
    ∀ G : GesturesData,
      (run m G
          (moves.map
            (fun mv =>
              Step.event mv.1
                (touch2 RAYLIB_TOUCH_ACTION_MOVE mv.2.1 mv.2.2)))).Touch.previousPositionA
        = G.Touch.previousPositionA ∧
      (run m G
          (moves.map
            (fun mv =>
              Step.event mv.1
                (touch2 RAYLIB_TOUCH_ACTION_MOVE mv.2.1 mv.2.2)))).Touch.previousPositionB
        = G.Touch.previousPositionB := by
  induction moves with
  | nil => intro G; exact ⟨rfl, rfl⟩
  | cons mv rest ih =>
    intro G
    rw [List.map_cons, run_cons]
    obtain ⟨a, b⟩ := ih (step m G (Step.event mv.1
      (touch2 RAYLIB_TOUCH_ACTION_MOVE mv.2.1 mv.2.2)))
    obtain ⟨c, d⟩ := processGestureEvent_previousPosition m mv.1
      (touch2 RAYLIB_TOUCH_ACTION_MOVE mv.2.1 mv.2.2) G
      (by
        rintro ⟨-, h⟩
        exact absurd (show RAYLIB_TOUCH_ACTION_MOVE = RAYLIB_TOUCH_ACTION_DOWN from h)
          (by decide))
    exact ⟨a.trans c, b.trans d⟩

/-- The decision of a two-point MOVE, in terms of the stored previous positions. -/
theorem move2_current (m : Libm) (now : ℚ) (A B : RaylibVector2) (G : GesturesData) :
    (ProcessGestureEvent m now (touch2 RAYLIB_TOUCH_ACTION_MOVE A B) G).current =
      if rgVector2Distance m G.Touch.previousPositionA A ≥ RAYLIB_MINIMUM_PINCH ∨
          rgVector2Distance m G.Touch.previousPositionB B ≥ RAYLIB_MINIMUM_PINCH then
        if rgVector2Distance m G.Touch.previousPositionA G.Touch.previousPositionB >
            rgVector2Distance m A B
        then RAYLIB_GESTURE_PINCH_IN else RAYLIB_GESTURE_PINCH_OUT
      else RAYLIB_GESTURE_HOLD := by
  rw [processGestureEvent_move2, twoPointMove_eq]
  simp only [touch2_position_zero, touch2_position_one]

/-- C25. A two-point MOVE never modifies `previousPositionA` or
`previousPositionB`: no call other than a two-point DOWN does.  After a
two-point DOWN at (A0, B0), from any state, and any run of two-point MOVE events,
the stored previous positions are still A0 and B0, and the next two-point MOVE,
to (A, B), decides by them: when |A0 A| or |B0 B| reaches `RAYLIB_MINIMUM_PINCH`
the gesture is PINCH_IN if |A0 B0| > |A B| and PINCH_OUT otherwise, else HOLD;
the positions of the preceding MOVE play no part. -/
theorem pinch_compares_with_touch_down (m : Libm) (G : GesturesData) (t0 : ℚ)
    (A0 B0 : RaylibVector2) (moves : List (ℚ × RaylibVector2 × RaylibVector2)) (t : ℚ)
    (A B : RaylibVector2) :
    (∀ (now : ℚ) (ev : GestureEvent) (G1 : GesturesData),
      ¬ (ev.pointCount = 2 ∧ ev.touchAction = RAYLIB_TOUCH_ACTION_DOWN) →
      (ProcessGestureEvent m now ev G1).Touch.previousPositionA = G1.Touch.previousPositionA ∧
      (ProcessGestureEvent m now ev G1).Touch.previousPositionB
        = G1.Touch.previousPositionB) ∧
    (∀ (now : ℚ) (G1 : GesturesData),
      (UpdateGestures now G1).Touch.previousPositionA = G1.Touch.previousPositionA ∧
      (UpdateGestures now G1).Touch.previousPositionB = G1.Touch.previousPositionB) ∧
    (run m (ProcessGestureEvent m t0 (touch2 RAYLIB_TOUCH_ACTION_DOWN A0 B0) G)
        (moves.map
          (fun mv =>
            Step.event mv.1
              (touch2 RAYLIB_TOUCH_ACTION_MOVE mv.2.1 mv.2.2)))).Touch.previousPositionA
      = A0 ∧
    (run m (ProcessGestureEvent m t0 (touch2 RAYLIB_TOUCH_ACTION_DOWN A0 B0) G)
        (moves.map
          (fun mv =>
            Step.event mv.1
              (touch2 RAYLIB_TOUCH_ACTION_MOVE mv.2.1 mv.2.2)))).Touch.previousPositionB
      = B0 ∧
    (ProcessGestureEvent m t (touch2 RAYLIB_TOUCH_ACTION_MOVE A B)
        (run m (ProcessGestureEvent m t0 (touch2 RAYLIB_TOUCH_ACTION_DOWN A0 B0) G)
          (moves.map
            (fun mv =>
              Step.event mv.1 (touch2 RAYLIB_TOUCH_ACTION_MOVE mv.2.1 mv.2.2))))).current =
      if rgVector2Distance m A0 A ≥ RAYLIB_MINIMUM_PINCH ∨
          rgVector2Distance m B0 B ≥ RAYLIB_MINIMUM_PINCH then
        if rgVector2Distance m A0 B0 > rgVector2Distance m A B
        then RAYLIB_GESTURE_PINCH_IN else RAYLIB_GESTURE_PINCH_OUT
      else RAYLIB_GESTURE_HOLD := by
  obtain ⟨a, b⟩ := run_moves2_previousPosition m moves
    (ProcessGestureEvent m t0 (touch2 RAYLIB_TOUCH_ACTION_DOWN A0 B0) G)
  have hd : (ProcessGestureEvent m t0 (touch2 RAYLIB_TOUCH_ACTION_DOWN A0 B0)
        G).Touch.previousPositionA = A0 ∧
      (ProcessGestureEvent m t0 (touch2 RAYLIB_TOUCH_ACTION_DOWN A0 B0)
        G).Touch.previousPositionB = B0 := by
    rw [processGestureEvent_down2, twoPointDown_eq]
    exact ⟨rfl, rfl⟩
  refine ⟨fun now ev G1 h => processGestureEvent_previousPosition m now ev G1 h,
    fun now G1 => ?_, a.trans hd.1, b.trans hd.2, ?_⟩
  · rw [updateGestures_eq]
    exact ⟨rfl, rfl⟩
  · rw [move2_current, a, b, hd.1, hd.2]

/-- Witness of C25: touch-down with the points 0.4 apart, a MOVE that brings them
0.1 apart, then a MOVE that puts them 0.2 apart, wider than at the preceding MOVE
but narrower than at touch-down: the gesture is PINCH_IN. -/
theorem pinch_compares_with_touch_down_witness :
    rgVector2Distance refLibm ⟨9 / 20, 1 / 2⟩ ⟨11 / 20, 1 / 2⟩
      < rgVector2Distance refLibm ⟨2 / 5, 1 / 2⟩ ⟨3 / 5, 1 / 2⟩ ∧
    rgVector2Distance refLibm ⟨2 / 5, 1 / 2⟩ ⟨3 / 5, 1 / 2⟩
      < rgVector2Distance refLibm ⟨3 / 10, 1 / 2⟩ ⟨7 / 10, 1 / 2⟩ ∧
    (ProcessGestureEvent refLibm (2 / 10)
        (touch2 RAYLIB_TOUCH_ACTION_MOVE ⟨2 / 5, 1 / 2⟩ ⟨3 / 5, 1 / 2⟩)
        (run refLibm
          (ProcessGestureEvent refLibm 0
            (touch2 RAYLIB_TOUCH_ACTION_DOWN ⟨3 / 10, 1 / 2⟩ ⟨7 / 10, 1 / 2⟩) GESTURES)
          ([((1 / 10 : ℚ), (⟨9 / 20, 1 / 2⟩ : RaylibVector2),
              (⟨11 / 20, 1 / 2⟩ : RaylibVector2))].map
            (fun mv =>
              Step.event mv.1 (touch2 RAYLIB_TOUCH_ACTION_MOVE mv.2.1 mv.2.2))))).current
      = RAYLIB_GESTURE_PINCH_IN := by
  have d1 : rgVector2Distance refLibm ⟨9 / 20, 1 / 2⟩ ⟨11 / 20, 1 / 2⟩ = 1 / 10 :=
    rgVector2Distance_of_sq refLibm refLibm_exact _ _ _ (by norm_num) (by norm_num)
  have d2 : rgVector2Distance refLibm ⟨2 / 5, 1 / 2⟩ ⟨3 / 5, 1 / 2⟩ = 1 / 5 :=
    rgVector2Distance_of_sq refLibm refLibm_exact _ _ _ (by norm_num) (by norm_num)
  have d0 : rgVector2Distance refLibm ⟨3 / 10, 1 / 2⟩ ⟨7 / 10, 1 / 2⟩ = 2 / 5 :=
    rgVector2Distance_of_sq refLibm refLibm_exact _ _ _ (by norm_num) (by norm_num)
  have dA : rgVector2Distance refLibm ⟨3 / 10, 1 / 2⟩ ⟨2 / 5, 1 / 2⟩ = 1 / 10 :=
    rgVector2Distance_of_sq refLibm refLibm_exact _ _ _ (by norm_num) (by norm_num)
  refine ⟨by rw [d1, d2]; norm_num, by rw [d2, d0]; norm_num, ?_⟩
  rw [(pinch_compares_with_touch_down refLibm GESTURES 0 ⟨3 / 10, 1 / 2⟩ ⟨7 / 10, 1 / 2⟩
    [((1 / 10 : ℚ), (⟨9 / 20, 1 / 2⟩ : RaylibVector2), (⟨11 / 20, 1 / 2⟩ : RaylibVector2))]
    (2 / 10) ⟨2 / 5, 1 / 2⟩ ⟨3 / 5, 1 / 2⟩).2.2.2.2,
    if_pos (Or.inl (by rw [dA]; norm_num [RAYLIB_MINIMUM_PINCH])),
    if_pos (by rw [d0, d2]; norm_num)]

/-! ## C30: `RaylibIsGestureDetected` is an equality test -/

theorem toUInt32_toInt32 (n : Nat) : toUInt32 (toInt32 n) = n % 2 ^ 32 := by
  unfold toUInt32 toInt32
  have hlt : n % 2 ^ 32 < 2 ^ 32 := Nat.mod_lt _ (by decide)
  split_ifs <;> omega

theorem isGestureDetected_iff (g : Nat) (G : GesturesData) :
    RaylibIsGestureDetected g G = true ↔
      (G.enabledFlags &&& G.current) % 2 ^ 32 = g % 2 ^ 32 := by
  unfold RaylibIsGestureDetected
  split_ifs with h
  · exact ⟨fun _ => h, fun _ => rfl⟩
  · exact ⟨fun h2 => absurd h2 (by decide), fun h2 => absurd h2 h⟩

/-- The detected value has no two bits set when `current` is zero or a single bit. -/
theorem and_single_bit (f c i j : Nat) (hc : c = 0 ∨ ∃ k : Nat, k < 10 ∧ c = 2 ^ k)
    (hij : i ≠ j) :
    ¬ ((f &&& c).testBit i = true ∧ (f &&& c).testBit j = true) := by
  rintro ⟨hi, hj⟩
  rcases hc with h | ⟨k, -, h⟩
  · rw [h, Nat.and_zero, Nat.zero_testBit] at hi
    exact absurd hi (by decide)
  · rw [h, Nat.testBit_and, Nat.testBit_two_pow, Bool.and_eq_true, decide_eq_true_eq] at hi hj
    exact hij (hi.2.symm.trans hj.2)

/-- A union of two different gesture flags has two bits set below bit 10. -/
theorem union_two_bits (a b rest : Nat) (ha : a ∈ gestureValues) (hb : b ∈ gestureValues)
    (ha0 : a ≠ 0) (hb0 : b ≠ 0) (hab : a ≠ b) :
    ∃ i j : Nat, i ≠ j ∧ ((a ||| b ||| rest) % 2 ^ 32).testBit i = true ∧
      ((a ||| b ||| rest) % 2 ^ 32).testBit j = true := by
  rcases gestureValues_bits a ha with h | ⟨i, hi, hai⟩
  · exact absurd h ha0
  rcases gestureValues_bits b hb with h | ⟨j, hj, hbj⟩
  · exact absurd h hb0
  refine ⟨i, j, ?_, ?_, ?_⟩
  · intro hij
    apply hab
    rw [hai, hbj, hij]
  · rw [Nat.testBit_mod_two_pow, Nat.testBit_or, Nat.testBit_or, hai, Nat.testBit_two_pow]
    simp
    omega
  · rw [Nat.testBit_mod_two_pow, Nat.testBit_or, Nat.testBit_or, hbj, Nat.testBit_two_pow]
    simp
    omega

/-- C30. For every argument `g` and every state (both `unsigned int`),
`RaylibIsGestureDetected(g)` is true if and only if `RaylibGetGestureDetected()`
compared with `g` is equal, that is if and only if `enabledFlags & current` equals
`g`: an equality test, not a bit test.  So `RaylibIsGestureDetected(NONE)` is true
whenever the gesture is NONE or masked out, and in every state reachable from the
initial state `RaylibIsGestureDetected` of a union of two or more different
gesture flags is false. -/
theorem isGestureDetected_is_equality (g : Nat) (G : GesturesData) (hg : g < 2 ^ 32)
    (hc : G.current < 2 ^ 32) :
    (RaylibIsGestureDetected g G = true ↔ toUInt32 (RaylibGetGestureDetected G) = g) ∧
    (RaylibIsGestureDetected g G = true ↔ G.enabledFlags &&& G.current = g) ∧
    (G.current = RAYLIB_GESTURE_NONE ∨ G.enabledFlags &&& G.current = 0 →
      RaylibIsGestureDetected RAYLIB_GESTURE_NONE G = true) ∧
    (∀ (m : Libm) (steps : List Step) (a b rest : Nat),
      a ∈ gestureValues → b ∈ gestureValues → a ≠ RAYLIB_GESTURE_NONE →
      b ≠ RAYLIB_GESTURE_NONE → a ≠ b →
      RaylibIsGestureDetected (a ||| b ||| rest) (run m GESTURES steps) = false) := by
  have hand : G.enabledFlags &&& G.current < 2 ^ 32 :=
    lt_of_le_of_lt Nat.and_le_right hc
  have hmod : (G.enabledFlags &&& G.current) % 2 ^ 32 = G.enabledFlags &&& G.current :=
    Nat.mod_eq_of_lt hand
  have hgmod : g % 2 ^ 32 = g := Nat.mod_eq_of_lt hg
  refine ⟨?_, ?_, ?_, ?_⟩
  · rw [isGestureDetected_iff, hgmod]
    unfold RaylibGetGestureDetected
    rw [toUInt32_toInt32]
  · rw [isGestureDetected_iff, hgmod, hmod]
  · intro h
    rw [isGestureDetected_iff]
    rcases h with h | h
    · rw [h]
      show (G.enabledFlags &&& 0) % 2 ^ 32 = 0 % 2 ^ 32
      rw [Nat.and_zero]
    · rw [h]
      rfl
  · intro m steps a b rest ha hb ha0 hb0 hab
    by_contra hne
    have ht : RaylibIsGestureDetected (a ||| b ||| rest) (run m GESTURES steps) = true := by
      cases h : RaylibIsGestureDetected (a ||| b ||| rest) (run m GESTURES steps)
      · exact absurd h hne
      · rfl
    rw [isGestureDetected_iff] at ht
    have hcur := gestureValues_bits _ (run_current_mem m steps GESTURES (by decide))
    have hlt : (run m GESTURES steps).enabledFlags &&& (run m GESTURES steps).current
        < 2 ^ 32 := by
      apply lt_of_le_of_lt Nat.and_le_right
      rcases hcur with h | ⟨k, hk, h⟩
      · rw [h]
        decide
      · rw [h]
        exact Nat.pow_lt_pow_right (by decide) (by omega)
    rw [Nat.mod_eq_of_lt hlt] at ht
    obtain ⟨i, j, hij, hi, hj⟩ := union_two_bits a b rest ha hb ha0 hb0 hab
    rw [← ht] at hi hj
    exact and_single_bit _ _ i j hcur hij ⟨hi, hj⟩

/-- Witness of C30: on the initial state, where the gesture is NONE,
`RaylibIsGestureDetected(NONE)` is true and `RaylibIsGestureDetected` of the union
TAP | DOUBLETAP is false. -/
theorem isGestureDetected_is_equality_witness :
    RaylibIsGestureDetected RAYLIB_GESTURE_NONE GESTURES = true ∧
    RaylibIsGestureDetected (RAYLIB_GESTURE_TAP ||| RAYLIB_GESTURE_DOUBLETAP ||| 0)
      (run refLibm GESTURES []) = false := by
  have h := isGestureDetected_is_equality RAYLIB_GESTURE_NONE GESTURES (by decide) (by decide)
  exact ⟨h.2.2.1 (Or.inl rfl),
    h.2.2.2 refLibm [] RAYLIB_GESTURE_TAP RAYLIB_GESTURE_DOUBLETAP 0 (by decide) (by decide)
      (by decide) (by decide) (by decide)⟩

/-! ## C27: the touch action of the Android gesture event -/

theorem androidTouchAction_table (flags : Nat) :
    (androidTouchAction flags = RAYLIB_TOUCH_ACTION_DOWN ↔
      flags = AMOTION_EVENT_ACTION_DOWN) ∧
    (androidTouchAction flags = RAYLIB_TOUCH_ACTION_MOVE ↔
      flags = AMOTION_EVENT_ACTION_MOVE) ∧
    (androidTouchAction flags = RAYLIB_TOUCH_ACTION_CANCEL ↔
      flags = AMOTION_EVENT_ACTION_CANCEL) ∧
    (androidTouchAction flags = RAYLIB_TOUCH_ACTION_UP ↔
      (flags ≠ AMOTION_EVENT_ACTION_DOWN ∧ flags ≠ AMOTION_EVENT_ACTION_MOVE ∧
        flags ≠ AMOTION_EVENT_ACTION_CANCEL)) := by
  unfold androidTouchAction
  by_cases h0 : flags = AMOTION_EVENT_ACTION_DOWN
  · rw [if_pos h0, h0]
    decide
  · rw [if_neg h0]
    by_cases h1 : flags = AMOTION_EVENT_ACTION_UP
    · rw [if_pos h1, h1]
      decide
    · rw [if_neg h1]
      by_cases h2 : flags = AMOTION_EVENT_ACTION_MOVE
      · rw [if_pos h2, h2]
        decide
      · rw [if_neg h2]
        by_cases h3 : flags = AMOTION_EVENT_ACTION_CANCEL
        · rw [if_pos h3, h3]
          decide
        · rw [if_neg h3]
          refine ⟨⟨fun h => absurd h (by decide), fun h => absurd h h0⟩,
            ⟨fun h => absurd h (by decide), fun h => absurd h h2⟩,
            ⟨fun h => absurd h (by decide), fun h => absurd h h3⟩,
            ⟨fun _ => ⟨h0, h2, h3⟩, fun _ => rfl⟩⟩

/-- The recognizer after an Android touch event: one `ProcessGestureEvent` call,
with an event that carries the native pointer count and the translated action. -/
theorem androidTouchEvent_gestures (m : Libm) (R : Rcore) (now : ℚ) (action : Nat)
    (pointers : List AndroidPointer) (W : Machine) :
    ∃ ev : GestureEvent,
      ev.pointCount = (pointers.length : Int) ∧
      ev.touchAction = androidTouchAction (action &&& AMOTION_EVENT_ACTION_MASK) ∧
      androidGestureCall R now (AndroidEvent.motion action pointers) W = [Step.event now ev] ∧
      (AndroidInputCallback m R now (AndroidEvent.motion action pointers) W).gestures
        = ProcessGestureEvent m now ev W.gestures := by
  refine ⟨androidGestureEvent R (action &&& AMOTION_EVENT_ACTION_MASK)
      (forLoop 0 (min (pointers.length : Int) (RAYLIB_MAX_TOUCH_POINTS : Int))
        (androidRegisterPoint pointers)
        { W with CORE.Input.Touch.pointCount := (pointers.length : Int) }), ?_, rfl, rfl, ?_⟩
  · show (forLoop 0 _ (androidRegisterPoint pointers) _).CORE.Input.Touch.pointCount = _
    rw [androidRegister_pointCount]
  · rw [androidInputCallback_gestures]
    rfl

/-- C27. In the Android translator the touch action of the gesture event built
for any action word and any touch state is DOWN, MOVE or CANCEL exactly for the
native actions DOWN, MOVE and CANCEL, and UP for the native action UP and for
every other native action, among them POINTER_DOWN and POINTER_UP, where it keeps
the zero the event is initialised with; the event carries the native pointer
count, and it is the event the input callback hands to `ProcessGestureEvent`.
An event whose action is POINTER_DOWN with two pointers, a second finger
landing, reaches the recognizer as a two-point UP: whatever the state, the
recognizer ends as the two-point UP branch leaves it, with the gesture NONE. -/
theorem android_pointer_down_is_up (m : Libm) (R : Rcore) (now : ℚ) (action : Nat)
    (pointers : List AndroidPointer) (W : Machine) :
    (∀ (flags : Nat) (W0 : Machine),
      ((androidGestureEvent R flags W0).touchAction = RAYLIB_TOUCH_ACTION_DOWN ↔
        flags = AMOTION_EVENT_ACTION_DOWN) ∧
      ((androidGestureEvent R flags W0).touchAction = RAYLIB_TOUCH_ACTION_MOVE ↔
        flags = AMOTION_EVENT_ACTION_MOVE) ∧
      ((androidGestureEvent R flags W0).touchAction = RAYLIB_TOUCH_ACTION_CANCEL ↔
        flags = AMOTION_EVENT_ACTION_CANCEL) ∧
      ((androidGestureEvent R flags W0).touchAction = RAYLIB_TOUCH_ACTION_UP ↔
        (flags ≠ AMOTION_EVENT_ACTION_DOWN ∧ flags ≠ AMOTION_EVENT_ACTION_MOVE ∧
          flags ≠ AMOTION_EVENT_ACTION_CANCEL)) ∧
      (androidGestureEvent R flags W0).pointCount = W0.CORE.Input.Touch.pointCount) ∧
    (∀ W0 : Machine,
      (androidGestureEvent R AMOTION_EVENT_ACTION_POINTER_DOWN W0).touchAction
        = RAYLIB_TOUCH_ACTION_UP ∧
      (androidGestureEvent R AMOTION_EVENT_ACTION_POINTER_UP W0).touchAction
        = RAYLIB_TOUCH_ACTION_UP) ∧
    (AndroidInputCallback m R now (AndroidEvent.motion action pointers) W).gestures
      = ProcessGestureEvent m now
          (androidGestureEvent R (action &&& AMOTION_EVENT_ACTION_MASK)
            (forLoop 0 (min (pointers.length : Int) (RAYLIB_MAX_TOUCH_POINTS : Int))
              (androidRegisterPoint pointers)
              { W with CORE.Input.Touch.pointCount := (pointers.length : Int) }))
          W.gestures ∧
    (androidGestureEvent R (action &&& AMOTION_EVENT_ACTION_MASK)
        (forLoop 0 (min (pointers.length : Int) (RAYLIB_MAX_TOUCH_POINTS : Int))
          (androidRegisterPoint pointers)
          { W with CORE.Input.Touch.pointCount := (pointers.length : Int) })).pointCount
      = (pointers.length : Int) ∧
    androidGestureCall R now (AndroidEvent.motion action pointers) W
      = [Step.event now
          (androidGestureEvent R (action &&& AMOTION_EVENT_ACTION_MASK)
            (forLoop 0 (min (pointers.length : Int) (RAYLIB_MAX_TOUCH_POINTS : Int))
              (androidRegisterPoint pointers)
              { W with CORE.Input.Touch.pointCount := (pointers.length : Int) }))] ∧
    (pointers.length = 2 →
      action &&& AMOTION_EVENT_ACTION_MASK = AMOTION_EVENT_ACTION_POINTER_DOWN →
      (AndroidInputCallback m R now (AndroidEvent.motion action pointers) W).gestures
        = twoPointUp { W.gestures with Touch.pointCount := 2 } ∧
      (AndroidInputCallback m R now (AndroidEvent.motion action pointers) W).gestures.current
        = RAYLIB_GESTURE_NONE) := by
  have hup : androidTouchAction AMOTION_EVENT_ACTION_POINTER_DOWN = RAYLIB_TOUCH_ACTION_UP := by
    decide
  have hup2 : androidTouchAction AMOTION_EVENT_ACTION_POINTER_UP = RAYLIB_TOUCH_ACTION_UP := by
    decide
  have hpc : (androidGestureEvent R (action &&& AMOTION_EVENT_ACTION_MASK)
        (forLoop 0 (min (pointers.length : Int) (RAYLIB_MAX_TOUCH_POINTS : Int))
          (androidRegisterPoint pointers)
          { W with CORE.Input.Touch.pointCount := (pointers.length : Int) })).pointCount
      = (pointers.length : Int) := by
    show (forLoop 0 _ (androidRegisterPoint pointers) _).CORE.Input.Touch.pointCount = _
    rw [androidRegister_pointCount]
  have hg : (AndroidInputCallback m R now (AndroidEvent.motion action pointers) W).gestures
      = ProcessGestureEvent m now
          (androidGestureEvent R (action &&& AMOTION_EVENT_ACTION_MASK)
            (forLoop 0 (min (pointers.length : Int) (RAYLIB_MAX_TOUCH_POINTS : Int))
              (androidRegisterPoint pointers)
              { W with CORE.Input.Touch.pointCount := (pointers.length : Int) }))
          W.gestures := by
    rw [androidInputCallback_gestures]
    rfl
  refine ⟨fun flags W0 => ?_, fun W0 => ⟨hup, hup2⟩, hg, hpc, rfl, ?_⟩
  · obtain ⟨h1, h2, h3, h4⟩ := androidTouchAction_table flags
    exact ⟨h1, h2, h3, h4, rfl⟩
  · intro hn hf
    have hpc2 : (androidGestureEvent R (action &&& AMOTION_EVENT_ACTION_MASK)
        (forLoop 0 (min (pointers.length : Int) (RAYLIB_MAX_TOUCH_POINTS : Int))
          (androidRegisterPoint pointers)
          { W with CORE.Input.Touch.pointCount := (pointers.length : Int) })).pointCount
        = 2 := by
      rw [hpc, hn]
      rfl
    have hact : (androidGestureEvent R (action &&& AMOTION_EVENT_ACTION_MASK)
        (forLoop 0 (min (pointers.length : Int) (RAYLIB_MAX_TOUCH_POINTS : Int))
          (androidRegisterPoint pointers)
          { W with CORE.Input.Touch.pointCount := (pointers.length : Int) })).touchAction
        = RAYLIB_TOUCH_ACTION_UP := by
      rw [hf]
      exact hup
    have hres : ProcessGestureEvent m now
          (androidGestureEvent R (action &&& AMOTION_EVENT_ACTION_MASK)
            (forLoop 0 (min (pointers.length : Int) (RAYLIB_MAX_TOUCH_POINTS : Int))
              (androidRegisterPoint pointers)
              { W with CORE.Input.Touch.pointCount := (pointers.length : Int) }))
          W.gestures
        = twoPointUp { W.gestures with Touch.pointCount := 2 } := by
      rw [processGestureEvent_eq, if_neg (by rw [hpc2]; decide), if_pos hpc2,
        if_neg (by rw [hact]; decide), if_neg (by rw [hact]; decide), if_pos hact, hpc2]
    constructor
    · rw [hg, hres]
    · rw [hg, hres, twoPointUp_eq]

/-- Witness of C27: a first finger goes down (action word 0, one pointer), then a
second finger lands (action word 0x105: POINTER_DOWN, pointer index 1, two
pointers); after the second event the gesture is NONE. -/
theorem android_pointer_down_is_up_witness :
    (AndroidInputCallback refLibm specRcore (1 / 10)
        (AndroidEvent.motion 0x105 [⟨0, 100, 200⟩, ⟨1, 300, 400⟩])
        (AndroidInputCallback refLibm specRcore 0
          (AndroidEvent.motion 0 [⟨0, 100, 200⟩]) initialMachine)).gestures.current
      = RAYLIB_GESTURE_NONE :=
  ((android_pointer_down_is_up refLibm specRcore (1 / 10) 0x105
    [⟨0, 100, 200⟩, ⟨1, 300, 400⟩]
    (AndroidInputCallback refLibm specRcore 0 (AndroidEvent.motion 0 [⟨0, 100, 200⟩])
      initialMachine)).2.2.2.2.2
    rfl (by decide)).2

/-! ## C29: the desktop files never report a pinch -/

theorem desktopGestureEvent_rest (R : Rcore) (L : PollLocals)
    (i : Fin RAYLIB_MAX_TOUCH_POINTS) (hi : i ≠ 0) :
    (desktopGestureEvent R L).position i = RaylibVector2.zero ∧
    (desktopGestureEvent R L).pointId i = 0 := by
  unfold desktopGestureEvent
  dsimp only
  split_ifs <;> dsimp only <;>
    simp only [Function.update_noteq hi, Function.update_same] <;> exact ⟨rfl, rfl⟩

theorem desktopGestureCall_onePoint (R : Rcore) (now : ℚ) (L : PollLocals) :
    ∀ s ∈ desktopGestureCall R now L, s.isOnePoint = true := by
  intro s hs
  unfold desktopGestureCall at hs
  split_ifs at hs
  · rw [List.mem_singleton] at hs
    rw [hs]
    simp only [Step.isOnePoint, decide_eq_true_eq]
    exact desktopGestureEvent_pointCount R L
  · exact absurd hs (List.not_mem_nil _)

theorem sdlGestureCalls_onePoint (cfg : Config) (m : Libm) (R : Rcore) (cursorRelative : Bool)
    (events : List (ℚ × SDLEvent)) :
    ∀ L : PollLocals, ∀ s ∈ sdlGestureCalls cfg m R cursorRelative events L,
      s.isOnePoint = true := by
  induction events with
  | nil =>
    intro L s hs
    exact absurd hs (List.not_mem_nil _)
  | cons e es ih =>
    intro L s hs
    rw [sdlGestureCalls, List.mem_append] at hs
    rcases hs with h | h
    · exact desktopGestureCall_onePoint R e.1 _ s h
    · exact ih _ s h

theorem rgfwGestureCalls_onePoint (cfg : Config) (m : Libm) (R : Rcore) (Lib : RGFWLib)
    (events : List (ℚ × RGFWEvent)) :
    ∀ L : PollLocals, ∀ s ∈ rgfwGestureCalls cfg m R Lib events L, s.isOnePoint = true := by
  induction events with
  | nil =>
    intro L s hs
    exact absurd hs (List.not_mem_nil _)
  | cons e es ih =>
    intro L s hs
    rw [rgfwGestureCalls, List.mem_append] at hs
    rcases hs with h | h
    · exact desktopGestureCall_onePoint R e.1 _ s h
    · exact ih _ s h

theorem swipeDirection_not_pinch (a : ℚ) :
    swipeDirection a ≠ RAYLIB_GESTURE_PINCH_IN ∧ swipeDirection a ≠ RAYLIB_GESTURE_PINCH_OUT := by
  rcases (swipeDirection_spec a).2.2.2.2 with h | h | h | h <;> rw [h] <;> decide

theorem onePoint_not_pinch (m : Libm) (now : ℚ) (ev : GestureEvent) (G : GesturesData)
    (hpc : ev.pointCount = 1)
    (h : G.current ≠ RAYLIB_GESTURE_PINCH_IN ∧ G.current ≠ RAYLIB_GESTURE_PINCH_OUT) :
    (ProcessGestureEvent m now ev G).current ≠ RAYLIB_GESTURE_PINCH_IN ∧
    (ProcessGestureEvent m now ev G).current ≠ RAYLIB_GESTURE_PINCH_OUT := by
  rw [processGestureEvent_eq, if_pos hpc]
  split_ifs <;> simp only [onePointDown_eq, onePointUp_eq, onePointMove_eq] <;>
    first
    | exact h
    | (split_ifs <;>
        first
        | exact h
        | exact swipeDirection_not_pinch _
        | exact ⟨by decide, by decide⟩)

theorem updateGestures_not_pinch (now : ℚ) (G : GesturesData)
    (h : G.current ≠ RAYLIB_GESTURE_PINCH_IN ∧ G.current ≠ RAYLIB_GESTURE_PINCH_OUT) :
    (UpdateGestures now G).current ≠ RAYLIB_GESTURE_PINCH_IN ∧
    (UpdateGestures now G).current ≠ RAYLIB_GESTURE_PINCH_OUT := by
  rw [updateGestures_eq]
  dsimp only
  split_ifs
  · exact ⟨by decide, by decide⟩
  · exact ⟨by decide, by decide⟩
  · exact h

theorem run_not_pinch (m : Libm) (steps : List Step) :
    ∀ G : GesturesData, (∀ s ∈ steps, s.isOnePointOrUpdate = true) →
      (G.current ≠ RAYLIB_GESTURE_PINCH_IN ∧ G.current ≠ RAYLIB_GESTURE_PINCH_OUT) →
      ((run m G steps).current ≠ RAYLIB_GESTURE_PINCH_IN ∧
        (run m G steps).current ≠ RAYLIB_GESTURE_PINCH_OUT) := by
  induction steps with
  | nil => intro G _ h; exact h
  | cons s rest ih =>
    intro G hs h
    rw [run_cons]
    apply ih _ (fun s hs' => hs s (List.mem_cons_of_mem _ hs'))
    have h1 := hs s (List.mem_cons_self _ _)
    cases s with
    | event now ev =>
      exact onePoint_not_pinch m now ev G (by simpa [Step.isOnePointOrUpdate] using h1) h
    | update now => exact updateGestures_not_pinch now G h
    | setEnabled flags => exact absurd h1 (by simp [Step.isOnePointOrUpdate])

theorem isOnePointOrUpdate_of_isOnePoint (s : Step) (h : s.isOnePoint = true) :
    s.isOnePointOrUpdate = true := by
  cases s with
  | event now ev => exact h
  | update now => rfl
  | setEnabled flags => exact absurd h (by simp [Step.isOnePoint])

/-- The event of the desktop gesture block: the action is the local
`touchAction`, pointer 0 has id 0, and `position[0]` is the touch position 0
(for a MOVE or a real touch) or the mouse position, divided by the screen
size. -/
theorem desktopGestureEvent_first (R : Rcore) (L : PollLocals) :
    (desktopGestureEvent R L).touchAction = L.touchAction ∧
    (desktopGestureEvent R L).pointId 0 = 0 ∧
    (desktopGestureEvent R L).position 0 =
      ⟨(if L.touchAction = 2 ∨ L.realTouch = true then L.W.CORE.Input.Touch.position 0
          else R.RaylibGetMousePosition L.W.CORE).x / (R.RaylibGetScreenWidth L.W.CORE : ℚ),
        (if L.touchAction = 2 ∨ L.realTouch = true then L.W.CORE.Input.Touch.position 0
          else R.RaylibGetMousePosition L.W.CORE).y / (R.RaylibGetScreenHeight L.W.CORE : ℚ)⟩ := by
  unfold desktopGestureEvent
  dsimp only
  split_ifs <;> dsimp only <;> simp only [Function.update_same] <;>
    exact ⟨trivial, trivial, trivial⟩

/-- The desktop gesture block hands the built event to `ProcessGestureEvent`
when `touchAction > -1` and does nothing otherwise. -/
theorem desktopGesture_hands_event (m : Libm) (R : Rcore) (now : ℚ) (L : PollLocals) :
    (desktopGesture m R now L).W.gestures =
      if L.touchAction > -1
      then ProcessGestureEvent m now (desktopGestureEvent R L) L.W.gestures
      else L.W.gestures := by
  unfold desktopGesture
  by_cases h : L.touchAction > -1
  · rw [if_pos h, if_pos h]
  · rw [if_neg h, if_neg h]

/-- C29. Every gesture event the SDL and RGFW `RaylibPollInputEvents` build has
`pointCount = 1`, the action of the local `touchAction`, and only `position[0]`
filled: it is the touch position 0 (for a MOVE or a real touch) or the mouse
position, divided by the screen size, and every other position and every id is
zero, also for finger events with several fingers; this event is what the
gesture block hands to `ProcessGestureEvent`, so all `ProcessGestureEvent`
calls of a frame have one touch point.  From the initial state, after any
sequence of one-point `ProcessGestureEvent` calls and `UpdateGestures` calls the
gesture is neither PINCH_IN nor PINCH_OUT; and a frame of either file, with any
events, started in a state whose gesture is not a pinch, ends in such a state. -/
theorem desktop_never_pinch (cfg : Config) (m : Libm) (R : Rcore) (now : ℚ) (W : Machine)
    (steps : List Step)
    (hs : ∀ s ∈ steps, s.isOnePointOrUpdate = true)
    (hW : W.gestures.current ≠ RAYLIB_GESTURE_PINCH_IN ∧
      W.gestures.current ≠ RAYLIB_GESTURE_PINCH_OUT) :
    (∀ L : PollLocals,
      (desktopGestureEvent R L).pointCount = 1 ∧
      (desktopGestureEvent R L).touchAction = L.touchAction ∧
      (desktopGestureEvent R L).pointId 0 = 0 ∧
      (desktopGestureEvent R L).position 0 =
        ⟨(if L.touchAction = 2 ∨ L.realTouch = true then L.W.CORE.Input.Touch.position 0
            else R.RaylibGetMousePosition L.W.CORE).x / (R.RaylibGetScreenWidth L.W.CORE : ℚ),
          (if L.touchAction = 2 ∨ L.realTouch = true then L.W.CORE.Input.Touch.position 0
            else R.RaylibGetMousePosition L.W.CORE).y /
              (R.RaylibGetScreenHeight L.W.CORE : ℚ)⟩ ∧
      (∀ i : Fin RAYLIB_MAX_TOUCH_POINTS, i ≠ 0 →
        (desktopGestureEvent R L).position i = RaylibVector2.zero ∧
        (desktopGestureEvent R L).pointId i = 0) ∧
      ∀ t : ℚ, (desktopGesture m R t L).W.gestures =
        if L.touchAction > -1
        then ProcessGestureEvent m t (desktopGestureEvent R L) L.W.gestures
        else L.W.gestures) ∧
    (∀ (cursorRelative : Bool) (events : List (ℚ × SDLEvent)) (L : PollLocals),
      ∀ s ∈ sdlGestureCalls cfg m R cursorRelative events L, s.isOnePoint = true) ∧
    (∀ (Lib : RGFWLib) (events : List (ℚ × RGFWEvent)) (L : PollLocals),
      ∀ s ∈ rgfwGestureCalls cfg m R Lib events L, s.isOnePoint = true) ∧
    ((run m GESTURES steps).current ≠ RAYLIB_GESTURE_PINCH_IN ∧
      (run m GESTURES steps).current ≠ RAYLIB_GESTURE_PINCH_OUT) ∧
    (∀ (cursorRelative : Bool) (events : List (ℚ × SDLEvent)),
      (PollInputEventsSDL cfg m R cursorRelative now events W).gestures.current
        ≠ RAYLIB_GESTURE_PINCH_IN ∧
      (PollInputEventsSDL cfg m R cursorRelative now events W).gestures.current
        ≠ RAYLIB_GESTURE_PINCH_OUT) ∧
    (∀ (Lib : RGFWLib) (events : List (ℚ × RGFWEvent)),
      (PollInputEventsRGFW cfg m R Lib now events W).gestures.current
        ≠ RAYLIB_GESTURE_PINCH_IN ∧
      (PollInputEventsRGFW cfg m R Lib now events W).gestures.current
        ≠ RAYLIB_GESTURE_PINCH_OUT) := by
  refine ⟨fun L => ⟨desktopGestureEvent_pointCount R L, (desktopGestureEvent_first R L).1,
      (desktopGestureEvent_first R L).2.1, (desktopGestureEvent_first R L).2.2,
      desktopGestureEvent_rest R L, fun t => desktopGesture_hands_event m R t L⟩,
    fun cursorRelative events L => sdlGestureCalls_onePoint cfg m R cursorRelative events L,
    fun Lib events L => rgfwGestureCalls_onePoint cfg m R Lib events L,
    run_not_pinch m steps GESTURES hs ⟨by decide, by decide⟩, ?_, ?_⟩
  · intro cursorRelative events
    unfold PollInputEventsSDL
    rw [sdlEvents_gestures, sdlFrameStart_gestures]
    exact run_not_pinch m _ _
      (fun s h => isOnePointOrUpdate_of_isOnePoint s
        (sdlGestureCalls_onePoint cfg m R cursorRelative events _ s h))
      (updateGestures_not_pinch now _ hW)
  · intro Lib events
    unfold PollInputEventsRGFW
    rw [rgfwEvents_gestures, rgfwFrameStart_gestures]
    exact run_not_pinch m _ _
      (fun s h => isOnePointOrUpdate_of_isOnePoint s
        (rgfwGestureCalls_onePoint cfg m R Lib events _ s h))
      (updateGestures_not_pinch now _ hW)

/-- Witness of C29: an SDL frame on the start-up state with a finger-down event of
two fingers and then a finger motion that brings them together ends with a
gesture that is not PINCH_IN; the calls DOWN, `UpdateGestures`, MOVE on the
initial recognizer do not end in PINCH_OUT. -/
theorem desktop_never_pinch_witness :
    (PollInputEventsSDL specConfig refLibm specRcore false 0
        [(0, SDLEvent.fingerDown [⟨1, 1 / 4, 1 / 2⟩, ⟨2, 3 / 4, 1 / 2⟩]),
          (1 / 10, SDLEvent.fingerMotion [⟨1, 2 / 5, 1 / 2⟩, ⟨2, 3 / 5, 1 / 2⟩])]
        initialMachine).gestures.current ≠ RAYLIB_GESTURE_PINCH_IN ∧
    (run refLibm GESTURES
        [Step.event 0 (touch1 RAYLIB_TOUCH_ACTION_DOWN ⟨1 / 2, 1 / 2⟩),
          Step.update (1 / 10),
          Step.event (2 / 10) (touch1 RAYLIB_TOUCH_ACTION_MOVE ⟨3 / 5, 1 / 2⟩)]).current
      ≠ RAYLIB_GESTURE_PINCH_OUT := by
  have h := desktop_never_pinch specConfig refLibm specRcore 0 initialMachine
    [Step.event 0 (touch1 RAYLIB_TOUCH_ACTION_DOWN ⟨1 / 2, 1 / 2⟩),
      Step.update (1 / 10),
      Step.event (2 / 10) (touch1 RAYLIB_TOUCH_ACTION_MOVE ⟨3 / 5, 1 / 2⟩)]
    (by
      intro s hs
      simp only [List.mem_cons, List.mem_singleton, List.not_mem_nil, or_false] at hs
      rcases hs with h | h | h <;> rw [h] <;> rfl)
    ⟨by decide, by decide⟩
  exact ⟨(h.2.2.2.2.1 false _).1, h.2.2.2.1.2⟩

/-! ## C23: key events of the desktop files -/

theorem desktopRegisterKey_spec (cfg : Config) (key : Int) (W : Machine)
    (hk : key ≠ RAYLIB_KEY_NULL) :
    (desktopRegisterKey cfg key W).CORE.Input.Keyboard.currentKeyState
      = Function.update W.CORE.Input.Keyboard.currentKeyState key 1 ∧
    ((W.CORE.Input.Keyboard.currentKeyState key = 0 ∧
        W.CORE.Input.Keyboard.keyPressedQueueCount < cfg.MAX_KEY_PRESSED_QUEUE) →
      (desktopRegisterKey cfg key W).CORE.Input.Keyboard.keyPressedQueue
        = Function.update W.CORE.Input.Keyboard.keyPressedQueue
            W.CORE.Input.Keyboard.keyPressedQueueCount key ∧
      (desktopRegisterKey cfg key W).CORE.Input.Keyboard.keyPressedQueueCount
        = W.CORE.Input.Keyboard.keyPressedQueueCount + 1) ∧
    (¬ (W.CORE.Input.Keyboard.currentKeyState key = 0 ∧
        W.CORE.Input.Keyboard.keyPressedQueueCount < cfg.MAX_KEY_PRESSED_QUEUE) →
      (desktopRegisterKey cfg key W).CORE.Input.Keyboard.keyPressedQueue
        = W.CORE.Input.Keyboard.keyPressedQueue ∧
      (desktopRegisterKey cfg key W).CORE.Input.Keyboard.keyPressedQueueCount
        = W.CORE.Input.Keyboard.keyPressedQueueCount) := by
  unfold desktopRegisterKey
  dsimp only
  rw [if_pos hk]
  by_cases hc : W.CORE.Input.Keyboard.currentKeyState key = 0 ∧
      W.CORE.Input.Keyboard.keyPressedQueueCount < cfg.MAX_KEY_PRESSED_QUEUE
  · rw [if_pos hc]
    exact ⟨rfl, fun _ => ⟨rfl, rfl⟩, fun h => absurd hc h⟩
  · rw [if_neg hc]
    exact ⟨rfl, fun h => absurd h hc, fun _ => ⟨rfl, rfl⟩⟩

theorem desktopKeyUp_spec (key : Int) (W : Machine) (hk : key ≠ RAYLIB_KEY_NULL) :
    (desktopKeyUp key W).CORE.Input.Keyboard.currentKeyState
      = Function.update W.CORE.Input.Keyboard.currentKeyState key 0 ∧
    (desktopKeyUp key W).CORE.Input.Keyboard.keyPressedQueue
      = W.CORE.Input.Keyboard.keyPressedQueue ∧
    (desktopKeyUp key W).CORE.Input.Keyboard.keyPressedQueueCount
      = W.CORE.Input.Keyboard.keyPressedQueueCount := by
  unfold desktopKeyUp
  rw [if_pos hk]
  exact ⟨rfl, rfl, rfl⟩

/-- The key state and the queue after an SDL key-down iteration are those
`desktopRegisterKey` leaves. -/
theorem sdlEvent_keyDown (cfg : Config) (m : Libm) (R : Rcore) (cursorRelative : Bool)
    (t : ℚ) (scancode : Int) (rep : Bool) (L : PollLocals) :
    (sdlEvent cfg m R cursorRelative t (SDLEvent.keyDown scancode rep)
        L).W.CORE.Input.Keyboard.currentKeyState
      = (desktopRegisterKey cfg (ConvertScancodeToKey scancode)
          L.W).CORE.Input.Keyboard.currentKeyState ∧
    (sdlEvent cfg m R cursorRelative t (SDLEvent.keyDown scancode rep)
        L).W.CORE.Input.Keyboard.keyPressedQueue
      = (desktopRegisterKey cfg (ConvertScancodeToKey scancode)
          L.W).CORE.Input.Keyboard.keyPressedQueue ∧
    (sdlEvent cfg m R cursorRelative t (SDLEvent.keyDown scancode rep)
        L).W.CORE.Input.Keyboard.keyPressedQueueCount
      = (desktopRegisterKey cfg (ConvertScancodeToKey scancode)
          L.W).CORE.Input.Keyboard.keyPressedQueueCount := by
  unfold sdlEvent
  rw [desktopGesture_CORE]
  unfold sdlSwitch
  dsimp only
  rw [checkExitKey_Keyboard]
  split_ifs <;> exact ⟨rfl, rfl, rfl⟩

theorem rgfwEvent_keyPressed (cfg : Config) (m : Libm) (R : Rcore) (Lib : RGFWLib)
    (t : ℚ) (keyCode : Int) (L : PollLocals) :
    (rgfwEvent cfg m R Lib t (RGFWEvent.keyPressed keyCode)
        L).W.CORE.Input.Keyboard.currentKeyState
      = (desktopRegisterKey cfg (Lib.ConvertScancodeToKey keyCode)
          L.W).CORE.Input.Keyboard.currentKeyState ∧
    (rgfwEvent cfg m R Lib t (RGFWEvent.keyPressed keyCode)
        L).W.CORE.Input.Keyboard.keyPressedQueue
      = (desktopRegisterKey cfg (Lib.ConvertScancodeToKey keyCode)
          L.W).CORE.Input.Keyboard.keyPressedQueue ∧
    (rgfwEvent cfg m R Lib t (RGFWEvent.keyPressed keyCode)
        L).W.CORE.Input.Keyboard.keyPressedQueueCount
      = (desktopRegisterKey cfg (Lib.ConvertScancodeToKey keyCode)
          L.W).CORE.Input.Keyboard.keyPressedQueueCount := by
  unfold rgfwEvent
  rw [desktopGesture_CORE]
  unfold rgfwSwitch
  dsimp only
  rw [checkExitKey_Keyboard]
  exact ⟨rfl, rfl, rfl⟩

theorem sdlEvent_keyUp (cfg : Config) (m : Libm) (R : Rcore) (cursorRelative : Bool)
    (t : ℚ) (scancode : Int) (L : PollLocals) :
    (sdlEvent cfg m R cursorRelative t (SDLEvent.keyUp scancode) L).W.CORE.Input.Keyboard
      = (desktopKeyUp (ConvertScancodeToKey scancode) L.W).CORE.Input.Keyboard := by
  unfold sdlEvent
  rw [desktopGesture_CORE]
  rfl

theorem rgfwEvent_keyReleased (cfg : Config) (m : Libm) (R : Rcore) (Lib : RGFWLib)
    (t : ℚ) (keyCode : Int) (L : PollLocals) :
    (rgfwEvent cfg m R Lib t (RGFWEvent.keyReleased keyCode) L).W.CORE.Input.Keyboard
      = (desktopKeyUp (Lib.ConvertScancodeToKey keyCode) L.W).CORE.Input.Keyboard := by
  unfold rgfwEvent
  rw [desktopGesture_CORE]
  rfl

/-- A run of loop iterations each of which treats the keyboard as
`desktopRegisterKey` does, for keys that are mapped, up before the run and
different from one another, with room in the queue: the keys are appended in
order and are down afterwards. -/
theorem keyDowns_fold {α : Type} (cfg : Config) (f : α → PollLocals → PollLocals)
    (key : α → Int)
    (hf : ∀ a L,
      (f a L).W.CORE.Input.Keyboard.currentKeyState
        = (desktopRegisterKey cfg (key a) L.W).CORE.Input.Keyboard.currentKeyState ∧
      (f a L).W.CORE.Input.Keyboard.keyPressedQueue
        = (desktopRegisterKey cfg (key a) L.W).CORE.Input.Keyboard.keyPressedQueue ∧
      (f a L).W.CORE.Input.Keyboard.keyPressedQueueCount
        = (desktopRegisterKey cfg (key a) L.W).CORE.Input.Keyboard.keyPressedQueueCount)
    (inputs : List α) :
    ∀ L : PollLocals,
      (∀ a ∈ inputs, key a ≠ RAYLIB_KEY_NULL ∧
        L.W.CORE.Input.Keyboard.currentKeyState (key a) = 0) →
      (inputs.map key).Nodup →
      L.W.CORE.Input.Keyboard.keyPressedQueueCount + (inputs.length : Int)
        ≤ cfg.MAX_KEY_PRESSED_QUEUE →
      (inputs.foldl (fun L a => f a L) L).W.CORE.Input.Keyboard.keyPressedQueueCount
        = L.W.CORE.Input.Keyboard.keyPressedQueueCount + (inputs.length : Int) ∧
      (∀ j : ℕ, j < inputs.length →
        (inputs.foldl (fun L a => f a L) L).W.CORE.Input.Keyboard.keyPressedQueue
            (L.W.CORE.Input.Keyboard.keyPressedQueueCount + (j : Int))
          = (inputs.map key).getD j RAYLIB_KEY_NULL) ∧
      (∀ k : Int, k < L.W.CORE.Input.Keyboard.keyPressedQueueCount →
        (inputs.foldl (fun L a => f a L) L).W.CORE.Input.Keyboard.keyPressedQueue k
          = L.W.CORE.Input.Keyboard.keyPressedQueue k) ∧
      (∀ a ∈ inputs,
        (inputs.foldl (fun L a => f a L) L).W.CORE.Input.Keyboard.currentKeyState (key a)
          = 1) ∧
      (∀ k : Int, (∀ a ∈ inputs, key a ≠ k) →
        (inputs.foldl (fun L a => f a L) L).W.CORE.Input.Keyboard.currentKeyState k
          = L.W.CORE.Input.Keyboard.currentKeyState k) := by
  induction inputs with
  | nil =>
    intro L _ _ _
    refine ⟨by simp, fun j hj => absurd hj (by simp), fun _ _ => rfl,
      fun a ha => absurd ha (List.not_mem_nil _), fun _ _ => rfl⟩
  | cons a rest ih =>
    intro L hk hnd hcap
    rw [List.map_cons, List.nodup_cons] at hnd
    rw [List.length_cons] at hcap
    push_cast at hcap
    obtain ⟨hka, hup⟩ := hk a (List.mem_cons_self _ _)
    obtain ⟨fc, fq, fn⟩ := hf a L
    obtain ⟨sc, sq, -⟩ := desktopRegisterKey_spec cfg (key a) L.W hka
    obtain ⟨sq1, sn1⟩ := sq ⟨hup, by omega⟩
    rw [sc] at fc
    rw [sq1] at fq
    rw [sn1] at fn
    have hrest : ∀ b ∈ rest, key b ≠ RAYLIB_KEY_NULL ∧
        (f a L).W.CORE.Input.Keyboard.currentKeyState (key b) = 0 := by
      intro b hb
      obtain ⟨hkb, hub⟩ := hk b (List.mem_cons_of_mem _ hb)
      refine ⟨hkb, ?_⟩
      rw [fc, Function.update_noteq, hub]
      intro hEq
      exact hnd.1 (hEq ▸ List.mem_map_of_mem key hb)
    obtain ⟨ic, iq, ib, id1, io⟩ := ih (f a L) hrest hnd.2 (by rw [fn]; omega)
    rw [List.foldl_cons]
    refine ⟨?_, ?_, ?_, ?_, ?_⟩
    · rw [ic, fn, List.length_cons]
      push_cast
      ring
    · intro j hj
      cases j with
      | zero =>
        have e : L.W.CORE.Input.Keyboard.keyPressedQueueCount + ((0 : ℕ) : Int)
            = L.W.CORE.Input.Keyboard.keyPressedQueueCount := by
          rw [Nat.cast_zero, add_zero]
        rw [e, ib _ (by rw [fn]; omega), fq, Function.update_same]
        rfl
      | succ j =>
        rw [List.length_cons] at hj
        have h2 := iq j (by omega)
        rw [fn] at h2
        rw [List.map_cons, List.getD_cons_succ, ← h2]
        congr 1
        push_cast
        ring
    · intro k hk2
      rw [ib k (by rw [fn]; omega), fq, Function.update_noteq (by omega)]
    · intro b hb
      rcases List.mem_cons.mp hb with h | h
      · rw [h, io (key a) (fun c hc hEq => hnd.1 (hEq ▸ List.mem_map_of_mem key hc)), fc,
          Function.update_same]
      · exact id1 b h
    · intro k hk2
      rw [io k (fun c hc => hk2 c (List.mem_cons_of_mem _ hc)), fc,
        Function.update_noteq (fun hEq => hk2 a (List.mem_cons_self _ _) hEq.symm)]

theorem sdlFrameStart_currentKeyState (cfg : Config) (cursorRelative : Bool) (now : ℚ)
    (W : Machine) :
    (sdlFrameStart cfg cursorRelative now W).W.CORE.Input.Keyboard.currentKeyState
      = W.CORE.Input.Keyboard.currentKeyState := by
  unfold sdlFrameStart
  dsimp only
  rw [registerPreviousMouseButtons_preserves
      (fun W => W.CORE.Input.Keyboard.currentKeyState) (fun _ _ => rfl),
    registerPreviousKeys_preserves (fun W => W.CORE.Input.Keyboard.currentKeyState)
      (fun _ _ => rfl) (fun _ _ => rfl)]
  dsimp only
  rw [registerPreviousTouch_preserves (fun W => W.CORE.Input.Keyboard.currentKeyState)
      (fun _ _ => rfl)]
  split_ifs <;> rfl

theorem rgfwFrameStart_currentKeyState (cfg : Config) (Lib : RGFWLib) (now : ℚ)
    (W : Machine) :
    (rgfwFrameStart cfg Lib now W).W.CORE.Input.Keyboard.currentKeyState
      = W.CORE.Input.Keyboard.currentKeyState := by
  have h : ∀ W0 : Machine,
      (registerPreviousMouseButtons cfg
        (registerPreviousKeys cfg.MAX_KEYBOARD_KEYS
          { (registerPreviousTouch W0) with
            CORE.Input.Touch.position :=
              Function.update (registerPreviousTouch W0).CORE.Input.Touch.position 0
                (registerPreviousTouch W0).CORE.Input.Mouse.currentPosition
                })).CORE.Input.Keyboard.currentKeyState
        = W0.CORE.Input.Keyboard.currentKeyState := by
    intro W0
    rw [registerPreviousMouseButtons_preserves
        (fun W => W.CORE.Input.Keyboard.currentKeyState) (fun _ _ => rfl),
      registerPreviousKeys_preserves (fun W => W.CORE.Input.Keyboard.currentKeyState)
        (fun _ _ => rfl) (fun _ _ => rfl)]
    dsimp only
    rw [registerPreviousTouch_preserves (fun W => W.CORE.Input.Keyboard.currentKeyState)
        (fun _ _ => rfl)]
  unfold rgfwFrameStart
  dsimp only
  by_cases hx : Lib.x11 = true
  · rw [if_pos hx]
    by_cases hh : Lib.holdMouse = true
    · rw [if_pos hh]
      exact h _
    · rw [if_neg hh]
      exact h _
  · rw [if_neg hx]
    exact h _

/-- An SDL frame whose events are key-downs of mapped keys that are up before the
frame and different from one another, within the capacity: the queue holds the
keys in event order. -/
theorem pollInputEventsSDL_keyDowns (cfg : Config) (m : Libm) (R : Rcore)
    (cursorRelative : Bool) (now : ℚ) (W : Machine) (inputs : List (ℚ × Int × Bool))
    (h1 : ∀ a ∈ inputs, ConvertScancodeToKey a.2.1 ≠ RAYLIB_KEY_NULL ∧
      W.CORE.Input.Keyboard.currentKeyState (ConvertScancodeToKey a.2.1) = 0)
    (h2 : (inputs.map (fun a => ConvertScancodeToKey a.2.1)).Nodup)
    (h3 : (inputs.length : Int) ≤ cfg.MAX_KEY_PRESSED_QUEUE) :
    (PollInputEventsSDL cfg m R cursorRelative now
        (inputs.map (fun a => (a.1, SDLEvent.keyDown a.2.1 a.2.2)))
        W).CORE.Input.Keyboard.keyPressedQueueCount = (inputs.length : Int) ∧
    (∀ j : ℕ, j < inputs.length →
      (PollInputEventsSDL cfg m R cursorRelative now
          (inputs.map (fun a => (a.1, SDLEvent.keyDown a.2.1 a.2.2)))
          W).CORE.Input.Keyboard.keyPressedQueue (j : Int)
        = (inputs.map (fun a => ConvertScancodeToKey a.2.1)).getD j RAYLIB_KEY_NULL) ∧
    (∀ a ∈ inputs,
      (PollInputEventsSDL cfg m R cursorRelative now
          (inputs.map (fun a => (a.1, SDLEvent.keyDown a.2.1 a.2.2)))
          W).CORE.Input.Keyboard.currentKeyState (ConvertScancodeToKey a.2.1) = 1) := by
  unfold PollInputEventsSDL
  rw [List.foldl_map]
  obtain ⟨hc, -⟩ := sdlFrameStart_queue cfg cursorRelative now W
  have hk := sdlFrameStart_currentKeyState cfg cursorRelative now W
  obtain ⟨a, b, -, d, -⟩ := keyDowns_fold cfg
    (fun (a : ℚ × Int × Bool) L =>
      sdlEvent cfg m R cursorRelative a.1 (SDLEvent.keyDown a.2.1 a.2.2) L)
    (fun a => ConvertScancodeToKey a.2.1)
    (fun a L => sdlEvent_keyDown cfg m R cursorRelative a.1 a.2.1 a.2.2 L)
    inputs (sdlFrameStart cfg cursorRelative now W)
    (by rw [hk]; exact h1) h2 (by rw [hc, zero_add]; exact h3)
  rw [hc, zero_add] at a
  refine ⟨a, fun j hj => ?_, d⟩
  have hb := b j hj
  rw [hc, zero_add] at hb
  exact hb

/-- The same for an RGFW frame. -/
theorem pollInputEventsRGFW_keyDowns (cfg : Config) (m : Libm) (R : Rcore) (Lib : RGFWLib)
    (now : ℚ) (W : Machine) (inputs : List (ℚ × Int))
    (h1 : ∀ a ∈ inputs, Lib.ConvertScancodeToKey a.2 ≠ RAYLIB_KEY_NULL ∧
      W.CORE.Input.Keyboard.currentKeyState (Lib.ConvertScancodeToKey a.2) = 0)
    (h2 : (inputs.map (fun a => Lib.ConvertScancodeToKey a.2)).Nodup)
    (h3 : (inputs.length : Int) ≤ cfg.MAX_KEY_PRESSED_QUEUE) :
    (PollInputEventsRGFW cfg m R Lib now
        (inputs.map (fun a => (a.1, RGFWEvent.keyPressed a.2)))
        W).CORE.Input.Keyboard.keyPressedQueueCount = (inputs.length : Int) ∧
    (∀ j : ℕ, j < inputs.length →
      (PollInputEventsRGFW cfg m R Lib now
          (inputs.map (fun a => (a.1, RGFWEvent.keyPressed a.2)))
          W).CORE.Input.Keyboard.keyPressedQueue (j : Int)
        = (inputs.map (fun a => Lib.ConvertScancodeToKey a.2)).getD j RAYLIB_KEY_NULL) ∧
    (∀ a ∈ inputs,
      (PollInputEventsRGFW cfg m R Lib now
          (inputs.map (fun a => (a.1, RGFWEvent.keyPressed a.2)))
          W).CORE.Input.Keyboard.currentKeyState (Lib.ConvertScancodeToKey a.2) = 1) := by
  unfold PollInputEventsRGFW
  rw [List.foldl_map]
  obtain ⟨hc, -⟩ := rgfwFrameStart_queue cfg Lib now W
  have hk := rgfwFrameStart_currentKeyState cfg Lib now W
  obtain ⟨a, b, -, d, -⟩ := keyDowns_fold cfg
    (fun (a : ℚ × Int) L => rgfwEvent cfg m R Lib a.1 (RGFWEvent.keyPressed a.2) L)
    (fun a => Lib.ConvertScancodeToKey a.2)
    (fun a L => rgfwEvent_keyPressed cfg m R Lib a.1 a.2 L)
    inputs (rgfwFrameStart cfg Lib now W)
    (by rw [hk]; exact h1) h2 (by rw [hc, zero_add]; exact h3)
  rw [hc, zero_add] at a
  refine ⟨a, fun j hj => ?_, d⟩
  have hb := b j hj
  rw [hc, zero_add] at hb
  exact hb

/-- C23. In the SDL and RGFW files a key-down event for a mapped key sets
`currentKeyState[key] = 1`; it stores the key at the tail of the pressed-key
queue and increments the count exactly when the key was not already down and the
queue is not full, and leaves the queue and the count unchanged otherwise.  A
key-up event for a mapped key sets `currentKeyState[key] = 0` and leaves the queue
and the count unchanged.  After a frame whose events are key-downs of mapped keys
k1..kn that were up before the frame and differ from one another, n within the
capacity, the count is n, the queue holds k1..kn in event order, and the keys are
down. -/
theorem desktop_key_events (cfg : Config) (m : Libm) (R : Rcore) (cursorRelative : Bool)
    (Lib : RGFWLib) (now : ℚ) (W : Machine)
    (sdlKeys : List (ℚ × Int × Bool)) (rgfwKeys : List (ℚ × Int))
    (h1 : ∀ a ∈ sdlKeys, ConvertScancodeToKey a.2.1 ≠ RAYLIB_KEY_NULL ∧
      W.CORE.Input.Keyboard.currentKeyState (ConvertScancodeToKey a.2.1) = 0)
    (h2 : (sdlKeys.map (fun a => ConvertScancodeToKey a.2.1)).Nodup)
    (h3 : (sdlKeys.length : Int) ≤ cfg.MAX_KEY_PRESSED_QUEUE)
    (h4 : ∀ a ∈ rgfwKeys, Lib.ConvertScancodeToKey a.2 ≠ RAYLIB_KEY_NULL ∧
      W.CORE.Input.Keyboard.currentKeyState (Lib.ConvertScancodeToKey a.2) = 0)
    (h5 : (rgfwKeys.map (fun a => Lib.ConvertScancodeToKey a.2)).Nodup)
    (h6 : (rgfwKeys.length : Int) ≤ cfg.MAX_KEY_PRESSED_QUEUE) :
    (∀ (t : ℚ) (scancode : Int) (rep : Bool) (L : PollLocals),
      ConvertScancodeToKey scancode ≠ RAYLIB_KEY_NULL →
      (sdlEvent cfg m R cursorRelative t (SDLEvent.keyDown scancode rep)
          L).W.CORE.Input.Keyboard.currentKeyState
        = Function.update L.W.CORE.Input.Keyboard.currentKeyState
            (ConvertScancodeToKey scancode) 1 ∧
      ((L.W.CORE.Input.Keyboard.currentKeyState (ConvertScancodeToKey scancode) = 0 ∧
          L.W.CORE.Input.Keyboard.keyPressedQueueCount < cfg.MAX_KEY_PRESSED_QUEUE) →
        (sdlEvent cfg m R cursorRelative t (SDLEvent.keyDown scancode rep)
            L).W.CORE.Input.Keyboard.keyPressedQueue
          = Function.update L.W.CORE.Input.Keyboard.keyPressedQueue
              L.W.CORE.Input.Keyboard.keyPressedQueueCount (ConvertScancodeToKey scancode) ∧
        (sdlEvent cfg m R cursorRelative t (SDLEvent.keyDown scancode rep)
            L).W.CORE.Input.Keyboard.keyPressedQueueCount
          = L.W.CORE.Input.Keyboard.keyPressedQueueCount + 1) ∧
      (¬ (L.W.CORE.Input.Keyboard.currentKeyState (ConvertScancodeToKey scancode) = 0 ∧
          L.W.CORE.Input.Keyboard.keyPressedQueueCount < cfg.MAX_KEY_PRESSED_QUEUE) →
        (sdlEvent cfg m R cursorRelative t (SDLEvent.keyDown scancode rep)
            L).W.CORE.Input.Keyboard.keyPressedQueue
          = L.W.CORE.Input.Keyboard.keyPressedQueue ∧
        (sdlEvent cfg m R cursorRelative t (SDLEvent.keyDown scancode rep)
            L).W.CORE.Input.Keyboard.keyPressedQueueCount
          = L.W.CORE.Input.Keyboard.keyPressedQueueCount)) ∧
    (∀ (t : ℚ) (scancode : Int) (L : PollLocals),
      ConvertScancodeToKey scancode ≠ RAYLIB_KEY_NULL →
      (sdlEvent cfg m R cursorRelative t (SDLEvent.keyUp scancode)
          L).W.CORE.Input.Keyboard.currentKeyState
        = Function.update L.W.CORE.Input.Keyboard.currentKeyState
            (ConvertScancodeToKey scancode) 0 ∧
      (sdlEvent cfg m R cursorRelative t (SDLEvent.keyUp scancode)
          L).W.CORE.Input.Keyboard.keyPressedQueue
        = L.W.CORE.Input.Keyboard.keyPressedQueue ∧
      (sdlEvent cfg m R cursorRelative t (SDLEvent.keyUp scancode)
          L).W.CORE.Input.Keyboard.keyPressedQueueCount
        = L.W.CORE.Input.Keyboard.keyPressedQueueCount) ∧
    (∀ (t : ℚ) (keyCode : Int) (L : PollLocals),
      Lib.ConvertScancodeToKey keyCode ≠ RAYLIB_KEY_NULL →
      (rgfwEvent cfg m R Lib t (RGFWEvent.keyPressed keyCode)
          L).W.CORE.Input.Keyboard.currentKeyState
        = Function.update L.W.CORE.Input.Keyboard.currentKeyState
            (Lib.ConvertScancodeToKey keyCode) 1 ∧
      ((L.W.CORE.Input.Keyboard.currentKeyState (Lib.ConvertScancodeToKey keyCode) = 0 ∧
          L.W.CORE.Input.Keyboard.keyPressedQueueCount < cfg.MAX_KEY_PRESSED_QUEUE) →
        (rgfwEvent cfg m R Lib t (RGFWEvent.keyPressed keyCode)
            L).W.CORE.Input.Keyboard.keyPressedQueue
          = Function.update L.W.CORE.Input.Keyboard.keyPressedQueue
              L.W.CORE.Input.Keyboard.keyPressedQueueCount
              (Lib.ConvertScancodeToKey keyCode) ∧
        (rgfwEvent cfg m R Lib t (RGFWEvent.keyPressed keyCode)
            L).W.CORE.Input.Keyboard.keyPressedQueueCount
          = L.W.CORE.Input.Keyboard.keyPressedQueueCount + 1) ∧
      (¬ (L.W.CORE.Input.Keyboard.currentKeyState (Lib.ConvertScancodeToKey keyCode) = 0 ∧
          L.W.CORE.Input.Keyboard.keyPressedQueueCount < cfg.MAX_KEY_PRESSED_QUEUE) →
        (rgfwEvent cfg m R Lib t (RGFWEvent.keyPressed keyCode)
            L).W.CORE.Input.Keyboard.keyPressedQueue
          = L.W.CORE.Input.Keyboard.keyPressedQueue ∧
        (rgfwEvent cfg m R Lib t (RGFWEvent.keyPressed keyCode)
            L).W.CORE.Input.Keyboard.keyPressedQueueCount
          = L.W.CORE.Input.Keyboard.keyPressedQueueCount)) ∧
    (∀ (t : ℚ) (keyCode : Int) (L : PollLocals),
      Lib.ConvertScancodeToKey keyCode ≠ RAYLIB_KEY_NULL →
      (rgfwEvent cfg m R Lib t (RGFWEvent.keyReleased keyCode)
          L).W.CORE.Input.Keyboard.currentKeyState
        = Function.update L.W.CORE.Input.Keyboard.currentKeyState
            (Lib.ConvertScancodeToKey keyCode) 0 ∧
      (rgfwEvent cfg m R Lib t (RGFWEvent.keyReleased keyCode)
          L).W.CORE.Input.Keyboard.keyPressedQueue
        = L.W.CORE.Input.Keyboard.keyPressedQueue ∧
      (rgfwEvent cfg m R Lib t (RGFWEvent.keyReleased keyCode)
          L).W.CORE.Input.Keyboard.keyPressedQueueCount
        = L.W.CORE.Input.Keyboard.keyPressedQueueCount) ∧
    ((PollInputEventsSDL cfg m R cursorRelative now
          (sdlKeys.map (fun a => (a.1, SDLEvent.keyDown a.2.1 a.2.2)))
          W).CORE.Input.Keyboard.keyPressedQueueCount = (sdlKeys.length : Int) ∧
      (∀ j : ℕ, j < sdlKeys.length →
        (PollInputEventsSDL cfg m R cursorRelative now
            (sdlKeys.map (fun a => (a.1, SDLEvent.keyDown a.2.1 a.2.2)))
            W).CORE.Input.Keyboard.keyPressedQueue (j : Int)
          = (sdlKeys.map (fun a => ConvertScancodeToKey a.2.1)).getD j RAYLIB_KEY_NULL) ∧
      (∀ a ∈ sdlKeys,
        (PollInputEventsSDL cfg m R cursorRelative now
            (sdlKeys.map (fun a => (a.1, SDLEvent.keyDown a.2.1 a.2.2)))
            W).CORE.Input.Keyboard.currentKeyState (ConvertScancodeToKey a.2.1) = 1)) ∧
    ((PollInputEventsRGFW cfg m R Lib now
          (rgfwKeys.map (fun a => (a.1, RGFWEvent.keyPressed a.2)))
          W).CORE.Input.Keyboard.keyPressedQueueCount = (rgfwKeys.length : Int) ∧
      (∀ j : ℕ, j < rgfwKeys.length →
        (PollInputEventsRGFW cfg m R Lib now
            (rgfwKeys.map (fun a => (a.1, RGFWEvent.keyPressed a.2)))
            W).CORE.Input.Keyboard.keyPressedQueue (j : Int)
          = (rgfwKeys.map (fun a => Lib.ConvertScancodeToKey a.2)).getD j RAYLIB_KEY_NULL) ∧
      (∀ a ∈ rgfwKeys,
        (PollInputEventsRGFW cfg m R Lib now
            (rgfwKeys.map (fun a => (a.1, RGFWEvent.keyPressed a.2)))
            W).CORE.Input.Keyboard.currentKeyState (Lib.ConvertScancodeToKey a.2) = 1)) := by
  refine ⟨?_, ?_, ?_, ?_,
    pollInputEventsSDL_keyDowns cfg m R cursorRelative now W sdlKeys h1 h2 h3,
    pollInputEventsRGFW_keyDowns cfg m R Lib now W rgfwKeys h4 h5 h6⟩
  · intro t scancode rep L hk
    obtain ⟨a, b, c⟩ := sdlEvent_keyDown cfg m R cursorRelative t scancode rep L
    rw [a, b, c]
    exact desktopRegisterKey_spec cfg _ L.W hk
  · intro t scancode L hk
    rw [sdlEvent_keyUp]
    exact desktopKeyUp_spec _ L.W hk
  · intro t keyCode L hk
    obtain ⟨a, b, c⟩ := rgfwEvent_keyPressed cfg m R Lib t keyCode L
    rw [a, b, c]
    exact desktopRegisterKey_spec cfg _ L.W hk
  · intro t keyCode L hk
    rw [rgfwEvent_keyReleased]
    exact desktopKeyUp_spec _ L.W hk

set_option maxRecDepth 4000 in
/-- Witness of C23: on the start-up state, with a queue of 16 entries, an SDL
frame with key-downs of the scancodes 4 and 5 (the keys A and B) leaves the queue
A, B with the count 2; so does an RGFW frame with the key codes of A and B. -/
theorem desktop_key_events_witness :
    (PollInputEventsSDL specConfig refLibm specRcore false 0
        [(0, SDLEvent.keyDown 4 false), (1 / 100, SDLEvent.keyDown 5 false)]
        initialMachine).CORE.Input.Keyboard.keyPressedQueueCount = 2 ∧
    (PollInputEventsSDL specConfig refLibm specRcore false 0
        [(0, SDLEvent.keyDown 4 false), (1 / 100, SDLEvent.keyDown 5 false)]
        initialMachine).CORE.Input.Keyboard.keyPressedQueue 0 = RAYLIB_KEY_A ∧
    (PollInputEventsSDL specConfig refLibm specRcore false 0
        [(0, SDLEvent.keyDown 4 false), (1 / 100, SDLEvent.keyDown 5 false)]
        initialMachine).CORE.Input.Keyboard.keyPressedQueue 1 = RAYLIB_KEY_B ∧
    (PollInputEventsRGFW specConfig refLibm specRcore specRGFW 0
        [(0, RGFWEvent.keyPressed 65), (1 / 100, RGFWEvent.keyPressed 66)]
        initialMachine).CORE.Input.Keyboard.keyPressedQueue 1 = RAYLIB_KEY_B := by
  have h := desktop_key_events specConfig refLibm specRcore false specRGFW 0 initialMachine
    [(0, 4, false), (1 / 100, 5, false)] [(0, 65), (1 / 100, 66)]
    (by
      intro a ha
      simp only [List.mem_cons, List.mem_singleton, List.not_mem_nil, or_false] at ha
      rcases ha with h | h <;> rw [h] <;> exact ⟨by decide, rfl⟩)
    (by decide) (by decide)
    (by
      intro a ha
      simp only [List.mem_cons, List.mem_singleton, List.not_mem_nil, or_false] at ha
      rcases ha with h | h <;> rw [h] <;> exact ⟨by decide, rfl⟩)
    (by decide) (by decide)
  obtain ⟨-, -, -, -, ⟨sc, sq, -⟩, ⟨-, rq, -⟩⟩ := h
  have hA : ConvertScancodeToKey 4 = RAYLIB_KEY_A := by decide
  have hB : ConvertScancodeToKey 5 = RAYLIB_KEY_B := by decide
  have hR : specRGFW.ConvertScancodeToKey 66 = RAYLIB_KEY_B := rfl
  simp only [List.map_cons, List.map_nil, List.length_cons, List.length_nil] at sc sq rq
  have s0 := sq 0 (by decide)
  have s1 := sq 1 (by decide)
  have r1 := rq 1 (by decide)
  simp only [List.getD_cons_zero, List.getD_cons_succ, Nat.cast_zero, Nat.cast_one, hA, hB,
    hR] at s0 s1 r1
  refine ⟨?_, s0, s1, r1⟩
  rw [sc]
  norm_num


/-! ## C3: the double tap, with any calls but a DOWN between the taps -/

theorem dragTimeout_pos : (0 : ℚ) < RAYLIB_DRAG_TIMEOUT := by
  norm_num [RAYLIB_DRAG_TIMEOUT]

/-- A call other than a one-point or two-point DOWN keeps the memory of a tap:
the tap counter and, with `resetRequired` unset, the touch-down position stay,
and `Touch.eventTime` can only grow (the refresh of the HOLD to DRAG change). -/
theorem step_notDown (m : Libm) (G : GesturesData) (s : Step)
    (hs : s.isNotDown = true) (hr : G.Hold.resetRequired = false) :
    (step m G s).Touch.tapCounter = G.Touch.tapCounter ∧
    G.Touch.eventTime ≤ (step m G s).Touch.eventTime ∧
    (step m G s).Touch.downPositionA = G.Touch.downPositionA := by
  cases s with
  | update now =>
    rw [show step m G (Step.update now) = UpdateGestures now G from rfl, updateGestures_eq]
    exact ⟨rfl, le_refl _, rfl⟩
  | setEnabled flags => exact ⟨rfl, le_refl _, rfl⟩
  | event now ev =>
    simp only [Step.isNotDown, decide_eq_true_eq, not_and, not_or] at hs
    rw [show step m G (Step.event now ev) = ProcessGestureEvent m now ev G from rfl,
      processGestureEvent_eq]
    by_cases h1 : ev.pointCount = 1
    · have hnd : ¬ ev.touchAction = RAYLIB_TOUCH_ACTION_DOWN := fun h => (hs h).1 h1
      rw [if_pos h1, if_neg hnd]
      by_cases hu : ev.touchAction = RAYLIB_TOUCH_ACTION_UP
      · rw [if_pos hu, onePointUp_eq]
        exact ⟨rfl, le_refl _, rfl⟩
      · rw [if_neg hu]
        by_cases hmv : ev.touchAction = RAYLIB_TOUCH_ACTION_MOVE
        · rw [if_pos hmv, onePointMove_eq]
          dsimp only
          refine ⟨rfl, ?_, ?_⟩
          · split_ifs with hc
            · have h0 := dragTimeout_pos
              linarith [hc.2]
            · exact le_refl _
          · rw [if_neg]
            rintro ⟨-, h2⟩
            rw [hr] at h2
            exact absurd h2 (by decide)
        · rw [if_neg hmv]
          exact ⟨rfl, le_refl _, rfl⟩
    · rw [if_neg h1]
      by_cases h2 : ev.pointCount = 2
      · have hnd : ¬ ev.touchAction = RAYLIB_TOUCH_ACTION_DOWN := fun h => (hs h).2 h2
        rw [if_pos h2, if_neg hnd]
        split_ifs <;>
          first
          | exact ⟨rfl, le_refl _, rfl⟩
          | (simp only [twoPointMove_eq, twoPointUp_eq]
             exact ⟨trivial, le_refl _, trivial⟩)
      · rw [if_neg h2]
        exact ⟨rfl, le_refl _, rfl⟩

theorem run_notDown (m : Libm) (mid : List Step) :
    ∀ G : GesturesData, (∀ s ∈ mid, s.isNotDown = true) → G.Hold.resetRequired = false →
      (run m G mid).Touch.tapCounter = G.Touch.tapCounter ∧
      G.Touch.eventTime ≤ (run m G mid).Touch.eventTime ∧
      (run m G mid).Touch.downPositionA = G.Touch.downPositionA := by
  induction mid with
  | nil => intro G _ _; exact ⟨rfl, le_refl _, rfl⟩
  | cons s rest ih =>
    intro G h hr
    obtain ⟨h1, h2, h3⟩ := step_notDown m G s (h s (List.mem_cons_self _ _)) hr
    obtain ⟨i1, i2, i3⟩ := ih (step m G s) (fun x hx => h x (List.mem_cons_of_mem _ hx))
      (step_resetRequired m G s hr)
    rw [run_cons]
    exact ⟨i1.trans h1, le_trans h2 i2, i3.trans h3⟩

/-- C3 (amended). For every pair of one-point DOWN events processed at clock
times t1 and t2 with t2 - t1 < `RAYLIB_TAP_TIMEOUT` and positions less than
`RAYLIB_DOUBLETAP_RANGE` apart, where the first DOWN is reported as TAP, the
calls in between are any calls except one-point and two-point DOWN events
(`UpdateGestures`, UP and MOVE events with one or two points, events with any
other action or point count, `RaylibSetGesturesEnabled`), and the second DOWN
finds the gesture NONE and all gestures enabled, `RaylibGetGestureDetected`
after the second DOWN is DOUBLETAP.  The first DOWN is processed in a state
with `Hold.resetRequired` unset, as every state reached from the initial one
is (`run_resetRequired`). -/
theorem doubletap_after_release (m : Libm) (G : GesturesData) (t1 t2 : ℚ)
    (p1 p2 : RaylibVector2) (mid : List Step)
    (hr : G.Hold.resetRequired = false)
    (hfirst : (ProcessGestureEvent m t1 (touch1 RAYLIB_TOUCH_ACTION_DOWN p1) G).current =
      RAYLIB_GESTURE_TAP)
    (hmid : ∀ s ∈ mid, s.isNotDown = true)
    (hnone : (run m (ProcessGestureEvent m t1 (touch1 RAYLIB_TOUCH_ACTION_DOWN p1) G)
      mid).current = RAYLIB_GESTURE_NONE)
    (hF : (run m (ProcessGestureEvent m t1 (touch1 RAYLIB_TOUCH_ACTION_DOWN p1) G)
      mid).enabledFlags = 0b0000001111111111)
    (ht : t2 - t1 < RAYLIB_TAP_TIMEOUT)
    (hd : rgVector2Distance m p1 p2 < RAYLIB_DOUBLETAP_RANGE) :
    RaylibGetGestureDetected
        (ProcessGestureEvent m t2 (touch1 RAYLIB_TOUCH_ACTION_DOWN p2)
          (run m (ProcessGestureEvent m t1 (touch1 RAYLIB_TOUCH_ACTION_DOWN p1) G) mid)) =
      (RAYLIB_GESTURE_DOUBLETAP : Int) := by
  obtain ⟨-, hA, -, hE, -⟩ := down_state m G t1 p1
  have hn := down_counter_of_tap m G t1 p1 hfirst
  obtain ⟨i1, i2, i3⟩ := run_notDown m mid _ hmid
    (processGestureEvent_resetRequired m t1 _ G hr)
  rw [hE] at i2
  have hc := down_doubletap m _ t2 p2 hnone (i1.trans hn)
    (by linarith) (by rw [i3, hA]; exact hd)
  apply getGestureDetected_of_all _ _ _ hc (by decide)
  rw [processGestureEvent_enabledFlags, hF]

/-- Witness of C3 (amended): from the initial state, DOWN at time 0 at
(0.5,0.5), then the frame update (HOLD), a one-point MOVE to (0.6,0.5) at
0.02 s, the UP at (0.5,0.5) at 0.05 s, and the second DOWN at 0.1 s at
(0.5,0.5): DOUBLETAP. -/
theorem doubletap_after_release_witness :
    RaylibGetGestureDetected
        (ProcessGestureEvent refLibm (1 / 10) (touch1 RAYLIB_TOUCH_ACTION_DOWN ⟨1 / 2, 1 / 2⟩)
          (run refLibm
            (ProcessGestureEvent refLibm 0 (touch1 RAYLIB_TOUCH_ACTION_DOWN ⟨1 / 2, 1 / 2⟩)
              GESTURES)
            [Step.update (1 / 60),
             Step.event (1 / 50) (touch1 RAYLIB_TOUCH_ACTION_MOVE ⟨3 / 5, 1 / 2⟩),
             Step.event (1 / 20) (touch1 RAYLIB_TOUCH_ACTION_UP ⟨1 / 2, 1 / 2⟩)])) =
      (RAYLIB_GESTURE_DOUBLETAP : Int) :=
  doubletap_after_release refLibm GESTURES 0 (1 / 10) ⟨1 / 2, 1 / 2⟩ ⟨1 / 2, 1 / 2⟩
    [Step.update (1 / 60),
     Step.event (1 / 50) (touch1 RAYLIB_TOUCH_ACTION_MOVE ⟨3 / 5, 1 / 2⟩),
     Step.event (1 / 20) (touch1 RAYLIB_TOUCH_ACTION_UP ⟨1 / 2, 1 / 2⟩)]
    rfl
    (down_of_counter_zero refLibm GESTURES 0 ⟨1 / 2, 1 / 2⟩ rfl).1
    (by
      intro s hs
      simp only [List.mem_cons, List.mem_singleton, List.not_mem_nil, or_false] at hs
      rcases hs with h | h | h <;> rw [h] <;> decide)
    (by
      simp only [run, List.foldl, step, processGestureEvent_down, processGestureEvent_up,
        processGestureEvent_move]
      simp only [onePointDown_eq, onePointUp_eq, onePointMove_eq, updateGestures_eq,
        GESTURES, touch1]
      norm_num [RAYLIB_GESTURE_NONE, RAYLIB_GESTURE_TAP, RAYLIB_GESTURE_DOUBLETAP,
        RAYLIB_GESTURE_HOLD, RAYLIB_GESTURE_DRAG, RAYLIB_DRAG_TIMEOUT, RAYLIB_TAP_TIMEOUT,
        RAYLIB_DOUBLETAP_RANGE, rgVector2Distance, refLibm, ratSqrt_zero, FloatQ.div, FloatQ.gt,
        RAYLIB_FORCE_TO_SWIPE])
    (by
      simp only [run, List.foldl, step, processGestureEvent_enabledFlags,
        updateGestures_enabledFlags]
      rfl)
    (by norm_num [RAYLIB_TAP_TIMEOUT])
    (by rw [rgVector2Distance_self refLibm refLibm_exact.sqrt_zero]
        norm_num [RAYLIB_DOUBLETAP_RANGE])

/-- The tap timeout is the float `0.3f`, not the decimal 0.3: from the initial
state, DOWN at time 0, the frame update, UP at 0.1 s and a second DOWN at
0.30000001 s, all at (0.5,0.5), give DOUBLETAP, since 0.30000001 is below
5033165 / 2^24 although it is above 0.3; a one-point MOVE that finds HOLD
0.30000001 s after the DOWN leaves it HOLD. -/
theorem timeouts_are_float_constants :
    (3 / 10 : ℚ) < 30000001 / 100000000 ∧
    (30000001 / 100000000 : ℚ) < RAYLIB_TAP_TIMEOUT ∧
    (run refLibm GESTURES
      [Step.event 0 (touch1 RAYLIB_TOUCH_ACTION_DOWN ⟨1 / 2, 1 / 2⟩),
       Step.update (1 / 60),
       Step.event (1 / 10) (touch1 RAYLIB_TOUCH_ACTION_UP ⟨1 / 2, 1 / 2⟩),
       Step.event (30000001 / 100000000)
         (touch1 RAYLIB_TOUCH_ACTION_DOWN ⟨1 / 2, 1 / 2⟩)]).current =
      RAYLIB_GESTURE_DOUBLETAP ∧
    (run refLibm GESTURES
      [Step.event 0 (touch1 RAYLIB_TOUCH_ACTION_DOWN ⟨1 / 2, 1 / 2⟩),
       Step.update (1 / 60),
       Step.event (30000001 / 100000000)
         (touch1 RAYLIB_TOUCH_ACTION_MOVE ⟨1 / 2, 1 / 2⟩)]).current =
      RAYLIB_GESTURE_HOLD := by
  refine ⟨by norm_num, by norm_num [RAYLIB_TAP_TIMEOUT], ?_, ?_⟩
  · simp only [run, List.foldl, step, processGestureEvent_down, processGestureEvent_up,
      processGestureEvent_move]
    simp only [onePointDown_eq, onePointUp_eq, onePointMove_eq, updateGestures_eq,
      GESTURES, touch1]
    norm_num [RAYLIB_GESTURE_NONE, RAYLIB_GESTURE_TAP, RAYLIB_GESTURE_DOUBLETAP,
      RAYLIB_GESTURE_HOLD, RAYLIB_GESTURE_DRAG, RAYLIB_DRAG_TIMEOUT, RAYLIB_TAP_TIMEOUT,
      RAYLIB_DOUBLETAP_RANGE, rgVector2Distance, refLibm, ratSqrt_zero, FloatQ.div, FloatQ.gt,
      RAYLIB_FORCE_TO_SWIPE]
  · simp only [run, List.foldl, step, processGestureEvent_down, processGestureEvent_up,
      processGestureEvent_move]
    simp only [onePointDown_eq, onePointUp_eq, onePointMove_eq, updateGestures_eq,
      GESTURES, touch1]
    norm_num [RAYLIB_GESTURE_NONE, RAYLIB_GESTURE_TAP, RAYLIB_GESTURE_DOUBLETAP,
      RAYLIB_GESTURE_HOLD, RAYLIB_GESTURE_DRAG, RAYLIB_DRAG_TIMEOUT, RAYLIB_TAP_TIMEOUT,
      RAYLIB_DOUBLETAP_RANGE, rgVector2Distance, refLibm, ratSqrt_zero, FloatQ.div, FloatQ.gt,
      RAYLIB_FORCE_TO_SWIPE]
end RGestures
